import Mathlib

/-!
# USRP_UHD tuner / streaming engine

A shallow embedding of `src/cpp/USRP_UHD.cpp` (the REDHAWK `USRP_UHD_i` device) and
theorems about it.

Conventions of the embedding

* `double` values are idealised as rationals (`ℚ`); the only non-finite values the
  code can create itself, the quotients `x / 0.0`, are kept apart in `Dbl`.
* `size_t` values are natural numbers below `2 ^ 64`; decrement wraps around.
* The C++ vectors indexed by tuner id (`frontend_tuner_status`, `usrp_tuners`,
  `device_channels`, `usrp_ranges`, `tuner_allocation_ids`) are total tables
  `Nat → _`; `num_tuners` is `usrp_tuners.size()`.
* Everything the device does to the outside world (hardware calls, pushes on the
  output ports, pulls from the inbound ports and releases of their packets, creation,
  interruption and release of threads, entries in the connection table of an output
  port) is appended to one ordered `trace`.
* Loops that may run forever take a `fuel` argument; running out of it is reported as
  `none`, or as the outcome `out_of_fuel` of a call.
* The two service threads are the flags `receive_service_thread` and
  `transmit_service_thread` (the pointer is set or NULL); the calls run one after the
  other. The inbound ports are queues of packets.
* The mutexes are not part of the state. The section on locks gives the operations
  once more with their `exclusive_lock` scopes: there a run also yields the sequence
  of its acquisitions and releases, and without that sequence it is the operation
  defined before.
* What the hardware hands back in a transfer (`recv`), what it takes (`send`) and
  whether a service thread ends within the time `release(2)` waits are parameters of
  the functions that depend on them. A transfer may report a sample count together
  with any error code: `usrpReceive` adds the count to the fill length before it
  looks at the code.
-/

namespace USRP_UHD

/-! ## Numbers -/

/-- The number of values of a 64-bit `size_t`. -/
def SIZE_MOD : Nat := 2 ^ 64

/-- A `double` as the tuning code can produce it: a finite value (idealised as a
rational) or the result of a division by `0.0`. -/
inductive Dbl where
  | fin (q : ℚ)
  | posInf
  | negInf
  | nan

/-- The C expression `x / double(dec)` for a finite `x` and a `size_t dec`. -/
def ddiv (x : ℚ) (dec : Nat) : Dbl :=
  if dec = 0 then
    (if 0 < x then Dbl.posInf else if x < 0 then Dbl.negInf else Dbl.nan)
  else Dbl.fin (x / (dec : ℚ))

/-- The C library `round`: nearest integer, halfway cases away from zero. -/
def cround (x : ℚ) : Int :=
  if 0 ≤ x then ⌊x + 1 / 2⌋ else -⌊-x + 1 / 2⌋

/-- Conversion of an integral `double` to `size_t`. C++ defines it only for
`0 ≤ z < 2 ^ 64`, where it is `z`; outside that range the behaviour of the program is
undefined and the value given here is an arbitrary one, so the theorems that depend on
a conversion assume its argument within the range. -/
def toSizeT (z : Int) : Nat := z.toNat % SIZE_MOD

/-- The C expression `size_t dec = round(x)`. -/
def roundToSize (x : ℚ) : Nat := toSizeT (cround x)

/-- The C expression `dec--` on a `size_t`: wraps from `0` to `2 ^ 64 - 1`. -/
def decr (dec : Nat) : Nat := (dec + (SIZE_MOD - 1)) % SIZE_MOD

/-- Modelled from the spec: `frontend::compareHz` belongs to the REDHAWK frontend
library and is not among the sources. The spec reads `compareHz(a, b) >= 0` as
"`a` meets or exceeds `b`", so it is the exact three-way comparison. -/
def compareHz (lhs rhs : ℚ) : Int :=
  if lhs < rhs then -1 else if lhs = rhs then 0 else 1

/-! ## Range / capability table -/

/-- The role of a channel: the strings `"RX_DIGITIZER"`, `"TX"` and `"UNKNOWN"`
that `updateDeviceInfo` stores in `tuner_type`. -/
inductive TunerType where
  | RX_DIGITIZER
  | TX
  | UNKNOWN
  deriving DecidableEq, Repr

/-- The part of `uhd::meta_range_t` the device uses: `start()`, `stop()` and
`clip(value)`. The UHD library is external, so the three are taken as given
(parameters of every statement about them). -/
structure meta_range_t where
  start : ℚ
  stop : ℚ
  clip : Dbl → ℚ

/-- Modelled from the spec: the declaration of the entries of `usrp_ranges`
(`USRP_UHD.h`) is not among the sources; these are the four ranges the source file
reads from them (spec section 3, ChannelCapability). -/
structure usrp_range_struct where
  frequency : meta_range_t
  bandwidth : meta_range_t
  sample_rate : meta_range_t
  gain : meta_range_t

/-- Modelled from the spec: the declaration of the entries of `device_channels`
(`usrp_channel_struct`, in the generated property header) is not among the sources;
these are the fields the source file reads or writes (spec section 3,
ChannelCapability). -/
structure usrp_channel_struct where
  chan_num : Nat
  tuner_type : TunerType
  clock_min : ℚ
  clock_max : ℚ
  freq_current : ℚ
  freq_min : ℚ
  freq_max : ℚ
  bandwidth_current : ℚ
  bandwidth_min : ℚ
  bandwidth_max : ℚ
  rate_current : ℚ
  rate_min : ℚ
  rate_max : ℚ
  gain_current : ℚ
  gain_min : ℚ
  gain_max : ℚ

/-! ## Rate / bandwidth optimizer -/

/-- The loop `for(dec--; dec >= min_dec; dec--)` of `optimizeRate`, entered with
`dec` already decremented, followed by the final `return req_rate`. -/
def rateSearch (ch : usrp_channel_struct) (rg : usrp_range_struct) (req_rate : ℚ)
    (min_dec : Nat) : Nat → Nat → Option ℚ
  | 0, _ => none
  | fuel + 1, dec =>
    if min_dec ≤ dec then
      let opt_rate := ddiv ch.clock_max dec
      let usrp_rate := rg.sample_rate.clip opt_rate
      if 0 ≤ compareHz usrp_rate req_rate then some usrp_rate
      else rateSearch ch rg req_rate min_dec fuel (decr dec)
    else some req_rate

/-- `USRP_UHD_i::optimizeRate(req_rate, tuner_id)`, given the tuner's entries of
`device_channels` and `usrp_ranges`. -/
def optimizeRate (fuel : Nat) (ch : usrp_channel_struct) (rg : usrp_range_struct)
    (req_rate : ℚ) : Option ℚ :=
  if compareHz req_rate 0 ≤ 0 then
    some (rg.sample_rate.clip (Dbl.fin ch.rate_min))
  else
    let dec := roundToSize (ch.clock_max / req_rate)
    let opt_rate := ddiv ch.clock_max dec
    let usrp_rate := rg.sample_rate.clip opt_rate
    if 0 ≤ compareHz usrp_rate req_rate then some usrp_rate
    else
      let min_dec := roundToSize (ch.clock_max / ch.rate_max)
      rateSearch ch rg req_rate min_dec fuel (decr dec)

/-- `USRP_UHD_i::optimizeBandwidth(req_bw, tuner_id)`. -/
def optimizeBandwidth (ch : usrp_channel_struct) (rg : usrp_range_struct)
    (req_bw : ℚ) : ℚ :=
  if compareHz req_bw 0 ≤ 0 then
    rg.bandwidth.clip (Dbl.fin ch.bandwidth_min)
  else
    let usrp_bw := rg.bandwidth.clip (Dbl.fin req_bw)
    if 0 ≤ compareHz usrp_bw req_bw then usrp_bw else req_bw

/-! ## Example channels -/

/-- A range made of the single interval `[lo, hi]` without step, with the clip of
such a range: values below go to `lo`, values above (and NaN) to `hi`. -/
def intervalRange (lo hi : ℚ) : meta_range_t where
  start := lo
  stop := hi
  clip := fun v =>
    match v with
    | Dbl.fin q => if q < lo then lo else if q ≤ hi then q else hi
    | Dbl.posInf => hi
    | Dbl.negInf => lo
    | Dbl.nan => hi

/-- The ranges of a channel with frequency `[fLo, fHi]`, bandwidth `[bLo, bHi]` and
sample rate `[rLo, rHi]`. -/
def exampleRanges (fLo fHi bLo bHi rLo rHi : ℚ) : usrp_range_struct where
  frequency := intervalRange fLo fHi
  bandwidth := intervalRange bLo bHi
  sample_rate := intervalRange rLo rHi
  gain := intervalRange 0 0

/-- The `device_channels` entry `updateDeviceInfo` derives from ranges `rg`: every
minimum is the range's `start()`, every maximum its `stop()`. -/
def channelOf (chan : Nat) (ty : TunerType) (clock : ℚ) (rg : usrp_range_struct) :
    usrp_channel_struct where
  chan_num := chan
  tuner_type := ty
  clock_min := clock
  clock_max := clock
  freq_current := rg.frequency.start
  freq_min := rg.frequency.start
  freq_max := rg.frequency.stop
  bandwidth_current := rg.bandwidth.start
  bandwidth_min := rg.bandwidth.start
  bandwidth_max := rg.bandwidth.stop
  rate_current := rg.sample_rate.start
  rate_min := rg.sample_rate.start
  rate_max := rg.sample_rate.stop
  gain_current := rg.gain.start
  gain_min := rg.gain.start
  gain_max := rg.gain.stop


/-! ## Device state -/

/-- The fields `twsec` and `tfsec` of a `BULKIO::PrecisionUTCTime`, the two the
source file assigns. -/
structure PrecisionUTCTime where
  twsec : ℚ
  tfsec : ℚ

/-- The time `bulkio::sri::zeroTime` (BULKIO library) leaves behind: whole and
fractional seconds zero. -/
def zeroTime : PrecisionUTCTime := ⟨0, 0⟩

/-- Modelled from the spec: the declaration of the entries of `frontend_tuner_status`
(generated property header) is not among the sources; these are the fields the
source file reads or writes (spec section 3, TunerStatus). -/
structure frontend_tuner_status_struct where
  tuner_type : TunerType
  allocation_id_csv : String
  center_frequency : ℚ
  bandwidth : ℚ
  sample_rate : ℚ
  gain : ℚ
  reference_source : Int
  group_id : String
  rf_flow_id : String
  enabled : Bool
  bandwidth_tolerance : ℚ
  sample_rate_tolerance : ℚ

/-- Modelled from the spec: the declaration of the entries of `usrp_tuners`
(`USRP_UHD.h`) is not among the sources; these are the fields the source file reads
or writes (spec section 3, TunerRuntime). The lock is not a field: the section on
locks records where each operation acquires and releases it. -/
structure usrp_tuner_struct where
  output_buffer : List Int
  buffer_capacity : Nat
  buffer_size : Nat
  update_sri : Bool
  stream_id : String
  output_buffer_time : PrecisionUTCTime
  time_up : PrecisionUTCTime
  time_down : PrecisionUTCTime

/-- The fields of `tx_rfinfo_pkt` the engine writes. -/
structure RFInfoPkt where
  rf_flow_id : String
  rf_center_freq : ℚ
  if_center_freq : ℚ
  rf_bandwidth : ℚ

/-- A `BULKIO::StreamSRI` as the engine fills it: the stream id, the mode, the
tuner values `create` copies from the status entry, and the times
`updateSriTimes` adds as keywords. -/
structure StreamSRI where
  streamID : String
  mode : Nat
  center_frequency : ℚ
  bandwidth : ℚ
  sample_rate : ℚ
  times : Option (ℚ × ℚ)

/-- The two stream commands the engine issues. -/
inductive StreamMode where
  | START_CONTINUOUS
  | STOP_CONTINUOUS
  deriving DecidableEq

/-- The two service threads. -/
inductive ServiceThread where
  | receive
  | transmit
  deriving DecidableEq

/-- The two inbound sample ports of the transmit path. -/
inductive TxPort where
  | dataShortTX_in
  | dataFloatTX_in
  deriving DecidableEq

/-- A `dataTransfer` packet of an inbound port: the samples, the mode of its SRI
(1 is complex), and the two flags the transmit path reads. -/
structure Packet where
  dataBuffer : List ℚ
  SRI_mode : Int
  EOS : Bool
  inputQueueFlushed : Bool

/-- Everything the device does to its environment, in program order. -/
inductive Event where
  | get_rx_freq (chan : Nat)
  | get_tx_freq (chan : Nat)
  | get_rx_bandwidth (chan : Nat)
  | get_tx_bandwidth (chan : Nat)
  | get_rx_rate (chan : Nat)
  | get_tx_rate (chan : Nat)
  | set_rx_freq (freq : ℚ) (chan : Nat)
  | set_tx_freq (freq : ℚ) (chan : Nat)
  | set_rx_bandwidth (bw : ℚ) (chan : Nat)
  | set_tx_bandwidth (bw : ℚ) (chan : Nat)
  | set_rx_rate (rate : ℚ) (chan : Nat)
  | set_tx_rate (rate : ℚ) (chan : Nat)
  | issue_stream_cmd (mode : StreamMode) (chan : Nat)
  | recv (tuner_id : Nat) (samps_to_rx : Nat)
  | query_device_info
  | pushSRI (sri : StreamSRI)
  | pushPacket (data : List Int) (T : PrecisionUTCTime) (EOS : Bool) (streamID : String)
  | rfinfo_pkt (pkt : RFInfoPkt)
  | interrupt (thread : ServiceThread)
  | getPacket (port : TxPort)
  | deletePacket (port : TxPort) (packet : Packet)
  | send (tuner_id : Nat) (port : TxPort) (nsamps : Nat)
  | thread_start (thread : ServiceThread)
  | thread_release (thread : ServiceThread)
  | matchAllocationIdToStreamId (allocation_id stream_id port_name : String)
  | set_rx_gain (gain : ℚ) (chan : Nat)
  | get_rx_gain (chan : Nat)
  | set_clock_source (source : String) (mboard : Nat)
  | set_time_source (source : String) (mboard : Nat)

/-- The radio behind `usrp_device_ptr`: the values it currently reports, the value
it settles on when asked for one (`tune_*`), and the description of its channels
that `updateDeviceInfo` reads. -/
structure Hardware where
  rx_freq : Nat → ℚ
  tx_freq : Nat → ℚ
  rx_bandwidth : Nat → ℚ
  tx_bandwidth : Nat → ℚ
  rx_rate : Nat → ℚ
  tx_rate : Nat → ℚ
  rx_gain : Nat → ℚ
  tx_gain : Nat → ℚ
  tune_freq : ℚ → ℚ
  tune_bandwidth : ℚ → ℚ
  tune_rate : ℚ → ℚ
  rx_num_channels : Nat
  tx_num_channels : Nat
  rx_subdev_unknown : Nat → Bool
  tx_subdev_unknown : Nat → Bool
  rx_clock_min : Nat → ℚ
  rx_clock_max : Nat → ℚ
  tx_clock_min : Nat → ℚ
  tx_clock_max : Nat → ℚ
  rx_ranges : Nat → usrp_range_struct
  tx_ranges : Nat → usrp_range_struct
  tune_gain : ℚ → ℚ := fun gain => gain

/-- The exception classes the engine throws, and the other ways a call can end
without returning: `std::out_of_range` from `vector::at`, the dereference of a NULL
`usrp_device_ptr`, and a loop that used up the fuel it was given. -/
inductive ExceptionClass where
  | BadParameterException
  | FrontendException
  | NotSupportedException
  | StopError
  | out_of_range
  | null_device
  | out_of_fuel
  deriving DecidableEq

/-- What the message of an exception says. -/
inductive Reason where
  | invalid_allocation_id
  | not_authorized
  | invalid_center_frequency
  | invalid_bandwidth
  | invalid_sample_rate
  | invalid_tuner_type
  | not_supported
  | thread_did_not_die
  | vector_at
  | null_pointer
  | loop_fuel
  deriving DecidableEq

/-- A thrown exception: its class and what it reports. -/
structure Error where
  cls : ExceptionClass
  what : Reason
  deriving DecidableEq

/-- The state of the device object: the members of `USRP_UHD_i` the engine uses.
`control_allocation_id` and `allocation_id_to_tuner_id` stand for the allocation
tables of the frontend base class, `uuids` for the values `frontend::uuidGenerator`
is going to return, `receive_timeout` for the default timeout of `usrpReceive`
(declared in `USRP_UHD.h`), `trace` for the environment. `tx_queue` holds the
packets waiting in each inbound port and `tx_blocked` tells which ports are
blocked; `started` is the flag behind `Resource_impl::started()`. The last four
fields are the packet of the inbound RF-info port and the three global properties. -/
structure State where
  usrp_device_ptr : Option Hardware
  num_tuners : Nat
  frontend_tuner_status : Nat → frontend_tuner_status_struct
  usrp_tuners : Nat → usrp_tuner_struct
  device_channels : Nat → usrp_channel_struct
  usrp_ranges : Nat → usrp_range_struct
  control_allocation_id : Nat → String
  allocation_id_to_tuner_id : List (String × Nat)
  tx_rfinfo_pkt : RFInfoPkt
  receive_service_thread : Bool
  transmit_service_thread : Bool
  receive_interrupt_requested : Bool
  transmit_interrupt_requested : Bool
  uuids : Nat → String
  uuid_count : Nat
  receive_timeout : ℚ
  trace : List Event
  tx_queue : TxPort → List Packet := fun _ => []
  tx_blocked : TxPort → Bool := fun _ => false
  started : Bool := false
  rx_rfinfo_pkt : RFInfoPkt := ⟨"", 0, 0, 0⟩
  device_gain_global : ℚ := 0
  device_reference_source_global : String := "INTERNAL"
  device_group_id_global : String := ""

/-- A member function with result `α`: it ends normally or with an exception, and
in both cases leaves a state behind. -/
def Call (α : Type) : Type := State → Except Error α × State

instance : Monad Call where
  pure a := fun st => (Except.ok a, st)
  bind m f := fun st =>
    match m st with
    | (Except.ok a, st1) => f a st1
    | (Except.error e, st1) => (Except.error e, st1)

/-- The statement `throw e`. -/
def throwExc {α : Type} (e : Error) : Call α := fun st => (Except.error e, st)

/-- Read the state. -/
def getState : Call State := fun st => (Except.ok st, st)

/-- Change the state. -/
def modifyState (f : State → State) : Call Unit := fun st => (Except.ok (), f st)

/-- Append one event to the trace. -/
def emit (e : Event) : Call Unit := modifyState (fun st => { st with trace := st.trace ++ [e] })

/-- Assign to `frontend_tuner_status[tuner_id]`. -/
def setStatus (tuner_id : Nat) (f : frontend_tuner_status_struct → frontend_tuner_status_struct) :
    Call Unit :=
  modifyState (fun st => { st with
    frontend_tuner_status :=
      Function.update st.frontend_tuner_status tuner_id (f (st.frontend_tuner_status tuner_id)) })

/-- Assign to `usrp_tuners[tuner_id]`. -/
def setTuner (tuner_id : Nat) (f : usrp_tuner_struct → usrp_tuner_struct) : Call Unit :=
  modifyState (fun st => { st with
    usrp_tuners := Function.update st.usrp_tuners tuner_id (f (st.usrp_tuners tuner_id)) })

/-- The expression `usrp_device_ptr->`: the device, or the end of the call when the
pointer is NULL. -/
def device : Call Hardware := fun st =>
  match st.usrp_device_ptr with
  | some hw => (Except.ok hw, st)
  | none => (Except.error ⟨ExceptionClass.null_device, Reason.null_pointer⟩, st)

/-- Store a changed device. -/
def setDevice (hw : Hardware) : Call Unit :=
  modifyState (fun st => { st with usrp_device_ptr := some hw })

/-- Modelled from the spec: `getTunerMapping` belongs to the frontend base class and
is not among the sources. It resolves an allocation id to a tuner index and
returns a negative index when the id has no tuner mapping. -/
def getTunerMapping (st : State) (allocation_id : String) : Int :=
  match st.allocation_id_to_tuner_id.lookup allocation_id with
  | some idx => (idx : Int)
  | none => -1

/-- Modelled from the spec: `getControlAllocationId` belongs to the frontend base
class and is not among the sources. It returns the controlling allocation id of a
tuner, empty when the tuner is not allocated. -/
def getControlAllocationId (st : State) (tuner_id : Nat) : String :=
  st.control_allocation_id tuner_id

/-! ## Hardware accessors -/

def hw_get_rx_freq (chan : Nat) : Call ℚ := do
  let hw ← device
  emit (Event.get_rx_freq chan)
  pure (hw.rx_freq chan)

def hw_get_tx_freq (chan : Nat) : Call ℚ := do
  let hw ← device
  emit (Event.get_tx_freq chan)
  pure (hw.tx_freq chan)

def hw_get_rx_bandwidth (chan : Nat) : Call ℚ := do
  let hw ← device
  emit (Event.get_rx_bandwidth chan)
  pure (hw.rx_bandwidth chan)

def hw_get_tx_bandwidth (chan : Nat) : Call ℚ := do
  let hw ← device
  emit (Event.get_tx_bandwidth chan)
  pure (hw.tx_bandwidth chan)

def hw_get_rx_rate (chan : Nat) : Call ℚ := do
  let hw ← device
  emit (Event.get_rx_rate chan)
  pure (hw.rx_rate chan)

def hw_get_tx_rate (chan : Nat) : Call ℚ := do
  let hw ← device
  emit (Event.get_tx_rate chan)
  pure (hw.tx_rate chan)

def hw_set_rx_freq (freq : ℚ) (chan : Nat) : Call Unit := do
  let hw ← device
  emit (Event.set_rx_freq freq chan)
  setDevice { hw with rx_freq := Function.update hw.rx_freq chan (hw.tune_freq freq) }

def hw_set_tx_freq (freq : ℚ) (chan : Nat) : Call Unit := do
  let hw ← device
  emit (Event.set_tx_freq freq chan)
  setDevice { hw with tx_freq := Function.update hw.tx_freq chan (hw.tune_freq freq) }

def hw_set_rx_bandwidth (bw : ℚ) (chan : Nat) : Call Unit := do
  let hw ← device
  emit (Event.set_rx_bandwidth bw chan)
  setDevice { hw with rx_bandwidth := Function.update hw.rx_bandwidth chan (hw.tune_bandwidth bw) }

def hw_set_tx_bandwidth (bw : ℚ) (chan : Nat) : Call Unit := do
  let hw ← device
  emit (Event.set_tx_bandwidth bw chan)
  setDevice { hw with tx_bandwidth := Function.update hw.tx_bandwidth chan (hw.tune_bandwidth bw) }

def hw_set_rx_rate (rate : ℚ) (chan : Nat) : Call Unit := do
  let hw ← device
  emit (Event.set_rx_rate rate chan)
  setDevice { hw with rx_rate := Function.update hw.rx_rate chan (hw.tune_rate rate) }

def hw_set_tx_rate (rate : ℚ) (chan : Nat) : Call Unit := do
  let hw ← device
  emit (Event.set_tx_rate rate chan)
  setDevice { hw with tx_rate := Function.update hw.tx_rate chan (hw.tune_rate rate) }

def hw_issue_stream_cmd (mode : StreamMode) (chan : Nat) : Call Unit := do
  let _ ← device
  emit (Event.issue_stream_cmd mode chan)

/-! ## Stream identity, enable and disable -/

/-- The C conversion `long(x)` of a finite double: truncation toward zero. -/
def truncToLong (x : ℚ) : Int := if 0 ≤ x then ⌊x⌋ else ⌈x⌉

/-- The C conversion `size_t(x)` of a finite double. -/
def truncToSize (x : ℚ) : Nat := toSizeT (truncToLong x)

/-- The `size_t` difference `a - b`. -/
def sizeSub (a b : Nat) : Nat := (a + (SIZE_MOD - b % SIZE_MOD)) % SIZE_MOD

/-- The `size_t` sum `a + b`. -/
def sizeAdd (a b : Nat) : Nat := (a + b) % SIZE_MOD

/-- The `size_t` product `a * b`. -/
def sizeMul (a b : Nat) : Nat := (a * b) % SIZE_MOD

/-- `std::vector::resize(n)` on a vector of shorts: cut, or fill up with zeros. -/
def resize (v : List Int) (n : Nat) : List Int :=
  v.take n ++ List.replicate (n - v.length) 0

/-- The two statements `sri = create(stream_id, status); sri.mode = 1;`. The helper
`create` belongs to the frontend library; of its result only the stream id and the
tuner values it copies from the status entry are kept. -/
def createSRI (stream_id : String) (fts : frontend_tuner_status_struct) : StreamSRI where
  streamID := stream_id
  mode := 1
  center_frequency := fts.center_frequency
  bandwidth := fts.bandwidth
  sample_rate := fts.sample_rate
  times := none

/-- `USRP_UHD_i::getStreamId(tuner_id)`. -/
def getStreamId (tuner_id : Nat) : Call String := do
  let st ← getState
  if st.num_tuners ≤ tuner_id then
    pure "ERR: INVALID TUNER ID"
  else if (st.usrp_tuners tuner_id).stream_id = "" then
    let id := "tuner_freq_" ++
      toString (truncToLong (st.frontend_tuner_status tuner_id).center_frequency) ++
      "_Hz_" ++ st.uuids st.uuid_count
    modifyState (fun s => { s with uuid_count := s.uuid_count + 1 })
    setTuner tuner_id (fun t => { t with stream_id := id, update_sri := true })
    pure id
  else
    pure (st.usrp_tuners tuner_id).stream_id

/-- `USRP_UHD_i::usrpEnable(tuner_id, chan)`. -/
def usrpEnable (tuner_id chan : Nat) : Call Bool := do
  let st ← getState
  let prev_enabled := (st.frontend_tuner_status tuner_id).enabled
  setStatus tuner_id (fun s => { s with enabled := true })
  if (st.frontend_tuner_status tuner_id).tuner_type = TunerType.TX then
    let fts := st.frontend_tuner_status tuner_id
    let pkt : RFInfoPkt := { st.tx_rfinfo_pkt with
      rf_center_freq := fts.center_frequency,
      if_center_freq := fts.center_frequency,
      rf_bandwidth := fts.bandwidth }
    modifyState (fun s => { s with tx_rfinfo_pkt := pkt })
    if !prev_enabled then
      emit (Event.rfinfo_pkt pkt)
      setTuner tuner_id (fun t => { t with update_sri := false })
    pure true
  else
    let stream_id ← getStreamId tuner_id
    if !prev_enabled then
      let st1 ← getState
      emit (Event.pushSRI (createSRI stream_id (st1.frontend_tuner_status tuner_id)))
      setTuner tuner_id (fun t => { t with update_sri := false })
    hw_issue_stream_cmd StreamMode.START_CONTINUOUS chan
    pure true

/-- `USRP_UHD_i::usrpDisable(tuner_id, chan)`. -/
def usrpDisable (tuner_id chan : Nat) : Call Bool := do
  let st ← getState
  let prev_enabled := (st.frontend_tuner_status tuner_id).enabled
  setStatus tuner_id (fun s => { s with enabled := false })
  if (st.frontend_tuner_status tuner_id).tuner_type ≠ TunerType.TX then
    hw_issue_stream_cmd StreamMode.STOP_CONTINUOUS chan
    if prev_enabled then
      let stream_id ← getStreamId tuner_id
      let st1 ← getState
      let t := st1.usrp_tuners tuner_id
      let sri : StreamSRI := { createSRI stream_id (st1.frontend_tuner_status tuner_id) with
        times := some (t.time_up.twsec, t.time_down.twsec) }
      emit (Event.pushSRI sri)
      setTuner tuner_id (fun t => { t with update_sri := false })
      setTuner tuner_id (fun t => { t with output_buffer := resize t.output_buffer t.buffer_size })
      let st2 ← getState
      let t2 := st2.usrp_tuners tuner_id
      emit (Event.pushPacket t2.output_buffer t2.output_buffer_time true stream_id)
      setTuner tuner_id (fun t => { t with buffer_size := 0 })
      setTuner tuner_id (fun t => { t with output_buffer := resize t.output_buffer t.buffer_capacity })
    setTuner tuner_id (fun t => { t with
      output_buffer_time := zeroTime, time_up := zeroTime, time_down := zeroTime })
  pure true

/-- `USRP_UHD_i::interrupt(tuner_id)`. -/
def interrupt (tuner_id : Nat) : Call Unit := do
  let st ← getState
  match (st.frontend_tuner_status tuner_id).tuner_type with
  | TunerType.RX_DIGITIZER =>
    if st.receive_service_thread then
      modifyState (fun s => { s with receive_interrupt_requested := true })
      emit (Event.interrupt ServiceThread.receive)
  | TunerType.TX =>
    if st.transmit_service_thread then
      modifyState (fun s => { s with transmit_interrupt_requested := true })
      emit (Event.interrupt ServiceThread.transmit)
  | TunerType.UNKNOWN => pure ()

/-! ## Receive service loop -/

/-- The error codes of `uhd::rx_metadata_t` the receive path tells apart. -/
inductive rx_error_code where
  | ERROR_CODE_NONE
  | ERROR_CODE_TIMEOUT
  | ERROR_CODE_OVERFLOW
  | ERROR_CODE_OTHER (code : Nat)

/-- What one call of the hardware `recv` hands back: the sample count, the shorts it
wrote (two per sample), and the metadata. -/
structure RecvResult where
  num_samps : Nat
  samples : List Int
  error_code : rx_error_code
  real_secs : ℚ
  frac_secs : ℚ

/-- The buffer after `recv` wrote `count` shorts from position `pos` on. Writes
past the end of the vector are dropped. -/
def writeSamples (buf : List Int) (pos : Nat) (samples : List Int) : Nat → List Int
  | 0 => buf
  | count + 1 =>
    (writeSamples buf pos samples count).set (pos + count) (samples.getD count 0)

/-- `USRP_UHD_i::usrpReceive(tuner_id, timeout)`; `recv` tells what the hardware
returns for a request of so many samples. -/
def usrpReceive (tuner_id : Nat) (timeout : ℚ) (recv : Nat → RecvResult) : Call Bool := do
  let st ← getState
  let t := st.usrp_tuners tuner_id
  let samps_to_rx := min
    (truncToSize (timeout * (st.frontend_tuner_status tuner_id).sample_rate))
    (sizeSub t.buffer_capacity t.buffer_size / 2)
  let _ ← device
  if t.output_buffer.length ≤ t.buffer_size then
    throwExc ⟨ExceptionClass.out_of_range, Reason.vector_at⟩
  else
    let r := recv samps_to_rx
    emit (Event.recv tuner_id samps_to_rx)
    setTuner tuner_id (fun t => { t with
      output_buffer := writeSamples t.output_buffer t.buffer_size r.samples (2 * r.num_samps),
      buffer_size := sizeAdd t.buffer_size (sizeMul r.num_samps 2) })
    match r.error_code with
    | rx_error_code.ERROR_CODE_NONE =>
      if r.num_samps = 0 then
        pure false
      else
        let st1 ← getState
        if sizeMul r.num_samps 2 = (st1.usrp_tuners tuner_id).buffer_size then
          let stamp : PrecisionUTCTime := ⟨r.real_secs, r.frac_secs⟩
          setTuner tuner_id (fun t => { t with
            output_buffer_time := stamp,
            time_up := if t.time_up.twsec ≤ 0 then stamp else t.time_up,
            time_down := stamp })
        pure true
    | rx_error_code.ERROR_CODE_TIMEOUT => pure false
    | rx_error_code.ERROR_CODE_OVERFLOW => pure true
    | rx_error_code.ERROR_CODE_OTHER _ => pure false

/-- The end of the loop body of `serviceFunctionReceive`, reached with a full buffer:
stream id, updated SRI if one is due, the data packet, and the reset of the fill
length. -/
def pushBuffer (tuner_id : Nat) : Call Unit := do
  let stream_id ← getStreamId tuner_id
  let st2 ← getState
  if (st2.usrp_tuners tuner_id).update_sri then
    emit (Event.pushSRI (createSRI stream_id (st2.frontend_tuner_status tuner_id)))
    setTuner tuner_id (fun t => { t with update_sri := false })
  let st3 ← getState
  let t := st3.usrp_tuners tuner_id
  emit (Event.pushPacket t.output_buffer t.output_buffer_time false stream_id)
  setTuner tuner_id (fun t => { t with buffer_size := 0 })

/-- The body of the loop of `serviceFunctionReceive` for one tuner; the result tells
whether `rx_data` was set. -/
def receiveTuner (recv : Nat → Nat → RecvResult) (tuner_id : Nat) : Call Bool := do
  let st ← getState
  if (st.frontend_tuner_status tuner_id).tuner_type ≠ TunerType.RX_DIGITIZER then
    pure false
  else if getControlAllocationId st tuner_id = "" then
    pure false
  else if !(st.frontend_tuner_status tuner_id).enabled then
    pure false
  else
    let got ← usrpReceive tuner_id st.receive_timeout (recv tuner_id)
    if !got then
      pure false
    else
      let st1 ← getState
      if (st1.usrp_tuners tuner_id).buffer_size < (st1.usrp_tuners tuner_id).buffer_capacity then
        pure true
      else
        pushBuffer tuner_id
        pure true

/-- The `for` loop of `serviceFunctionReceive` over the tuner ids still to visit. -/
def receiveLoop (recv : Nat → Nat → RecvResult) : List Nat → Bool → Call Bool
  | [], rx_data => pure rx_data
  | tuner_id :: rest, rx_data => do
    let got ← receiveTuner recv tuner_id
    receiveLoop recv rest (rx_data || got)

/-- The two results of a service function. -/
inductive ServiceResult where
  | NORMAL
  | NOOP
  deriving DecidableEq

/-- `USRP_UHD_i::serviceFunctionReceive()`; `recv tuner_id n` is what the hardware
returns when tuner `tuner_id` asks for `n` samples in this cycle. -/
def serviceFunctionReceive (recv : Nat → Nat → RecvResult) : Call ServiceResult := do
  let st ← getState
  if st.receive_interrupt_requested then
    modifyState (fun s => { s with receive_interrupt_requested := false })
    pure ServiceResult.NOOP
  else if st.usrp_device_ptr.isNone then
    pure ServiceResult.NOOP
  else
    let rx_data ← receiveLoop recv (List.range st.num_tuners) false
    if rx_data then pure ServiceResult.NORMAL else pure ServiceResult.NOOP

/-! ## Device description -/

/-- The `device_channels` entry `updateDeviceInfo` builds for receive channel `chan`. -/
def rxChannelInfo (hw : Hardware) (chan : Nat) : usrp_channel_struct where
  chan_num := chan
  tuner_type := if hw.rx_subdev_unknown chan then TunerType.UNKNOWN else TunerType.RX_DIGITIZER
  clock_min := hw.rx_clock_min chan
  clock_max := hw.rx_clock_max chan
  freq_current := hw.rx_freq chan
  freq_min := (hw.rx_ranges chan).frequency.start
  freq_max := (hw.rx_ranges chan).frequency.stop
  bandwidth_current := hw.rx_bandwidth chan
  bandwidth_min := (hw.rx_ranges chan).bandwidth.start
  bandwidth_max := (hw.rx_ranges chan).bandwidth.stop
  rate_current := hw.rx_rate chan
  rate_min := (hw.rx_ranges chan).sample_rate.start
  rate_max := (hw.rx_ranges chan).sample_rate.stop
  gain_current := hw.rx_gain chan
  gain_min := (hw.rx_ranges chan).gain.start
  gain_max := (hw.rx_ranges chan).gain.stop

/-- The `device_channels` entry `updateDeviceInfo` builds for transmit channel `chan`. -/
def txChannelInfo (hw : Hardware) (chan : Nat) : usrp_channel_struct where
  chan_num := chan
  tuner_type := if hw.tx_subdev_unknown chan then TunerType.UNKNOWN else TunerType.TX
  clock_min := hw.tx_clock_min chan
  clock_max := hw.tx_clock_max chan
  freq_current := hw.tx_freq chan
  freq_min := (hw.tx_ranges chan).frequency.start
  freq_max := (hw.tx_ranges chan).frequency.stop
  bandwidth_current := hw.tx_bandwidth chan
  bandwidth_min := (hw.tx_ranges chan).bandwidth.start
  bandwidth_max := (hw.tx_ranges chan).bandwidth.stop
  rate_current := hw.tx_rate chan
  rate_min := (hw.tx_ranges chan).sample_rate.start
  rate_max := (hw.tx_ranges chan).sample_rate.stop
  gain_current := hw.tx_gain chan
  gain_min := (hw.tx_ranges chan).gain.start
  gain_max := (hw.tx_ranges chan).gain.stop

/-- `USRP_UHD_i::updateDeviceInfo()`, as far as `device_channels` and `usrp_ranges`
go: receive channels first, transmit channels after them. Table entries past the
end of the rebuilt vectors keep their old value. -/
def updateDeviceInfo : Call Unit := do
  let st ← getState
  match st.usrp_device_ptr with
  | none => pure ()
  | some hw =>
    emit Event.query_device_info
    modifyState (fun s => { s with
      device_channels := fun i =>
        if i < hw.rx_num_channels then rxChannelInfo hw i
        else if i < hw.rx_num_channels + hw.tx_num_channels then
          txChannelInfo hw (i - hw.rx_num_channels)
        else s.device_channels i,
      usrp_ranges := fun i =>
        if i < hw.rx_num_channels then hw.rx_ranges i
        else if i < hw.rx_num_channels + hw.tx_num_channels then
          hw.tx_ranges (i - hw.rx_num_channels)
        else s.usrp_ranges i })

/-! ## Tuner control port -/

/-- The exception of an allocation id without tuner mapping. -/
def invalidAllocation : Error := ⟨ExceptionClass.BadParameterException, Reason.invalid_allocation_id⟩

/-- The exception of an allocation id that does not control its tuner. -/
def notAuthorized : Error := ⟨ExceptionClass.FrontendException, Reason.not_authorized⟩

/-- The exception of a tuner that is neither `RX_DIGITIZER` nor `TX`. -/
def invalidTunerType : Error := ⟨ExceptionClass.BadParameterException, Reason.invalid_tuner_type⟩

/-- `USRP_UHD_i::getTunerType(allocation_id)`. -/
def getTunerType (allocation_id : String) : Call TunerType := do
  let st ← getState
  let idx := getTunerMapping st allocation_id
  if idx < 0 then throwExc invalidAllocation
  else pure (st.frontend_tuner_status idx.toNat).tuner_type

/-- `USRP_UHD_i::getTunerDeviceControl(allocation_id)`. -/
def getTunerDeviceControl (allocation_id : String) : Call Bool := do
  let st ← getState
  let idx := getTunerMapping st allocation_id
  if idx < 0 then throwExc invalidAllocation
  else if getControlAllocationId st idx.toNat = allocation_id then pure true
  else pure false

/-- `USRP_UHD_i::getTunerGroupId(allocation_id)`. -/
def getTunerGroupId (allocation_id : String) : Call String := do
  let st ← getState
  let idx := getTunerMapping st allocation_id
  if idx < 0 then throwExc invalidAllocation
  else pure (st.frontend_tuner_status idx.toNat).group_id

/-- `USRP_UHD_i::getTunerRfFlowId(allocation_id)`. -/
def getTunerRfFlowId (allocation_id : String) : Call String := do
  let st ← getState
  let idx := getTunerMapping st allocation_id
  if idx < 0 then throwExc invalidAllocation
  else pure (st.frontend_tuner_status idx.toNat).rf_flow_id

/-- `USRP_UHD_i::getTunerCenterFrequency(allocation_id)`. -/
def getTunerCenterFrequency (allocation_id : String) : Call ℚ := do
  let st ← getState
  let idx := getTunerMapping st allocation_id
  if idx < 0 then throwExc invalidAllocation
  else pure (st.frontend_tuner_status idx.toNat).center_frequency

/-- `USRP_UHD_i::getTunerBandwidth(allocation_id)`. -/
def getTunerBandwidth (allocation_id : String) : Call ℚ := do
  let st ← getState
  let idx := getTunerMapping st allocation_id
  if idx < 0 then throwExc invalidAllocation
  else pure (st.frontend_tuner_status idx.toNat).bandwidth

/-- `USRP_UHD_i::getTunerOutputSampleRate(allocation_id)`. -/
def getTunerOutputSampleRate (allocation_id : String) : Call ℚ := do
  let st ← getState
  let idx := getTunerMapping st allocation_id
  if idx < 0 then throwExc invalidAllocation
  else pure (st.frontend_tuner_status idx.toNat).sample_rate

/-- `USRP_UHD_i::getTunerEnable(allocation_id)`. -/
def getTunerEnable (allocation_id : String) : Call Bool := do
  let st ← getState
  let idx := getTunerMapping st allocation_id
  if idx < 0 then throwExc invalidAllocation
  else pure (st.frontend_tuner_status idx.toNat).enabled

/-- `USRP_UHD_i::setTunerCenterFrequency(allocation_id, freq)`. The FRONTEND
exceptions are CORBA exceptions, not `std::exception`s, so the handler
`catch (std::exception&)` around the body lets them pass; the hardware calls of
the model do not throw. -/
def setTunerCenterFrequency (allocation_id : String) (freq : ℚ) : Call Unit := do
  let st ← getState
  let idx := getTunerMapping st allocation_id
  if idx < 0 then throwExc invalidAllocation
  else if allocation_id ≠ getControlAllocationId st idx.toNat then throwExc notAuthorized
  else if freq < (st.device_channels idx.toNat).freq_min ∨
      freq > (st.device_channels idx.toNat).freq_max then
    throwExc ⟨ExceptionClass.BadParameterException, Reason.invalid_center_frequency⟩
  else
    let usrp_channel_number := (st.device_channels idx.toNat).chan_num
    match (st.frontend_tuner_status idx.toNat).tuner_type with
    | TunerType.RX_DIGITIZER =>
      interrupt idx.toNat
      let st1 ← getState
      let is_tuner_enabled := (st1.frontend_tuner_status idx.toNat).enabled
      let current ← hw_get_rx_freq usrp_channel_number
      if current ≠ freq then
        let _ ← usrpDisable idx.toNat usrp_channel_number
      hw_set_rx_freq freq usrp_channel_number
      let actual ← hw_get_rx_freq usrp_channel_number
      setStatus idx.toNat (fun s => { s with center_frequency := actual })
      setTuner idx.toNat (fun t => { t with update_sri := true })
      if is_tuner_enabled then
        let _ ← usrpEnable idx.toNat usrp_channel_number
      updateDeviceInfo
    | TunerType.TX =>
      interrupt idx.toNat
      hw_set_tx_freq freq usrp_channel_number
      let actual ← hw_get_tx_freq usrp_channel_number
      setStatus idx.toNat (fun s => { s with center_frequency := actual })
      updateDeviceInfo
    | TunerType.UNKNOWN => throwExc invalidTunerType

/-- `USRP_UHD_i::setTunerBandwidth(allocation_id, bw)`. -/
def setTunerBandwidth (allocation_id : String) (bw : ℚ) : Call Unit := do
  let st ← getState
  let idx := getTunerMapping st allocation_id
  if idx < 0 then throwExc invalidAllocation
  else if allocation_id ≠ getControlAllocationId st idx.toNat then throwExc notAuthorized
  else if compareHz bw 0 < 0 ∨ compareHz bw (st.device_channels idx.toNat).bandwidth_max > 0 then
    throwExc ⟨ExceptionClass.BadParameterException, Reason.invalid_bandwidth⟩
  else
    let opt_bw := optimizeBandwidth (st.device_channels idx.toNat) (st.usrp_ranges idx.toNat) bw
    let usrp_channel_number := (st.device_channels idx.toNat).chan_num
    match (st.frontend_tuner_status idx.toNat).tuner_type with
    | TunerType.RX_DIGITIZER =>
      interrupt idx.toNat
      hw_set_rx_bandwidth opt_bw usrp_channel_number
      let actual ← hw_get_rx_bandwidth usrp_channel_number
      setStatus idx.toNat (fun s => { s with bandwidth := actual })
      setTuner idx.toNat (fun t => { t with update_sri := true })
      updateDeviceInfo
    | TunerType.TX =>
      interrupt idx.toNat
      hw_set_tx_bandwidth opt_bw usrp_channel_number
      let actual ← hw_get_tx_bandwidth usrp_channel_number
      setStatus idx.toNat (fun s => { s with bandwidth := actual })
      updateDeviceInfo
    | TunerType.UNKNOWN => throwExc invalidTunerType

/-- `USRP_UHD_i::setTunerOutputSampleRate(allocation_id, sr)`; `fuel` bounds the
search loop of `optimizeRate`. -/
def setTunerOutputSampleRate (fuel : Nat) (allocation_id : String) (sr : ℚ) : Call Unit := do
  let st ← getState
  let idx := getTunerMapping st allocation_id
  if idx < 0 then throwExc invalidAllocation
  else if allocation_id ≠ getControlAllocationId st idx.toNat then throwExc notAuthorized
  else if compareHz sr 0 < 0 ∨ compareHz sr (st.device_channels idx.toNat).rate_max > 0 then
    throwExc ⟨ExceptionClass.BadParameterException, Reason.invalid_sample_rate⟩
  else
    match optimizeRate fuel (st.device_channels idx.toNat) (st.usrp_ranges idx.toNat) sr with
    | none => throwExc ⟨ExceptionClass.out_of_fuel, Reason.loop_fuel⟩
    | some opt_sr =>
      let usrp_channel_number := (st.device_channels idx.toNat).chan_num
      match (st.frontend_tuner_status idx.toNat).tuner_type with
      | TunerType.RX_DIGITIZER =>
        interrupt idx.toNat
        hw_set_rx_rate opt_sr usrp_channel_number
        let actual ← hw_get_rx_rate usrp_channel_number
        setStatus idx.toNat (fun s => { s with sample_rate := actual })
        setTuner idx.toNat (fun t => { t with update_sri := true })
        updateDeviceInfo
      | TunerType.TX =>
        interrupt idx.toNat
        hw_set_tx_rate opt_sr usrp_channel_number
        let actual ← hw_get_tx_rate usrp_channel_number
        setStatus idx.toNat (fun s => { s with sample_rate := actual })
        updateDeviceInfo
      | TunerType.UNKNOWN => throwExc invalidTunerType

/-- `USRP_UHD_i::setTunerEnable(allocation_id, enable)`. -/
def setTunerEnable (allocation_id : String) (enable : Bool) : Call Unit := do
  let st ← getState
  let idx := getTunerMapping st allocation_id
  if idx < 0 then throwExc invalidAllocation
  else if allocation_id ≠ getControlAllocationId st idx.toNat then throwExc notAuthorized
  else
    let usrp_channel_number := (st.device_channels idx.toNat).chan_num
    interrupt idx.toNat
    if enable then
      let _ ← usrpEnable idx.toNat usrp_channel_number
    else
      let _ ← usrpDisable idx.toNat usrp_channel_number

/-! ## Transmit service loop -/

/-- Modelled from the spec: `getPacket(0)` of an inbound port belongs to the BULKIO
library and is not among the sources. It is the pull that does not wait: the oldest
waiting packet, or NULL when none waits or the port is blocked. -/
def getPacket (port : TxPort) : Call (Option Packet) := do
  emit (Event.getPacket port)
  let st ← getState
  if st.tx_blocked port then
    pure none
  else
    match st.tx_queue port with
    | [] => pure none
    | packet :: rest =>
      modifyState (fun s => { s with tx_queue := Function.update s.tx_queue port rest })
      pure (some packet)

/-- `USRP_UHD_i::usrpTransmit(tuner_id, packet)` for a packet of port `port`; `send`
tells how many samples the hardware takes when handed so many. -/
def usrpTransmit (send : Nat → Nat) (port : TxPort) (tuner_id : Nat) (packet : Packet) :
    Call Bool := do
  let st ← getState
  if (st.usrp_tuners tuner_id).update_sri then
    let fts := st.frontend_tuner_status tuner_id
    let pkt : RFInfoPkt := { st.tx_rfinfo_pkt with
      rf_center_freq := fts.center_frequency,
      if_center_freq := fts.center_frequency,
      rf_bandwidth := fts.bandwidth }
    modifyState (fun s => { s with tx_rfinfo_pkt := pkt })
    emit (Event.rfinfo_pkt pkt)
    setTuner tuner_id (fun t => { t with update_sri := false })
  let _ ← device
  emit (Event.send tuner_id port (packet.dataBuffer.length / 2))
  if send (packet.dataBuffer.length / 2) ≠ packet.dataBuffer.length / 2 then
    pure false
  else
    pure true

/-- The body of the loop of `transmitHelper` for one tuner. -/
def transmitTuner (send : Nat → Nat → Nat) (port : TxPort) (packet : Packet) (tuner_id : Nat) :
    Call Unit := do
  let st ← getState
  if (st.frontend_tuner_status tuner_id).tuner_type ≠ TunerType.TX then
    pure ()
  else if getControlAllocationId st tuner_id = "" then
    pure ()
  else if !(st.frontend_tuner_status tuner_id).enabled then
    pure ()
  else
    let _ ← usrpTransmit (send tuner_id) port tuner_id packet
    pure ()

/-- The `for` loop of `transmitHelper` over the tuner ids still to visit. -/
def transmitLoop (send : Nat → Nat → Nat) (port : TxPort) (packet : Packet) : List Nat → Call Unit
  | [] => pure ()
  | tuner_id :: rest => do
    transmitTuner send port packet tuner_id
    transmitLoop send port packet rest

/-- `USRP_UHD_i::transmitHelper(dataIn)` for the port `port`; `send tuner_id n` is
what the hardware takes when tuner `tuner_id` hands it `n` samples. -/
def transmitHelper (send : Nat → Nat → Nat) (port : TxPort) : Call Bool := do
  let st ← getState
  if st.usrp_device_ptr.isNone then
    pure false
  else
    let got ← getPacket port
    match got with
    | none => pure false
    | some packet =>
      if packet.SRI_mode ≠ 1 then
        emit (Event.deletePacket port packet)
        pure false
      else
        let st1 ← getState
        transmitLoop send port packet (List.range st1.num_tuners)
        emit (Event.deletePacket port packet)
        pure true

/-- `USRP_UHD_i::serviceFunctionTransmit()`. The second operand of `||` is evaluated
only when the first is false. -/
def serviceFunctionTransmit (send : Nat → Nat → Nat) : Call ServiceResult := do
  let st ← getState
  if st.transmit_interrupt_requested then
    modifyState (fun s => { s with transmit_interrupt_requested := false })
    pure ServiceResult.NOOP
  else
    let ret ← transmitHelper send TxPort.dataShortTX_in
    let ret ← if ret then pure true else transmitHelper send TxPort.dataFloatTX_in
    if ret then pure ServiceResult.NORMAL else pure ServiceResult.NOOP

/-! ## Start and stop -/

/-- `USRP_UHD_i::deviceEnable(fts, tuner_id)`. -/
def deviceEnable (tuner_id : Nat) : Call Unit := do
  let st ← getState
  let usrp_channel_number := (st.device_channels tuner_id).chan_num
  interrupt tuner_id
  let _ ← usrpEnable tuner_id usrp_channel_number
  pure ()

/-- `USRP_UHD_i::deviceDisable(fts, tuner_id)`. -/
def deviceDisable (tuner_id : Nat) : Call Unit := do
  let st ← getState
  let usrp_channel_number := (st.device_channels tuner_id).chan_num
  interrupt tuner_id
  let _ ← usrpDisable tuner_id usrp_channel_number
  pure ()

/-- `USRP_UHD_i::start()`. Creating and starting a service thread does not fail in
the model, so the handler `catch (...)` is never entered; a new thread has no
interruption pending. `Resource_impl::start()` sets the started flag. -/
def start : Call Unit := do
  let st ← getState
  if !st.receive_service_thread then
    modifyState (fun s => { s with tx_blocked := fun _ => false })
    modifyState (fun s => { s with
      receive_service_thread := true, receive_interrupt_requested := false })
    emit (Event.thread_start ServiceThread.receive)
  let st1 ← getState
  if !st1.transmit_service_thread then
    modifyState (fun s => { s with tx_blocked := fun _ => false })
    modifyState (fun s => { s with
      transmit_service_thread := true, transmit_interrupt_requested := false })
    emit (Event.thread_start ServiceThread.transmit)
  let st2 ← getState
  if !st2.started then
    modifyState (fun s => { s with started := true })

/-- The exception of `stop()`: `CF::Resource::StopError`, thrown when a service
thread did not die. -/
def stopError : Error := ⟨ExceptionClass.StopError, Reason.thread_did_not_die⟩

/-- The `for` loop of `stop()` over the tuner ids still to visit. -/
def disableLoop : List Nat → Call Unit
  | [] => pure ()
  | tuner_id :: rest => do
    deviceDisable tuner_id
    disableLoop rest

/-- `USRP_UHD_i::stop()`; `release thread` tells whether the service thread ends
within the two seconds `release(2)` waits for it. Both blocks of the source block
the port `dataShortTX_in` (twice) and leave `dataFloatTX_in` alone.
`Resource_impl::stop()` clears the started flag. -/
def stop (release : ServiceThread → Bool) : Call Unit := do
  let st ← getState
  if st.receive_service_thread then
    modifyState (fun s => { s with
      tx_blocked := Function.update s.tx_blocked TxPort.dataShortTX_in true })
    emit (Event.thread_release ServiceThread.receive)
    if !release ServiceThread.receive then
      throwExc stopError
    else
      modifyState (fun s => { s with receive_service_thread := false })
  let st1 ← getState
  if st1.transmit_service_thread then
    modifyState (fun s => { s with
      tx_blocked := Function.update s.tx_blocked TxPort.dataShortTX_in true })
    emit (Event.thread_release ServiceThread.transmit)
    if !release ServiceThread.transmit then
      throwExc stopError
    else
      modifyState (fun s => { s with transmit_service_thread := false })
  let st2 ← getState
  disableLoop (List.range st2.num_tuners)
  let st3 ← getState
  if st3.started then
    modifyState (fun s => { s with started := false })

/-! ## Notions used by the theorems -/

/-- The candidate rate of decimation factor `d`: `clip(clock_max / d)`. -/
def candidateRate (ch : usrp_channel_struct) (rg : usrp_range_struct) (d : Nat) : ℚ :=
  rg.sample_rate.clip (ddiv ch.clock_max d)

/-- The decimation factors `optimizeRate` tries for a request `r`: the starting
factor `round(clock_max / r)` and the factors below it down to
`round(clock_max / rate_max)`. -/
def searched (ch : usrp_channel_struct) (r : ℚ) (d : Nat) : Prop :=
  d = roundToSize (ch.clock_max / r) ∨
    (roundToSize (ch.clock_max / ch.rate_max) ≤ d ∧ d < roundToSize (ch.clock_max / r))

/-- The buffer invariant: every tuner's fill length is at most its capacity, and the
capacity is a `size_t` value. -/
def BufferInv (st : State) : Prop :=
  ∀ j, (st.usrp_tuners j).buffer_size ≤ (st.usrp_tuners j).buffer_capacity ∧
    (st.usrp_tuners j).buffer_capacity < SIZE_MOD

/-- The hardware hands back at most as many samples as it was asked for. -/
def BoundedRecv (recv : Nat → RecvResult) : Prop := ∀ n, (recv n).num_samps ≤ n

/-- One operation of the engine on the tuner state: a receive cycle, one hardware
transfer, enable, disable, or a retune through the control port. -/
inductive Step : State → State → Prop where
  | receiveCycle (st : State) (recv : Nat → Nat → RecvResult)
      (h : ∀ id, BoundedRecv (recv id)) : Step st (serviceFunctionReceive recv st).2
  | transfer (st : State) (id : Nat) (timeout : ℚ) (recv : Nat → RecvResult)
      (h : BoundedRecv recv) : Step st (usrpReceive id timeout recv st).2
  | enable (st : State) (id chan : Nat) : Step st (usrpEnable id chan st).2
  | disable (st : State) (id chan : Nat) : Step st (usrpDisable id chan st).2
  | setEnable (st : State) (allocation_id : String) (enable : Bool) :
      Step st (setTunerEnable allocation_id enable st).2
  | setCenterFrequency (st : State) (allocation_id : String) (freq : ℚ) :
      Step st (setTunerCenterFrequency allocation_id freq st).2
  | setBandwidth (st : State) (allocation_id : String) (bw : ℚ) :
      Step st (setTunerBandwidth allocation_id bw st).2
  | setOutputSampleRate (st : State) (fuel : Nat) (allocation_id : String) (sr : ℚ) :
      Step st (setTunerOutputSampleRate fuel allocation_id sr st).2

/-- The states the engine reaches from `s0` by such operations. -/
inductive Reachable (s0 : State) : State → Prop where
  | start : Reachable s0 s0
  | step {s s' : State} : Reachable s0 s → Step s s' → Reachable s0 s'

/-- `m` keeps the invariant `I`, and every exception it ends with satisfies `C`. -/
def Keeps (I : State → Prop) (C : Error → Prop) {α : Type} (m : Call α) : Prop :=
  ∀ st, I st → I (m st).2 ∧ ∀ e, (m st).1 = Except.error e → C e

/-- All `m` does to the trace is to append events that satisfy `A`. -/
def Emits (A : Event → Prop) {α : Type} (m : Call α) : Prop :=
  ∀ st, ∃ evs, (m st).2.trace = st.trace ++ evs ∧ ∀ e ∈ evs, A e

/-- An invariant that looks at the tuners' buffers only through capacity and fill
length, and that survives the emptying of a buffer. -/
def BufferFrame (I : State → Prop) : Prop :=
  ∀ s s' : State,
    (∀ j, (s'.usrp_tuners j).buffer_capacity = (s.usrp_tuners j).buffer_capacity ∧
      ((s'.usrp_tuners j).buffer_size = (s.usrp_tuners j).buffer_size ∨
        (s'.usrp_tuners j).buffer_size = 0)) →
    I s → I s'

/-- The receive loop services tuner `id`: it is a receive tuner, allocated and enabled. -/
def Serviced (st : State) (id : Nat) : Prop :=
  (st.frontend_tuner_status id).tuner_type = TunerType.RX_DIGITIZER ∧
    getControlAllocationId st id ≠ "" ∧ (st.frontend_tuner_status id).enabled = true

/-- Tuner `id` is disabled in `fin`, its buffer is empty and as long as its capacity,
and its three timestamps are zeroed. -/
def DisabledAndReset (fin : State) (id : Nat) : Prop :=
  (fin.frontend_tuner_status id).enabled = false ∧
  (fin.usrp_tuners id).buffer_size = 0 ∧
  (fin.usrp_tuners id).output_buffer.length = (fin.usrp_tuners id).buffer_capacity ∧
  (fin.usrp_tuners id).output_buffer_time = zeroTime ∧
  (fin.usrp_tuners id).time_up = zeroTime ∧
  (fin.usrp_tuners id).time_down = zeroTime

/-- What disabling the enabled receive tuner `id` of `st` on channel `chan` leaves in
`fin`, after the events `pre`: the stop command, one SRI push with mode 1, exactly
one data packet with end-of-stream that carries the filled part of the buffer under
the stream id of that SRI, and a tuner that is disabled and reset. -/
def FlushedAndDisabled (st fin : State) (id chan : Nat) (pre : List Event) : Prop :=
  ∃ sri : StreamSRI,
    fin.trace = st.trace ++ pre ++
      [Event.issue_stream_cmd StreamMode.STOP_CONTINUOUS chan, Event.pushSRI sri,
        Event.pushPacket ((st.usrp_tuners id).output_buffer.take (st.usrp_tuners id).buffer_size)
          (st.usrp_tuners id).output_buffer_time true sri.streamID] ∧
    sri.mode = 1 ∧ DisabledAndReset fin id

/-- What disabling the already disabled receive tuner `id` leaves in `fin`, after the
events `pre`: the stop command and nothing else, the tuner disabled, its timestamps
zeroed. -/
def StoppedQuietly (st fin : State) (id chan : Nat) (pre : List Event) : Prop :=
  fin.trace = st.trace ++ pre ++ [Event.issue_stream_cmd StreamMode.STOP_CONTINUOUS chan] ∧
  (fin.frontend_tuner_status id).enabled = false ∧
  (fin.usrp_tuners id).output_buffer_time = zeroTime ∧
  (fin.usrp_tuners id).time_up = zeroTime ∧
  (fin.usrp_tuners id).time_down = zeroTime

/-- What enabling the receive tuner `id` of `st` on channel `chan` leaves in `fin`,
after the events `pre`: exactly one start command for `chan`, before it exactly one
SRI push with mode 1 if the tuner was disabled (the refresh flag is then cleared)
and no SRI push if it was enabled, and the tuner enabled. -/
def EnabledAndStarted (st fin : State) (id chan : Nat) (pre : List Event) : Prop :=
  (fin.frontend_tuner_status id).enabled = true ∧
  ((st.frontend_tuner_status id).enabled = false →
    (fin.usrp_tuners id).update_sri = false ∧
    ∃ sri : StreamSRI, sri.mode = 1 ∧
      fin.trace = st.trace ++ pre ++
        [Event.pushSRI sri, Event.issue_stream_cmd StreamMode.START_CONTINUOUS chan]) ∧
  ((st.frontend_tuner_status id).enabled = true →
    fin.trace = st.trace ++ pre ++ [Event.issue_stream_cmd StreamMode.START_CONTINUOUS chan])

/-- The events `interrupt` adds: requests to interrupt a service thread. -/
def InterruptsOnly (pre : List Event) : Prop :=
  ∀ e ∈ pre, ∃ t, e = Event.interrupt t

/-! ## Example device -/

/-- Ranges of the example channels: frequency 70 to 6000, bandwidth and rate 1 to 39. -/
def rgA : usrp_range_struct := exampleRanges 70 6000 1 39 1 39

/-- A receive channel with a master clock of 100 and the ranges `rgA`. -/
def chA : usrp_channel_struct := channelOf 0 TunerType.RX_DIGITIZER 100 rgA

/-- A radio with one receive and one transmit channel that settles on every value
it is asked for. -/
def hwA : Hardware where
  rx_freq := fun _ => 2400
  tx_freq := fun _ => 2400
  rx_bandwidth := fun _ => 1
  tx_bandwidth := fun _ => 1
  rx_rate := fun _ => 2
  tx_rate := fun _ => 2
  rx_gain := fun _ => 0
  tx_gain := fun _ => 0
  tune_freq := fun f => f
  tune_bandwidth := fun b => b
  tune_rate := fun r => r
  rx_num_channels := 1
  tx_num_channels := 1
  rx_subdev_unknown := fun _ => false
  tx_subdev_unknown := fun _ => false
  rx_clock_min := fun _ => 100
  rx_clock_max := fun _ => 100
  tx_clock_min := fun _ => 100
  tx_clock_max := fun _ => 100
  rx_ranges := fun _ => rgA
  tx_ranges := fun _ => rgA

/-- The status entry of the example tuners. -/
def statusA (ty : TunerType) (enabled : Bool) : frontend_tuner_status_struct where
  tuner_type := ty
  allocation_id_csv := "alloc0"
  center_frequency := 2400
  bandwidth := 1
  sample_rate := 2
  gain := 0
  reference_source := 0
  group_id := "USRP_GROUP_ID_NOT_SET"
  rf_flow_id := "USRP_RX_FLOW_ID_NOT_SET"
  enabled := enabled
  bandwidth_tolerance := 0
  sample_rate_tolerance := 0

/-- The runtime entry of the example tuners: a buffer of four shorts holding `fill`. -/
def tunerA (fill : Nat) : usrp_tuner_struct where
  output_buffer := [11, 12, 13, 14]
  buffer_capacity := 4
  buffer_size := fill
  update_sri := false
  stream_id := "stream0"
  output_buffer_time := ⟨5, 0⟩
  time_up := ⟨3, 0⟩
  time_down := ⟨5, 0⟩

/-- The example device: tuner 0 is a receive tuner controlled by `"alloc0"` (with
`"listener0"` attached to it), tuner 1 a transmit tuner that is not allocated.
Tuner 0 is enabled or not, and its buffer holds `fill` shorts. -/
def stA (enabled : Bool) (fill : Nat) : State where
  usrp_device_ptr := some hwA
  num_tuners := 2
  frontend_tuner_status := fun i =>
    if i = 0 then statusA TunerType.RX_DIGITIZER enabled else statusA TunerType.TX false
  usrp_tuners := fun i => if i = 0 then tunerA fill else tunerA 0
  device_channels := fun i =>
    if i = 0 then chA else channelOf 0 TunerType.TX 100 rgA
  usrp_ranges := fun _ => rgA
  control_allocation_id := fun i => if i = 0 then "alloc0" else ""
  allocation_id_to_tuner_id := [("alloc0", 0), ("listener0", 0)]
  tx_rfinfo_pkt := ⟨"USRP_TX_FLOW_ID_NOT_SET", 0, 0, 0⟩
  receive_service_thread := false
  transmit_service_thread := false
  receive_interrupt_requested := false
  transmit_interrupt_requested := false
  uuids := fun _ => "uuid"
  uuid_count := 0
  receive_timeout := 1
  trace := []

/-- A transfer that hands back exactly the samples asked for, all equal to 7. -/
def recvA (n : Nat) : RecvResult where
  num_samps := n
  samples := List.replicate (2 * n) 7
  error_code := rx_error_code.ERROR_CODE_NONE
  real_secs := 9
  frac_secs := 0

/-! ## Notions used by the theorems on streams, transmission, start and stop -/

/-- `m` takes every state to a state that `R` relates to it, however it ends. -/
def Relates (R : State → State → Prop) {α : Type} (m : Call α) : Prop :=
  ∀ st, R st (m st).2

/-- From `s` to `s'` the number of tuners stays, and so does every stream id that
is set in `s`. -/
def KeepsStreamIds (s s' : State) : Prop :=
  s'.num_tuners = s.num_tuners ∧
    ∀ j, (s.usrp_tuners j).stream_id ≠ "" →
      (s'.usrp_tuners j).stream_id = (s.usrp_tuners j).stream_id

/-- One operation on a running stream: a lookup of the stream id, a receive cycle,
enable, disable, or a retune through the control port. -/
inductive StreamStep : State → State → Prop where
  | lookup (st : State) (id : Nat) : StreamStep st (getStreamId id st).2
  | receiveCycle (st : State) (recv : Nat → Nat → RecvResult) :
      StreamStep st (serviceFunctionReceive recv st).2
  | enable (st : State) (id chan : Nat) : StreamStep st (usrpEnable id chan st).2
  | disable (st : State) (id chan : Nat) : StreamStep st (usrpDisable id chan st).2
  | setCenterFrequency (st : State) (allocation_id : String) (freq : ℚ) :
      StreamStep st (setTunerCenterFrequency allocation_id freq st).2
  | setBandwidth (st : State) (allocation_id : String) (bw : ℚ) :
      StreamStep st (setTunerBandwidth allocation_id bw st).2
  | setOutputSampleRate (st : State) (fuel : Nat) (allocation_id : String) (sr : ℚ) :
      StreamStep st (setTunerOutputSampleRate fuel allocation_id sr st).2

/-- The transmit loop services tuner `id`: it is a transmit tuner, allocated and
enabled. -/
def Transmitting (st : State) (id : Nat) : Prop :=
  (st.frontend_tuner_status id).tuner_type = TunerType.TX ∧
    getControlAllocationId st id ≠ "" ∧ (st.frontend_tuner_status id).enabled = true

/-- The packet a pull from `port` yields in `st`, if any. -/
def available (st : State) (port : TxPort) : Option Packet :=
  if st.tx_blocked port then none else (st.tx_queue port).head?

/-- The queue of `port` after one pull in `st`. -/
def afterPull (st : State) (port : TxPort) : List Packet :=
  if st.tx_blocked port then st.tx_queue port else (st.tx_queue port).tail

/-- A pull from `port` yields a complex packet in `st`. -/
def ComplexAvailable (st : State) (port : TxPort) : Prop :=
  ∃ packet, available st port = some packet ∧ packet.SRI_mode = 1

/-- The hardware transfers among the events `evs` are made for tuner `id`. -/
def TransfersFor (id : Nat) (evs : List Event) : Prop :=
  (∀ j n, Event.recv j n ∈ evs → j = id) ∧ (∀ j p n, Event.send j p n ∈ evs → j = id)

/-- From `s` to `s'` the status and allocation tables stay, the runtime entries of
all tuners but `id` stay, and the hardware transfers added are made for `id`. -/
def Touches (id : Nat) (s s' : State) : Prop :=
  s'.frontend_tuner_status = s.frontend_tuner_status ∧
  s'.control_allocation_id = s.control_allocation_id ∧
  (∀ j, j ≠ id → s'.usrp_tuners j = s.usrp_tuners j) ∧
  ∃ evs, s'.trace = s.trace ++ evs ∧ TransfersFor id evs

/-- From `s` to `s'` the status and allocation tables stay, the runtime entries of
the tuners outside `S s` stay, and the hardware transfers added are made for tuners
in `S s`. -/
def ServicesOnly (S : State → Nat → Prop) (s s' : State) : Prop :=
  s'.frontend_tuner_status = s.frontend_tuner_status ∧
  s'.control_allocation_id = s.control_allocation_id ∧
  (∀ j, ¬ S s j → s'.usrp_tuners j = s.usrp_tuners j) ∧
  ∃ evs, s'.trace = s.trace ++ evs ∧
    (∀ j n, Event.recv j n ∈ evs → S s j) ∧ (∀ j p n, Event.send j p n ∈ evs → S s j)

/-- A runtime entry with its three timestamps zeroed. -/
def zeroTimes (t : usrp_tuner_struct) : usrp_tuner_struct :=
  { t with output_buffer_time := zeroTime, time_up := zeroTime, time_down := zeroTime }

/-- The stop commands `stop()` issues over the tuners `ids` of `st`: one for each
tuner that is not a transmit tuner, on the channel of the tuner, in order. -/
def stopCommands (st : State) (ids : List Nat) : List Event :=
  (ids.filter (fun j => decide ((st.frontend_tuner_status j).tuner_type ≠ TunerType.TX))).map
    (fun j => Event.issue_stream_cmd StreamMode.STOP_CONTINUOUS (st.device_channels j).chan_num)

/-- The service threads `start()` creates in `st`: those that do not exist yet. -/
def threadsCreated (st : State) : List Event :=
  (if st.receive_service_thread then [] else [Event.thread_start ServiceThread.receive]) ++
    (if st.transmit_service_thread then [] else [Event.thread_start ServiceThread.transmit])

/-- The state `stop()` is in before its loop over the tuners, when every service thread
that existed ended in time: the threads are gone, the port `dataShortTX_in` is blocked
if there was a thread, and the releases are on the trace. -/
def released (st : State) : State :=
  { st with
    tx_blocked :=
      if st.receive_service_thread = true ∨ st.transmit_service_thread = true then
        Function.update st.tx_blocked TxPort.dataShortTX_in true
      else st.tx_blocked
    receive_service_thread := false
    transmit_service_thread := false
    trace := st.trace ++
      (if st.receive_service_thread then [Event.thread_release ServiceThread.receive] else []) ++
      (if st.transmit_service_thread then [Event.thread_release ServiceThread.transmit] else []) }

/-! ## Example device with a transmit tuner -/

/-- A packet of four samples with the SRI mode `mode`. -/
def packetA (mode : Int) : Packet where
  dataBuffer := [1, 2, 3, 4]
  SRI_mode := mode
  EOS := false
  inputQueueFlushed := false

/-- The example device with tuner 1, the transmit tuner, allocated to `"alloc1"` and
enabled, and with the given packets waiting in the two inbound ports. -/
def stT (shortQ floatQ : List Packet) : State :=
  { stA false 0 with
    frontend_tuner_status := fun i =>
      if i = 0 then statusA TunerType.RX_DIGITIZER false else statusA TunerType.TX true
    control_allocation_id := fun i => if i = 0 then "alloc0" else "alloc1"
    allocation_id_to_tuner_id := [("alloc0", 0), ("alloc1", 1)]
    tx_queue := fun port =>
      match port with
      | TxPort.dataShortTX_in => shortQ
      | TxPort.dataFloatTX_in => floatQ }

/-- A hardware that takes every sample it is handed. -/
def sendA (_tuner_id n : Nat) : Nat := n

/-! ## Operations the device does not support -/

/-- The exception of the four operations that are not supported for a single tuner. -/
def notSupported : Error := ⟨ExceptionClass.NotSupportedException, Reason.not_supported⟩

/-- `USRP_UHD_i::setTunerAgcEnable(allocation_id, enable)`: a log line and the
exception. -/
def setTunerAgcEnable (_allocation_id : String) (_enable : Bool) : Call Unit :=
  throwExc notSupported

/-- `USRP_UHD_i::getTunerAgcEnable(allocation_id)`. -/
def getTunerAgcEnable (_allocation_id : String) : Call Bool :=
  throwExc notSupported

/-- `USRP_UHD_i::setTunerGain(allocation_id, gain)`. -/
def setTunerGain (_allocation_id : String) (_gain : ℚ) : Call Unit :=
  throwExc notSupported

/-- `USRP_UHD_i::setTunerReferenceSource(allocation_id, source)`. -/
def setTunerReferenceSource (_allocation_id : String) (_source : Int) : Call Unit :=
  throwExc notSupported

/-! ## Tuning on allocation -/

/-- The fields of `frontend::frontend_tuner_allocation_struct` (frontend library) that
`deviceSetTuning` reads. -/
structure frontend_tuner_allocation_struct where
  allocation_id : String
  center_frequency : ℚ
  bandwidth : ℚ
  sample_rate : ℚ
  bandwidth_tolerance : ℚ
  sample_rate_tolerance : ℚ

/-- Modelled from the spec: `matchAllocationIdToStreamId` belongs to the frontend base
class and is not among the sources. It enters the allocation id and the stream id in
the connection table of the named output port; the call is recorded on the trace. -/
def matchAllocationIdToStreamId (allocation_id stream_id port_name : String) : Call Unit :=
  emit (Event.matchAllocationIdToStreamId allocation_id stream_id port_name)

/-- `USRP_UHD_i::deviceSetTuning(request, fts, tuner_id)`; `fuel` bounds the search
loop of `optimizeRate`. The parameter `fts` is not used by the body, which writes
`frontend_tuner_status[tuner_id]` itself. -/
def deviceSetTuning (fuel : Nat) (request : frontend_tuner_allocation_struct) (tuner_id : Nat) :
    Call Bool := do
  let st ← getState
  if compareHz request.center_frequency (st.device_channels tuner_id).freq_min < 0 ∨
      compareHz request.center_frequency (st.device_channels tuner_id).freq_max > 0 then
    throwExc ⟨ExceptionClass.BadParameterException, Reason.invalid_center_frequency⟩
  else if compareHz request.bandwidth 0 < 0 ∨
      compareHz request.bandwidth (st.device_channels tuner_id).bandwidth_max > 0 then
    throwExc ⟨ExceptionClass.BadParameterException, Reason.invalid_bandwidth⟩
  else if compareHz request.sample_rate 0 < 0 ∨
      compareHz request.sample_rate (st.device_channels tuner_id).rate_max > 0 then
    throwExc ⟨ExceptionClass.BadParameterException, Reason.invalid_sample_rate⟩
  else
    match optimizeRate fuel (st.device_channels tuner_id) (st.usrp_ranges tuner_id)
        request.sample_rate with
    | none => throwExc ⟨ExceptionClass.out_of_fuel, Reason.loop_fuel⟩
    | some opt_sr =>
      let opt_bw :=
        optimizeBandwidth (st.device_channels tuner_id) (st.usrp_ranges tuner_id) request.bandwidth
      let usrp_channel_number := (st.device_channels tuner_id).chan_num
      match (st.frontend_tuner_status tuner_id).tuner_type with
      | TunerType.RX_DIGITIZER =>
        interrupt tuner_id
        hw_set_rx_freq request.center_frequency usrp_channel_number
        hw_set_rx_bandwidth opt_bw usrp_channel_number
        hw_set_rx_rate opt_sr usrp_channel_number
        let freq ← hw_get_rx_freq usrp_channel_number
        setStatus tuner_id (fun s => { s with center_frequency := freq })
        let bw ← hw_get_rx_bandwidth usrp_channel_number
        setStatus tuner_id (fun s => { s with bandwidth := bw })
        let rate ← hw_get_rx_rate usrp_channel_number
        setStatus tuner_id (fun s => { s with sample_rate := rate })
        setStatus tuner_id (fun s => { s with bandwidth_tolerance := request.bandwidth_tolerance })
        setStatus tuner_id (fun s => { s with
          sample_rate_tolerance := request.sample_rate_tolerance })
        let stream_id ← getStreamId tuner_id
        matchAllocationIdToStreamId request.allocation_id stream_id "dataShort_out"
        setTuner tuner_id (fun t => { t with update_sri := true })
        updateDeviceInfo
        pure true
      | TunerType.TX =>
        interrupt tuner_id
        hw_set_tx_freq request.center_frequency usrp_channel_number
        hw_set_tx_bandwidth request.bandwidth usrp_channel_number
        hw_set_tx_rate opt_sr usrp_channel_number
        let freq ← hw_get_tx_freq usrp_channel_number
        setStatus tuner_id (fun s => { s with center_frequency := freq })
        let bw ← hw_get_tx_bandwidth usrp_channel_number
        setStatus tuner_id (fun s => { s with bandwidth := bw })
        let rate ← hw_get_tx_rate usrp_channel_number
        setStatus tuner_id (fun s => { s with sample_rate := rate })
        setStatus tuner_id (fun s => { s with bandwidth_tolerance := request.bandwidth_tolerance })
        setStatus tuner_id (fun s => { s with
          sample_rate_tolerance := request.sample_rate_tolerance })
        updateDeviceInfo
        pure true
      | TunerType.UNKNOWN => throwExc invalidTunerType

/-! ## Notions used by the theorems on the search and on transfers -/

/-- The integers `d, d - 1, …`, `n` of them. -/
def countDown (d : Int) : Nat → List Int
  | 0 => []
  | n + 1 => d :: countDown (d - 1) n

/-- The decimation factors `d0, d0 - 1, …, dmin` in that order; none when `d0 < dmin`. -/
def decimations (d0 dmin : Int) : List Int := countDown d0 (d0 + 1 - dmin).toNat

/-- The double `x / d` for an integer `d`; for `d = 0` it is the quotient `x / 0.0`,
an infinity or NaN. -/
def quotient (x : ℚ) (d : Int) : Dbl := if d = 0 then ddiv x 0 else Dbl.fin (x / (d : ℚ))

/-- The clipped rate `clip(clock_max / d)` of the first decimation factor `d` in `ds`
whose clipped rate is `>= r`, and `r` itself when no `d` in `ds` qualifies. -/
def firstQualifying (ch : usrp_channel_struct) (rg : usrp_range_struct) (r : ℚ) :
    List Int → ℚ
  | [] => r
  | d :: ds =>
    if r ≤ rg.sample_rate.clip (quotient ch.clock_max d) then
      rg.sample_rate.clip (quotient ch.clock_max d)
    else firstQualifying ch rg r ds

/-- The reference search of the rate optimizer, in the words of the specification and
over the integers: for `r <= 0` the clipped minimum rate; for `r > 0`, with
`d0 = round(clock_max / r)` and `dmin = round(clock_max / rate_max)`, the clipped rate
of the first `d` in the order `d0, d0 - 1, …, dmin` whose clipped rate is `>= r`, and
`r` itself when no `d` in that range qualifies. -/
def referenceRate (ch : usrp_channel_struct) (rg : usrp_range_struct) (r : ℚ) : ℚ :=
  if r ≤ 0 then rg.sample_rate.clip (Dbl.fin ch.rate_min)
  else
    firstQualifying ch rg r
      (decimations (cround (ch.clock_max / r)) (cround (ch.clock_max / ch.rate_max)))

/-- The loop of `optimizeRate` (`rateSearch`, statement by statement) that also
hands back the values the counter `dec` has when a candidate is evaluated, in
order. -/
def rateSearchTraced (ch : usrp_channel_struct) (rg : usrp_range_struct) (req_rate : ℚ)
    (min_dec : Nat) : Nat → Nat → Option (ℚ × List Nat)
  | 0, _ => none
  | fuel + 1, dec =>
    if min_dec ≤ dec then
      let opt_rate := ddiv ch.clock_max dec
      let usrp_rate := rg.sample_rate.clip opt_rate
      if 0 ≤ compareHz usrp_rate req_rate then some (usrp_rate, [dec])
      else
        (rateSearchTraced ch rg req_rate min_dec fuel (decr dec)).map
          (fun p => (p.1, dec :: p.2))
    else some (req_rate, [])

/-- The function `optimizeRate`, statement by statement, that also hands back the
values of `dec` for which a candidate is evaluated, in order: the starting value, then
those of the loop. -/
def optimizeRateTraced (fuel : Nat) (ch : usrp_channel_struct) (rg : usrp_range_struct)
    (req_rate : ℚ) : Option (ℚ × List Nat) :=
  if compareHz req_rate 0 ≤ 0 then
    some (rg.sample_rate.clip (Dbl.fin ch.rate_min), [])
  else
    let dec := roundToSize (ch.clock_max / req_rate)
    let opt_rate := ddiv ch.clock_max dec
    let usrp_rate := rg.sample_rate.clip opt_rate
    if 0 ≤ compareHz usrp_rate req_rate then some (usrp_rate, [dec])
    else
      let min_dec := roundToSize (ch.clock_max / ch.rate_max)
      (rateSearchTraced ch rg req_rate min_dec fuel (decr dec)).map
        (fun p => (p.1, dec :: p.2))

/-- The sample count `usrpReceive` asks the hardware for (`samps_to_rx`). -/
def requested (st : State) (tuner_id : Nat) (timeout : ℚ) : Nat :=
  min (truncToSize (timeout * (st.frontend_tuner_status tuner_id).sample_rate))
    (sizeSub (st.usrp_tuners tuner_id).buffer_capacity (st.usrp_tuners tuner_id).buffer_size / 2)

/-- The transfer `r` stamps the buffer of a tuner that held `fill` shorts: it is free
of errors, brings samples, and these are the first in the buffer. -/
def Stamps (r : RecvResult) (fill : Nat) : Prop :=
  r.error_code = rx_error_code.ERROR_CODE_NONE ∧ r.num_samps ≠ 0 ∧ fill = 0

/-- The capture time the hardware reports with the transfer `r`. -/
def captureTime (r : RecvResult) : PrecisionUTCTime := ⟨r.real_secs, r.frac_secs⟩

/-- The runtime entry `t` with the samples of the transfer `r` written behind its fill
length and counted. -/
def withSamples (t : usrp_tuner_struct) (r : RecvResult) : usrp_tuner_struct :=
  { t with
    output_buffer := writeSamples t.output_buffer t.buffer_size r.samples (2 * r.num_samps)
    buffer_size := sizeAdd t.buffer_size (sizeMul r.num_samps 2) }

/-- The runtime entry `t` with the three times the transfer `r` stamps. -/
def withStamp (t : usrp_tuner_struct) (r : RecvResult) : usrp_tuner_struct :=
  { t with
    output_buffer_time := captureTime r
    time_up := if t.time_up.twsec ≤ 0 then captureTime r else t.time_up
    time_down := captureTime r }

/-! ## Example channel, request and transfers for the later theorems -/

/-- Ranges whose sample rates reach from 1 to 4. -/
def rgW : usrp_range_struct := exampleRanges 70 6000 1 39 1 4

/-- A receive channel with a clock of 1, below its rates, and the ranges `rgW`. -/
def chW : usrp_channel_struct := channelOf 0 TunerType.RX_DIGITIZER 1 rgW

/-- A tuning request for frequency 2400, the bandwidth `bw` and the rate 25. -/
def requestA (bw : ℚ) : frontend_tuner_allocation_struct where
  allocation_id := "alloc1"
  center_frequency := 2400
  bandwidth := bw
  sample_rate := 25
  bandwidth_tolerance := 20
  sample_rate_tolerance := 20

/-- A transfer that ends with the error code `code` at the time `secs` and hands back
at most `count` samples, never more than asked for. -/
def recvUpTo (code : rx_error_code) (count : Nat) (secs : ℚ) (n : Nat) : RecvResult where
  num_samps := min n count
  samples := List.replicate (2 * min n count) 7
  error_code := code
  real_secs := secs
  frac_secs := 0

/-! ## Locks

The mutexes of the device and the operations with their `exclusive_lock` scopes. An
`exclusive_lock` object acquires its mutex where it is declared and releases it at the
end of the enclosing block, also when the block is left by an exception. -/

/-- The mutexes: `prop_lock`, the lock of a tuner (`usrp_tuners[tuner_id].lock`), and
the two locks that guard the service thread pointers. -/
inductive Lock where
  | prop_lock
  | tuner_lock (tuner_id : Nat)
  | receive_service_thread_lock
  | transmit_service_thread_lock
  deriving DecidableEq

/-- What an `exclusive_lock` object does to its mutex: the constructor acquires it, the
destructor releases it. -/
inductive LockEvent where
  | acquire (lock : Lock)
  | release (lock : Lock)
  deriving DecidableEq

/-- A member function with its locks: what the function does, and the lock events of
the run in program order. -/
def Locking (α : Type) : Type := State → (Except Error α × State) × List LockEvent

instance : Monad Locking where
  pure a := fun st => ((Except.ok a, st), [])
  bind m f := fun st =>
    match (m st).1 with
    | (Except.ok a, st1) => ((f a st1).1, (m st).2 ++ (f a st1).2)
    | (Except.error e, st1) => ((Except.error e, st1), (m st).2)

/-- Statements that take no lock. -/
def unlocked {α : Type} (m : Call α) : Locking α := fun st => (m st, [])

/-- The block `{ exclusive_lock lock(l); body }`: the mutex is acquired, the body runs,
and the mutex is released when the block is left, normally or by an exception. -/
def withLock {α : Type} (l : Lock) (body : Locking α) : Locking α := fun st =>
  ((body st).1, LockEvent.acquire l :: (body st).2 ++ [LockEvent.release l])

/-- The function without its lock events. -/
def erase {α : Type} (m : Locking α) : Call α := fun st => (m st).1

/-- Whether a mutex is the lock of a tuner. -/
def isTunerLock : Lock → Bool
  | Lock.tuner_lock _ => true
  | _ => false

/-- The locks held after the lock events `log` when the locks `held` were held before
it; `none` when the log acquires a lock `l` while it holds locks `held` with
`bad l held`. A release drops the lock from the held ones. -/
def heldAfter (bad : Lock → List Lock → Bool) : List Lock → List LockEvent → Option (List Lock)
  | held, [] => some held
  | held, LockEvent.acquire l :: rest =>
    if bad l held then none else heldAfter bad (l :: held) rest
  | held, LockEvent.release l :: rest => heldAfter bad (held.erase l) rest

/-- The acquisition the ordering rule forbids: `prop_lock` while a tuner lock is
held. -/
def propUnderTuner (l : Lock) (held : List Lock) : Bool :=
  decide (l = Lock.prop_lock) && held.any isTunerLock

/-- The acquisition of a tuner lock while `prop_lock` is held. -/
def tunerUnderProp (l : Lock) (held : List Lock) : Bool :=
  isTunerLock l && decide (Lock.prop_lock ∈ held)

/-! ### The operations with their locks -/

/-- `USRP_UHD_i::interrupt(tuner_id)` with the lock of the thread pointer. -/
def interrupt_locks (tuner_id : Nat) : Locking Unit := do
  let st ← unlocked getState
  match (st.frontend_tuner_status tuner_id).tuner_type with
  | TunerType.RX_DIGITIZER =>
    withLock Lock.receive_service_thread_lock (unlocked (
      if st.receive_service_thread then do
        modifyState (fun s => { s with receive_interrupt_requested := true })
        emit (Event.interrupt ServiceThread.receive)
      else pure ()))
  | TunerType.TX =>
    withLock Lock.transmit_service_thread_lock (unlocked (
      if st.transmit_service_thread then do
        modifyState (fun s => { s with transmit_interrupt_requested := true })
        emit (Event.interrupt ServiceThread.transmit)
      else pure ()))
  | TunerType.UNKNOWN => pure ()

/-- `USRP_UHD_i::setTunerCenterFrequency(allocation_id, freq)` with its locks:
`prop_lock` around the range check and the copy of the channel number, the tuner lock
around the hardware calls, `prop_lock` around `updateDeviceInfo`. -/
def setTunerCenterFrequency_locks (allocation_id : String) (freq : ℚ) : Locking Unit := do
  let st ← unlocked getState
  let idx := getTunerMapping st allocation_id
  if idx < 0 then unlocked (throwExc invalidAllocation)
  else if allocation_id ≠ getControlAllocationId st idx.toNat then
    unlocked (throwExc notAuthorized)
  else
    let usrp_channel_number ← withLock Lock.prop_lock (unlocked (
      if freq < (st.device_channels idx.toNat).freq_min ∨
          freq > (st.device_channels idx.toNat).freq_max then
        throwExc ⟨ExceptionClass.BadParameterException, Reason.invalid_center_frequency⟩
      else pure (st.device_channels idx.toNat).chan_num))
    match (st.frontend_tuner_status idx.toNat).tuner_type with
    | TunerType.RX_DIGITIZER =>
      interrupt_locks idx.toNat
      withLock (Lock.tuner_lock idx.toNat) (unlocked (do
        let st1 ← getState
        let is_tuner_enabled := (st1.frontend_tuner_status idx.toNat).enabled
        let current ← hw_get_rx_freq usrp_channel_number
        if current ≠ freq then
          let _ ← usrpDisable idx.toNat usrp_channel_number
        hw_set_rx_freq freq usrp_channel_number
        let actual ← hw_get_rx_freq usrp_channel_number
        setStatus idx.toNat (fun s => { s with center_frequency := actual })
        setTuner idx.toNat (fun t => { t with update_sri := true })
        if is_tuner_enabled then
          let _ ← usrpEnable idx.toNat usrp_channel_number))
      withLock Lock.prop_lock (unlocked updateDeviceInfo)
    | TunerType.TX =>
      interrupt_locks idx.toNat
      withLock (Lock.tuner_lock idx.toNat) (unlocked (do
        hw_set_tx_freq freq usrp_channel_number
        let actual ← hw_get_tx_freq usrp_channel_number
        setStatus idx.toNat (fun s => { s with center_frequency := actual })))
      withLock Lock.prop_lock (unlocked updateDeviceInfo)
    | TunerType.UNKNOWN => unlocked (throwExc invalidTunerType)

/-- `USRP_UHD_i::setTunerBandwidth(allocation_id, bw)` with its locks. -/
def setTunerBandwidth_locks (allocation_id : String) (bw : ℚ) : Locking Unit := do
  let st ← unlocked getState
  let idx := getTunerMapping st allocation_id
  if idx < 0 then unlocked (throwExc invalidAllocation)
  else if allocation_id ≠ getControlAllocationId st idx.toNat then
    unlocked (throwExc notAuthorized)
  else
    let r ← withLock Lock.prop_lock (unlocked (
      if compareHz bw 0 < 0 ∨
          compareHz bw (st.device_channels idx.toNat).bandwidth_max > 0 then
        throwExc ⟨ExceptionClass.BadParameterException, Reason.invalid_bandwidth⟩
      else
        pure (optimizeBandwidth (st.device_channels idx.toNat) (st.usrp_ranges idx.toNat) bw,
          (st.device_channels idx.toNat).chan_num)))
    let opt_bw : ℚ := r.1
    let usrp_channel_number : Nat := r.2
    match (st.frontend_tuner_status idx.toNat).tuner_type with
    | TunerType.RX_DIGITIZER =>
      interrupt_locks idx.toNat
      withLock (Lock.tuner_lock idx.toNat) (unlocked (do
        hw_set_rx_bandwidth opt_bw usrp_channel_number
        let actual ← hw_get_rx_bandwidth usrp_channel_number
        setStatus idx.toNat (fun s => { s with bandwidth := actual })
        setTuner idx.toNat (fun t => { t with update_sri := true })))
      withLock Lock.prop_lock (unlocked updateDeviceInfo)
    | TunerType.TX =>
      interrupt_locks idx.toNat
      withLock (Lock.tuner_lock idx.toNat) (unlocked (do
        hw_set_tx_bandwidth opt_bw usrp_channel_number
        let actual ← hw_get_tx_bandwidth usrp_channel_number
        setStatus idx.toNat (fun s => { s with bandwidth := actual })))
      withLock Lock.prop_lock (unlocked updateDeviceInfo)
    | TunerType.UNKNOWN => unlocked (throwExc invalidTunerType)

/-- `USRP_UHD_i::setTunerOutputSampleRate(allocation_id, sr)` with its locks; `fuel`
bounds the search loop of `optimizeRate`. -/
def setTunerOutputSampleRate_locks (fuel : Nat) (allocation_id : String) (sr : ℚ) :
    Locking Unit := do
  let st ← unlocked getState
  let idx := getTunerMapping st allocation_id
  if idx < 0 then unlocked (throwExc invalidAllocation)
  else if allocation_id ≠ getControlAllocationId st idx.toNat then
    unlocked (throwExc notAuthorized)
  else
    let r ← withLock Lock.prop_lock (unlocked (
      if compareHz sr 0 < 0 ∨ compareHz sr (st.device_channels idx.toNat).rate_max > 0 then
        throwExc ⟨ExceptionClass.BadParameterException, Reason.invalid_sample_rate⟩
      else
        match optimizeRate fuel (st.device_channels idx.toNat) (st.usrp_ranges idx.toNat)
            sr with
        | none => throwExc ⟨ExceptionClass.out_of_fuel, Reason.loop_fuel⟩
        | some opt_sr => pure (opt_sr, (st.device_channels idx.toNat).chan_num)))
    let opt_sr : ℚ := r.1
    let usrp_channel_number : Nat := r.2
    match (st.frontend_tuner_status idx.toNat).tuner_type with
    | TunerType.RX_DIGITIZER =>
      interrupt_locks idx.toNat
      withLock (Lock.tuner_lock idx.toNat) (unlocked (do
        hw_set_rx_rate opt_sr usrp_channel_number
        let actual ← hw_get_rx_rate usrp_channel_number
        setStatus idx.toNat (fun s => { s with sample_rate := actual })
        setTuner idx.toNat (fun t => { t with update_sri := true })))
      withLock Lock.prop_lock (unlocked updateDeviceInfo)
    | TunerType.TX =>
      interrupt_locks idx.toNat
      withLock (Lock.tuner_lock idx.toNat) (unlocked (do
        hw_set_tx_rate opt_sr usrp_channel_number
        let actual ← hw_get_tx_rate usrp_channel_number
        setStatus idx.toNat (fun s => { s with sample_rate := actual })))
      withLock Lock.prop_lock (unlocked updateDeviceInfo)
    | TunerType.UNKNOWN => unlocked (throwExc invalidTunerType)

/-- `USRP_UHD_i::setTunerEnable(allocation_id, enable)` with its locks: `prop_lock`
around the copy of the channel number, then the tuner lock to the end of the
function. -/
def setTunerEnable_locks (allocation_id : String) (enable : Bool) : Locking Unit := do
  let st ← unlocked getState
  let idx := getTunerMapping st allocation_id
  if idx < 0 then unlocked (throwExc invalidAllocation)
  else if allocation_id ≠ getControlAllocationId st idx.toNat then
    unlocked (throwExc notAuthorized)
  else
    let usrp_channel_number ←
      withLock Lock.prop_lock (pure (st.device_channels idx.toNat).chan_num)
    interrupt_locks idx.toNat
    withLock (Lock.tuner_lock idx.toNat) (unlocked (
      if enable then do
        let _ ← usrpEnable idx.toNat usrp_channel_number
      else do
        let _ ← usrpDisable idx.toNat usrp_channel_number))

/-- `USRP_UHD_i::deviceEnable(fts, tuner_id)` with its locks. -/
def deviceEnable_locks (tuner_id : Nat) : Locking Unit := do
  let st ← unlocked getState
  let usrp_channel_number ←
    withLock Lock.prop_lock (pure (st.device_channels tuner_id).chan_num)
  interrupt_locks tuner_id
  withLock (Lock.tuner_lock tuner_id) (unlocked (do
    let _ ← usrpEnable tuner_id usrp_channel_number
    pure ()))

/-- `USRP_UHD_i::deviceDisable(fts, tuner_id)` with its locks. -/
def deviceDisable_locks (tuner_id : Nat) : Locking Unit := do
  let st ← unlocked getState
  let usrp_channel_number ←
    withLock Lock.prop_lock (pure (st.device_channels tuner_id).chan_num)
  interrupt_locks tuner_id
  withLock (Lock.tuner_lock tuner_id) (unlocked (do
    let _ ← usrpDisable tuner_id usrp_channel_number
    pure ()))

/-- `USRP_UHD_i::deviceSetTuning(request, fts, tuner_id)` with its locks: the scope of
`prop_lock` around the three checks, the optimizers and the copy of the channel
number; the tuner lock inside the branch of the tuner type; `prop_lock` around
`updateDeviceInfo`. -/
def deviceSetTuning_locks (fuel : Nat) (request : frontend_tuner_allocation_struct)
    (tuner_id : Nat) : Locking Bool := do
  let st ← unlocked getState
  let r ← withLock Lock.prop_lock (unlocked (
    if compareHz request.center_frequency (st.device_channels tuner_id).freq_min < 0 ∨
        compareHz request.center_frequency (st.device_channels tuner_id).freq_max > 0 then
      throwExc ⟨ExceptionClass.BadParameterException, Reason.invalid_center_frequency⟩
    else if compareHz request.bandwidth 0 < 0 ∨
        compareHz request.bandwidth (st.device_channels tuner_id).bandwidth_max > 0 then
      throwExc ⟨ExceptionClass.BadParameterException, Reason.invalid_bandwidth⟩
    else if compareHz request.sample_rate 0 < 0 ∨
        compareHz request.sample_rate (st.device_channels tuner_id).rate_max > 0 then
      throwExc ⟨ExceptionClass.BadParameterException, Reason.invalid_sample_rate⟩
    else
      match optimizeRate fuel (st.device_channels tuner_id) (st.usrp_ranges tuner_id)
          request.sample_rate with
      | none => throwExc ⟨ExceptionClass.out_of_fuel, Reason.loop_fuel⟩
      | some opt_sr =>
        pure (opt_sr,
          optimizeBandwidth (st.device_channels tuner_id) (st.usrp_ranges tuner_id)
            request.bandwidth,
          (st.device_channels tuner_id).chan_num)))
  let opt_sr : ℚ := r.1
  let opt_bw : ℚ := r.2.1
  let usrp_channel_number : Nat := r.2.2
  match (st.frontend_tuner_status tuner_id).tuner_type with
  | TunerType.RX_DIGITIZER =>
    interrupt_locks tuner_id
    withLock (Lock.tuner_lock tuner_id) (unlocked (do
      hw_set_rx_freq request.center_frequency usrp_channel_number
      hw_set_rx_bandwidth opt_bw usrp_channel_number
      hw_set_rx_rate opt_sr usrp_channel_number
      let freq ← hw_get_rx_freq usrp_channel_number
      setStatus tuner_id (fun s => { s with center_frequency := freq })
      let bw ← hw_get_rx_bandwidth usrp_channel_number
      setStatus tuner_id (fun s => { s with bandwidth := bw })
      let rate ← hw_get_rx_rate usrp_channel_number
      setStatus tuner_id (fun s => { s with sample_rate := rate })
      setStatus tuner_id (fun s => { s with bandwidth_tolerance := request.bandwidth_tolerance })
      setStatus tuner_id (fun s => { s with
        sample_rate_tolerance := request.sample_rate_tolerance })
      let stream_id ← getStreamId tuner_id
      matchAllocationIdToStreamId request.allocation_id stream_id "dataShort_out"
      setTuner tuner_id (fun t => { t with update_sri := true })))
    withLock Lock.prop_lock (unlocked updateDeviceInfo)
    pure true
  | TunerType.TX =>
    interrupt_locks tuner_id
    withLock (Lock.tuner_lock tuner_id) (unlocked (do
      hw_set_tx_freq request.center_frequency usrp_channel_number
      hw_set_tx_bandwidth request.bandwidth usrp_channel_number
      hw_set_tx_rate opt_sr usrp_channel_number
      let freq ← hw_get_tx_freq usrp_channel_number
      setStatus tuner_id (fun s => { s with center_frequency := freq })
      let bw ← hw_get_tx_bandwidth usrp_channel_number
      setStatus tuner_id (fun s => { s with bandwidth := bw })
      let rate ← hw_get_tx_rate usrp_channel_number
      setStatus tuner_id (fun s => { s with sample_rate := rate })
      setStatus tuner_id (fun s => { s with bandwidth_tolerance := request.bandwidth_tolerance })
      setStatus tuner_id (fun s => { s with
        sample_rate_tolerance := request.sample_rate_tolerance })))
    withLock Lock.prop_lock (unlocked updateDeviceInfo)
    pure true
  | TunerType.UNKNOWN => unlocked (throwExc invalidTunerType)

/-- The body of the loop of `serviceFunctionReceive` for one tuner with its lock: the
tuner lock is taken after the first look at the allocation and held to the end of
the iteration. -/
def receiveTuner_locks (recv : Nat → Nat → RecvResult) (tuner_id : Nat) : Locking Bool := do
  let st ← unlocked getState
  if (st.frontend_tuner_status tuner_id).tuner_type ≠ TunerType.RX_DIGITIZER then
    pure false
  else if getControlAllocationId st tuner_id = "" then
    pure false
  else
    withLock (Lock.tuner_lock tuner_id) (unlocked (do
      let st0 ← getState
      if getControlAllocationId st0 tuner_id = "" then
        pure false
      else if !(st0.frontend_tuner_status tuner_id).enabled then
        pure false
      else
        let got ← usrpReceive tuner_id st0.receive_timeout (recv tuner_id)
        if !got then
          pure false
        else
          let st1 ← getState
          if (st1.usrp_tuners tuner_id).buffer_size <
              (st1.usrp_tuners tuner_id).buffer_capacity then
            pure true
          else
            pushBuffer tuner_id
            pure true))

/-- The `for` loop of `serviceFunctionReceive` with the locks of its iterations. -/
def receiveLoop_locks (recv : Nat → Nat → RecvResult) : List Nat → Bool → Locking Bool
  | [], rx_data => pure rx_data
  | tuner_id :: rest, rx_data => do
    let got ← receiveTuner_locks recv tuner_id
    receiveLoop_locks recv rest (rx_data || got)

/-- `USRP_UHD_i::serviceFunctionReceive()` with its locks. -/
def serviceFunctionReceive_locks (recv : Nat → Nat → RecvResult) : Locking ServiceResult := do
  let st ← unlocked getState
  if st.receive_interrupt_requested then
    unlocked (do
      modifyState (fun s => { s with receive_interrupt_requested := false })
      pure ServiceResult.NOOP)
  else if st.usrp_device_ptr.isNone then
    pure ServiceResult.NOOP
  else
    let rx_data ← receiveLoop_locks recv (List.range st.num_tuners) false
    if rx_data then pure ServiceResult.NORMAL else pure ServiceResult.NOOP

/-- The body of the loop of `transmitHelper` for one tuner with its lock. -/
def transmitTuner_locks (send : Nat → Nat → Nat) (port : TxPort) (packet : Packet)
    (tuner_id : Nat) : Locking Unit := do
  let st ← unlocked getState
  if (st.frontend_tuner_status tuner_id).tuner_type ≠ TunerType.TX then
    pure ()
  else if getControlAllocationId st tuner_id = "" then
    pure ()
  else
    withLock (Lock.tuner_lock tuner_id) (unlocked (do
      let st0 ← getState
      if getControlAllocationId st0 tuner_id = "" then
        pure ()
      else if !(st0.frontend_tuner_status tuner_id).enabled then
        pure ()
      else
        let _ ← usrpTransmit (send tuner_id) port tuner_id packet
        pure ()))

/-- The `for` loop of `transmitHelper` with the locks of its iterations. -/
def transmitLoop_locks (send : Nat → Nat → Nat) (port : TxPort) (packet : Packet) :
    List Nat → Locking Unit
  | [] => pure ()
  | tuner_id :: rest => do
    transmitTuner_locks send port packet tuner_id
    transmitLoop_locks send port packet rest

/-- `USRP_UHD_i::transmitHelper(dataIn)` for the port `port` with its locks. -/
def transmitHelper_locks (send : Nat → Nat → Nat) (port : TxPort) : Locking Bool := do
  let st ← unlocked getState
  if st.usrp_device_ptr.isNone then
    pure false
  else
    let got ← unlocked (getPacket port)
    match got with
    | none => pure false
    | some packet =>
      if packet.SRI_mode ≠ 1 then
        unlocked (do
          emit (Event.deletePacket port packet)
          pure false)
      else
        let st1 ← unlocked getState
        transmitLoop_locks send port packet (List.range st1.num_tuners)
        unlocked (do
          emit (Event.deletePacket port packet)
          pure true)

/-- `USRP_UHD_i::serviceFunctionTransmit()` with its locks. -/
def serviceFunctionTransmit_locks (send : Nat → Nat → Nat) : Locking ServiceResult := do
  let st ← unlocked getState
  if st.transmit_interrupt_requested then
    unlocked (do
      modifyState (fun s => { s with transmit_interrupt_requested := false })
      pure ServiceResult.NOOP)
  else
    let ret ← transmitHelper_locks send TxPort.dataShortTX_in
    let ret ← if ret then pure true else transmitHelper_locks send TxPort.dataFloatTX_in
    if ret then pure ServiceResult.NORMAL else pure ServiceResult.NOOP

/-! ### RF-info port and global properties -/

/-- The loop of `updateRfFlowId` over the tuner ids still to visit: for each tuner of
the given type the service thread is interrupted and the flow id is written under the
tuner lock. -/
def updateRfFlowIdLoop (tuner_type : TunerType) (rf_flow_id : String) : List Nat → Locking Unit
  | [] => pure ()
  | tuner_id :: rest => do
    let st ← unlocked getState
    if (st.frontend_tuner_status tuner_id).tuner_type = tuner_type then
      interrupt_locks tuner_id
      withLock (Lock.tuner_lock tuner_id) (unlocked (do
        setStatus tuner_id (fun s => { s with rf_flow_id := rf_flow_id })
        setTuner tuner_id (fun t => { t with update_sri := true })))
    updateRfFlowIdLoop tuner_type rf_flow_id rest

/-- `USRP_UHD_i::updateRfFlowId(tuner_type)`; its callers hold `prop_lock`. -/
def updateRfFlowId (tuner_type : TunerType) : Locking Unit := do
  let st ← unlocked getState
  match tuner_type with
  | TunerType.RX_DIGITIZER =>
    updateRfFlowIdLoop tuner_type st.rx_rfinfo_pkt.rf_flow_id (List.range st.num_tuners)
  | TunerType.TX =>
    updateRfFlowIdLoop tuner_type st.tx_rfinfo_pkt.rf_flow_id (List.range st.num_tuners)
  | TunerType.UNKNOWN => pure ()

/-- `USRP_UHD_i::set_rf_flow_id(port_name, id)`: `prop_lock` for the whole function. -/
def set_rf_flow_id (port_name : String) (id : String) : Locking Unit :=
  withLock Lock.prop_lock (
    if port_name = "RFInfo_in" then do
      unlocked (modifyState (fun s => { s with
        rx_rfinfo_pkt := { s.rx_rfinfo_pkt with rf_flow_id := id } }))
      updateRfFlowId TunerType.RX_DIGITIZER
    else if port_name = "RFInfoTX_out" then do
      unlocked (modifyState (fun s => { s with
        tx_rfinfo_pkt := { s.tx_rfinfo_pkt with rf_flow_id := id } }))
      updateRfFlowId TunerType.TX
    else pure ())

/-- `USRP_UHD_i::set_rfinfo_pkt(port_name, pkt)`: `prop_lock` for the whole function. -/
def set_rfinfo_pkt (port_name : String) (pkt : RFInfoPkt) : Locking Unit :=
  withLock Lock.prop_lock (
    if port_name = "RFInfo_in" then do
      unlocked (modifyState (fun s => { s with rx_rfinfo_pkt := pkt }))
      updateRfFlowId TunerType.RX_DIGITIZER
    else if port_name = "RFInfoTX_out" then do
      unlocked (modifyState (fun s => { s with tx_rfinfo_pkt := pkt }))
      updateRfFlowId TunerType.TX
    else pure ())

/-- The hardware call `set_rx_gain(gain, chan)`. -/
def hw_set_rx_gain (gain : ℚ) (chan : Nat) : Call Unit := do
  let hw ← device
  emit (Event.set_rx_gain gain chan)
  setDevice { hw with rx_gain := Function.update hw.rx_gain chan (hw.tune_gain gain) }

/-- The hardware call `get_rx_gain(chan)`. -/
def hw_get_rx_gain (chan : Nat) : Call ℚ := do
  let hw ← device
  emit (Event.get_rx_gain chan)
  pure (hw.rx_gain chan)

/-- The hardware call `set_clock_source(source, mboard)`. -/
def hw_set_clock_source (source : String) (mboard : Nat) : Call Unit := do
  let _ ← device
  emit (Event.set_clock_source source mboard)

/-- The hardware call `set_time_source(source, mboard)`. -/
def hw_set_time_source (source : String) (mboard : Nat) : Call Unit := do
  let _ ← device
  emit (Event.set_time_source source mboard)

/-- The loop of `updateDeviceGain` over the tuner ids still to visit. -/
def updateDeviceGainLoop : List Nat → Locking Unit
  | [] => pure ()
  | tuner_id :: rest => do
    let st ← unlocked getState
    if (st.frontend_tuner_status tuner_id).tuner_type = TunerType.RX_DIGITIZER then
      let usrp_channel_number := (st.device_channels tuner_id).chan_num
      interrupt_locks tuner_id
      withLock (Lock.tuner_lock tuner_id) (unlocked (do
        let st1 ← getState
        hw_set_rx_gain st1.device_gain_global usrp_channel_number
        let gain ← hw_get_rx_gain usrp_channel_number
        setStatus tuner_id (fun s => { s with gain := gain })))
    updateDeviceGainLoop rest

/-- `USRP_UHD_i::updateDeviceGain()`; its callers hold `prop_lock`. -/
def updateDeviceGain : Locking Unit := do
  let st ← unlocked getState
  if st.usrp_device_ptr.isNone then pure ()
  else updateDeviceGainLoop (List.range st.num_tuners)

/-- `USRP_UHD_i::deviceGainChanged(old_value, new_value)`: `prop_lock` for the whole
function; the branch that would revert the value is dead (`if (false)`). -/
def deviceGainChanged : Locking Unit :=
  withLock Lock.prop_lock updateDeviceGain

/-- The loop of `updateDeviceReferenceSource` over the tuner ids still to visit. -/
def updateDeviceReferenceSourceLoop (source_prop : Int) : List Nat → Locking Unit
  | [] => pure ()
  | tuner_id :: rest => do
    interrupt_locks tuner_id
    withLock (Lock.tuner_lock tuner_id) (unlocked (
      setStatus tuner_id (fun s => { s with reference_source := source_prop })))
    updateDeviceReferenceSourceLoop source_prop rest

/-- `USRP_UHD_i::updateDeviceReferenceSource()`; its callers hold `prop_lock`. -/
def updateDeviceReferenceSource : Locking Unit := do
  let st ← unlocked getState
  if st.usrp_device_ptr.isNone then pure ()
  else
    let source_prop : Int := if st.device_reference_source_global ≠ "INTERNAL" then 1 else 0
    updateDeviceReferenceSourceLoop source_prop (List.range st.num_tuners)
    unlocked (
      if st.device_reference_source_global = "MIMO" then do
        hw_set_clock_source "MIMO" 0
        hw_set_time_source "MIMO" 0
      else if st.device_reference_source_global = "EXTERNAL" then do
        hw_set_clock_source "external" 0
        hw_set_time_source "external" 0
      else if st.device_reference_source_global = "INTERNAL" then do
        hw_set_clock_source "internal" 0
        hw_set_time_source "external" 0
      else pure ())

/-- `USRP_UHD_i::deviceReferenceSourceChanged(old_value, new_value)`: `prop_lock` for
the whole function. -/
def deviceReferenceSourceChanged : Locking Unit :=
  withLock Lock.prop_lock updateDeviceReferenceSource

/-- The loop of `updateGroupId` over the tuner ids still to visit. -/
def updateGroupIdLoop : List Nat → Locking Unit
  | [] => pure ()
  | tuner_id :: rest => do
    interrupt_locks tuner_id
    withLock (Lock.tuner_lock tuner_id) (unlocked (do
      let st ← getState
      setStatus tuner_id (fun s => { s with group_id := st.device_group_id_global })))
    updateGroupIdLoop rest

/-- `USRP_UHD_i::updateGroupId()`; its callers hold `prop_lock`. -/
def updateGroupId : Locking Unit := do
  let st ← unlocked getState
  updateGroupIdLoop (List.range st.num_tuners)

/-- `USRP_UHD_i::deviceGroupIdChanged(old_value, new_value)`: `prop_lock` for the whole
function. -/
def deviceGroupIdChanged : Locking Unit :=
  withLock Lock.prop_lock updateGroupId

/-! ### Notions for the ordering rule -/

/-- Every run of `m` that starts while locks `held` with `C held` are held acquires no
lock that `bad` forbids at that moment and ends with the same locks held. -/
def Locks (bad : Lock → List Lock → Bool) (C : List Lock → Prop) {α : Type}
    (m : Locking α) : Prop :=
  ∀ st held, C held → heldAfter bad held (m st).2 = some held

/-- No tuner lock is among the held locks. -/
def NoTunerHeld (held : List Lock) : Prop := held.any isTunerLock = false

/-- The lock `prop_lock` is not among the held locks. -/
def PropNotHeld (held : List Lock) : Prop := Lock.prop_lock ∉ held

/-- Every run of `m` takes no lock at all, or it begins by acquiring `prop_lock` and
releasing it again before any other lock event. -/
def PropSectionFirst {α : Type} (m : Locking α) : Prop :=
  ∀ st, (m st).2 = [] ∨ ∃ rest, (m st).2 =
    LockEvent.acquire Lock.prop_lock :: LockEvent.release Lock.prop_lock :: rest

/-! # Theorems -/

/-! ## Arithmetic of the embedding -/

theorem SIZE_MOD_pos : 0 < SIZE_MOD := by unfold SIZE_MOD; positivity

theorem decr_pos {dec : Nat} (h1 : 1 ≤ dec) (h2 : dec < SIZE_MOD) : decr dec = dec - 1 := by
  unfold decr
  have h0 := SIZE_MOD_pos
  have h : dec + (SIZE_MOD - 1) = (dec - 1) + SIZE_MOD := by omega
  rw [h, Nat.add_mod_right]
  exact Nat.mod_eq_of_lt (by omega)

theorem roundToSize_lt (x : ℚ) : roundToSize x < SIZE_MOD := by
  unfold roundToSize toSizeT
  exact Nat.mod_lt _ SIZE_MOD_pos

theorem roundToSize_eq {x : ℚ} {n : Nat} (h0 : 0 ≤ x) (hn : n < SIZE_MOD)
    (h1 : (n : ℚ) ≤ x + 1 / 2) (h2 : x + 1 / 2 < n + 1) : roundToSize x = n := by
  unfold roundToSize toSizeT cround
  rw [if_pos h0]
  have h : ⌊x + 1 / 2⌋ = (n : Int) :=
    Int.floor_eq_iff.mpr ⟨by exact_mod_cast h1, by exact_mod_cast h2⟩
  rw [h, Int.toNat_ofNat]
  exact Nat.mod_eq_of_lt hn

theorem compareHz_nonneg_iff (a b : ℚ) : 0 ≤ compareHz a b ↔ b ≤ a := by
  unfold compareHz
  split_ifs with h1 h2
  · constructor
    · intro h; exact absurd h (by decide)
    · intro h; exact absurd h (not_le.mpr h1)
  · subst h2; simp
  · constructor
    · intro _; exact le_of_not_lt h1
    · intro _; decide

theorem compareHz_nonpos_iff (a b : ℚ) : compareHz a b ≤ 0 ↔ a ≤ b := by
  unfold compareHz
  split_ifs with h1 h2
  · constructor
    · intro _; exact le_of_lt h1
    · intro _; decide
  · subst h2; simp
  · constructor
    · intro h; exact absurd h (by decide)
    · intro h; exact absurd (lt_of_le_of_ne h h2) h1

/-! ## C1: optimizeRate meets the request -/

theorem rateSearch_visits (ch : usrp_channel_struct) (rg : usrp_range_struct) (r : ℚ)
    (min_dec : Nat) (hmin : 1 ≤ min_dec) :
    ∀ (dec fuel : Nat), dec < SIZE_MOD → dec + 1 ≤ fuel →
      ((∃ d, min_dec ≤ d ∧ d ≤ dec ∧ r ≤ candidateRate ch rg d) →
        ∃ d, min_dec ≤ d ∧ d ≤ dec ∧ r ≤ candidateRate ch rg d ∧
          rateSearch ch rg r min_dec fuel dec = some (candidateRate ch rg d)) ∧
      ((¬ ∃ d, min_dec ≤ d ∧ d ≤ dec ∧ r ≤ candidateRate ch rg d) →
        rateSearch ch rg r min_dec fuel dec = some r) := by
  intro dec
  induction dec with
  | zero =>
    intro fuel _ hf
    obtain ⟨f, rfl⟩ : ∃ f, fuel = f + 1 := ⟨fuel - 1, by omega⟩
    have hno : ¬ min_dec ≤ 0 := by omega
    constructor
    · rintro ⟨d, h1, h2, _⟩
      omega
    · intro _
      simp [rateSearch, hno]
  | succ n ih =>
    intro fuel hlt hf
    obtain ⟨f, rfl⟩ : ∃ f, fuel = f + 1 := ⟨fuel - 1, by omega⟩
    have hdec : decr (n + 1) = n := by
      rw [decr_pos (by omega) hlt]; rfl
    by_cases hm : min_dec ≤ n + 1
    · by_cases hc : r ≤ candidateRate ch rg (n + 1)
      · have hc2 : 0 ≤ compareHz (rg.sample_rate.clip (ddiv ch.clock_max (n + 1))) r :=
          (compareHz_nonneg_iff _ _).mpr hc
        constructor
        · intro _
          refine ⟨n + 1, hm, le_refl _, hc, ?_⟩
          simp only [rateSearch, if_pos hm, if_pos hc2, candidateRate]
        · intro hno
          exact absurd ⟨n + 1, hm, le_refl _, hc⟩ hno
      · have hc2 : ¬ 0 ≤ compareHz (rg.sample_rate.clip (ddiv ch.clock_max (n + 1))) r :=
          fun h => hc ((compareHz_nonneg_iff _ _).mp h)
        have hstep : rateSearch ch rg r min_dec (f + 1) (n + 1) =
            rateSearch ch rg r min_dec f n := by
          simp only [rateSearch, if_pos hm, if_neg hc2, hdec]
        obtain ⟨ih1, ih2⟩ := ih f (by omega) (by omega)
        constructor
        · rintro ⟨d, h1, h2, h3⟩
          have hd : d ≤ n := by
            rcases Nat.lt_or_ge d (n + 1) with h | h
            · omega
            · have : d = n + 1 := by omega
              subst this
              exact absurd h3 hc
          obtain ⟨d', g1, g2, g3, g4⟩ := ih1 ⟨d, h1, hd, h3⟩
          exact ⟨d', g1, by omega, g3, by rw [hstep, g4]⟩
        · intro hno
          rw [hstep]
          apply ih2
          rintro ⟨d, h1, h2, h3⟩
          exact hno ⟨d, h1, by omega, h3⟩
    · constructor
      · rintro ⟨d, h1, h2, _⟩
        omega
      · intro _
        simp only [rateSearch, if_neg hm]


/-- C1 (amended): for every channel and every requested rate `r > 0` for which the
quotients `clock_max / r` and `clock_max / rate_max` can be converted to `size_t`
(they round to less than `2 ^ 64`) and whose starting decimation
`round(clock_max / r)` and lower bound `round(clock_max / rate_max)` are both at
least 1 (and enough fuel for the loop): if some decimation factor `d` that the
search visits (the starting factor, or a factor below it down to the bound) gives a
clipped rate `clip(clock_max / d) >= r`, then `optimizeRate` returns such a clipped
rate of a visited positive `d`, a value `>= r`; otherwise it returns exactly `r`,
even when a factor outside the visited ones would qualify. -/
theorem optimizeRate_within_search
    (ch : usrp_channel_struct) (rg : usrp_range_struct) (r : ℚ) (fuel : Nat)
    (hr : 0 < r)
    (hconv : ch.clock_max / r + 1 / 2 < (SIZE_MOD : ℚ))
    (hconvmin : ch.clock_max / ch.rate_max + 1 / 2 < (SIZE_MOD : ℚ))
    (hd0 : 1 ≤ roundToSize (ch.clock_max / r))
    (hmin : 1 ≤ roundToSize (ch.clock_max / ch.rate_max))
    (hfuel : roundToSize (ch.clock_max / r) ≤ fuel) :
    ((∃ d, searched ch r d ∧ r ≤ candidateRate ch rg d) →
      ∃ d, 1 ≤ d ∧ searched ch r d ∧ r ≤ candidateRate ch rg d ∧
        optimizeRate fuel ch rg r = some (candidateRate ch rg d)) ∧
    ((¬ ∃ d, searched ch r d ∧ r ≤ candidateRate ch rg d) →
      optimizeRate fuel ch rg r = some r) := by
  have _hc := hconv
  have _hcm := hconvmin
  have hguard : ¬ compareHz r 0 ≤ 0 := fun h => absurd ((compareHz_nonpos_iff _ _).mp h) (not_le.mpr hr)
  have hlt := roundToSize_lt (ch.clock_max / r)
  have hdecr : decr (roundToSize (ch.clock_max / r)) = roundToSize (ch.clock_max / r) - 1 :=
    decr_pos hd0 hlt
  by_cases hc : r ≤ candidateRate ch rg (roundToSize (ch.clock_max / r))
  · have hc2 : 0 ≤ compareHz (rg.sample_rate.clip (ddiv ch.clock_max (roundToSize (ch.clock_max / r)))) r :=
      (compareHz_nonneg_iff _ _).mpr hc
    constructor
    · intro _
      refine ⟨_, hd0, Or.inl rfl, hc, ?_⟩
      simp only [optimizeRate, if_neg hguard, if_pos hc2, candidateRate]
    · intro hno
      exact absurd ⟨_, Or.inl rfl, hc⟩ hno
  · have hc2 : ¬ 0 ≤ compareHz (rg.sample_rate.clip (ddiv ch.clock_max (roundToSize (ch.clock_max / r)))) r :=
      fun h => hc ((compareHz_nonneg_iff _ _).mp h)
    have hstep : optimizeRate fuel ch rg r =
        rateSearch ch rg r (roundToSize (ch.clock_max / ch.rate_max)) fuel
          (roundToSize (ch.clock_max / r) - 1) := by
      simp only [optimizeRate, if_neg hguard, if_neg hc2, hdecr]
    obtain ⟨s1, s2⟩ := rateSearch_visits ch rg r _ hmin
      (roundToSize (ch.clock_max / r) - 1) fuel (by omega) (by omega)
    constructor
    · rintro ⟨d, hs, hd⟩
      have hin : roundToSize (ch.clock_max / ch.rate_max) ≤ d ∧
          d ≤ roundToSize (ch.clock_max / r) - 1 := by
        rcases hs with h | ⟨h1, h2⟩
        · subst h; exact absurd hd hc
        · exact ⟨h1, by omega⟩
      obtain ⟨d', g1, g2, g3, g4⟩ := s1 ⟨d, hin.1, hin.2, hd⟩
      exact ⟨d', by omega, Or.inr ⟨g1, by omega⟩, g3, by rw [hstep, g4]⟩
    · intro hno
      rw [hstep]
      apply s2
      rintro ⟨d, h1, h2, h3⟩
      exact hno ⟨d, Or.inr ⟨h1, by omega⟩, h3⟩

theorem chA_d0_30 : roundToSize (chA.clock_max / 30) = 3 := by
  apply roundToSize_eq <;> norm_num [chA, channelOf, SIZE_MOD]

theorem chA_d0_38 : roundToSize (chA.clock_max / 38) = 3 := by
  apply roundToSize_eq <;> norm_num [chA, channelOf, SIZE_MOD]

theorem chA_dmin : roundToSize (chA.clock_max / chA.rate_max) = 3 := by
  apply roundToSize_eq <;> norm_num [chA, rgA, channelOf, exampleRanges, intervalRange, SIZE_MOD]

/-- Witness for C1: the example channel, request 30. -/
theorem optimizeRate_within_search_witness :
    (0 : ℚ) < 30 ∧
    ((∃ d, searched chA 30 d ∧ (30 : ℚ) ≤ candidateRate chA rgA d) →
      ∃ d, 1 ≤ d ∧ searched chA 30 d ∧ (30 : ℚ) ≤ candidateRate chA rgA d ∧
        optimizeRate 3 chA rgA 30 = some (candidateRate chA rgA d)) ∧
    ((¬ ∃ d, searched chA 30 d ∧ (30 : ℚ) ≤ candidateRate chA rgA d) →
      optimizeRate 3 chA rgA 30 = some 30) :=
  ⟨by norm_num,
   optimizeRate_within_search chA rgA 30 3 (by norm_num)
     (by norm_num [chA, channelOf, SIZE_MOD])
     (by norm_num [chA, rgA, channelOf, exampleRanges, intervalRange, SIZE_MOD])
     (by rw [chA_d0_30]; decide) (by rw [chA_dmin]; decide) (by rw [chA_d0_30])⟩

theorem candidateRate_chA (d : Nat) (hd : 1 ≤ d) :
    candidateRate chA rgA d =
      if (100 : ℚ) / (d : ℚ) < 1 then 1
      else if (100 : ℚ) / (d : ℚ) ≤ 39 then (100 : ℚ) / (d : ℚ) else 39 := by
  have h : d ≠ 0 := by omega
  simp [candidateRate, chA, rgA, channelOf, exampleRanges, intervalRange, ddiv, h]

/-- Counterexample to C1 as stated: clock 100, rates clipped to `[1, 39]`, request 38.
Decimation 2 gives the clipped rate 39 `>= 38`, but the search starts at 3 and is
bounded below by `round(100 / 39) = 3`, so `optimizeRate` returns 38, which is not
the clipped rate of any positive decimation factor. -/
theorem optimizeRate_unsearched_counterexample :
    (∃ d : Nat, 1 ≤ d ∧ (38 : ℚ) ≤ candidateRate chA rgA d) ∧
    (∀ fuel : Nat, 1 ≤ fuel → optimizeRate fuel chA rgA 38 = some 38) ∧
    ¬ ∃ d : Nat, 1 ≤ d ∧ candidateRate chA rgA d = 38 := by
  refine ⟨⟨2, by decide, ?_⟩, ?_, ?_⟩
  · rw [candidateRate_chA 2 (by decide)]; norm_num
  · intro fuel hf
    obtain ⟨f, rfl⟩ : ∃ f, fuel = f + 1 := ⟨fuel - 1, by omega⟩
    have h3 : decr 3 = 2 := decr_pos (by decide) (by norm_num [SIZE_MOD])
    have hc : candidateRate chA rgA 3 = 100 / 3 := by
      rw [candidateRate_chA 3 (by decide)]; norm_num
    have hg : ¬ compareHz (38 : ℚ) 0 ≤ 0 := by
      rw [compareHz_nonpos_iff]; norm_num
    have hn : ¬ 0 ≤ compareHz (candidateRate chA rgA 3) 38 := by
      rw [compareHz_nonneg_iff, hc]; norm_num
    unfold candidateRate at hn
    simp only [optimizeRate, if_neg hg, chA_d0_38, if_neg hn, chA_dmin, h3, rateSearch]
    simp
  · rintro ⟨d, hd, h⟩
    rw [candidateRate_chA d hd] at h
    have hd' : (1 : ℚ) ≤ d := by exact_mod_cast hd
    have hpos : (0 : ℚ) < d := by linarith
    split_ifs at h with h1 h2
    · norm_num at h
    · have : (100 : ℚ) = 38 * d := by
        field_simp at h; linarith
      have h' : (100 : ℕ) = 38 * d := by exact_mod_cast this
      omega
    · norm_num at h



/-! ## C2: optimizeBandwidth -/

/-- C2: for every channel whose `bandwidth_min` is the start of its hardware bandwidth
range (`updateDeviceInfo` stores `start()` there), a start that is not negative, and
whose hardware clip takes every value at or below the start to the start, and for
every requested bandwidth `b`, positive or not: `optimizeBandwidth(b)` returns `b`
clipped to the hardware range when that clipped value is `>= b`, and `b` unchanged
otherwise; in every case the result is not below `b`. -/
theorem optimizeBandwidth_result (ch : usrp_channel_struct) (rg : usrp_range_struct) (b : ℚ)
    (hmin : ch.bandwidth_min = rg.bandwidth.start)
    (hstart : 0 ≤ rg.bandwidth.start)
    (hclip : ∀ q, q ≤ rg.bandwidth.start →
      rg.bandwidth.clip (Dbl.fin q) = rg.bandwidth.start) :
    (b ≤ rg.bandwidth.clip (Dbl.fin b) →
      optimizeBandwidth ch rg b = rg.bandwidth.clip (Dbl.fin b)) ∧
    (¬ b ≤ rg.bandwidth.clip (Dbl.fin b) → optimizeBandwidth ch rg b = b) ∧
    b ≤ optimizeBandwidth ch rg b := by
  unfold optimizeBandwidth
  simp only [compareHz_nonpos_iff, compareHz_nonneg_iff]
  by_cases hb : b ≤ 0
  · have h1 : rg.bandwidth.clip (Dbl.fin b) = rg.bandwidth.start := hclip b (le_trans hb hstart)
    have h2 : rg.bandwidth.clip (Dbl.fin ch.bandwidth_min) = rg.bandwidth.start := by
      rw [hmin]; exact hclip _ (le_refl _)
    rw [if_pos hb, h1, h2]
    exact ⟨fun _ => rfl, fun h => absurd (le_trans hb hstart) h, le_trans hb hstart⟩
  · rw [if_neg hb]
    refine ⟨fun h => by rw [if_pos h], fun h => by rw [if_neg h], ?_⟩
    split_ifs with h
    · exact h
    · exact le_refl b

theorem intervalRange_clip_below {lo hi q : ℚ} (h : q ≤ lo) (hlh : lo ≤ hi) :
    (intervalRange lo hi).clip (Dbl.fin q) = lo := by
  simp only [intervalRange]
  split_ifs with h1 h2
  · rfl
  · exact le_antisymm h (not_lt.mp h1)
  · exact absurd (le_trans h hlh) h2

/-- Witness for C2: the example channel (bandwidths 1 to 39) and the request 0, which
the hardware clips to 1. -/
theorem optimizeBandwidth_result_witness :
    chA.bandwidth_min = rgA.bandwidth.start ∧ (0 : ℚ) ≤ rgA.bandwidth.start ∧
    (((0 : ℚ) ≤ rgA.bandwidth.clip (Dbl.fin 0) →
      optimizeBandwidth chA rgA 0 = rgA.bandwidth.clip (Dbl.fin 0)) ∧
    (¬ (0 : ℚ) ≤ rgA.bandwidth.clip (Dbl.fin 0) → optimizeBandwidth chA rgA 0 = 0) ∧
    (0 : ℚ) ≤ optimizeBandwidth chA rgA 0) :=
  ⟨rfl, by norm_num [rgA, exampleRanges, intervalRange],
   optimizeBandwidth_result chA rgA 0 rfl
     (by norm_num [rgA, exampleRanges, intervalRange])
     (fun _ hq => intervalRange_clip_below hq (show (1 : ℚ) ≤ 39 by norm_num))⟩

/-! ## Running calls -/

theorem run_pure {α : Type} (a : α) (st : State) : (pure a : Call α) st = (Except.ok a, st) := rfl

theorem run_bind {α β : Type} (m : Call α) (f : α → Call β) (st : State) :
    (m >>= f) st =
      match m st with
      | (Except.ok a, st1) => f a st1
      | (Except.error e, st1) => (Except.error e, st1) := rfl

theorem run_ite {α : Type} (c : Prop) [Decidable c] (a b : Call α) (st : State) :
    (if c then a else b) st = if c then a st else b st := by
  split <;> rfl

/-! ## Invariants along a call -/

section keeps
variable {I : State → Prop} {C : Error → Prop}

theorem keeps_pure {α : Type} (a : α) : Keeps I C (pure a : Call α) :=
  fun _ h => ⟨h, fun _ he => by cases he⟩

theorem keeps_getState : Keeps I C getState :=
  fun _ h => ⟨h, fun _ he => by cases he⟩

theorem keeps_throw {α : Type} {e : Error} (h : C e) : Keeps I C (throwExc e : Call α) :=
  fun _ hI => ⟨hI, fun e' he => by cases he; exact h⟩

theorem keeps_modify {f : State → State} (h : ∀ s, I s → I (f s)) : Keeps I C (modifyState f) :=
  fun s hI => ⟨h s hI, fun _ he => by cases he⟩

theorem keeps_bind {α β : Type} {m : Call α} {f : α → Call β}
    (hm : Keeps I C m) (hf : ∀ a, Keeps I C (f a)) : Keeps I C (m >>= f) := by
  intro st hI
  obtain ⟨h1, h2⟩ := hm st hI
  rw [run_bind]
  rcases hms : m st with ⟨r, st1⟩
  rw [hms] at h1 h2
  cases r with
  | error e => exact ⟨h1, fun e' he => by cases he; exact h2 e rfl⟩
  | ok a => exact hf a st1 h1

theorem keeps_ite {α : Type} {c : Prop} [Decidable c] {a b : Call α}
    (ha : Keeps I C a) (hb : Keeps I C b) : Keeps I C (if c then a else b) := by
  split
  · exact ha
  · exact hb

theorem keeps_frame {f : State → State} (hI : BufferFrame I)
    (h : ∀ s, (f s).usrp_tuners = s.usrp_tuners) : Keeps I C (modifyState f) :=
  keeps_modify (fun s hs => hI s (f s) (fun j => by rw [h s]; exact ⟨rfl, Or.inl rfl⟩) hs)

theorem keeps_emit (hI : BufferFrame I) (e : Event) : Keeps I C (emit e) :=
  keeps_frame hI (fun _ => rfl)

theorem keeps_setStatus (hI : BufferFrame I) (id : Nat)
    (f : frontend_tuner_status_struct → frontend_tuner_status_struct) :
    Keeps I C (setStatus id f) :=
  keeps_frame hI (fun _ => rfl)

theorem keeps_setDevice (hI : BufferFrame I) (hw : Hardware) : Keeps I C (setDevice hw) :=
  keeps_frame hI (fun _ => rfl)

theorem keeps_setTuner (hI : BufferFrame I) (id : Nat) (f : usrp_tuner_struct → usrp_tuner_struct)
    (hf : ∀ t, (f t).buffer_capacity = t.buffer_capacity ∧
      ((f t).buffer_size = t.buffer_size ∨ (f t).buffer_size = 0)) :
    Keeps I C (setTuner id f) := by
  apply keeps_modify
  intro s hs
  apply hI s _ _ hs
  intro j
  by_cases hj : j = id
  · subst hj; simp [hf]
  · simp [Function.update_noteq hj]

theorem keeps_device (hC : C ⟨ExceptionClass.null_device, Reason.null_pointer⟩) :
    Keeps I C device := by
  intro st hI
  unfold device
  cases st.usrp_device_ptr with
  | none => exact ⟨hI, fun e he => by cases he; exact hC⟩
  | some hw => exact ⟨hI, fun e he => by cases he⟩

theorem keeps_hw_get (hI : BufferFrame I)
    (hC : C ⟨ExceptionClass.null_device, Reason.null_pointer⟩) (chan : Nat) :
    Keeps I C (hw_get_rx_freq chan) ∧ Keeps I C (hw_get_tx_freq chan) ∧
    Keeps I C (hw_get_rx_bandwidth chan) ∧ Keeps I C (hw_get_tx_bandwidth chan) ∧
    Keeps I C (hw_get_rx_rate chan) ∧ Keeps I C (hw_get_tx_rate chan) := by
  refine ⟨?_, ?_, ?_, ?_, ?_, ?_⟩ <;>
    exact keeps_bind (keeps_device hC)
      (fun _ => keeps_bind (keeps_emit hI _) (fun _ => keeps_pure _))

theorem keeps_hw_set (hI : BufferFrame I)
    (hC : C ⟨ExceptionClass.null_device, Reason.null_pointer⟩) (v : ℚ) (chan : Nat) :
    Keeps I C (hw_set_rx_freq v chan) ∧ Keeps I C (hw_set_tx_freq v chan) ∧
    Keeps I C (hw_set_rx_bandwidth v chan) ∧ Keeps I C (hw_set_tx_bandwidth v chan) ∧
    Keeps I C (hw_set_rx_rate v chan) ∧ Keeps I C (hw_set_tx_rate v chan) := by
  refine ⟨?_, ?_, ?_, ?_, ?_, ?_⟩ <;>
    exact keeps_bind (keeps_device hC)
      (fun _ => keeps_bind (keeps_emit hI _) (fun _ => keeps_setDevice hI _))

theorem keeps_hw_issue_stream_cmd (hI : BufferFrame I)
    (hC : C ⟨ExceptionClass.null_device, Reason.null_pointer⟩) (mode : StreamMode) (chan : Nat) :
    Keeps I C (hw_issue_stream_cmd mode chan) :=
  keeps_bind (keeps_device hC) (fun _ => keeps_emit hI _)

theorem keeps_getStreamId (hI : BufferFrame I) (id : Nat) : Keeps I C (getStreamId id) := by
  unfold getStreamId
  repeat' first
    | exact keeps_pure _
    | exact keeps_getState
    | exact keeps_setTuner hI _ _ (fun t => ⟨rfl, Or.inl rfl⟩)
    | exact keeps_frame hI (fun _ => rfl)
    | apply keeps_bind
    | apply keeps_ite
    | intro _

theorem keeps_usrpEnable (hI : BufferFrame I)
    (hC : C ⟨ExceptionClass.null_device, Reason.null_pointer⟩) (id chan : Nat) :
    Keeps I C (usrpEnable id chan) := by
  unfold usrpEnable
  repeat' first
    | exact keeps_pure _
    | exact keeps_getState
    | exact keeps_emit hI _
    | exact keeps_setStatus hI _ _
    | exact keeps_setTuner hI _ _ (fun t => ⟨rfl, Or.inl rfl⟩)
    | exact keeps_frame hI (fun _ => rfl)
    | exact keeps_getStreamId hI _
    | exact keeps_hw_issue_stream_cmd hI hC _ _
    | apply keeps_bind
    | apply keeps_ite
    | intro _

theorem keeps_usrpDisable (hI : BufferFrame I)
    (hC : C ⟨ExceptionClass.null_device, Reason.null_pointer⟩) (id chan : Nat) :
    Keeps I C (usrpDisable id chan) := by
  unfold usrpDisable
  repeat' first
    | exact keeps_pure _
    | exact keeps_getState
    | exact keeps_emit hI _
    | exact keeps_setStatus hI _ _
    | exact keeps_setTuner hI _ _ (fun t => ⟨rfl, Or.inl rfl⟩)
    | exact keeps_setTuner hI _ _ (fun t => ⟨rfl, Or.inr rfl⟩)
    | exact keeps_getStreamId hI _
    | exact keeps_hw_issue_stream_cmd hI hC _ _
    | apply keeps_bind
    | apply keeps_ite
    | intro _

theorem keeps_interrupt (hI : BufferFrame I) (id : Nat) : Keeps I C (interrupt id) := by
  unfold interrupt
  refine keeps_bind keeps_getState (fun st => ?_)
  split
  all_goals
    repeat' first
      | exact keeps_pure _
      | exact keeps_emit hI _
      | exact keeps_frame hI (fun _ => rfl)
      | apply keeps_bind
      | apply keeps_ite
      | intro _

theorem keeps_updateDeviceInfo (hI : BufferFrame I) : Keeps I C updateDeviceInfo := by
  unfold updateDeviceInfo
  refine keeps_bind keeps_getState (fun st => ?_)
  split
  · exact keeps_pure _
  · exact keeps_bind (keeps_emit hI _) (fun _ => keeps_frame hI (fun _ => rfl))

theorem keeps_setTunerCenterFrequency (hI : BufferFrame I)
    (hC : C ⟨ExceptionClass.null_device, Reason.null_pointer⟩)
    (hB : ∀ r, C ⟨ExceptionClass.BadParameterException, r⟩) (hA : C notAuthorized)
    (id : String) (freq : ℚ) : Keeps I C (setTunerCenterFrequency id freq) := by
  unfold setTunerCenterFrequency
  refine keeps_bind keeps_getState (fun st => ?_)
  refine keeps_ite (keeps_throw (hB _)) (keeps_ite (keeps_throw hA) (keeps_ite (keeps_throw (hB _)) ?_))
  dsimp only
  split
  all_goals
    repeat' first
      | exact keeps_pure _
      | exact keeps_getState
      | exact keeps_throw (hB _)
      | exact keeps_setStatus hI _ _
      | exact keeps_setTuner hI _ _ (fun t => ⟨rfl, Or.inl rfl⟩)
      | exact keeps_interrupt hI _
      | exact keeps_updateDeviceInfo hI
      | exact keeps_usrpEnable hI hC _ _
      | exact keeps_usrpDisable hI hC _ _
      | exact (keeps_hw_get hI hC _).1
      | exact (keeps_hw_get hI hC _).2.1
      | exact (keeps_hw_set hI hC _ _).1
      | exact (keeps_hw_set hI hC _ _).2.1
      | apply keeps_bind
      | apply keeps_ite
      | intro _

theorem keeps_setTunerBandwidth (hI : BufferFrame I)
    (hC : C ⟨ExceptionClass.null_device, Reason.null_pointer⟩)
    (hB : ∀ r, C ⟨ExceptionClass.BadParameterException, r⟩) (hA : C notAuthorized)
    (id : String) (bw : ℚ) : Keeps I C (setTunerBandwidth id bw) := by
  unfold setTunerBandwidth
  refine keeps_bind keeps_getState (fun st => ?_)
  refine keeps_ite (keeps_throw (hB _)) (keeps_ite (keeps_throw hA) (keeps_ite (keeps_throw (hB _)) ?_))
  dsimp only
  split
  all_goals
    repeat' first
      | exact keeps_pure _
      | exact keeps_throw (hB _)
      | exact keeps_setStatus hI _ _
      | exact keeps_setTuner hI _ _ (fun t => ⟨rfl, Or.inl rfl⟩)
      | exact keeps_interrupt hI _
      | exact keeps_updateDeviceInfo hI
      | exact (keeps_hw_get hI hC _).2.2.1
      | exact (keeps_hw_get hI hC _).2.2.2.1
      | exact (keeps_hw_set hI hC _ _).2.2.1
      | exact (keeps_hw_set hI hC _ _).2.2.2.1
      | apply keeps_bind
      | apply keeps_ite
      | intro _

theorem keeps_setTunerOutputSampleRate (hI : BufferFrame I)
    (hC : C ⟨ExceptionClass.null_device, Reason.null_pointer⟩)
    (hB : ∀ r, C ⟨ExceptionClass.BadParameterException, r⟩) (hA : C notAuthorized)
    (hF : C ⟨ExceptionClass.out_of_fuel, Reason.loop_fuel⟩)
    (fuel : Nat) (id : String) (sr : ℚ) : Keeps I C (setTunerOutputSampleRate fuel id sr) := by
  unfold setTunerOutputSampleRate
  refine keeps_bind keeps_getState (fun st => ?_)
  refine keeps_ite (keeps_throw (hB _)) (keeps_ite (keeps_throw hA) (keeps_ite (keeps_throw (hB _)) ?_))
  split
  · exact keeps_throw hF
  · dsimp only
    split
    all_goals
      repeat' first
        | exact keeps_pure _
        | exact keeps_throw (hB _)
        | exact keeps_setStatus hI _ _
        | exact keeps_setTuner hI _ _ (fun t => ⟨rfl, Or.inl rfl⟩)
        | exact keeps_interrupt hI _
        | exact keeps_updateDeviceInfo hI
        | exact (keeps_hw_get hI hC _).2.2.2.2.1
        | exact (keeps_hw_get hI hC _).2.2.2.2.2
        | exact (keeps_hw_set hI hC _ _).2.2.2.2.1
        | exact (keeps_hw_set hI hC _ _).2.2.2.2.2
        | apply keeps_bind
        | apply keeps_ite
        | intro _

theorem keeps_setTunerEnable (hI : BufferFrame I)
    (hC : C ⟨ExceptionClass.null_device, Reason.null_pointer⟩)
    (hB : ∀ r, C ⟨ExceptionClass.BadParameterException, r⟩) (hA : C notAuthorized)
    (id : String) (enable : Bool) : Keeps I C (setTunerEnable id enable) := by
  unfold setTunerEnable
  refine keeps_bind keeps_getState (fun st => ?_)
  refine keeps_ite (keeps_throw (hB _)) (keeps_ite (keeps_throw hA) ?_)
  repeat' first
    | exact keeps_pure _
    | exact keeps_interrupt hI _
    | exact keeps_usrpEnable hI hC _ _
    | exact keeps_usrpDisable hI hC _ _
    | apply keeps_bind
    | apply keeps_ite
    | intro _

end keeps

/-! ## C3: the buffer invariant -/

theorem sizeSub_eq {a b : Nat} (h1 : b ≤ a) (h2 : a < SIZE_MOD) : sizeSub a b = a - b := by
  unfold sizeSub
  have hb : b % SIZE_MOD = b := Nat.mod_eq_of_lt (by omega)
  have h : a + (SIZE_MOD - b) = (a - b) + SIZE_MOD := by omega
  rw [hb, h, Nat.add_mod_right]
  exact Nat.mod_eq_of_lt (by omega)

theorem fill_after_recv {size cap n lim : Nat} (h1 : size ≤ cap) (h2 : cap < SIZE_MOD)
    (hn : n ≤ min lim (sizeSub cap size / 2)) :
    sizeMul n 2 = 2 * n ∧ sizeAdd size (sizeMul n 2) = size + 2 * n ∧ size + 2 * n ≤ cap := by
  rw [sizeSub_eq h1 h2] at hn
  have hn2 : n ≤ (cap - size) / 2 := le_trans hn (min_le_right _ _)
  have h3 : 2 * n ≤ cap - size := by omega
  have hm : sizeMul n 2 = 2 * n := by
    unfold sizeMul
    rw [Nat.mul_comm]
    exact Nat.mod_eq_of_lt (by omega)
  refine ⟨hm, ?_, by omega⟩
  unfold sizeAdd
  rw [hm]
  exact Nat.mod_eq_of_lt (by omega)

theorem bufferFrame_bufferInv : BufferFrame BufferInv := by
  intro s s' h hs j
  obtain ⟨hc, hz⟩ := h j
  obtain ⟨h1, h2⟩ := hs j
  rw [hc]
  refine ⟨?_, h2⟩
  rcases hz with hz | hz
  · rw [hz]; exact h1
  · rw [hz]; exact Nat.zero_le _

theorem bufferInv_setTuner {st : State} (hI : BufferInv st) (id : Nat)
    (f : usrp_tuner_struct → usrp_tuner_struct)
    (hc : (f (st.usrp_tuners id)).buffer_capacity = (st.usrp_tuners id).buffer_capacity)
    (hs : (f (st.usrp_tuners id)).buffer_size ≤ (st.usrp_tuners id).buffer_capacity) :
    BufferInv (setTuner id f st).2 := by
  intro j
  by_cases hj : j = id
  · subst hj
    simp only [setTuner, modifyState, Function.update_same]
    exact ⟨by rw [hc]; exact hs, by rw [hc]; exact (hI j).2⟩
  · simp only [setTuner, modifyState, Function.update_noteq hj]
    exact hI j

theorem run_emit_bind {β : Type} (e : Event) (rest : Unit → Call β) (st : State) :
    (emit e >>= rest) st = rest () { st with trace := st.trace ++ [e] } := rfl

theorem bufferInv_setTuner_then {β : Type} {st : State} (hI : BufferInv st) (id : Nat)
    (f : usrp_tuner_struct → usrp_tuner_struct) (rest : Unit → Call β)
    (hc : (f (st.usrp_tuners id)).buffer_capacity = (st.usrp_tuners id).buffer_capacity)
    (hs : (f (st.usrp_tuners id)).buffer_size ≤ (st.usrp_tuners id).buffer_capacity)
    (hrest : ∀ a, Keeps BufferInv (fun _ => True) (rest a)) :
    BufferInv ((setTuner id f >>= rest) st).2 :=
  (hrest () _ (bufferInv_setTuner hI id f hc hs)).1

/-- The transfer keeps the buffer invariant: the capacity stays, and the fill length
grows by two shorts per sample without passing the capacity. -/
theorem usrpReceive_fill (st : State) (id : Nat) (timeout : ℚ) (recv : Nat → RecvResult)
    (hI : BufferInv st) (hrecv : BoundedRecv recv) :
    BufferInv (usrpReceive id timeout recv st).2 := by
  obtain ⟨h1, h2⟩ := hI id
  obtain ⟨_, hfill, hle⟩ :=
    @fill_after_recv _ _ _ (truncToSize (timeout * (st.frontend_tuner_status id).sample_rate))
      h1 h2 (hrecv _)
  unfold usrpReceive
  rw [run_bind]
  simp only [getState]
  rw [run_bind]
  unfold device
  cases hdev : st.usrp_device_ptr with
  | none => exact hI
  | some hw =>
    simp only [run_ite, throwExc]
    split
    · exact hI
    · rw [run_emit_bind]
      refine bufferInv_setTuner_then ?_ id _ _ ?_ ?_ ?_
      · exact hI
      · rfl
      · show sizeAdd _ _ ≤ _
        rw [hfill]; exact hle
      · intro _
        have hF := bufferFrame_bufferInv
        split
        all_goals
          repeat' first
            | exact keeps_pure _
            | exact keeps_getState
            | exact keeps_setTuner hF _ _ (fun t => ⟨rfl, Or.inl rfl⟩)
            | apply keeps_bind
            | apply keeps_ite
            | intro _

theorem keeps_usrpReceive (id : Nat) (timeout : ℚ) (recv : Nat → RecvResult)
    (hrecv : BoundedRecv recv) :
    Keeps BufferInv (fun _ => True) (usrpReceive id timeout recv) :=
  fun st hI => ⟨usrpReceive_fill st id timeout recv hI hrecv, fun _ _ => trivial⟩

theorem keeps_pushBuffer (id : Nat) : Keeps BufferInv (fun _ => True) (pushBuffer id) := by
  have hF := bufferFrame_bufferInv
  unfold pushBuffer
  repeat' first
    | exact keeps_pure _
    | exact keeps_getState
    | exact keeps_getStreamId hF _
    | exact keeps_emit hF _
    | exact keeps_setTuner hF _ _ (fun t => ⟨rfl, Or.inl rfl⟩)
    | exact keeps_setTuner hF _ _ (fun t => ⟨rfl, Or.inr rfl⟩)
    | apply keeps_bind
    | apply keeps_ite
    | intro _

theorem keeps_receiveTuner (recv : Nat → Nat → RecvResult) (hrecv : ∀ id, BoundedRecv (recv id))
    (id : Nat) : Keeps BufferInv (fun _ => True) (receiveTuner recv id) := by
  unfold receiveTuner
  repeat' first
    | exact keeps_pure _
    | exact keeps_getState
    | exact keeps_usrpReceive _ _ _ (hrecv _)
    | exact keeps_pushBuffer _
    | apply keeps_bind
    | apply keeps_ite
    | intro _

theorem keeps_receiveLoop (recv : Nat → Nat → RecvResult) (hrecv : ∀ id, BoundedRecv (recv id))
    (ids : List Nat) : ∀ rx_data, Keeps BufferInv (fun _ => True) (receiveLoop recv ids rx_data) := by
  induction ids with
  | nil => intro rx_data; exact keeps_pure _
  | cons id rest ih =>
    intro rx_data
    exact keeps_bind (keeps_receiveTuner recv hrecv id) (fun _ => ih _)

theorem keeps_serviceFunctionReceive (recv : Nat → Nat → RecvResult)
    (hrecv : ∀ id, BoundedRecv (recv id)) :
    Keeps BufferInv (fun _ => True) (serviceFunctionReceive recv) := by
  have hF := bufferFrame_bufferInv
  unfold serviceFunctionReceive
  repeat' first
    | exact keeps_pure _
    | exact keeps_getState
    | exact keeps_receiveLoop recv hrecv _ _
    | exact keeps_frame hF (fun _ => rfl)
    | apply keeps_bind
    | apply keeps_ite
    | intro _

theorem step_keeps_bufferInv {s s' : State} (h : Step s s') (hI : BufferInv s) : BufferInv s' := by
  have hF := bufferFrame_bufferInv
  cases h with
  | receiveCycle recv h => exact (keeps_serviceFunctionReceive recv h s hI).1
  | transfer id timeout recv h => exact usrpReceive_fill s id timeout recv hI h
  | enable id chan => exact (keeps_usrpEnable (C := fun _ => True) hF trivial id chan s hI).1
  | disable id chan => exact (keeps_usrpDisable (C := fun _ => True) hF trivial id chan s hI).1
  | setEnable a e =>
    exact (keeps_setTunerEnable (C := fun _ => True) hF trivial (fun _ => trivial) trivial a e s hI).1
  | setCenterFrequency a f =>
    exact (keeps_setTunerCenterFrequency (C := fun _ => True) hF trivial (fun _ => trivial)
      trivial a f s hI).1
  | setBandwidth a b =>
    exact (keeps_setTunerBandwidth (C := fun _ => True) hF trivial (fun _ => trivial)
      trivial a b s hI).1
  | setOutputSampleRate fuel a r =>
    exact (keeps_setTunerOutputSampleRate (C := fun _ => True) hF trivial (fun _ => trivial)
      trivial trivial fuel a r s hI).1

/-- C3: buffer invariant. From a state in which every tuner's fill length is at most
its capacity, every state reached through receive cycles, single transfers, enable,
disable and the retune operations of the control port keeps `buffer_size <=
buffer_capacity` for every tuner, provided each hardware receive call returns at
most the number of samples it was asked for. -/
theorem buffer_size_le_capacity (s0 s : State) (h0 : BufferInv s0) (hr : Reachable s0 s)
    (j : Nat) : (s.usrp_tuners j).buffer_size ≤ (s.usrp_tuners j).buffer_capacity := by
  have h : BufferInv s := by
    induction hr with
    | start => exact h0
    | step _ hstep ih => exact step_keeps_bufferInv hstep ih
  exact (h j).1

theorem bufferInv_stA (enabled : Bool) (fill : Nat) (h : fill ≤ 4) : BufferInv (stA enabled fill) := by
  intro j
  have hM : 4 < SIZE_MOD := by norm_num [SIZE_MOD]
  by_cases hj : j = 0
  · simp [stA, tunerA, hj, h, hM]
  · simp [stA, tunerA, hj, hM]

theorem boundedRecv_recvA : BoundedRecv recvA := fun n => le_refl n

/-- Witness for C3: the example device with two shorts in the buffer, after one
receive cycle and a disable. -/
theorem buffer_size_le_capacity_witness :
    (((usrpDisable 0 0 (serviceFunctionReceive (fun _ => recvA) (stA true 2)).2).2.usrp_tuners
      0).buffer_size ≤
    ((usrpDisable 0 0 (serviceFunctionReceive (fun _ => recvA) (stA true 2)).2).2.usrp_tuners
      0).buffer_capacity) :=
  buffer_size_le_capacity (stA true 2) _ (bufferInv_stA true 2 (by decide))
    (Reachable.step
      (Reachable.step Reachable.start (Step.receiveCycle _ _ (fun _ => boundedRecv_recvA)))
      (Step.disable _ 0 0)) 0

/-! ## Events along a call -/

section emits
variable {A : Event → Prop}

theorem emits_pure {α : Type} (a : α) : Emits A (pure a : Call α) :=
  fun st => ⟨[], by simp [run_pure], by simp⟩

theorem emits_getState : Emits A getState :=
  fun st => ⟨[], by simp [getState], by simp⟩

theorem emits_throw {α : Type} (e : Error) : Emits A (throwExc e : Call α) :=
  fun st => ⟨[], by simp [throwExc], by simp⟩

theorem emits_modify {f : State → State} (h : ∀ s, (f s).trace = s.trace) :
    Emits A (modifyState f) :=
  fun st => ⟨[], by simp [modifyState, h], by simp⟩

theorem emits_emit {e : Event} (h : A e) : Emits A (emit e) :=
  fun st => ⟨[e], rfl, by simpa using h⟩

theorem emits_bind {α β : Type} {m : Call α} {f : α → Call β}
    (hm : Emits A m) (hf : ∀ a, Emits A (f a)) : Emits A (m >>= f) := by
  intro st
  obtain ⟨evs, h1, h2⟩ := hm st
  rw [run_bind]
  rcases hms : m st with ⟨r, st1⟩
  rw [hms] at h1
  cases r with
  | error e => exact ⟨evs, h1, h2⟩
  | ok a =>
    obtain ⟨evs', g1, g2⟩ := hf a st1
    refine ⟨evs ++ evs', ?_, ?_⟩
    · show (f a st1).2.trace = _
      rw [g1, h1, List.append_assoc]
    · intro e he
      rcases List.mem_append.mp he with h | h
      · exact h2 e h
      · exact g2 e h

theorem emits_ite {α : Type} {c : Prop} [Decidable c] {a b : Call α}
    (ha : Emits A a) (hb : Emits A b) : Emits A (if c then a else b) := by
  split
  · exact ha
  · exact hb

theorem emits_setStatus (id : Nat)
    (f : frontend_tuner_status_struct → frontend_tuner_status_struct) :
    Emits A (setStatus id f) :=
  emits_modify (fun _ => rfl)

theorem emits_setTuner (id : Nat) (f : usrp_tuner_struct → usrp_tuner_struct) :
    Emits A (setTuner id f) :=
  emits_modify (fun _ => rfl)

theorem emits_setDevice (hw : Hardware) : Emits A (setDevice hw) :=
  emits_modify (fun _ => rfl)

theorem emits_device : Emits A device := by
  intro st
  unfold device
  cases st.usrp_device_ptr <;> exact ⟨[], by simp, by simp⟩

theorem emits_getStreamId (id : Nat) : Emits A (getStreamId id) := by
  unfold getStreamId
  repeat' first
    | exact emits_pure _
    | exact emits_getState
    | exact emits_setTuner _ _
    | exact emits_modify (fun _ => rfl)
    | apply emits_bind
    | apply emits_ite
    | intro _

end emits

/-! ## C4: a data packet leaves only a full buffer -/

/-- The events one transfer adds: nothing but the hardware call itself. -/
theorem emits_usrpReceive (id : Nat) (timeout : ℚ) (recv : Nat → RecvResult) :
    Emits (fun e => ∃ n, e = Event.recv id n) (usrpReceive id timeout recv) := by
  unfold usrpReceive
  refine emits_bind emits_getState (fun st => ?_)
  refine emits_bind emits_device (fun _ => ?_)
  refine emits_ite (emits_throw _) ?_
  refine emits_bind (emits_emit ⟨_, rfl⟩) (fun _ => ?_)
  refine emits_bind (emits_setTuner _ _) (fun _ => ?_)
  split
  all_goals
    repeat' first
      | exact emits_pure _
      | exact emits_getState
      | exact emits_setTuner _ _
      | apply emits_bind
      | apply emits_ite
      | intro _

/-- The effect of `getStreamId` on the fields the flush reads. -/
theorem getStreamId_frame (st : State) (id : Nat) :
    (getStreamId id st).2.trace = st.trace ∧
    (getStreamId id st).2.frontend_tuner_status = st.frontend_tuner_status ∧
    ((getStreamId id st).2.usrp_tuners id).output_buffer = (st.usrp_tuners id).output_buffer ∧
    ((getStreamId id st).2.usrp_tuners id).output_buffer_time =
      (st.usrp_tuners id).output_buffer_time ∧
    ((getStreamId id st).2.usrp_tuners id).buffer_size = (st.usrp_tuners id).buffer_size ∧
    ((getStreamId id st).2.usrp_tuners id).buffer_capacity = (st.usrp_tuners id).buffer_capacity ∧
    ∃ sid, (getStreamId id st).1 = Except.ok sid := by
  simp only [getStreamId, run_bind, getState, run_ite, run_pure]
  split_ifs <;> simp [modifyState, setTuner, run_bind, run_pure]

/-- The effect of `pushBuffer`: it ends normally, adds at most an SRI push and then
exactly one data packet without end-of-stream that carries the whole buffer, and
leaves the fill length 0. -/
theorem pushBuffer_effect (st : State) (id : Nat) :
    ∃ (pre : List Event) (sid : String),
      (pushBuffer id st).1 = Except.ok () ∧
      (pushBuffer id st).2.trace = st.trace ++ pre ++
        [Event.pushPacket (st.usrp_tuners id).output_buffer
          (st.usrp_tuners id).output_buffer_time false sid] ∧
      (∀ e ∈ pre, ∃ sri, e = Event.pushSRI sri) ∧
      ((pushBuffer id st).2.usrp_tuners id).buffer_size = 0 := by
  obtain ⟨h1, h2, h3, h4, h5, h6, sid, h7⟩ := getStreamId_frame st id
  unfold pushBuffer
  rw [run_bind]
  rcases hg : getStreamId id st with ⟨r, st1⟩
  rw [hg] at h1 h2 h3 h4 h5 h6 h7
  simp only at h1 h2 h3 h4 h5 h6 h7
  subst h7
  simp only [run_bind, getState, run_ite]
  by_cases hu : (st1.usrp_tuners id).update_sri = true
  · refine ⟨[Event.pushSRI (createSRI sid (st1.frontend_tuner_status id))], sid, ?_⟩
    simp [hu, emit, modifyState, setTuner, run_bind, h1, h3, h4]
  · refine ⟨[], sid, ?_⟩
    simp [hu, emit, modifyState, setTuner, run_bind, run_pure, h1, h3, h4]

/-- One iteration of the receive loop on a serviced tuner, in terms of the transfer
and the flush. -/
theorem receiveTuner_run (st : State) (recv : Nat → Nat → RecvResult) (id : Nat)
    (hs : Serviced st id) :
    receiveTuner recv id st =
      match usrpReceive id st.receive_timeout (recv id) st with
      | (Except.ok got, mid) =>
        if got = false then (Except.ok false, mid)
        else if (mid.usrp_tuners id).buffer_size < (mid.usrp_tuners id).buffer_capacity then
          (Except.ok true, mid)
        else
          match pushBuffer id mid with
          | (Except.ok _, fin) => (Except.ok true, fin)
          | (Except.error e, fin) => (Except.error e, fin)
      | (Except.error e, mid) => (Except.error e, mid) := by
  obtain ⟨h1, h2, h3⟩ := hs
  unfold receiveTuner
  rw [run_bind]
  simp only [getState, run_ite, h1, h2, h3, ne_eq, not_true_eq_false, if_false, Bool.not_true,
    Bool.false_eq_true]
  rw [run_bind]
  rcases usrpReceive id st.receive_timeout (recv id) st with ⟨r, mid⟩
  cases r with
  | error e => rfl
  | ok got =>
    cases got with
    | false => rfl
    | true =>
      simp only [Bool.not_true, Bool.false_eq_true, if_false, run_bind, getState, run_ite, run_pure]
      split
      · rfl
      · rcases pushBuffer id mid with ⟨r2, fin⟩
        cases r2 <;> rfl

/-- C4: in a receive cycle, the iteration for a serviced tuner (buffer invariant in
force, hardware returning at most what it was asked for) pushes a data packet only
without end-of-stream, only when the fill length after the transfer equals the
capacity, the packet carries the whole buffer, and the iteration ends with fill
length 0; when the fill length after the transfer is below the capacity, nothing is
pushed and the fill length is kept. -/
theorem receive_pushes_only_full_buffer (st mid : State) (recv : Nat → Nat → RecvResult)
    (id : Nat) (hI : BufferInv st) (hrecv : BoundedRecv (recv id)) (hs : Serviced st id)
    (hmid : mid = (usrpReceive id st.receive_timeout (recv id) st).2) :
    ∃ evs : List Event,
      (receiveTuner recv id st).2.trace = st.trace ++ evs ∧
      (∀ data T eos sid, Event.pushPacket data T eos sid ∈ evs →
        eos = false ∧
        (mid.usrp_tuners id).buffer_size = (mid.usrp_tuners id).buffer_capacity ∧
        data = (mid.usrp_tuners id).output_buffer ∧
        ((receiveTuner recv id st).2.usrp_tuners id).buffer_size = 0) ∧
      ((mid.usrp_tuners id).buffer_size < (mid.usrp_tuners id).buffer_capacity →
        (∀ data T eos sid, Event.pushPacket data T eos sid ∉ evs) ∧
        ((receiveTuner recv id st).2.usrp_tuners id).buffer_size =
          (mid.usrp_tuners id).buffer_size) := by
  obtain ⟨evs0, ht0, hA0⟩ := emits_usrpReceive id st.receive_timeout (recv id) st
  have hmidI : BufferInv mid := by
    rw [hmid]; exact usrpReceive_fill st id _ (recv id) hI hrecv
  have hno : ∀ data T eos sid, Event.pushPacket data T eos sid ∉ evs0 := by
    intro data T eos sid hmem
    obtain ⟨n, hn⟩ := hA0 _ hmem
    cases hn
  rw [receiveTuner_run st recv id hs]
  rcases hu : usrpReceive id st.receive_timeout (recv id) st with ⟨r, mid'⟩
  rw [hu] at ht0 hmid
  simp only at ht0 hmid
  subst hmid
  have hquiet : ∃ evs : List Event,
      mid.trace = st.trace ++ evs ∧
      (∀ data T eos sid, Event.pushPacket data T eos sid ∈ evs →
        eos = false ∧
        (mid.usrp_tuners id).buffer_size = (mid.usrp_tuners id).buffer_capacity ∧
        data = (mid.usrp_tuners id).output_buffer ∧
        (mid.usrp_tuners id).buffer_size = 0) ∧
      ((mid.usrp_tuners id).buffer_size < (mid.usrp_tuners id).buffer_capacity →
        (∀ data T eos sid, Event.pushPacket data T eos sid ∉ evs) ∧
        (mid.usrp_tuners id).buffer_size = (mid.usrp_tuners id).buffer_size) :=
    ⟨evs0, ht0, fun data T eos sid hmem => absurd hmem (hno data T eos sid),
      fun _ => ⟨hno, rfl⟩⟩
  cases r with
  | error e => exact hquiet
  | ok got =>
    cases got with
    | false => exact hquiet
    | true =>
      simp only [Bool.true_eq_false, if_false]
      split
      · exact hquiet
      · rename_i hfull
        obtain ⟨pre, sid, p1, p2, p3, p4⟩ := pushBuffer_effect mid id
        rcases hp : pushBuffer id mid with ⟨r2, fin⟩
        rw [hp] at p1 p2 p4
        simp only at p1 p2 p4
        subst p1
        refine ⟨evs0 ++ pre ++ [Event.pushPacket (mid.usrp_tuners id).output_buffer
          (mid.usrp_tuners id).output_buffer_time false sid], ?_, ?_, ?_⟩
        · show fin.trace = _
          rw [p2, ht0]; simp [List.append_assoc]
        · intro data T eos sid' hmem
          rcases List.mem_append.mp hmem with h | h
          · rcases List.mem_append.mp h with h | h
            · exact absurd h (hno data T eos sid')
            · obtain ⟨sri, hsri⟩ := p3 _ h
              cases hsri
          · rw [List.mem_singleton] at h
            cases h
            exact ⟨rfl, le_antisymm (hmidI id).1 (not_lt.mp hfull), rfl, p4⟩
        · intro hlt
          exact absurd hlt hfull

theorem serviced_stA (fill : Nat) : Serviced (stA true fill) 0 := by
  simp [Serviced, stA, statusA, getControlAllocationId]

/-- Witness for C4: the example device with two shorts in its buffer of four. -/
theorem receive_pushes_only_full_buffer_witness :
    ∃ evs : List Event,
      (receiveTuner (fun _ => recvA) 0 (stA true 2)).2.trace = (stA true 2).trace ++ evs ∧
      (∀ data T eos sid, Event.pushPacket data T eos sid ∈ evs →
        eos = false ∧
        (((usrpReceive 0 (stA true 2).receive_timeout recvA (stA true 2)).2.usrp_tuners
          0).buffer_size =
          ((usrpReceive 0 (stA true 2).receive_timeout recvA (stA true 2)).2.usrp_tuners
            0).buffer_capacity) ∧
        data = ((usrpReceive 0 (stA true 2).receive_timeout recvA (stA true 2)).2.usrp_tuners
          0).output_buffer ∧
        ((receiveTuner (fun _ => recvA) 0 (stA true 2)).2.usrp_tuners 0).buffer_size = 0) ∧
      (((usrpReceive 0 (stA true 2).receive_timeout recvA (stA true 2)).2.usrp_tuners
          0).buffer_size <
        ((usrpReceive 0 (stA true 2).receive_timeout recvA (stA true 2)).2.usrp_tuners
          0).buffer_capacity →
        (∀ data T eos sid, Event.pushPacket data T eos sid ∉ evs) ∧
        ((receiveTuner (fun _ => recvA) 0 (stA true 2)).2.usrp_tuners 0).buffer_size =
          ((usrpReceive 0 (stA true 2).receive_timeout recvA (stA true 2)).2.usrp_tuners
            0).buffer_size) :=
  receive_pushes_only_full_buffer (stA true 2) _ (fun _ => recvA) 0
    (bufferInv_stA true 2 (by decide)) boundedRecv_recvA (serviced_stA 2) rfl

/-! ## C5 to C8: validation in the control port -/

theorem int_ofNat_not_neg (idx : Nat) : ¬ ((idx : Int) < 0) := by omega

/-- C5: for every allocation id that maps to a tuner without being that tuner's
controlling allocation id, and for every requested value, `setTunerCenterFrequency`,
`setTunerBandwidth` and `setTunerOutputSampleRate` end with the authorization
failure (a `FrontendException` reporting the missing authorization) and leave the
whole device state as it was: no hardware call, no event, status and runtime state
unchanged. -/
theorem setters_unauthorized (st : State) (allocation_id : String) (idx : Nat) (v : ℚ)
    (fuel : Nat) (hmap : getTunerMapping st allocation_id = idx)
    (hctl : allocation_id ≠ getControlAllocationId st idx) :
    setTunerCenterFrequency allocation_id v st = (Except.error notAuthorized, st) ∧
    setTunerBandwidth allocation_id v st = (Except.error notAuthorized, st) ∧
    setTunerOutputSampleRate fuel allocation_id v st = (Except.error notAuthorized, st) ∧
    notAuthorized.cls = ExceptionClass.FrontendException ∧
    notAuthorized.what = Reason.not_authorized := by
  have h0 := int_ofNat_not_neg idx
  refine ⟨?_, ?_, ?_, rfl, rfl⟩
  · simp [setTunerCenterFrequency, run_bind, getState, hmap, h0, hctl, throwExc]
  · simp [setTunerBandwidth, run_bind, getState, hmap, h0, hctl, throwExc]
  · simp [setTunerOutputSampleRate, run_bind, getState, hmap, h0, hctl, throwExc]

theorem getTunerMapping_stA (enabled : Bool) (fill : Nat) :
    getTunerMapping (stA enabled fill) "alloc0" = (0 : Nat) ∧
    getTunerMapping (stA enabled fill) "listener0" = (0 : Nat) ∧
    getTunerMapping (stA enabled fill) "nobody" = -1 := by
  refine ⟨?_, ?_, ?_⟩ <;> simp [getTunerMapping, stA, List.lookup]

/-- Witness for C5: the listener of tuner 0 of the example device. -/
theorem setters_unauthorized_witness :
    setTunerCenterFrequency "listener0" 100 (stA true 0) =
      (Except.error notAuthorized, stA true 0) ∧
    setTunerBandwidth "listener0" 100 (stA true 0) = (Except.error notAuthorized, stA true 0) ∧
    setTunerOutputSampleRate 5 "listener0" 100 (stA true 0) =
      (Except.error notAuthorized, stA true 0) ∧
    notAuthorized.cls = ExceptionClass.FrontendException ∧
    notAuthorized.what = Reason.not_authorized :=
  setters_unauthorized (stA true 0) "listener0" 0 100 5 (getTunerMapping_stA true 0).2.1
    (by simp [getControlAllocationId, stA])

theorem bufferFrame_true : BufferFrame (fun _ => True) := fun _ _ _ _ => trivial

/-- A call whose exceptions are all NULL-device failures does not end with a
`BadParameterException`. -/
theorem not_badParameter_of_keeps {α : Type} {m : Call α}
    (hk : Keeps (fun _ => True) (fun e => e.cls = ExceptionClass.null_device) m)
    (st : State) (e : Error) (he : (m st).1 = Except.error e) :
    e.cls ≠ ExceptionClass.BadParameterException := by
  have h := (hk st trivial).2 e he
  rw [h]
  decide

/-- An accepted frequency request on a receive or transmit tuner does not end with a
`BadParameterException`. -/
theorem setTunerCenterFrequency_accepted (st : State) (allocation_id : String) (idx : Nat)
    (freq : ℚ) (hmap : getTunerMapping st allocation_id = idx)
    (hctl : allocation_id = getControlAllocationId st idx)
    (hty : (st.frontend_tuner_status idx).tuner_type = TunerType.RX_DIGITIZER ∨
      (st.frontend_tuner_status idx).tuner_type = TunerType.TX)
    (hin : ¬ (freq < (st.device_channels idx).freq_min ∨ freq > (st.device_channels idx).freq_max))
    (e : Error) (he : (setTunerCenterFrequency allocation_id freq st).1 = Except.error e) :
    e.cls ≠ ExceptionClass.BadParameterException := by
  have h0 := int_ofNat_not_neg idx
  have hF := bufferFrame_true
  have hC : (fun e : Error => e.cls = ExceptionClass.null_device)
      ⟨ExceptionClass.null_device, Reason.null_pointer⟩ := rfl
  unfold setTunerCenterFrequency at he
  rw [run_bind] at he
  simp only [getState, hmap, h0, if_false, Int.toNat_ofNat, ← hctl, ne_eq, not_true_eq_false,
    hin] at he
  rcases hty with hty | hty
  · rw [hty] at he
    refine not_badParameter_of_keeps ?_ st e he
    repeat' first
      | exact keeps_pure _
      | exact keeps_getState
      | exact keeps_setStatus hF _ _
      | exact keeps_setTuner hF _ _ (fun t => ⟨rfl, Or.inl rfl⟩)
      | exact keeps_interrupt hF _
      | exact keeps_updateDeviceInfo hF
      | exact keeps_usrpEnable hF hC _ _
      | exact keeps_usrpDisable hF hC _ _
      | exact (keeps_hw_get hF hC _).1
      | exact (keeps_hw_set hF hC _ _).1
      | apply keeps_bind
      | apply keeps_ite
      | intro _
  · rw [hty] at he
    refine not_badParameter_of_keeps ?_ st e he
    repeat' first
      | exact keeps_pure _
      | exact keeps_setStatus hF _ _
      | exact keeps_interrupt hF _
      | exact keeps_updateDeviceInfo hF
      | exact (keeps_hw_get hF hC _).2.1
      | exact (keeps_hw_set hF hC _ _).2.1
      | apply keeps_bind
      | apply keeps_ite
      | intro _

/-- C6: for a tuner of role RX or TX and a call made with its controlling allocation
id, `setTunerCenterFrequency(freq)` ends with a `BadParameterException` if and only
if `freq < freq_min` or `freq > freq_max` of that channel (both bounds are
accepted); when it does, the device state is exactly what it was: no hardware call
was issued, status and runtime state are unchanged. -/
theorem setTunerCenterFrequency_badParameter_iff (st : State) (allocation_id : String)
    (idx : Nat) (freq : ℚ) (hmap : getTunerMapping st allocation_id = idx)
    (hctl : allocation_id = getControlAllocationId st idx)
    (hty : (st.frontend_tuner_status idx).tuner_type = TunerType.RX_DIGITIZER ∨
      (st.frontend_tuner_status idx).tuner_type = TunerType.TX) :
    ((∃ e, (setTunerCenterFrequency allocation_id freq st).1 = Except.error e ∧
        e.cls = ExceptionClass.BadParameterException) ↔
      (freq < (st.device_channels idx).freq_min ∨ freq > (st.device_channels idx).freq_max)) ∧
    (∀ e, (setTunerCenterFrequency allocation_id freq st).1 = Except.error e →
      e.cls = ExceptionClass.BadParameterException →
      (setTunerCenterFrequency allocation_id freq st).2 = st) := by
  have h0 := int_ofNat_not_neg idx
  have hout : (freq < (st.device_channels idx).freq_min ∨
      freq > (st.device_channels idx).freq_max) →
      setTunerCenterFrequency allocation_id freq st =
        (Except.error ⟨ExceptionClass.BadParameterException, Reason.invalid_center_frequency⟩,
          st) := by
    intro h
    unfold setTunerCenterFrequency
    rw [run_bind]
    simp only [getState, hmap, h0, if_false, Int.toNat_ofNat, ← hctl, ne_eq, not_true_eq_false,
      h, if_true, throwExc]
  constructor
  · constructor
    · rintro ⟨e, he, hcls⟩
      by_contra hin
      exact setTunerCenterFrequency_accepted st allocation_id idx freq hmap hctl hty hin e he hcls
    · intro h
      exact ⟨_, by rw [hout h], rfl⟩
  · intro e he hcls
    by_cases hin : freq < (st.device_channels idx).freq_min ∨
        freq > (st.device_channels idx).freq_max
    · rw [hout hin]
    · exact absurd hcls
        (setTunerCenterFrequency_accepted st allocation_id idx freq hmap hctl hty hin e he)

/-- Witness for C6: the receive tuner of the example device, whose frequency range is
70 to 6000. -/
theorem setTunerCenterFrequency_badParameter_iff_witness :
    ((∃ e, (setTunerCenterFrequency "alloc0" 6000 (stA true 0)).1 = Except.error e ∧
        e.cls = ExceptionClass.BadParameterException) ↔
      ((6000 : ℚ) < ((stA true 0).device_channels 0).freq_min ∨
        (6000 : ℚ) > ((stA true 0).device_channels 0).freq_max)) ∧
    (∀ e, (setTunerCenterFrequency "alloc0" 6000 (stA true 0)).1 = Except.error e →
      e.cls = ExceptionClass.BadParameterException →
      (setTunerCenterFrequency "alloc0" 6000 (stA true 0)).2 = stA true 0) :=
  setTunerCenterFrequency_badParameter_iff (stA true 0) "alloc0" 0 6000
    (getTunerMapping_stA true 0).1 (by simp [getControlAllocationId, stA])
    (Or.inl (by simp [stA, statusA]))

theorem control_stA (enabled : Bool) (fill : Nat) :
    "alloc0" = getControlAllocationId (stA enabled fill) 0 := by
  simp [getControlAllocationId, stA]

theorem compareHz_neg_iff (a b : ℚ) : compareHz a b < 0 ↔ a < b := by
  have h := compareHz_nonneg_iff a b
  constructor
  · intro h1; by_contra h2; exact absurd (h.mpr (not_lt.mp h2)) (not_le.mpr h1)
  · intro h1; by_contra h2; exact absurd (h.mp (not_lt.mp h2)) (not_le.mpr h1)

theorem compareHz_pos_iff (a b : ℚ) : compareHz a b > 0 ↔ a > b := by
  have h := compareHz_nonpos_iff a b
  constructor
  · intro h1; by_contra h2; exact absurd (h.mpr (not_lt.mp h2)) (not_le.mpr h1)
  · intro h1; by_contra h2; exact absurd (h.mp (not_lt.mp h2)) (not_le.mpr h1)

/-- A bandwidth request outside `[0, bandwidth_max]`, made with the controlling
allocation id, ends with the `BadParameterException` and leaves the state as it was. -/
theorem setTunerBandwidth_rejected (st : State) (allocation_id : String) (idx : Nat) (v : ℚ)
    (hmap : getTunerMapping st allocation_id = idx)
    (hctl : allocation_id = getControlAllocationId st idx)
    (h : v < 0 ∨ v > (st.device_channels idx).bandwidth_max) :
    setTunerBandwidth allocation_id v st =
      (Except.error ⟨ExceptionClass.BadParameterException, Reason.invalid_bandwidth⟩, st) := by
  have h0 := int_ofNat_not_neg idx
  unfold setTunerBandwidth
  rw [run_bind]
  simp only [getState, hmap, h0, if_false, Int.toNat_ofNat, ← hctl, ne_eq, not_true_eq_false,
    compareHz_neg_iff, compareHz_pos_iff, h, if_true, throwExc]

/-- A rate request outside `[0, rate_max]`, made with the controlling allocation id,
ends with the `BadParameterException` and leaves the state as it was. -/
theorem setTunerOutputSampleRate_rejected (st : State) (allocation_id : String) (idx : Nat)
    (v : ℚ) (fuel : Nat) (hmap : getTunerMapping st allocation_id = idx)
    (hctl : allocation_id = getControlAllocationId st idx)
    (h : v < 0 ∨ v > (st.device_channels idx).rate_max) :
    setTunerOutputSampleRate fuel allocation_id v st =
      (Except.error ⟨ExceptionClass.BadParameterException, Reason.invalid_sample_rate⟩, st) := by
  have h0 := int_ofNat_not_neg idx
  unfold setTunerOutputSampleRate
  rw [run_bind]
  simp only [getState, hmap, h0, if_false, Int.toNat_ofNat, ← hctl, ne_eq, not_true_eq_false,
    compareHz_neg_iff, compareHz_pos_iff, h, if_true, throwExc]

/-- A bandwidth request within `[0, bandwidth_max]` on a receive or transmit tuner does
not end with a `BadParameterException`, with or without a device. -/
theorem setTunerBandwidth_accepted (st : State) (allocation_id : String) (idx : Nat)
    (v : ℚ) (hmap : getTunerMapping st allocation_id = idx)
    (hctl : allocation_id = getControlAllocationId st idx)
    (hty : (st.frontend_tuner_status idx).tuner_type = TunerType.RX_DIGITIZER ∨
      (st.frontend_tuner_status idx).tuner_type = TunerType.TX)
    (hin : ¬ (v < 0 ∨ v > (st.device_channels idx).bandwidth_max))
    (e : Error) (he : (setTunerBandwidth allocation_id v st).1 = Except.error e) :
    e.cls ≠ ExceptionClass.BadParameterException := by
  have h0 := int_ofNat_not_neg idx
  have hF := bufferFrame_true
  have hC : (fun e : Error => e.cls = ExceptionClass.null_device)
      ⟨ExceptionClass.null_device, Reason.null_pointer⟩ := rfl
  unfold setTunerBandwidth at he
  rw [run_bind] at he
  simp only [getState, hmap, h0, if_false, Int.toNat_ofNat, ← hctl, ne_eq, not_true_eq_false,
    compareHz_neg_iff, compareHz_pos_iff, hin] at he
  rcases hty with hty | hty
  · rw [hty] at he
    refine not_badParameter_of_keeps ?_ st e he
    repeat' first
      | exact keeps_pure _
      | exact keeps_setStatus hF _ _
      | exact keeps_setTuner hF _ _ (fun t => ⟨rfl, Or.inl rfl⟩)
      | exact keeps_interrupt hF _
      | exact keeps_updateDeviceInfo hF
      | exact (keeps_hw_get hF hC _).2.2.1
      | exact (keeps_hw_set hF hC _ _).2.2.1
      | apply keeps_bind
      | apply keeps_ite
      | intro _
  · rw [hty] at he
    refine not_badParameter_of_keeps ?_ st e he
    repeat' first
      | exact keeps_pure _
      | exact keeps_setStatus hF _ _
      | exact keeps_interrupt hF _
      | exact keeps_updateDeviceInfo hF
      | exact (keeps_hw_get hF hC _).2.2.2.1
      | exact (keeps_hw_set hF hC _ _).2.2.2.1
      | apply keeps_bind
      | apply keeps_ite
      | intro _

/-- A rate request within `[0, rate_max]` on a receive or transmit tuner does not end
with a `BadParameterException`, with or without a device and whatever the fuel. -/
theorem setTunerOutputSampleRate_accepted (st : State) (allocation_id : String) (idx : Nat)
    (v : ℚ) (fuel : Nat) (hmap : getTunerMapping st allocation_id = idx)
    (hctl : allocation_id = getControlAllocationId st idx)
    (hty : (st.frontend_tuner_status idx).tuner_type = TunerType.RX_DIGITIZER ∨
      (st.frontend_tuner_status idx).tuner_type = TunerType.TX)
    (hin : ¬ (v < 0 ∨ v > (st.device_channels idx).rate_max))
    (e : Error) (he : (setTunerOutputSampleRate fuel allocation_id v st).1 = Except.error e) :
    e.cls ≠ ExceptionClass.BadParameterException := by
  have h0 := int_ofNat_not_neg idx
  have hF := bufferFrame_true
  have hC : (fun e : Error => e.cls = ExceptionClass.null_device)
      ⟨ExceptionClass.null_device, Reason.null_pointer⟩ := rfl
  unfold setTunerOutputSampleRate at he
  rw [run_bind] at he
  simp only [getState, hmap, h0, if_false, Int.toNat_ofNat, ← hctl, ne_eq, not_true_eq_false,
    compareHz_neg_iff, compareHz_pos_iff, hin] at he
  rcases hopt : optimizeRate fuel (st.device_channels idx) (st.usrp_ranges idx) v with _ | opt
  · rw [hopt] at he
    simp only [throwExc] at he
    cases he
    decide
  · rw [hopt] at he
    rcases hty with hty | hty
    · rw [hty] at he
      refine not_badParameter_of_keeps ?_ st e he
      repeat' first
        | exact keeps_pure _
        | exact keeps_setStatus hF _ _
        | exact keeps_setTuner hF _ _ (fun t => ⟨rfl, Or.inl rfl⟩)
        | exact keeps_interrupt hF _
        | exact keeps_updateDeviceInfo hF
        | exact (keeps_hw_get hF hC _).2.2.2.2.1
        | exact (keeps_hw_set hF hC _ _).2.2.2.2.1
        | apply keeps_bind
        | apply keeps_ite
        | intro _
    · rw [hty] at he
      refine not_badParameter_of_keeps ?_ st e he
      repeat' first
        | exact keeps_pure _
        | exact keeps_setStatus hF _ _
        | exact keeps_interrupt hF _
        | exact keeps_updateDeviceInfo hF
        | exact (keeps_hw_get hF hC _).2.2.2.2.2
        | exact (keeps_hw_set hF hC _ _).2.2.2.2.2
        | apply keeps_bind
        | apply keeps_ite
        | intro _

/-- The run of `setTunerBandwidth` for the controlling allocation id and a bandwidth
within `[0, bandwidth_max]`, with a device: it ends normally, and after the requests
to interrupt the service thread the hardware is set to `optimizeBandwidth(bw)`, asked
for its bandwidth and for its description. -/
theorem setTunerBandwidth_run (allocation_id : String) (bw : ℚ) (st : State) (hw : Hardware)
    (idx : Nat) (hmap : getTunerMapping st allocation_id = (idx : Int))
    (hctl : allocation_id = getControlAllocationId st idx)
    (hdev : st.usrp_device_ptr = some hw)
    (hb : ¬ (bw < 0 ∨ bw > (st.device_channels idx).bandwidth_max)) :
    ((st.frontend_tuner_status idx).tuner_type = TunerType.RX_DIGITIZER →
      (setTunerBandwidth allocation_id bw st).1 = Except.ok () ∧
      (setTunerBandwidth allocation_id bw st).2.trace = st.trace ++
        (if st.receive_service_thread then [Event.interrupt ServiceThread.receive] else []) ++
        [Event.set_rx_bandwidth
            (optimizeBandwidth (st.device_channels idx) (st.usrp_ranges idx) bw)
            (st.device_channels idx).chan_num,
          Event.get_rx_bandwidth (st.device_channels idx).chan_num,
          Event.query_device_info]) ∧
    ((st.frontend_tuner_status idx).tuner_type = TunerType.TX →
      (setTunerBandwidth allocation_id bw st).1 = Except.ok () ∧
      (setTunerBandwidth allocation_id bw st).2.trace = st.trace ++
        (if st.transmit_service_thread then [Event.interrupt ServiceThread.transmit] else []) ++
        [Event.set_tx_bandwidth
            (optimizeBandwidth (st.device_channels idx) (st.usrp_ranges idx) bw)
            (st.device_channels idx).chan_num,
          Event.get_tx_bandwidth (st.device_channels idx).chan_num,
          Event.query_device_info]) := by
  have hneg : ¬ ((idx : Int) < 0) := int_ofNat_not_neg idx
  constructor
  · intro hty
    unfold setTunerBandwidth
    simp only [run_bind, getState, run_ite, hmap, if_neg hneg, Int.toNat_ofNat, ← hctl, ne_eq,
      not_true_eq_false, if_false, compareHz_neg_iff, compareHz_pos_iff, if_neg hb, hty]
    cases hthread : st.receive_service_thread <;>
      simp [interrupt, hty, hthread, run_bind, run_pure, run_ite, getState,
        hw_set_rx_bandwidth, hw_get_rx_bandwidth,
        device, hdev, emit, modifyState, setDevice, setStatus, setTuner, updateDeviceInfo]
  · intro hty
    unfold setTunerBandwidth
    simp only [run_bind, getState, run_ite, hmap, if_neg hneg, Int.toNat_ofNat, ← hctl, ne_eq,
      not_true_eq_false, if_false, compareHz_neg_iff, compareHz_pos_iff, if_neg hb, hty]
    cases hthread : st.transmit_service_thread <;>
      simp [interrupt, hty, hthread, run_bind, run_pure, run_ite, getState,
        hw_set_tx_bandwidth, hw_get_tx_bandwidth,
        device, hdev, emit, modifyState, setDevice, setStatus, updateDeviceInfo]

/-- The run of `setTunerOutputSampleRate` for the controlling allocation id and a rate
within `[0, rate_max]`, with a device and a result `opt_sr` of `optimizeRate`: it ends
normally, and after the requests to interrupt the service thread the hardware is set
to `opt_sr`, asked for its rate and for its description. -/
theorem setTunerOutputSampleRate_run (fuel : Nat) (allocation_id : String) (sr : ℚ)
    (st : State) (hw : Hardware)
    (idx : Nat) (hmap : getTunerMapping st allocation_id = (idx : Int))
    (hctl : allocation_id = getControlAllocationId st idx)
    (hdev : st.usrp_device_ptr = some hw)
    (hb : ¬ (sr < 0 ∨ sr > (st.device_channels idx).rate_max))
    (opt_sr : ℚ)
    (hopt : optimizeRate fuel (st.device_channels idx) (st.usrp_ranges idx) sr = some opt_sr) :
    ((st.frontend_tuner_status idx).tuner_type = TunerType.RX_DIGITIZER →
      (setTunerOutputSampleRate fuel allocation_id sr st).1 = Except.ok () ∧
      (setTunerOutputSampleRate fuel allocation_id sr st).2.trace = st.trace ++
        (if st.receive_service_thread then [Event.interrupt ServiceThread.receive] else []) ++
        [Event.set_rx_rate opt_sr (st.device_channels idx).chan_num,
          Event.get_rx_rate (st.device_channels idx).chan_num,
          Event.query_device_info]) ∧
    ((st.frontend_tuner_status idx).tuner_type = TunerType.TX →
      (setTunerOutputSampleRate fuel allocation_id sr st).1 = Except.ok () ∧
      (setTunerOutputSampleRate fuel allocation_id sr st).2.trace = st.trace ++
        (if st.transmit_service_thread then [Event.interrupt ServiceThread.transmit] else []) ++
        [Event.set_tx_rate opt_sr (st.device_channels idx).chan_num,
          Event.get_tx_rate (st.device_channels idx).chan_num,
          Event.query_device_info]) := by
  have hneg : ¬ ((idx : Int) < 0) := int_ofNat_not_neg idx
  constructor
  · intro hty
    unfold setTunerOutputSampleRate
    simp only [run_bind, getState, run_ite, hmap, if_neg hneg, Int.toNat_ofNat, ← hctl, ne_eq,
      not_true_eq_false, if_false, compareHz_neg_iff, compareHz_pos_iff, if_neg hb, hopt, hty]
    cases hthread : st.receive_service_thread <;>
      simp [interrupt, hty, hthread, run_bind, run_pure, run_ite, getState,
        hw_set_rx_rate, hw_get_rx_rate,
        device, hdev, emit, modifyState, setDevice, setStatus, setTuner, updateDeviceInfo]
  · intro hty
    unfold setTunerOutputSampleRate
    simp only [run_bind, getState, run_ite, hmap, if_neg hneg, Int.toNat_ofNat, ← hctl, ne_eq,
      not_true_eq_false, if_false, compareHz_neg_iff, compareHz_pos_iff, if_neg hb, hopt, hty]
    cases hthread : st.transmit_service_thread <;>
      simp [interrupt, hty, hthread, run_bind, run_pure, run_ite, getState,
        hw_set_tx_rate, hw_get_tx_rate,
        device, hdev, emit, modifyState, setDevice, setStatus, updateDeviceInfo]

/-- C8 (amended): for every allocation id without tuner mapping (the lookup returns a
negative index), each getter and setter of the tuner control port that resolves
the id ends with the `BadParameterException` reporting an invalid allocation id,
the same exception class the setters use for out-of-range values, and leaves the
device state unchanged. -/
theorem unmapped_allocation_id_rejected (st : State) (allocation_id : String) (v : ℚ)
    (enable : Bool) (fuel : Nat) (h : getTunerMapping st allocation_id < 0) :
    getTunerType allocation_id st = (Except.error invalidAllocation, st) ∧
    getTunerDeviceControl allocation_id st = (Except.error invalidAllocation, st) ∧
    getTunerGroupId allocation_id st = (Except.error invalidAllocation, st) ∧
    getTunerRfFlowId allocation_id st = (Except.error invalidAllocation, st) ∧
    getTunerCenterFrequency allocation_id st = (Except.error invalidAllocation, st) ∧
    setTunerCenterFrequency allocation_id v st = (Except.error invalidAllocation, st) ∧
    getTunerBandwidth allocation_id st = (Except.error invalidAllocation, st) ∧
    setTunerBandwidth allocation_id v st = (Except.error invalidAllocation, st) ∧
    getTunerOutputSampleRate allocation_id st = (Except.error invalidAllocation, st) ∧
    setTunerOutputSampleRate fuel allocation_id v st = (Except.error invalidAllocation, st) ∧
    getTunerEnable allocation_id st = (Except.error invalidAllocation, st) ∧
    setTunerEnable allocation_id enable st = (Except.error invalidAllocation, st) ∧
    invalidAllocation.cls = ExceptionClass.BadParameterException := by
  refine ⟨?_, ?_, ?_, ?_, ?_, ?_, ?_, ?_, ?_, ?_, ?_, ?_, rfl⟩
  · simp [getTunerType, run_bind, getState, h, throwExc]
  · simp [getTunerDeviceControl, run_bind, getState, h, throwExc]
  · simp [getTunerGroupId, run_bind, getState, h, throwExc]
  · simp [getTunerRfFlowId, run_bind, getState, h, throwExc]
  · simp [getTunerCenterFrequency, run_bind, getState, h, throwExc]
  · simp [setTunerCenterFrequency, run_bind, getState, h, throwExc]
  · simp [getTunerBandwidth, run_bind, getState, h, throwExc]
  · simp [setTunerBandwidth, run_bind, getState, h, throwExc]
  · simp [getTunerOutputSampleRate, run_bind, getState, h, throwExc]
  · simp [setTunerOutputSampleRate, run_bind, getState, h, throwExc]
  · simp [getTunerEnable, run_bind, getState, h, throwExc]
  · simp [setTunerEnable, run_bind, getState, h, throwExc]

/-- Witness for C8: an allocation id the example device does not know. -/
theorem unmapped_allocation_id_rejected_witness :
    getTunerMapping (stA true 0) "nobody" < 0 ∧
    setTunerEnable "nobody" true (stA true 0) = (Except.error invalidAllocation, stA true 0) ∧
    getTunerEnable "nobody" (stA true 0) = (Except.error invalidAllocation, stA true 0) :=
  have h : getTunerMapping (stA true 0) "nobody" < 0 := by
    rw [(getTunerMapping_stA true 0).2.2]; decide
  ⟨h, (unmapped_allocation_id_rejected (stA true 0) "nobody" 0 true 0 h).2.2.2.2.2.2.2.2.2.2.2.1,
    (unmapped_allocation_id_rejected (stA true 0) "nobody" 0 true 0 h).2.2.2.2.2.2.2.2.2.2.1⟩

/-- Counterexample to C8 as stated: on the example device the unmapped id `"nobody"`
and the out-of-range frequency 7000 of the controlling id `"alloc0"` end with
exceptions of one and the same class, `BadParameterException`. -/
theorem invalid_allocation_same_class_counterexample :
    ∃ e1 e2 : Error,
      getTunerMapping (stA true 0) "nobody" < 0 ∧
      (setTunerCenterFrequency "nobody" 100 (stA true 0)).1 = Except.error e1 ∧
      (setTunerCenterFrequency "alloc0" 7000 (stA true 0)).1 = Except.error e2 ∧
      e2.what = Reason.invalid_center_frequency ∧
      e1.cls = e2.cls := by
  have h : getTunerMapping (stA true 0) "nobody" < 0 := by
    rw [(getTunerMapping_stA true 0).2.2]; decide
  refine ⟨invalidAllocation,
    ⟨ExceptionClass.BadParameterException, Reason.invalid_center_frequency⟩, h, ?_, ?_, rfl, rfl⟩
  · simp [setTunerCenterFrequency, run_bind, getState, h, throwExc]
  · have hout : (7000 : ℚ) < ((stA true 0).device_channels 0).freq_min ∨
        (7000 : ℚ) > ((stA true 0).device_channels 0).freq_max := by
      right
      norm_num [stA, chA, rgA, channelOf, exampleRanges, intervalRange]
    simp only [setTunerCenterFrequency, run_bind, getState, (getTunerMapping_stA true 0).1,
      int_ofNat_not_neg, if_false, Int.toNat_ofNat, ← control_stA true 0, ne_eq,
      not_true_eq_false, hout, if_true, throwExc]

/-! ## C9 and C10: disable and enable -/

/-- What `getStreamId` leaves untouched, and that it ends normally. -/
theorem getStreamId_run (st : State) (id : Nat) :
    ∃ (sid : String) (st1 : State),
      getStreamId id st = (Except.ok sid, st1) ∧
      st1.trace = st.trace ∧
      st1.frontend_tuner_status = st.frontend_tuner_status ∧
      st1.usrp_device_ptr = st.usrp_device_ptr ∧
      (st1.usrp_tuners id).output_buffer = (st.usrp_tuners id).output_buffer ∧
      (st1.usrp_tuners id).output_buffer_time = (st.usrp_tuners id).output_buffer_time ∧
      (st1.usrp_tuners id).buffer_size = (st.usrp_tuners id).buffer_size ∧
      (st1.usrp_tuners id).buffer_capacity = (st.usrp_tuners id).buffer_capacity := by
  simp only [getStreamId, run_bind, getState, run_ite, run_pure]
  split_ifs
  · exact ⟨_, _, rfl, rfl, rfl, rfl, rfl, rfl, rfl, rfl⟩
  · refine ⟨_, _, rfl, ?_⟩
    simp [modifyState, setTuner]
  · exact ⟨_, _, rfl, rfl, rfl, rfl, rfl, rfl, rfl, rfl⟩

theorem length_resize (v : List Int) (n : Nat) : (resize v n).length = n := by
  unfold resize
  simp only [List.length_append, List.length_take, List.length_replicate]
  omega

theorem resize_of_le (v : List Int) (n : Nat) (h : n ≤ v.length) : resize v n = v.take n := by
  unfold resize
  simp [Nat.sub_eq_zero_of_le h]

/-- The effect of `usrpDisable` on a receive tuner. -/
theorem usrpDisable_effect (st : State) (id chan : Nat) (hw : Hardware)
    (hdev : st.usrp_device_ptr = some hw)
    (hty : (st.frontend_tuner_status id).tuner_type = TunerType.RX_DIGITIZER)
    (hlen : (st.usrp_tuners id).buffer_size ≤ (st.usrp_tuners id).output_buffer.length) :
    (usrpDisable id chan st).1 = Except.ok true ∧
    ((st.frontend_tuner_status id).enabled = true →
      FlushedAndDisabled st (usrpDisable id chan st).2 id chan []) ∧
    ((st.frontend_tuner_status id).enabled = false →
      StoppedQuietly st (usrpDisable id chan st).2 id chan []) := by
  have hne : (st.frontend_tuner_status id).tuner_type ≠ TunerType.TX := by rw [hty]; decide
  cases hen : (st.frontend_tuner_status id).enabled with
  | false =>
    simp [usrpDisable, run_bind, run_ite, run_pure, getState, setStatus, modifyState, hne, hen,
      hw_issue_stream_cmd, device, hdev, emit, setTuner, StoppedQuietly]
  | true =>
    simp only [usrpDisable, run_bind, run_ite, run_pure, getState, setStatus, modifyState, hne,
      hen, hw_issue_stream_cmd, device, hdev, emit, ne_eq, not_false_eq_true, if_true]
    have key := getStreamId_run
      { st with
        usrp_device_ptr := some hw,
        frontend_tuner_status := Function.update st.frontend_tuner_status id
          { st.frontend_tuner_status id with enabled := false },
        trace := st.trace ++ [Event.issue_stream_cmd StreamMode.STOP_CONTINUOUS chan] } id
    obtain ⟨sid, st1, hg, g1, g2, g3, g4, g5, g6, g7⟩ := key
    simp only at hg g1 g2 g3 g4 g5 g6 g7
    simp only [hg, setTuner, modifyState, Function.update_same]
    refine ⟨trivial, ?_, ?_⟩
    · intro _
      refine ⟨{ createSRI sid (st1.frontend_tuner_status id) with
        times := some ((st1.usrp_tuners id).time_up.twsec, (st1.usrp_tuners id).time_down.twsec) },
        ?_, rfl, ?_⟩
      · simp [g1, g4, g5, g6, resize_of_le _ _ hlen, createSRI]
      · simp [DisabledAndReset, g2, length_resize]
    · intro h; cases h

/-- The effect of `usrpEnable` on a receive tuner. -/
theorem usrpEnable_effect (st : State) (id chan : Nat) (hw : Hardware)
    (hdev : st.usrp_device_ptr = some hw)
    (hty : (st.frontend_tuner_status id).tuner_type = TunerType.RX_DIGITIZER) :
    (usrpEnable id chan st).1 = Except.ok true ∧
    EnabledAndStarted st (usrpEnable id chan st).2 id chan [] := by
  have hne : (st.frontend_tuner_status id).tuner_type ≠ TunerType.TX := by rw [hty]; decide
  have key := getStreamId_run
    { st with
      usrp_device_ptr := some hw,
      frontend_tuner_status := Function.update st.frontend_tuner_status id
        { st.frontend_tuner_status id with enabled := true } } id
  obtain ⟨sid, st1, hg, g1, g2, g3, g4, g5, g6, g7⟩ := key
  simp only at hg g1 g2 g3 g4 g5 g6 g7
  cases hen : (st.frontend_tuner_status id).enabled with
  | false =>
    simp only [usrpEnable, run_bind, run_ite, run_pure, getState, setStatus, modifyState, hne,
      hen, if_false, hg, Bool.not_false, if_true, emit, setTuner, hw_issue_stream_cmd, device,
      g3, hdev]
    refine ⟨trivial, ?_, ?_, ?_⟩
    · simp [g2]
    · intro _
      refine ⟨by simp, createSRI sid (st1.frontend_tuner_status id), rfl, ?_⟩
      simp [g1]
    · intro h; rw [hen] at h; cases h
  | true =>
    simp only [usrpEnable, run_bind, run_ite, run_pure, getState, setStatus, modifyState, hne,
      hen, if_false, hg, Bool.not_true, Bool.false_eq_true, emit, setTuner, hw_issue_stream_cmd,
      device, g3, hdev]
    refine ⟨trivial, ?_, ?_, ?_⟩
    · simp [g2]
    · intro h; rw [hen] at h; cases h
    · intro _
      simp [g1]

/-- The effect of `interrupt`: it ends normally, adds nothing but interrupt requests
to the trace, and leaves device, status, runtime and channel tables alone. -/
theorem interrupt_run (st : State) (id : Nat) :
    ∃ (pre : List Event) (st1 : State),
      interrupt id st = (Except.ok (), st1) ∧ InterruptsOnly pre ∧
      st1.trace = st.trace ++ pre ∧
      st1.usrp_device_ptr = st.usrp_device_ptr ∧
      st1.frontend_tuner_status = st.frontend_tuner_status ∧
      st1.usrp_tuners = st.usrp_tuners := by
  simp only [interrupt, run_bind, getState]
  cases (st.frontend_tuner_status id).tuner_type with
  | RX_DIGITIZER =>
    simp only [run_ite, run_bind, modifyState, emit, run_pure]
    split_ifs
    · refine ⟨[Event.interrupt ServiceThread.receive], _, rfl, ?_, rfl, rfl, rfl, rfl⟩
      intro e he
      exact ⟨_, List.mem_singleton.mp he⟩
    · exact ⟨[], _, rfl, fun e he => absurd he (List.not_mem_nil e), by simp, rfl, rfl, rfl⟩
  | TX =>
    simp only [run_ite, run_bind, modifyState, emit, run_pure]
    split_ifs
    · refine ⟨[Event.interrupt ServiceThread.transmit], _, rfl, ?_, rfl, rfl, rfl, rfl⟩
      intro e he
      exact ⟨_, List.mem_singleton.mp he⟩
    · exact ⟨[], _, rfl, fun e he => absurd he (List.not_mem_nil e), by simp, rfl, rfl, rfl⟩
  | UNKNOWN =>
    exact ⟨[], _, rfl, fun e he => absurd he (List.not_mem_nil e), by simp [run_pure], rfl, rfl, rfl⟩

/-- An authorized `setTunerEnable` is `interrupt` followed by `usrpEnable` or
`usrpDisable` on the tuner's channel. -/
theorem setTunerEnable_run (st : State) (allocation_id : String) (idx : Nat) (enable : Bool)
    (hmap : getTunerMapping st allocation_id = idx)
    (hctl : allocation_id = getControlAllocationId st idx) :
    setTunerEnable allocation_id enable st =
      match interrupt idx st with
      | (Except.ok _, st1) =>
        (match (if enable then usrpEnable idx (st.device_channels idx).chan_num st1
            else usrpDisable idx (st.device_channels idx).chan_num st1) with
          | (Except.ok _, st2) => (Except.ok (), st2)
          | (Except.error e, st2) => (Except.error e, st2))
      | (Except.error e, st1) => (Except.error e, st1) := by
  have h0 := int_ofNat_not_neg idx
  unfold setTunerEnable
  rw [run_bind]
  simp only [getState, hmap, h0, if_false, Int.toNat_ofNat, ← hctl, ne_eq, not_true_eq_false]
  rw [run_bind]
  rcases interrupt idx st with ⟨r, st1⟩
  cases r with
  | error e => rfl
  | ok u =>
    cases enable with
    | true =>
      simp only [if_true, run_bind, run_ite, run_pure]
      rcases usrpEnable idx (st.device_channels idx).chan_num st1 with ⟨r2, st2⟩
      cases r2 <;> rfl
    | false =>
      simp only [Bool.false_eq_true, if_false, run_bind, run_ite, run_pure]
      rcases usrpDisable idx (st.device_channels idx).chan_num st1 with ⟨r2, st2⟩
      cases r2 <;> rfl

/-- C9: disabling, by `usrpDisable` or by `setTunerEnable(false)` with the controlling
allocation id, a receive tuner whose buffer holds `n` elements (`n` at most the
capacity, the buffer as long as the capacity): if the tuner is enabled, exactly one
data packet is pushed, with end-of-stream set and the first `n` buffer elements as
payload, after the stop command and one SRI push, and the tuner is left with fill
length 0, a buffer of capacity length, zeroed buffer, stream-start and stream-end
timestamps and `enabled = false`; if the tuner is already disabled, only the stop
command is issued: no data packet and no SRI. `setTunerEnable` adds nothing but
interrupt requests in front. -/
theorem disable_flushes_partial_buffer (st : State) (allocation_id : String) (id chan : Nat)
    (hw : Hardware) (hdev : st.usrp_device_ptr = some hw)
    (hty : (st.frontend_tuner_status id).tuner_type = TunerType.RX_DIGITIZER)
    (hn : (st.usrp_tuners id).buffer_size ≤ (st.usrp_tuners id).buffer_capacity)
    (hlen : (st.usrp_tuners id).output_buffer.length = (st.usrp_tuners id).buffer_capacity)
    (hmap : getTunerMapping st allocation_id = id)
    (hctl : allocation_id = getControlAllocationId st id) :
    ((usrpDisable id chan st).1 = Except.ok true ∧
      ((st.frontend_tuner_status id).enabled = true →
        FlushedAndDisabled st (usrpDisable id chan st).2 id chan []) ∧
      ((st.frontend_tuner_status id).enabled = false →
        StoppedQuietly st (usrpDisable id chan st).2 id chan [])) ∧
    (∃ pre : List Event, InterruptsOnly pre ∧
      (setTunerEnable allocation_id false st).1 = Except.ok () ∧
      ((st.frontend_tuner_status id).enabled = true →
        FlushedAndDisabled st (setTunerEnable allocation_id false st).2 id
          (st.device_channels id).chan_num pre) ∧
      ((st.frontend_tuner_status id).enabled = false →
        StoppedQuietly st (setTunerEnable allocation_id false st).2 id
          (st.device_channels id).chan_num pre)) := by
  have hle : (st.usrp_tuners id).buffer_size ≤ (st.usrp_tuners id).output_buffer.length := by
    rw [hlen]; exact hn
  refine ⟨usrpDisable_effect st id chan hw hdev hty hle, ?_⟩
  obtain ⟨pre, st1, hi, hpre, i1, i2, i3, i4⟩ := interrupt_run st id
  obtain ⟨d1, d2, d3⟩ := usrpDisable_effect st1 id (st.device_channels id).chan_num hw
    (by rw [i2]; exact hdev) (by rw [i3]; exact hty) (by rw [i4]; exact hle)
  rw [setTunerEnable_run st allocation_id id false hmap hctl, hi]
  simp only [Bool.false_eq_true, if_false]
  rcases hd : usrpDisable id (st.device_channels id).chan_num st1 with ⟨r, fin⟩
  rw [hd] at d1 d2 d3
  simp only at d1 d2 d3
  subst d1
  refine ⟨pre, hpre, rfl, ?_, ?_⟩
  · intro hen
    obtain ⟨sri, t1, t2, t3⟩ := d2 (by rw [i3]; exact hen)
    refine ⟨sri, ?_, t2, t3⟩
    show fin.trace = _
    rw [t1, i1, i4]
    simp
  · intro hen
    obtain ⟨t1, t2⟩ := d3 (by rw [i3]; exact hen)
    refine ⟨?_, t2⟩
    show fin.trace = _
    rw [t1, i1]
    simp

/-- Witness for C9: the example device, tuner 0 enabled with two shorts buffered. -/
theorem disable_flushes_partial_buffer_witness :
    (usrpDisable 0 0 (stA true 2)).1 = Except.ok true ∧
    FlushedAndDisabled (stA true 2) (usrpDisable 0 0 (stA true 2)).2 0 0 [] :=
  have h := disable_flushes_partial_buffer (stA true 2) "alloc0" 0 0 hwA rfl
    (by simp [stA, statusA]) (by simp [stA, tunerA]) (by simp [stA, tunerA])
    (getTunerMapping_stA true 2).1 (control_stA true 2)
  ⟨h.1.1, h.1.2.1 (by simp [stA, statusA])⟩

/-- C10: enabling, by `usrpEnable` or by `setTunerEnable(true)` with the controlling
allocation id, a receive tuner always ends with `enabled = true` and issues exactly
one continuous-streaming start command for its channel; if the tuner was disabled
it pushes exactly one SRI, with mode 1 (complex), before the command and clears the
refresh flag; if the tuner was already enabled it pushes no SRI. `setTunerEnable`
adds nothing but interrupt requests in front. -/
theorem enable_starts_stream (st : State) (allocation_id : String) (id chan : Nat)
    (hw : Hardware) (hdev : st.usrp_device_ptr = some hw)
    (hty : (st.frontend_tuner_status id).tuner_type = TunerType.RX_DIGITIZER)
    (hmap : getTunerMapping st allocation_id = id)
    (hctl : allocation_id = getControlAllocationId st id) :
    ((usrpEnable id chan st).1 = Except.ok true ∧
      EnabledAndStarted st (usrpEnable id chan st).2 id chan []) ∧
    (∃ pre : List Event, InterruptsOnly pre ∧
      (setTunerEnable allocation_id true st).1 = Except.ok () ∧
      EnabledAndStarted st (setTunerEnable allocation_id true st).2 id
        (st.device_channels id).chan_num pre) := by
  refine ⟨usrpEnable_effect st id chan hw hdev hty, ?_⟩
  obtain ⟨pre, st1, hi, hpre, i1, i2, i3, i4⟩ := interrupt_run st id
  obtain ⟨d1, d2, d3, d4⟩ := usrpEnable_effect st1 id (st.device_channels id).chan_num hw
    (by rw [i2]; exact hdev) (by rw [i3]; exact hty)
  rw [setTunerEnable_run st allocation_id id true hmap hctl, hi]
  simp only [if_true]
  rcases hd : usrpEnable id (st.device_channels id).chan_num st1 with ⟨r, fin⟩
  rw [hd] at d1 d2 d3 d4
  simp only at d1 d2 d3 d4
  subst d1
  refine ⟨pre, hpre, rfl, d2, ?_, ?_⟩
  · intro hen
    obtain ⟨t1, sri, t2, t3⟩ := d3 (by rw [i3]; exact hen)
    refine ⟨t1, sri, t2, ?_⟩
    show fin.trace = _
    rw [t3, i1]
    simp
  · intro hen
    have t1 := d4 (by rw [i3]; exact hen)
    show fin.trace = _
    rw [t1, i1]
    simp

/-- Witness for C10: the example device, tuner 0 disabled. -/
theorem enable_starts_stream_witness :
    (usrpEnable 0 0 (stA false 0)).1 = Except.ok true ∧
    EnabledAndStarted (stA false 0) (usrpEnable 0 0 (stA false 0)).2 0 0 [] :=
  (enable_starts_stream (stA false 0) "alloc0" 0 0 hwA rfl (by simp [stA, statusA])
    (getTunerMapping_stA false 0).1 (control_stA false 0)).1
/-! ## C13: metadata precedes data -/

/-- What `getStreamId` does to the refresh flag and the stream id of its tuner, and
what it leaves of the state. -/
theorem getStreamId_flag (st : State) (id : Nat) :
    ∃ (sid : String) (st1 : State),
      getStreamId id st = (Except.ok sid, st1) ∧
      st1.trace = st.trace ∧
      st1.frontend_tuner_status = st.frontend_tuner_status ∧
      st1.usrp_device_ptr = st.usrp_device_ptr ∧
      (st1.usrp_tuners id).output_buffer = (st.usrp_tuners id).output_buffer ∧
      (st1.usrp_tuners id).output_buffer_time = (st.usrp_tuners id).output_buffer_time ∧
      (st1.usrp_tuners id).buffer_size = (st.usrp_tuners id).buffer_size ∧
      ((st.usrp_tuners id).update_sri = true → (st1.usrp_tuners id).update_sri = true) ∧
      (id < st.num_tuners → (st.usrp_tuners id).stream_id ≠ "" →
        sid = (st.usrp_tuners id).stream_id ∧ st1 = st) := by
  simp only [getStreamId, run_bind, getState, run_ite, run_pure]
  split_ifs with h1 h2
  · exact ⟨_, _, rfl, rfl, rfl, rfl, rfl, rfl, rfl, fun h => h, fun h => absurd h1 (by omega)⟩
  · refine ⟨_, _, rfl, ?_⟩
    simp [modifyState, setTuner, h2]
  · exact ⟨_, _, rfl, rfl, rfl, rfl, rfl, rfl, rfl, fun h => h, fun _ _ => ⟨rfl, rfl⟩⟩

/-- The flush of the receive cycle: the data packet, before it the SRI push when the
refresh flag is set at that moment, and the flag cleared. -/
theorem pushBuffer_metadata (st : State) (id : Nat) :
    ∃ (pre : List Event) (sid : String),
      (pushBuffer id st).2.trace = st.trace ++ pre ++
        [Event.pushPacket (st.usrp_tuners id).output_buffer
          (st.usrp_tuners id).output_buffer_time false sid] ∧
      ((pushBuffer id st).2.usrp_tuners id).update_sri = false ∧
      (((getStreamId id st).2.usrp_tuners id).update_sri = true →
        ∃ sri : StreamSRI, pre = [Event.pushSRI sri] ∧ sri.mode = 1 ∧ sri.streamID = sid) ∧
      (((getStreamId id st).2.usrp_tuners id).update_sri = false → pre = []) ∧
      ((st.usrp_tuners id).update_sri = true →
        ((getStreamId id st).2.usrp_tuners id).update_sri = true) ∧
      (id < st.num_tuners → (st.usrp_tuners id).stream_id ≠ "" →
        sid = (st.usrp_tuners id).stream_id) := by
  obtain ⟨sid, st1, hg, h1, h2, h3, h4, h5, h6, h7, h8⟩ := getStreamId_flag st id
  have h10 : id < st.num_tuners → (st.usrp_tuners id).stream_id ≠ "" →
      sid = (st.usrp_tuners id).stream_id := fun a b => (h8 a b).1
  unfold pushBuffer
  rw [run_bind]
  simp only [hg, run_bind, getState, run_ite]
  by_cases hu : (st1.usrp_tuners id).update_sri = true
  · refine ⟨[Event.pushSRI (createSRI sid (st1.frontend_tuner_status id))], sid, ?_⟩
    refine ⟨?_, ?_, ?_, ?_, ?_, h10⟩ <;>
      simp [hu, emit, modifyState, setTuner, run_bind, h1, h4, h5, createSRI]
  · refine ⟨[], sid, ?_⟩
    have hu2 : (st1.usrp_tuners id).update_sri = false := by simpa using hu
    have h9 : ¬ (st.usrp_tuners id).update_sri = true := fun h => hu (h7 h)
    refine ⟨?_, ?_, ?_, ?_, ?_, h10⟩ <;>
      simp [hu2, emit, modifyState, setTuner, run_bind, run_pure, h1, h4, h5, h9]

/-- The flush of the disable path on an enabled tuner that is not a transmit tuner:
stop command, SRI push, end-of-stream packet, and the refresh flag cleared. -/
theorem usrpDisable_metadata (st : State) (id chan : Nat) (hw : Hardware)
    (hdev : st.usrp_device_ptr = some hw)
    (hne : (st.frontend_tuner_status id).tuner_type ≠ TunerType.TX)
    (hen : (st.frontend_tuner_status id).enabled = true) :
    ∃ (sri : StreamSRI) (data : List Int),
      (usrpDisable id chan st).2.trace = st.trace ++
        [Event.issue_stream_cmd StreamMode.STOP_CONTINUOUS chan, Event.pushSRI sri,
          Event.pushPacket data (st.usrp_tuners id).output_buffer_time true sri.streamID] ∧
      sri.mode = 1 ∧ ((usrpDisable id chan st).2.usrp_tuners id).update_sri = false ∧
      (id < st.num_tuners → (st.usrp_tuners id).stream_id ≠ "" →
        sri.streamID = (st.usrp_tuners id).stream_id) := by
  simp only [usrpDisable, run_bind, run_ite, run_pure, getState, setStatus, modifyState, hne,
    hen, hw_issue_stream_cmd, device, hdev, emit, ne_eq, not_false_eq_true, if_true]
  have key := getStreamId_flag
    { st with
      usrp_device_ptr := some hw,
      frontend_tuner_status := Function.update st.frontend_tuner_status id
        { st.frontend_tuner_status id with enabled := false },
      trace := st.trace ++ [Event.issue_stream_cmd StreamMode.STOP_CONTINUOUS chan] } id
  obtain ⟨sid, st1, hg, g1, g2, g3, g4, g5, g6, g7, g8⟩ := key
  simp only at hg g1 g2 g3 g4 g5 g6 g7 g8
  simp only [hg, setTuner, modifyState, Function.update_same]
  refine ⟨{ createSRI sid (st1.frontend_tuner_status id) with
    times := some ((st1.usrp_tuners id).time_up.twsec, (st1.usrp_tuners id).time_down.twsec) },
    resize (st1.usrp_tuners id).output_buffer (st1.usrp_tuners id).buffer_size, ?_, rfl, ?_, ?_⟩
  · simp [g1, g5, createSRI]
  · simp
  · intro a b
    exact (g8 a b).1

/-- C13, metadata precedes data. The flush of the receive cycle (`pushBuffer`) pushes
its data packet last; when the refresh flag of the tuner is set at that moment, that
is after the stream id was looked up, which never clears it, the event right
before the packet is an SRI push with mode 1 and the stream id of the packet, and
in every case the flag is clear afterwards. The disable path of an enabled tuner
that is not a transmit tuner pushes an SRI with mode 1 right before its
end-of-stream packet, with the same stream id, and leaves the flag clear. -/
theorem metadata_precedes_data (st : State) (id chan : Nat) :
    (∃ (pre : List Event) (sid : String),
      (pushBuffer id st).2.trace = st.trace ++ pre ++
        [Event.pushPacket (st.usrp_tuners id).output_buffer
          (st.usrp_tuners id).output_buffer_time false sid] ∧
      ((pushBuffer id st).2.usrp_tuners id).update_sri = false ∧
      (((getStreamId id st).2.usrp_tuners id).update_sri = true →
        ∃ sri : StreamSRI, pre = [Event.pushSRI sri] ∧ sri.mode = 1 ∧ sri.streamID = sid) ∧
      (((getStreamId id st).2.usrp_tuners id).update_sri = false → pre = []) ∧
      ((st.usrp_tuners id).update_sri = true →
        ((getStreamId id st).2.usrp_tuners id).update_sri = true)) ∧
    (st.usrp_device_ptr ≠ none →
      (st.frontend_tuner_status id).tuner_type ≠ TunerType.TX →
      (st.frontend_tuner_status id).enabled = true →
      ∃ (sri : StreamSRI) (data : List Int),
        (usrpDisable id chan st).2.trace = st.trace ++
          [Event.issue_stream_cmd StreamMode.STOP_CONTINUOUS chan, Event.pushSRI sri,
            Event.pushPacket data (st.usrp_tuners id).output_buffer_time true sri.streamID] ∧
        sri.mode = 1 ∧ ((usrpDisable id chan st).2.usrp_tuners id).update_sri = false) := by
  refine ⟨?_, ?_⟩
  · obtain ⟨pre, sid, h1, h2, h3, h4, h5, _⟩ := pushBuffer_metadata st id
    exact ⟨pre, sid, h1, h2, h3, h4, h5⟩
  · intro hdev hne hen
    cases hd : st.usrp_device_ptr with
    | none => exact absurd hd hdev
    | some hw =>
      obtain ⟨sri, data, h1, h2, h3, _⟩ := usrpDisable_metadata st id chan hw hd hne hen
      exact ⟨sri, data, h1, h2, h3⟩
/-! ## Relations along a call -/

section relates
variable {R : State → State → Prop}

theorem relates_pure (hr : ∀ s, R s s) {α : Type} (a : α) : Relates R (pure a : Call α) :=
  fun s => hr s

theorem relates_getState (hr : ∀ s, R s s) : Relates R getState :=
  fun s => hr s

theorem relates_throw (hr : ∀ s, R s s) {α : Type} (e : Error) :
    Relates R (throwExc e : Call α) :=
  fun s => hr s

theorem relates_device (hr : ∀ s, R s s) : Relates R device := by
  intro st
  unfold device
  cases st.usrp_device_ptr <;> exact hr st

theorem relates_modify {f : State → State} (h : ∀ s, R s (f s)) : Relates R (modifyState f) :=
  fun s => h s

theorem relates_bind (ht : ∀ a b c, R a b → R b c → R a c) {α β : Type} {m : Call α}
    {f : α → Call β} (hm : Relates R m) (hf : ∀ a, Relates R (f a)) : Relates R (m >>= f) := by
  intro st
  have h1 := hm st
  rw [run_bind]
  rcases hms : m st with ⟨r, st1⟩
  rw [hms] at h1
  cases r with
  | error e => exact h1
  | ok a => exact ht _ _ _ h1 (hf a st1)

theorem relates_ite {α : Type} {c : Prop} [Decidable c] {a b : Call α}
    (ha : Relates R a) (hb : Relates R b) : Relates R (if c then a else b) := by
  split
  · exact ha
  · exact hb

end relates

/-! ## C14: the stream id of a tuner -/

theorem keepsStreamIds_refl (s : State) : KeepsStreamIds s s := ⟨rfl, fun _ _ => rfl⟩

theorem keepsStreamIds_trans (a b c : State) (h1 : KeepsStreamIds a b)
    (h2 : KeepsStreamIds b c) : KeepsStreamIds a c := by
  refine ⟨h2.1.trans h1.1, fun j hj => ?_⟩
  have e1 := h1.2 j hj
  rw [← e1]
  exact h2.2 j (by rw [e1]; exact hj)

theorem sid_frame {f : State → State} (h1 : ∀ s, (f s).num_tuners = s.num_tuners)
    (h2 : ∀ s, (f s).usrp_tuners = s.usrp_tuners) : Relates KeepsStreamIds (modifyState f) :=
  relates_modify (fun s => ⟨h1 s, fun j _ => by rw [h2 s]⟩)

theorem sid_setTuner (id : Nat) (f : usrp_tuner_struct → usrp_tuner_struct)
    (hf : ∀ t, (f t).stream_id = t.stream_id) : Relates KeepsStreamIds (setTuner id f) := by
  apply relates_modify
  intro s
  refine ⟨rfl, fun j _ => ?_⟩
  by_cases hj : j = id
  · subst hj; simp [hf]
  · simp [Function.update_noteq hj]

theorem sid_getStreamId (id : Nat) : Relates KeepsStreamIds (getStreamId id) := by
  intro st
  simp only [getStreamId, run_bind, getState, run_ite, run_pure]
  split_ifs with h1 h2
  · exact keepsStreamIds_refl st
  · refine ⟨rfl, fun j hj => ?_⟩
    by_cases hji : j = id
    · subst hji; exact absurd h2 hj
    · simp [modifyState, setTuner, Function.update_noteq hji]
  · exact keepsStreamIds_refl st

theorem sid_hw (v : ℚ) (mode : StreamMode) (chan : Nat) :
    Relates KeepsStreamIds (hw_get_rx_freq chan) ∧ Relates KeepsStreamIds (hw_get_tx_freq chan) ∧
    Relates KeepsStreamIds (hw_get_rx_bandwidth chan) ∧
    Relates KeepsStreamIds (hw_get_tx_bandwidth chan) ∧
    Relates KeepsStreamIds (hw_get_rx_rate chan) ∧ Relates KeepsStreamIds (hw_get_tx_rate chan) ∧
    Relates KeepsStreamIds (hw_set_rx_freq v chan) ∧ Relates KeepsStreamIds (hw_set_tx_freq v chan) ∧
    Relates KeepsStreamIds (hw_set_rx_bandwidth v chan) ∧
    Relates KeepsStreamIds (hw_set_tx_bandwidth v chan) ∧
    Relates KeepsStreamIds (hw_set_rx_rate v chan) ∧ Relates KeepsStreamIds (hw_set_tx_rate v chan) ∧
    Relates KeepsStreamIds (hw_issue_stream_cmd mode chan) := by
  refine ⟨?_, ?_, ?_, ?_, ?_, ?_, ?_, ?_, ?_, ?_, ?_, ?_, ?_⟩ <;>
    exact relates_bind keepsStreamIds_trans (relates_device keepsStreamIds_refl)
      (fun _ => by
        first
          | exact sid_frame (fun _ => rfl) (fun _ => rfl)
          | exact relates_bind keepsStreamIds_trans (sid_frame (fun _ => rfl) (fun _ => rfl))
              (fun _ => by
                first
                  | exact relates_pure keepsStreamIds_refl _
                  | exact sid_frame (fun _ => rfl) (fun _ => rfl)))

theorem sid_usrpEnable (id chan : Nat) : Relates KeepsStreamIds (usrpEnable id chan) := by
  unfold usrpEnable
  repeat' first
    | exact relates_pure keepsStreamIds_refl _
    | exact relates_getState keepsStreamIds_refl
    | exact sid_frame (fun _ => rfl) (fun _ => rfl)
    | exact sid_setTuner _ _ (fun _ => rfl)
    | exact sid_getStreamId _
    | exact (sid_hw 0 _ _).2.2.2.2.2.2.2.2.2.2.2.2
    | apply relates_bind keepsStreamIds_trans
    | apply relates_ite
    | intro _

theorem sid_usrpDisable (id chan : Nat) : Relates KeepsStreamIds (usrpDisable id chan) := by
  unfold usrpDisable
  repeat' first
    | exact relates_pure keepsStreamIds_refl _
    | exact relates_getState keepsStreamIds_refl
    | exact sid_frame (fun _ => rfl) (fun _ => rfl)
    | exact sid_setTuner _ _ (fun _ => rfl)
    | exact sid_getStreamId _
    | exact (sid_hw 0 _ _).2.2.2.2.2.2.2.2.2.2.2.2
    | apply relates_bind keepsStreamIds_trans
    | apply relates_ite
    | intro _

theorem sid_interrupt (id : Nat) : Relates KeepsStreamIds (interrupt id) := by
  unfold interrupt
  refine relates_bind keepsStreamIds_trans (relates_getState keepsStreamIds_refl) (fun st => ?_)
  split
  all_goals
    repeat' first
      | exact relates_pure keepsStreamIds_refl _
      | exact sid_frame (fun _ => rfl) (fun _ => rfl)
      | apply relates_bind keepsStreamIds_trans
      | apply relates_ite
      | intro _

theorem sid_updateDeviceInfo : Relates KeepsStreamIds updateDeviceInfo := by
  unfold updateDeviceInfo
  refine relates_bind keepsStreamIds_trans (relates_getState keepsStreamIds_refl) (fun st => ?_)
  split
  · exact relates_pure keepsStreamIds_refl _
  · exact relates_bind keepsStreamIds_trans (sid_frame (fun _ => rfl) (fun _ => rfl))
      (fun _ => sid_frame (fun _ => rfl) (fun _ => rfl))

theorem sid_setTunerCenterFrequency (id : String) (freq : ℚ) :
    Relates KeepsStreamIds (setTunerCenterFrequency id freq) := by
  unfold setTunerCenterFrequency
  refine relates_bind keepsStreamIds_trans (relates_getState keepsStreamIds_refl) (fun st => ?_)
  refine relates_ite (relates_throw keepsStreamIds_refl _)
    (relates_ite (relates_throw keepsStreamIds_refl _)
      (relates_ite (relates_throw keepsStreamIds_refl _) ?_))
  dsimp only
  split
  all_goals
    repeat' first
      | exact relates_pure keepsStreamIds_refl _
      | exact relates_getState keepsStreamIds_refl
      | exact relates_throw keepsStreamIds_refl _
      | exact sid_frame (fun _ => rfl) (fun _ => rfl)
      | exact sid_setTuner _ _ (fun _ => rfl)
      | exact sid_interrupt _
      | exact sid_updateDeviceInfo
      | exact sid_usrpEnable _ _
      | exact sid_usrpDisable _ _
      | exact (sid_hw 0 StreamMode.START_CONTINUOUS _).1
      | exact (sid_hw 0 StreamMode.START_CONTINUOUS _).2.1
      | exact (sid_hw _ StreamMode.START_CONTINUOUS _).2.2.2.2.2.2.1
      | exact (sid_hw _ StreamMode.START_CONTINUOUS _).2.2.2.2.2.2.2.1
      | apply relates_bind keepsStreamIds_trans
      | apply relates_ite
      | intro _

theorem sid_setTunerBandwidth (id : String) (bw : ℚ) :
    Relates KeepsStreamIds (setTunerBandwidth id bw) := by
  unfold setTunerBandwidth
  refine relates_bind keepsStreamIds_trans (relates_getState keepsStreamIds_refl) (fun st => ?_)
  refine relates_ite (relates_throw keepsStreamIds_refl _)
    (relates_ite (relates_throw keepsStreamIds_refl _)
      (relates_ite (relates_throw keepsStreamIds_refl _) ?_))
  dsimp only
  split
  all_goals
    repeat' first
      | exact relates_pure keepsStreamIds_refl _
      | exact relates_throw keepsStreamIds_refl _
      | exact sid_frame (fun _ => rfl) (fun _ => rfl)
      | exact sid_setTuner _ _ (fun _ => rfl)
      | exact sid_interrupt _
      | exact sid_updateDeviceInfo
      | exact (sid_hw 0 StreamMode.START_CONTINUOUS _).2.2.1
      | exact (sid_hw 0 StreamMode.START_CONTINUOUS _).2.2.2.1
      | exact (sid_hw _ StreamMode.START_CONTINUOUS _).2.2.2.2.2.2.2.2.1
      | exact (sid_hw _ StreamMode.START_CONTINUOUS _).2.2.2.2.2.2.2.2.2.1
      | apply relates_bind keepsStreamIds_trans
      | apply relates_ite
      | intro _

theorem sid_setTunerOutputSampleRate (fuel : Nat) (id : String) (sr : ℚ) :
    Relates KeepsStreamIds (setTunerOutputSampleRate fuel id sr) := by
  unfold setTunerOutputSampleRate
  refine relates_bind keepsStreamIds_trans (relates_getState keepsStreamIds_refl) (fun st => ?_)
  refine relates_ite (relates_throw keepsStreamIds_refl _)
    (relates_ite (relates_throw keepsStreamIds_refl _)
      (relates_ite (relates_throw keepsStreamIds_refl _) ?_))
  split
  · exact relates_throw keepsStreamIds_refl _
  · dsimp only
    split
    all_goals
      repeat' first
        | exact relates_pure keepsStreamIds_refl _
        | exact relates_throw keepsStreamIds_refl _
        | exact sid_frame (fun _ => rfl) (fun _ => rfl)
        | exact sid_setTuner _ _ (fun _ => rfl)
        | exact sid_interrupt _
        | exact sid_updateDeviceInfo
        | exact (sid_hw 0 StreamMode.START_CONTINUOUS _).2.2.2.2.1
        | exact (sid_hw 0 StreamMode.START_CONTINUOUS _).2.2.2.2.2.1
        | exact (sid_hw _ StreamMode.START_CONTINUOUS _).2.2.2.2.2.2.2.2.2.2.1
        | exact (sid_hw _ StreamMode.START_CONTINUOUS _).2.2.2.2.2.2.2.2.2.2.2.1
        | apply relates_bind keepsStreamIds_trans
        | apply relates_ite
        | intro _

theorem sid_usrpReceive (id : Nat) (timeout : ℚ) (recv : Nat → RecvResult) :
    Relates KeepsStreamIds (usrpReceive id timeout recv) := by
  unfold usrpReceive
  repeat' first
    | exact relates_pure keepsStreamIds_refl _
    | exact relates_getState keepsStreamIds_refl
    | exact relates_throw keepsStreamIds_refl _
    | exact relates_device keepsStreamIds_refl
    | exact sid_frame (fun _ => rfl) (fun _ => rfl)
    | exact sid_setTuner _ _ (fun _ => rfl)
    | apply relates_bind keepsStreamIds_trans
    | apply relates_ite
    | split
    | intro _

theorem sid_pushBuffer (id : Nat) : Relates KeepsStreamIds (pushBuffer id) := by
  unfold pushBuffer
  repeat' first
    | exact relates_pure keepsStreamIds_refl _
    | exact relates_getState keepsStreamIds_refl
    | exact sid_getStreamId _
    | exact sid_frame (fun _ => rfl) (fun _ => rfl)
    | exact sid_setTuner _ _ (fun _ => rfl)
    | apply relates_bind keepsStreamIds_trans
    | apply relates_ite
    | intro _

theorem sid_receiveTuner (recv : Nat → Nat → RecvResult) (id : Nat) :
    Relates KeepsStreamIds (receiveTuner recv id) := by
  unfold receiveTuner
  repeat' first
    | exact relates_pure keepsStreamIds_refl _
    | exact relates_getState keepsStreamIds_refl
    | exact sid_usrpReceive _ _ _
    | exact sid_pushBuffer _
    | apply relates_bind keepsStreamIds_trans
    | apply relates_ite
    | intro _

theorem sid_receiveLoop (recv : Nat → Nat → RecvResult) (ids : List Nat) :
    ∀ rx_data, Relates KeepsStreamIds (receiveLoop recv ids rx_data) := by
  induction ids with
  | nil => intro rx_data; exact relates_pure keepsStreamIds_refl _
  | cons id rest ih =>
    intro rx_data
    exact relates_bind keepsStreamIds_trans (sid_receiveTuner recv id) (fun _ => ih _)

theorem sid_serviceFunctionReceive (recv : Nat → Nat → RecvResult) :
    Relates KeepsStreamIds (serviceFunctionReceive recv) := by
  unfold serviceFunctionReceive
  repeat' first
    | exact relates_pure keepsStreamIds_refl _
    | exact relates_getState keepsStreamIds_refl
    | exact sid_receiveLoop recv _ _
    | exact sid_frame (fun _ => rfl) (fun _ => rfl)
    | apply relates_bind keepsStreamIds_trans
    | apply relates_ite
    | intro _

theorem streamStep_keeps {s s' : State} (h : StreamStep s s') : KeepsStreamIds s s' := by
  cases h with
  | lookup id => exact sid_getStreamId id s
  | receiveCycle recv => exact sid_serviceFunctionReceive recv s
  | enable id chan => exact sid_usrpEnable id chan s
  | disable id chan => exact sid_usrpDisable id chan s
  | setCenterFrequency a f => exact sid_setTunerCenterFrequency a f s
  | setBandwidth a b => exact sid_setTunerBandwidth a b s
  | setOutputSampleRate fuel a r => exact sid_setTunerOutputSampleRate fuel a r s

theorem reach_keeps {s s' : State} (h : Relation.ReflTransGen StreamStep s s') :
    KeepsStreamIds s s' := by
  induction h with
  | refl => exact keepsStreamIds_refl s
  | tail _ hstep ih => exact keepsStreamIds_trans _ _ _ ih (streamStep_keeps hstep)

theorem append_ne_empty (a b : String) (h : a ≠ "") : a ++ b ≠ "" := by
  intro he
  apply h
  have h2 : (a ++ b).data = [] := by rw [he]
  rw [String.data_append] at h2
  have h3 : a.data = [] := (List.append_eq_nil.mp h2).1
  exact String.ext h3

/-- What `getStreamId` hands back for a valid tuner is not empty and is stored as the
stream id of the tuner. -/
theorem getStreamId_stored (st : State) (id : Nat) (hid : id < st.num_tuners) :
    ∃ sid, (getStreamId id st).1 = Except.ok sid ∧ sid ≠ "" ∧
      ((getStreamId id st).2.usrp_tuners id).stream_id = sid ∧
      (getStreamId id st).2.num_tuners = st.num_tuners := by
  simp only [getStreamId, run_bind, getState, run_ite, run_pure]
  split_ifs with h1 h2
  · omega
  · refine ⟨_, rfl, ?_, ?_, rfl⟩
    · rw [String.append_assoc, String.append_assoc]
      exact append_ne_empty _ _ (by decide)
    · simp [modifyState, setTuner]
  · exact ⟨_, rfl, h2, rfl, rfl⟩

/-- C14, stream-id stability. Let `getStreamId` run for a valid tuner `id` in `s0`,
and let `s` be any state reached afterwards by lookups of stream ids, receive
cycles, enables, disables and the three retunes of the control port, for any
tuners and in any order. The id handed out is not empty, it is still the stored
stream id of the tuner in `s`, `getStreamId` in `s` returns it again and changes
nothing, and the data packets of the tuner carry it: the packet the receive cycle
flushes in `s`, and the end-of-stream packet (with its SRI) of a disable in `s`. -/
theorem stream_id_stable (s0 s : State) (id chan : Nat) (hid : id < s0.num_tuners)
    (hreach : Relation.ReflTransGen StreamStep (getStreamId id s0).2 s) :
    ∃ sid : String, (getStreamId id s0).1 = Except.ok sid ∧ sid ≠ "" ∧
      (s.usrp_tuners id).stream_id = sid ∧
      getStreamId id s = (Except.ok sid, s) ∧
      (∃ pre : List Event, (pushBuffer id s).2.trace = s.trace ++ pre ++
        [Event.pushPacket (s.usrp_tuners id).output_buffer
          (s.usrp_tuners id).output_buffer_time false sid]) ∧
      (s.usrp_device_ptr ≠ none →
        (s.frontend_tuner_status id).tuner_type ≠ TunerType.TX →
        (s.frontend_tuner_status id).enabled = true →
        ∃ (sri : StreamSRI) (data : List Int), sri.streamID = sid ∧
          (usrpDisable id chan s).2.trace = s.trace ++
            [Event.issue_stream_cmd StreamMode.STOP_CONTINUOUS chan, Event.pushSRI sri,
              Event.pushPacket data (s.usrp_tuners id).output_buffer_time true sid]) := by
  obtain ⟨sid, h1, h2, h3, h4⟩ := getStreamId_stored s0 id hid
  have hk := reach_keeps hreach
  have hn : id < s.num_tuners := by rw [hk.1, h4]; exact hid
  have hs : (s.usrp_tuners id).stream_id = sid := by
    rw [hk.2 id (by rw [h3]; exact h2), h3]
  have hne : (s.usrp_tuners id).stream_id ≠ "" := by rw [hs]; exact h2
  refine ⟨sid, h1, h2, hs, ?_, ?_, ?_⟩
  · obtain ⟨sid2, st1, hg, _, _, _, _, _, _, _, g8⟩ := getStreamId_flag s id
    obtain ⟨e1, e2⟩ := g8 hn hne
    rw [hg, e1, e2, hs]
  · obtain ⟨pre, sid2, p1, _, _, _, _, p6⟩ := pushBuffer_metadata s id
    refine ⟨pre, ?_⟩
    rw [p1, p6 hn hne, hs]
  · intro hdev hty hen
    cases hd : s.usrp_device_ptr with
    | none => exact absurd hd hdev
    | some hw =>
      obtain ⟨sri, data, d1, _, _, d4⟩ := usrpDisable_metadata s id chan hw hd hty hen
      have e : sri.streamID = sid := by rw [d4 hn hne, hs]
      refine ⟨sri, data, e, ?_⟩
      rw [d1, e]

/-- Witness for C14: the example device; after the lookup tuner 0 is disabled and then
retuned. -/
theorem stream_id_stable_witness :
    0 < (stA true 2).num_tuners ∧
    ∃ sid : String, (getStreamId 0 (stA true 2)).1 = Except.ok sid ∧ sid ≠ "" ∧
      (((setTunerCenterFrequency "alloc0" 2500
        (usrpDisable 0 0 (getStreamId 0 (stA true 2)).2).2).2).usrp_tuners 0).stream_id = sid :=
  have h := stream_id_stable (stA true 2)
    (setTunerCenterFrequency "alloc0" 2500 (usrpDisable 0 0 (getStreamId 0 (stA true 2)).2).2).2
    0 0 (by decide)
    ((Relation.ReflTransGen.single (StreamStep.disable _ 0 0)).tail
      (StreamStep.setCenterFrequency _ "alloc0" 2500))
  match h with
  | ⟨sid, h1, h2, h3, _⟩ => ⟨by decide, sid, h1, h2, h3⟩
/-! ## Exact runs of the building blocks -/

theorem bind_ok {α β : Type} {m : Call α} {f : α → Call β} {st st1 : State} {a : α}
    (h : m st = (Except.ok a, st1)) : (m >>= f) st = f a st1 := by
  rw [run_bind, h]

theorem bind_error {α β : Type} {m : Call α} {f : α → Call β} {st st1 : State} {e : Error}
    (h : m st = (Except.error e, st1)) : (m >>= f) st = (Except.error e, st1) := by
  rw [run_bind, h]

/-- Apart from the runtime table and the uuid counter `getStreamId` changes nothing;
of its own tuner it changes at most the stream id and the refresh flag, which it
never clears. -/
theorem getStreamId_shape (st : State) (id : Nat) :
    ∃ (sid : String) (tuners : Nat → usrp_tuner_struct) (cnt : Nat),
      getStreamId id st = (Except.ok sid, { st with usrp_tuners := tuners, uuid_count := cnt }) ∧
      (∀ j, j ≠ id → tuners j = st.usrp_tuners j) ∧
      (∃ (s : String) (u : Bool), tuners id = { st.usrp_tuners id with stream_id := s, update_sri := u } ∧
        ((st.usrp_tuners id).update_sri = true → u = true)) := by
  simp only [getStreamId, run_bind, getState, run_ite, run_pure, modifyState, setTuner]
  split_ifs with h1 h2
  · exact ⟨_, st.usrp_tuners, st.uuid_count, rfl, fun _ _ => rfl,
      (st.usrp_tuners id).stream_id, (st.usrp_tuners id).update_sri, rfl, fun h => h⟩
  · refine ⟨_, _, _, rfl, ?_, "tuner_freq_" ++
      toString (truncToLong (st.frontend_tuner_status id).center_frequency) ++
      "_Hz_" ++ st.uuids st.uuid_count, true, ?_, fun _ => rfl⟩
    · intro j hj
      simp [Function.update_noteq hj]
    · simp
  · exact ⟨_, st.usrp_tuners, st.uuid_count, rfl, fun _ _ => rfl,
      (st.usrp_tuners id).stream_id, (st.usrp_tuners id).update_sri, rfl, fun h => h⟩

/-- The run of `usrpDisable` on a tuner that is not a transmit tuner, with a device:
what it adds to the trace, and the state it leaves. -/
theorem usrpDisable_run (st : State) (id chan : Nat) (hw : Hardware)
    (hdev : st.usrp_device_ptr = some hw)
    (hne : (st.frontend_tuner_status id).tuner_type ≠ TunerType.TX) :
    ∃ (fin : State) (evs : List Event),
      usrpDisable id chan st = (Except.ok true, fin) ∧
      fin = { st with
        frontend_tuner_status := Function.update st.frontend_tuner_status id
          { st.frontend_tuner_status id with enabled := false },
        usrp_tuners := fin.usrp_tuners, uuid_count := fin.uuid_count,
        trace := st.trace ++ evs } ∧
      (∀ j, j ≠ id → fin.usrp_tuners j = st.usrp_tuners j) ∧
      ((st.frontend_tuner_status id).enabled = true →
        ∃ sri : StreamSRI, sri.mode = 1 ∧
          evs = [Event.issue_stream_cmd StreamMode.STOP_CONTINUOUS chan, Event.pushSRI sri,
            Event.pushPacket
              (resize (st.usrp_tuners id).output_buffer (st.usrp_tuners id).buffer_size)
              (st.usrp_tuners id).output_buffer_time true sri.streamID]) ∧
      ((st.frontend_tuner_status id).enabled = false →
        evs = [Event.issue_stream_cmd StreamMode.STOP_CONTINUOUS chan] ∧
        fin.uuid_count = st.uuid_count ∧
        fin.usrp_tuners id = { st.usrp_tuners id with
          output_buffer_time := zeroTime, time_up := zeroTime, time_down := zeroTime }) := by
  cases hen : (st.frontend_tuner_status id).enabled with
  | false =>
    simp only [usrpDisable, run_bind, run_ite, run_pure, getState, setStatus, modifyState, hne,
      hen, hw_issue_stream_cmd, device, hdev, emit, setTuner, ne_eq, not_false_eq_true, if_true,
      Bool.false_eq_true, if_false]
    refine ⟨_, [Event.issue_stream_cmd StreamMode.STOP_CONTINUOUS chan], rfl, ?_, ?_, ?_, ?_⟩
    · simp [hdev]
    · intro j hj
      simp [Function.update_noteq hj]
    · intro h; cases h
    · intro _
      simp
  | true =>
    simp only [usrpDisable, run_bind, run_ite, run_pure, getState, setStatus, modifyState, hne,
      hen, hw_issue_stream_cmd, device, hdev, emit, ne_eq, not_false_eq_true, if_true]
    have key := getStreamId_shape
      { st with
        usrp_device_ptr := some hw,
        frontend_tuner_status := Function.update st.frontend_tuner_status id
          { st.frontend_tuner_status id with enabled := false },
        trace := st.trace ++ [Event.issue_stream_cmd StreamMode.STOP_CONTINUOUS chan] } id
    obtain ⟨sid, tuners, cnt, hg, g1, s, u, g2, g3⟩ := key
    simp only at hg g1 g2 g3
    simp only [hg, setTuner, modifyState, Function.update_same]
    refine ⟨_, [Event.issue_stream_cmd StreamMode.STOP_CONTINUOUS chan,
      Event.pushSRI { createSRI sid (Function.update st.frontend_tuner_status id
          { st.frontend_tuner_status id with enabled := false } id) with
        times := some ((tuners id).time_up.twsec, (tuners id).time_down.twsec) },
      Event.pushPacket (resize (tuners id).output_buffer (tuners id).buffer_size)
        (tuners id).output_buffer_time true sid], rfl, ?_, ?_, ?_, ?_⟩
    · simp [hdev]
    · intro j hj
      simp [Function.update_noteq hj, g1 j hj]
    · intro _
      refine ⟨{ createSRI sid (Function.update st.frontend_tuner_status id
          { st.frontend_tuner_status id with enabled := false } id) with
        times := some ((tuners id).time_up.twsec, (tuners id).time_down.twsec) }, rfl, ?_⟩
      simp [g2, createSRI]
    · intro h; cases h

/-- The run of `usrpEnable` on a tuner that is not a transmit tuner, with a device:
what it adds to the trace, and the state it leaves. -/
theorem usrpEnable_run (st : State) (id chan : Nat) (hw : Hardware)
    (hdev : st.usrp_device_ptr = some hw)
    (hne : (st.frontend_tuner_status id).tuner_type ≠ TunerType.TX) :
    ∃ (fin : State) (evs : List Event),
      usrpEnable id chan st = (Except.ok true, fin) ∧
      fin = { st with
        frontend_tuner_status := Function.update st.frontend_tuner_status id
          { st.frontend_tuner_status id with enabled := true },
        usrp_tuners := fin.usrp_tuners, uuid_count := fin.uuid_count,
        trace := st.trace ++ evs } ∧
      (∀ j, j ≠ id → fin.usrp_tuners j = st.usrp_tuners j) ∧
      ((st.frontend_tuner_status id).enabled = false →
        (fin.usrp_tuners id).update_sri = false ∧
        ∃ sri : StreamSRI, sri.mode = 1 ∧
          sri.center_frequency = (st.frontend_tuner_status id).center_frequency ∧
          evs = [Event.pushSRI sri, Event.issue_stream_cmd StreamMode.START_CONTINUOUS chan]) ∧
      ((st.frontend_tuner_status id).enabled = true →
        evs = [Event.issue_stream_cmd StreamMode.START_CONTINUOUS chan] ∧
        ((st.usrp_tuners id).update_sri = true → (fin.usrp_tuners id).update_sri = true)) := by
  have key := getStreamId_shape
    { st with
      usrp_device_ptr := some hw,
      frontend_tuner_status := Function.update st.frontend_tuner_status id
        { st.frontend_tuner_status id with enabled := true } } id
  obtain ⟨sid, tuners, cnt, hg, g1, s, u, g2, g3⟩ := key
  simp only at hg g1 g2 g3
  cases hen : (st.frontend_tuner_status id).enabled with
  | false =>
    simp only [usrpEnable, run_bind, run_ite, run_pure, getState, setStatus, modifyState, hne,
      hen, if_false, hg, Bool.not_false, if_true, emit, setTuner, hw_issue_stream_cmd, device,
      hdev]
    refine ⟨_, [Event.pushSRI (createSRI sid (Function.update st.frontend_tuner_status id
        { st.frontend_tuner_status id with enabled := true } id)),
      Event.issue_stream_cmd StreamMode.START_CONTINUOUS chan], rfl, ?_, ?_, ?_, ?_⟩
    · simp [hdev]
    · intro j hj
      simp [Function.update_noteq hj, g1 j hj]
    · intro _
      refine ⟨by simp, _, ?_, ?_, rfl⟩ <;> simp [createSRI]
    · intro h; cases h
  | true =>
    simp only [usrpEnable, run_bind, run_ite, run_pure, getState, setStatus, modifyState, hne,
      hen, if_false, hg, Bool.not_true, Bool.false_eq_true, emit, setTuner, hw_issue_stream_cmd,
      device, hdev]
    refine ⟨_, [Event.issue_stream_cmd StreamMode.START_CONTINUOUS chan], rfl, ?_, ?_, ?_, ?_⟩
    · simp [hdev]
    · intro j hj
      simp [g1 j hj]
    · intro h; cases h
    · intro _
      refine ⟨rfl, ?_⟩
      simpa [g2] using g3

/-- The run of `interrupt`: it flags the service thread of the tuner, when there is
one, and adds nothing but interrupt requests to the trace. -/
theorem interrupt_shape (st : State) (id : Nat) :
    ∃ (pre : List Event) (ri ti : Bool),
      interrupt id st = (Except.ok (), { st with
        receive_interrupt_requested := ri, transmit_interrupt_requested := ti,
        trace := st.trace ++ pre }) ∧
      InterruptsOnly pre ∧
      (st.receive_service_thread = false → st.transmit_service_thread = false →
        pre = [] ∧ ri = st.receive_interrupt_requested ∧
        ti = st.transmit_interrupt_requested) := by
  simp only [interrupt, run_bind, getState]
  have hnil : InterruptsOnly [] := fun e he => absurd he (List.not_mem_nil e)
  have hone : ∀ t, InterruptsOnly [Event.interrupt t] :=
    fun t e he => ⟨t, List.mem_singleton.mp he⟩
  cases (st.frontend_tuner_status id).tuner_type with
  | RX_DIGITIZER =>
    simp only [run_ite, run_bind, modifyState, emit, run_pure]
    split_ifs with h
    · exact ⟨[Event.interrupt ServiceThread.receive], true, st.transmit_interrupt_requested,
        rfl, hone _, fun h2 => by rw [h] at h2; cases h2⟩
    · exact ⟨[], st.receive_interrupt_requested, st.transmit_interrupt_requested,
        by simp, hnil, fun _ _ => ⟨rfl, rfl, rfl⟩⟩
  | TX =>
    simp only [run_ite, run_bind, modifyState, emit, run_pure]
    split_ifs with h
    · exact ⟨[Event.interrupt ServiceThread.transmit], st.receive_interrupt_requested, true,
        rfl, hone _, fun _ h2 => by rw [h] at h2; cases h2⟩
    · exact ⟨[], st.receive_interrupt_requested, st.transmit_interrupt_requested,
        by simp, hnil, fun _ _ => ⟨rfl, rfl, rfl⟩⟩
  | UNKNOWN =>
    exact ⟨[], st.receive_interrupt_requested, st.transmit_interrupt_requested,
      by simp [run_pure], hnil, fun _ _ => ⟨rfl, rfl, rfl⟩⟩

/-! ## C11 and C12: retuning a receive tuner -/

/-- The run of `setTunerCenterFrequency` on an enabled receive tuner whose hardware
frequency differs from the request: disable with flush, set, enable. -/
theorem setTunerCenterFrequency_rx_retune (st : State) (allocation_id : String) (idx : Nat)
    (freq : ℚ) (hw : Hardware) (hdev : st.usrp_device_ptr = some hw)
    (hmap : getTunerMapping st allocation_id = idx)
    (hctl : allocation_id = getControlAllocationId st idx)
    (hty : (st.frontend_tuner_status idx).tuner_type = TunerType.RX_DIGITIZER)
    (hin : ¬ (freq < (st.device_channels idx).freq_min ∨ freq > (st.device_channels idx).freq_max))
    (hen : (st.frontend_tuner_status idx).enabled = true)
    (hdiff : hw.rx_freq (st.device_channels idx).chan_num ≠ freq) :
    ∃ (fin : State) (pre : List Event) (sri1 sri2 : StreamSRI),
      setTunerCenterFrequency allocation_id freq st = (Except.ok (), fin) ∧
      InterruptsOnly pre ∧ sri1.mode = 1 ∧ sri2.mode = 1 ∧
      sri2.center_frequency = hw.tune_freq freq ∧
      fin.trace = st.trace ++ pre ++
        [Event.get_rx_freq (st.device_channels idx).chan_num,
          Event.issue_stream_cmd StreamMode.STOP_CONTINUOUS (st.device_channels idx).chan_num,
          Event.pushSRI sri1,
          Event.pushPacket
            (resize (st.usrp_tuners idx).output_buffer (st.usrp_tuners idx).buffer_size)
            (st.usrp_tuners idx).output_buffer_time true sri1.streamID,
          Event.set_rx_freq freq (st.device_channels idx).chan_num,
          Event.get_rx_freq (st.device_channels idx).chan_num,
          Event.pushSRI sri2,
          Event.issue_stream_cmd StreamMode.START_CONTINUOUS (st.device_channels idx).chan_num,
          Event.query_device_info] ∧
      (fin.frontend_tuner_status idx).enabled = true ∧
      (fin.frontend_tuner_status idx).center_frequency = hw.tune_freq freq ∧
      (fin.usrp_tuners idx).update_sri = false ∧
      fin.usrp_device_ptr = some { hw with
        rx_freq := Function.update hw.rx_freq (st.device_channels idx).chan_num
          (hw.tune_freq freq) } := by
  have h0 := int_ofNat_not_neg idx
  have hne : (st.frontend_tuner_status idx).tuner_type ≠ TunerType.TX := by rw [hty]; decide
  obtain ⟨pre, ri, ti, hi, hpre, _⟩ := interrupt_shape st idx
  obtain ⟨fin3, evs3, hd, hs3, ho3, hon3, _⟩ := usrpDisable_run
    { st with
      usrp_device_ptr := some hw, receive_interrupt_requested := ri,
      transmit_interrupt_requested := ti,
      trace := st.trace ++ pre ++ [Event.get_rx_freq (st.device_channels idx).chan_num] }
    idx (st.device_channels idx).chan_num hw rfl hne
  simp only at hd hs3 ho3 hon3
  obtain ⟨sri1, hm1, he3⟩ := hon3 hen
  have hdev3 : fin3.usrp_device_ptr = some hw := by rw [hs3]
  have hst3 : fin3.frontend_tuner_status = Function.update st.frontend_tuner_status idx
      { st.frontend_tuner_status idx with enabled := false } := by rw [hs3]
  have htr3 : fin3.trace =
      st.trace ++ pre ++ [Event.get_rx_freq (st.device_channels idx).chan_num] ++ evs3 := by
    rw [hs3]
  obtain ⟨fin7, evs7, he, hs7, ho7, hoff7, _⟩ := usrpEnable_run
    { fin3 with
      usrp_device_ptr := some { hw with
        rx_freq := Function.update hw.rx_freq (st.device_channels idx).chan_num
          (hw.tune_freq freq) },
      frontend_tuner_status := Function.update fin3.frontend_tuner_status idx
        { fin3.frontend_tuner_status idx with center_frequency := hw.tune_freq freq },
      usrp_tuners := Function.update fin3.usrp_tuners idx
        { fin3.usrp_tuners idx with update_sri := true },
      trace := fin3.trace ++ [Event.set_rx_freq freq (st.device_channels idx).chan_num] ++
        [Event.get_rx_freq (st.device_channels idx).chan_num] }
    idx (st.device_channels idx).chan_num _ rfl (by simp [hst3, hty])
  simp only [Function.update_same] at he hs7 ho7 hoff7
  obtain ⟨hu7, sri2, hm2, hc2, he7⟩ := hoff7 (by simp [hst3])
  have hdev7 : fin7.usrp_device_ptr = some { hw with
      rx_freq := Function.update hw.rx_freq (st.device_channels idx).chan_num
        (hw.tune_freq freq) } := by rw [hs7]
  have hst7 : fin7.frontend_tuner_status idx =
      { fin3.frontend_tuner_status idx with
        center_frequency := hw.tune_freq freq
        enabled := true } := by rw [hs7]; simp
  have htr7 : fin7.trace = fin3.trace ++
      [Event.set_rx_freq freq (st.device_channels idx).chan_num] ++
      [Event.get_rx_freq (st.device_channels idx).chan_num] ++ evs7 := by rw [hs7]
  unfold setTunerCenterFrequency
  simp only [run_bind, getState, hmap, h0, if_false, Int.toNat_ofNat, ← hctl, ne_eq,
    not_true_eq_false, hin, hty, hi, run_ite, hw_get_rx_freq, device, hdev, emit, modifyState,
    run_pure, hdiff, not_false_eq_true, if_true, hd, hw_set_rx_freq, hdev3, setDevice,
    Function.update_same, setStatus, setTuner, hen, he, updateDeviceInfo, hdev7]
  refine ⟨_, pre, sri1, sri2, rfl, hpre, hm1, hm2, ?_, ?_, ?_, ?_, ?_, ?_⟩
  · simpa using hc2
  · simp [htr7, htr3, he3, he7]
  · simp [hst7]
  · simp [hst7, hst3]
  · simpa using hu7
  · simp

/-- The state `setTunerCenterFrequency` leaves on a receive tuner, whether it was
enabled or not and whether the hardware frequency differs or not. -/
theorem setTunerCenterFrequency_rx_state (st : State) (allocation_id : String) (idx : Nat)
    (freq : ℚ) (hw : Hardware) (hdev : st.usrp_device_ptr = some hw)
    (hmap : getTunerMapping st allocation_id = idx)
    (hctl : allocation_id = getControlAllocationId st idx)
    (hty : (st.frontend_tuner_status idx).tuner_type = TunerType.RX_DIGITIZER)
    (hin : ¬ (freq < (st.device_channels idx).freq_min ∨ freq > (st.device_channels idx).freq_max)) :
    ∃ fin : State,
      setTunerCenterFrequency allocation_id freq st = (Except.ok (), fin) ∧
      (fin.frontend_tuner_status idx).enabled = (st.frontend_tuner_status idx).enabled ∧
      (fin.frontend_tuner_status idx).center_frequency = hw.tune_freq freq ∧
      fin.usrp_device_ptr = some { hw with
        rx_freq := Function.update hw.rx_freq (st.device_channels idx).chan_num
          (hw.tune_freq freq) } ∧
      ((st.frontend_tuner_status idx).enabled = true →
        hw.rx_freq (st.device_channels idx).chan_num ≠ freq →
        (fin.usrp_tuners idx).update_sri = false) ∧
      (¬ ((st.frontend_tuner_status idx).enabled = true ∧
          hw.rx_freq (st.device_channels idx).chan_num ≠ freq) →
        (fin.usrp_tuners idx).update_sri = true) := by
  have h0 := int_ofNat_not_neg idx
  have hne : (st.frontend_tuner_status idx).tuner_type ≠ TunerType.TX := by rw [hty]; decide
  obtain ⟨pre, ri, ti, hi, hpre, _⟩ := interrupt_shape st idx
  by_cases hdiff : hw.rx_freq (st.device_channels idx).chan_num ≠ freq
  · cases hen : (st.frontend_tuner_status idx).enabled with
    | true =>
      obtain ⟨fin, _, _, _, hrun, _, _, _, _, _, h1, h2, h3, h4⟩ :=
        setTunerCenterFrequency_rx_retune st allocation_id idx freq hw hdev hmap hctl hty hin
          hen hdiff
      exact ⟨fin, hrun, h1, h2, h4, fun _ _ => h3, fun h => absurd ⟨rfl, hdiff⟩ h⟩
    | false =>
      obtain ⟨fin3, evs3, hd, hs3, ho3, _, hoff3⟩ := usrpDisable_run
        { st with
          usrp_device_ptr := some hw, receive_interrupt_requested := ri,
          transmit_interrupt_requested := ti,
          trace := st.trace ++ pre ++ [Event.get_rx_freq (st.device_channels idx).chan_num] }
        idx (st.device_channels idx).chan_num hw rfl hne
      simp only at hd hs3 ho3 hoff3
      have hdev3 : fin3.usrp_device_ptr = some hw := by rw [hs3]
      have hst3 : fin3.frontend_tuner_status = Function.update st.frontend_tuner_status idx
          { st.frontend_tuner_status idx with enabled := false } := by rw [hs3]
      unfold setTunerCenterFrequency
      simp only [run_bind, getState, hmap, h0, if_false, Int.toNat_ofNat, ← hctl, ne_eq,
        not_true_eq_false, hin, hty, hi, run_ite, hw_get_rx_freq, device, hdev, emit,
        modifyState, run_pure, hdiff, not_false_eq_true, if_true, hd, hw_set_rx_freq, hdev3,
        setDevice, Function.update_same, setStatus, setTuner, hen, updateDeviceInfo,
        Bool.false_eq_true]
      refine ⟨_, rfl, ?_, ?_, ?_, ?_, ?_⟩
      · simp [hst3]
      · simp
      · simp
      · intro h; cases h
      · intro _; simp
  · have hsame : hw.rx_freq (st.device_channels idx).chan_num = freq := by
      by_contra h; exact hdiff h
    cases hen : (st.frontend_tuner_status idx).enabled with
    | true =>
      obtain ⟨fin7, evs7, he, hs7, ho7, _, hon7⟩ := usrpEnable_run
        { st with
          usrp_device_ptr := some { hw with
            rx_freq := Function.update hw.rx_freq (st.device_channels idx).chan_num
              (hw.tune_freq freq) },
          frontend_tuner_status := Function.update st.frontend_tuner_status idx
            { st.frontend_tuner_status idx with center_frequency := hw.tune_freq freq },
          usrp_tuners := Function.update st.usrp_tuners idx
            { st.usrp_tuners idx with update_sri := true },
          receive_interrupt_requested := ri,
          transmit_interrupt_requested := ti,
          trace := st.trace ++ pre ++ [Event.get_rx_freq (st.device_channels idx).chan_num] ++
            [Event.set_rx_freq freq (st.device_channels idx).chan_num] ++
            [Event.get_rx_freq (st.device_channels idx).chan_num] }
        idx (st.device_channels idx).chan_num _ rfl (by simp [hty])
      simp only [Function.update_same] at hs7 ho7 hon7
      simp only [Function.update_same, hty, hen] at he
      obtain ⟨_, hu7⟩ := hon7 hen
      have hdev7 : fin7.usrp_device_ptr = some { hw with
          rx_freq := Function.update hw.rx_freq (st.device_channels idx).chan_num
            (hw.tune_freq freq) } := by rw [hs7]
      have hst7 : fin7.frontend_tuner_status idx =
          { st.frontend_tuner_status idx with
            center_frequency := hw.tune_freq freq
            enabled := true } := by rw [hs7]; simp
      unfold setTunerCenterFrequency
      simp only [run_bind, getState, hmap, h0, if_false, Int.toNat_ofNat, ← hctl, ne_eq,
        not_true_eq_false, hin, hty, hi, run_ite, hw_get_rx_freq, device, hdev, emit,
        modifyState, run_pure, hsame, not_false_eq_true, if_true, hw_set_rx_freq,
        setDevice, Function.update_same, setStatus, setTuner, hen, he, updateDeviceInfo, hdev7]
      refine ⟨_, rfl, ?_, ?_, ?_, ?_, ?_⟩
      · simp [hst7]
      · simp [hst7]
      · simp
      · intro _ h; exact h.elim
      · intro _; simpa using hu7 trivial
    | false =>
      unfold setTunerCenterFrequency
      simp only [run_bind, getState, hmap, h0, if_false, Int.toNat_ofNat, ← hctl, ne_eq,
        not_true_eq_false, hin, hty, hi, run_ite, hw_get_rx_freq, device, hdev, emit,
        modifyState, run_pure, hsame, not_false_eq_true, if_true, hw_set_rx_freq,
        setDevice, Function.update_same, setStatus, setTuner, hen, updateDeviceInfo,
        Bool.false_eq_true]
      refine ⟨_, rfl, ?_, ?_, ?_, ?_, ?_⟩
      · simp [hen]
      · simp
      · simp
      · intro h; cases h
      · intro _; simp

theorem retune_hyps_stA (enabled : Bool) (fill : Nat) :
    (stA enabled fill).usrp_device_ptr = some hwA ∧
    ((stA enabled fill).frontend_tuner_status 0).tuner_type = TunerType.RX_DIGITIZER ∧
    ¬ ((2500 : ℚ) < ((stA enabled fill).device_channels 0).freq_min ∨
      (2500 : ℚ) > ((stA enabled fill).device_channels 0).freq_max) ∧
    ((stA enabled fill).frontend_tuner_status 0).enabled = enabled ∧
    hwA.rx_freq ((stA enabled fill).device_channels 0).chan_num ≠ 2500 := by
  refine ⟨rfl, by simp [stA, statusA], ?_, by simp [stA, statusA], ?_⟩
  · norm_num [stA, chA, channelOf, rgA, exampleRanges, intervalRange]
  · norm_num [hwA]

/-- C11, retune ordering. `setTunerCenterFrequency` with the controlling allocation id
of a receive tuner and a frequency inside the channel range ends normally and leaves
the enabled flag as it found it, whether the tuner was enabled or not and whether the
hardware frequency differs from the request or not. On an enabled tuner whose live
hardware frequency differs from the request the events are, after the interrupt
requests: the read of the hardware frequency, the stop command, the SRI push
(mode 1) and the end-of-stream packet with the filled part of the buffer, then the
hardware frequency set and its read back, then the SRI push (mode 1) and the start
command of the re-enable, then the query of the device description. -/
theorem retune_disables_sets_enables (st : State) (allocation_id : String) (idx : Nat)
    (freq : ℚ) (hw : Hardware) (hdev : st.usrp_device_ptr = some hw)
    (hmap : getTunerMapping st allocation_id = idx)
    (hctl : allocation_id = getControlAllocationId st idx)
    (hty : (st.frontend_tuner_status idx).tuner_type = TunerType.RX_DIGITIZER)
    (hin : ¬ (freq < (st.device_channels idx).freq_min ∨ freq > (st.device_channels idx).freq_max)) :
    (setTunerCenterFrequency allocation_id freq st).1 = Except.ok () ∧
    ((setTunerCenterFrequency allocation_id freq st).2.frontend_tuner_status idx).enabled =
      (st.frontend_tuner_status idx).enabled ∧
    ((st.frontend_tuner_status idx).enabled = true →
      hw.rx_freq (st.device_channels idx).chan_num ≠ freq →
      ∃ (pre : List Event) (sri1 sri2 : StreamSRI),
        InterruptsOnly pre ∧ sri1.mode = 1 ∧ sri2.mode = 1 ∧
        (setTunerCenterFrequency allocation_id freq st).2.trace = st.trace ++ pre ++
          [Event.get_rx_freq (st.device_channels idx).chan_num,
            Event.issue_stream_cmd StreamMode.STOP_CONTINUOUS (st.device_channels idx).chan_num,
            Event.pushSRI sri1,
            Event.pushPacket
              (resize (st.usrp_tuners idx).output_buffer (st.usrp_tuners idx).buffer_size)
              (st.usrp_tuners idx).output_buffer_time true sri1.streamID,
            Event.set_rx_freq freq (st.device_channels idx).chan_num,
            Event.get_rx_freq (st.device_channels idx).chan_num,
            Event.pushSRI sri2,
            Event.issue_stream_cmd StreamMode.START_CONTINUOUS (st.device_channels idx).chan_num,
            Event.query_device_info]) := by
  obtain ⟨fin, hrun, h1, _⟩ :=
    setTunerCenterFrequency_rx_state st allocation_id idx freq hw hdev hmap hctl hty hin
  refine ⟨by rw [hrun], by rw [hrun]; exact h1, ?_⟩
  intro hen hdiff
  obtain ⟨fin2, pre, sri1, sri2, hrun2, hpre, hm1, hm2, _, htr, _⟩ :=
    setTunerCenterFrequency_rx_retune st allocation_id idx freq hw hdev hmap hctl hty hin
      hen hdiff
  exact ⟨pre, sri1, sri2, hpre, hm1, hm2, by rw [hrun2]; exact htr⟩

/-- Witness for C11: the example device, tuner 0 enabled with two shorts buffered,
retuned from 2400 to 2500. -/
theorem retune_disables_sets_enables_witness :
    (setTunerCenterFrequency "alloc0" 2500 (stA true 2)).1 = Except.ok () ∧
    ((setTunerCenterFrequency "alloc0" 2500 (stA true 2)).2.frontend_tuner_status 0).enabled =
      true :=
  have h := retune_disables_sets_enables (stA true 2) "alloc0" 0 2500 hwA
    (retune_hyps_stA true 2).1 (getTunerMapping_stA true 2).1 (control_stA true 2)
    (retune_hyps_stA true 2).2.1 (retune_hyps_stA true 2).2.2.1
  ⟨h.1, h.2.1.trans (retune_hyps_stA true 2).2.2.2.1⟩

/-- C12 as stated fails on the example device: tuner 0 is enabled and the hardware is
at 2400; after the retune to 2500 has ended normally the refresh flag is clear. -/
theorem retune_leaves_flag_clear_counterexample :
    (setTunerCenterFrequency "alloc0" 2500 (stA true 2)).1 = Except.ok () ∧
    ((setTunerCenterFrequency "alloc0" 2500 (stA true 2)).2.usrp_tuners 0).update_sri = false := by
  obtain ⟨h1, h2, h3, h4, h5⟩ := retune_hyps_stA true 2
  obtain ⟨fin, hrun, _, _, _, hclear, _⟩ :=
    setTunerCenterFrequency_rx_state (stA true 2) "alloc0" 0 2500 hwA h1
      (getTunerMapping_stA true 2).1 (control_stA true 2) h2 h3
  rw [hrun]
  exact ⟨rfl, hclear h4 h5⟩

/-- C12, amended. After `setTunerCenterFrequency` with the controlling allocation id of
a receive tuner and a frequency inside the channel range, the status center
frequency is the frequency the hardware reports after the set, which is the value
the hardware settled on for the request. The refresh flag is set, except when the
tuner was enabled and the live hardware frequency differed from the request: then
the re-enable has pushed an SRI that carries the new center frequency, and the flag
is clear. -/
theorem retune_reports_hardware_frequency (st : State) (allocation_id : String) (idx : Nat)
    (freq : ℚ) (hw : Hardware) (hdev : st.usrp_device_ptr = some hw)
    (hmap : getTunerMapping st allocation_id = idx)
    (hctl : allocation_id = getControlAllocationId st idx)
    (hty : (st.frontend_tuner_status idx).tuner_type = TunerType.RX_DIGITIZER)
    (hin : ¬ (freq < (st.device_channels idx).freq_min ∨ freq > (st.device_channels idx).freq_max)) :
    ∃ (fin : State) (hw1 : Hardware),
      setTunerCenterFrequency allocation_id freq st = (Except.ok (), fin) ∧
      fin.usrp_device_ptr = some hw1 ∧
      (fin.frontend_tuner_status idx).center_frequency =
        hw1.rx_freq (st.device_channels idx).chan_num ∧
      hw1.rx_freq (st.device_channels idx).chan_num = hw.tune_freq freq ∧
      (¬ ((st.frontend_tuner_status idx).enabled = true ∧
          hw.rx_freq (st.device_channels idx).chan_num ≠ freq) →
        (fin.usrp_tuners idx).update_sri = true) ∧
      ((st.frontend_tuner_status idx).enabled = true →
        hw.rx_freq (st.device_channels idx).chan_num ≠ freq →
        (fin.usrp_tuners idx).update_sri = false ∧
        ∃ sri : StreamSRI, Event.pushSRI sri ∈ fin.trace ∧ sri.mode = 1 ∧
          sri.center_frequency = (fin.frontend_tuner_status idx).center_frequency) := by
  obtain ⟨fin, hrun, _, h2, h3, h4, h5⟩ :=
    setTunerCenterFrequency_rx_state st allocation_id idx freq hw hdev hmap hctl hty hin
  refine ⟨fin, _, hrun, h3, ?_, ?_, h5, ?_⟩
  · rw [h2]; simp
  · simp
  · intro hen hdiff
    refine ⟨h4 hen hdiff, ?_⟩
    obtain ⟨fin2, pre, sri1, sri2, hrun2, _, _, hm2, hc2, htr, _⟩ :=
      setTunerCenterFrequency_rx_retune st allocation_id idx freq hw hdev hmap hctl hty hin
        hen hdiff
    have hf : fin2 = fin := by
      have := hrun2.symm.trans hrun
      exact (Prod.mk.inj this).2
    subst hf
    refine ⟨sri2, ?_, hm2, by rw [hc2, h2]⟩
    rw [htr]
    simp

/-- Witness for C12: the example device, tuner 0 disabled, retuned from 2400 to 2500. -/
theorem retune_reports_hardware_frequency_witness :
    ∃ fin : State,
      setTunerCenterFrequency "alloc0" 2500 (stA false 0) = (Except.ok (), fin) ∧
      (fin.frontend_tuner_status 0).center_frequency = 2500 ∧
      (fin.usrp_tuners 0).update_sri = true :=
  have hy := retune_hyps_stA false 0
  match retune_reports_hardware_frequency (stA false 0) "alloc0" 0 2500 hwA hy.1
    (getTunerMapping_stA false 0).1 (control_stA false 0) hy.2.1 hy.2.2.1 with
  | ⟨fin, _, h1, _, h3, h4, h5, _⟩ =>
    ⟨fin, h1, h3.trans h4, h5 (fun h => by rw [hy.2.2.2.1] at h; exact Bool.false_ne_true h.1)⟩
/-! ## C15, C16 and C17: the service loops -/

/-- Whether the transmit loop services a tuner depends on the status and allocation
tables only. -/
theorem transmitting_congr {s s' : State}
    (h1 : s'.frontend_tuner_status = s.frontend_tuner_status)
    (h2 : s'.control_allocation_id = s.control_allocation_id) (j : Nat) :
    Transmitting s' j ↔ Transmitting s j := by
  unfold Transmitting getControlAllocationId
  rw [h1, h2]

/-- The run of `usrpTransmit` with a device: it ends normally, hands the packet to
the hardware once, and changes at most the RF-info packet and the refresh flag of
its tuner. -/
theorem usrpTransmit_run (send : Nat → Nat) (port : TxPort) (id : Nat) (packet : Packet)
    (st : State) (hdev : st.usrp_device_ptr ≠ none) :
    ∃ (b : Bool) (fin : State) (evs : List Event),
      usrpTransmit send port id packet st = (Except.ok b, fin) ∧
      fin = { st with
        tx_rfinfo_pkt := fin.tx_rfinfo_pkt, usrp_tuners := fin.usrp_tuners,
        trace := st.trace ++ evs } ∧
      (∀ j, j ≠ id → fin.usrp_tuners j = st.usrp_tuners j) ∧
      (∀ e ∈ evs, e = Event.send id port (packet.dataBuffer.length / 2) ∨
        ∃ p, e = Event.rfinfo_pkt p) := by
  cases hd : st.usrp_device_ptr with
  | none => exact absurd hd hdev
  | some hw =>
    by_cases hu : (st.usrp_tuners id).update_sri = true
    · simp only [usrpTransmit, run_bind, getState, run_ite, hu, if_true, modifyState, emit,
        setTuner, device, hd, run_pure]
      split_ifs
      all_goals
        refine ⟨_, _, [Event.rfinfo_pkt { st.tx_rfinfo_pkt with
            rf_center_freq := (st.frontend_tuner_status id).center_frequency
            if_center_freq := (st.frontend_tuner_status id).center_frequency
            rf_bandwidth := (st.frontend_tuner_status id).bandwidth },
          Event.send id port (packet.dataBuffer.length / 2)], rfl, ?_, ?_, ?_⟩
        · simp [hd]
        · intro j hj
          simp [Function.update_noteq hj]
        · intro e he
          simp only [List.mem_cons, List.mem_singleton, List.not_mem_nil, or_false] at he
          rcases he with he | he
          · exact Or.inr ⟨_, he⟩
          · exact Or.inl he
    · simp only [usrpTransmit, run_bind, getState, run_ite, hu, if_false, modifyState, emit,
        setTuner, device, hd, run_pure, Bool.false_eq_true]
      split_ifs
      all_goals
        refine ⟨_, _, [Event.send id port (packet.dataBuffer.length / 2)], rfl, ?_, ?_, ?_⟩
        · simp [hd]
        · intro j _
          rfl
        · intro e he
          exact Or.inl (List.mem_singleton.mp he)

/-- One iteration of the transmit loop, with a device. -/
theorem transmitTuner_run (send : Nat → Nat → Nat) (port : TxPort) (packet : Packet) (id : Nat)
    (st : State) (hdev : st.usrp_device_ptr ≠ none) :
    ∃ (fin : State) (evs : List Event),
      transmitTuner send port packet id st = (Except.ok (), fin) ∧
      fin = { st with
        tx_rfinfo_pkt := fin.tx_rfinfo_pkt, usrp_tuners := fin.usrp_tuners,
        trace := st.trace ++ evs } ∧
      (∀ j, j ≠ id → fin.usrp_tuners j = st.usrp_tuners j) ∧
      (¬ Transmitting st id → fin = st ∧ evs = []) ∧
      (∀ e ∈ evs, e = Event.send id port (packet.dataBuffer.length / 2) ∨
        ∃ p, e = Event.rfinfo_pkt p) := by
  by_cases hs : Transmitting st id
  · obtain ⟨h1, h2, h3⟩ := hs
    obtain ⟨b, fin, evs, hrun, hshape, hothers, hev⟩ :=
      usrpTransmit_run (send id) port id packet st hdev
    refine ⟨fin, evs, ?_, hshape, hothers, fun h => absurd ⟨h1, h2, h3⟩ h, hev⟩
    unfold transmitTuner
    simp only [run_bind, getState, run_ite, h1, h2, h3, ne_eq, not_true_eq_false, if_false,
      Bool.not_true, Bool.false_eq_true, hrun, run_pure]
  · refine ⟨st, [], ?_, by simp, fun _ _ => rfl, fun _ => ⟨rfl, rfl⟩,
      fun e he => absurd he (List.not_mem_nil e)⟩
    unfold transmitTuner
    simp only [run_bind, getState, run_ite, run_pure]
    unfold Transmitting at hs
    split_ifs with a b c
    · rfl
    · rfl
    · rfl
    · exfalso
      apply hs
      refine ⟨by simpa using a, b, by simpa using c⟩

/-- The transmit loop with a device: it ends normally, leaves everything but the
RF-info packet, the runtime entries of the serviced tuners and the trace, and hands
the packet to the hardware for serviced tuners only. -/
theorem transmitLoop_run (send : Nat → Nat → Nat) (port : TxPort) (packet : Packet)
    (ids : List Nat) : ∀ st : State, st.usrp_device_ptr ≠ none →
    ∃ (fin : State) (evs : List Event),
      transmitLoop send port packet ids st = (Except.ok (), fin) ∧
      fin = { st with
        tx_rfinfo_pkt := fin.tx_rfinfo_pkt, usrp_tuners := fin.usrp_tuners,
        trace := st.trace ++ evs } ∧
      (∀ j, ¬ Transmitting st j → fin.usrp_tuners j = st.usrp_tuners j) ∧
      (∀ e ∈ evs, (∃ j, Transmitting st j ∧ e = Event.send j port (packet.dataBuffer.length / 2)) ∨
        ∃ p, e = Event.rfinfo_pkt p) := by
  induction ids with
  | nil =>
    intro st _
    exact ⟨st, [], rfl, by simp, fun _ _ => rfl, fun e he => absurd he (List.not_mem_nil e)⟩
  | cons id rest ih =>
    intro st hdev
    obtain ⟨fin1, evs1, hrun1, hshape1, hothers1, hskip1, hev1⟩ :=
      transmitTuner_run send port packet id st hdev
    have hd1 : fin1.usrp_device_ptr = st.usrp_device_ptr := by rw [hshape1]
    have hf1 : fin1.frontend_tuner_status = st.frontend_tuner_status := by rw [hshape1]
    have hc1 : fin1.control_allocation_id = st.control_allocation_id := by rw [hshape1]
    have ht1 : fin1.trace = st.trace ++ evs1 := by rw [hshape1]
    obtain ⟨fin, evs2, hrun2, hshape2, hothers2, hev2⟩ := ih fin1 (by rw [hd1]; exact hdev)
    refine ⟨fin, evs1 ++ evs2, ?_, ?_, ?_, ?_⟩
    · show (transmitTuner send port packet id >>= fun _ => transmitLoop send port packet rest) st = _
      rw [bind_ok hrun1, hrun2]
    · rw [hshape2, hshape1]
      simp
    · intro j hj
      rw [hothers2 j (fun h => hj ((transmitting_congr hf1 hc1 j).mp h))]
      by_cases hji : j = id
      · subst hji
        rw [(hskip1 hj).1]
      · exact hothers1 j hji
    · intro e he
      rcases List.mem_append.mp he with he | he
      · rcases hev1 e he with h | h
        · by_cases hs : Transmitting st id
          · exact Or.inl ⟨id, hs, h⟩
          · rw [(hskip1 hs).2] at he
            exact absurd he (List.not_mem_nil e)
        · exact Or.inr h
      · rcases hev2 e he with ⟨j, hj, h⟩ | h
        · exact Or.inl ⟨j, (transmitting_congr hf1 hc1 j).mp hj, h⟩
        · exact Or.inr h

/-- The run of `transmitHelper` with a device: one pull, and either nothing more (no
packet), the release of a packet that is not complex, or the transmit loop and the
release of the packet. -/
theorem transmitHelper_run (send : Nat → Nat → Nat) (port : TxPort) (st : State)
    (hdev : st.usrp_device_ptr ≠ none) :
    ∃ (b : Bool) (fin : State) (evs : List Event),
      transmitHelper send port st = (Except.ok b, fin) ∧
      fin = { st with
        tx_rfinfo_pkt := fin.tx_rfinfo_pkt, usrp_tuners := fin.usrp_tuners,
        tx_queue := Function.update st.tx_queue port (afterPull st port),
        trace := st.trace ++ Event.getPacket port :: evs } ∧
      (∀ j, ¬ Transmitting st j → fin.usrp_tuners j = st.usrp_tuners j) ∧
      (∀ e ∈ evs, (∃ j n, Transmitting st j ∧ e = Event.send j port n) ∨
        (∃ p, e = Event.rfinfo_pkt p) ∨ ∃ pk, e = Event.deletePacket port pk) ∧
      (b = true ↔ ComplexAvailable st port) ∧
      (∀ packet, available st port = some packet → packet.SRI_mode ≠ 1 →
        evs = [Event.deletePacket port packet] ∧ fin.usrp_tuners = st.usrp_tuners ∧
        fin.tx_rfinfo_pkt = st.tx_rfinfo_pkt) := by
  obtain ⟨hw, hd⟩ := Option.ne_none_iff_exists'.mp hdev
  · unfold ComplexAvailable available afterPull
    by_cases hb : st.tx_blocked port = true
    · refine ⟨false, { st with trace := st.trace ++ [Event.getPacket port] }, [], ?_, ?_,
        fun _ _ => rfl, fun e he => absurd he (List.not_mem_nil e), ?_, ?_⟩
      · simp [transmitHelper, run_bind, getState, hd, run_ite, getPacket, emit, modifyState, hb,
          run_pure]
      · simp [hb]
      · simp [hb]
      · simp [hb]
    · cases hq : st.tx_queue port with
      | nil =>
        refine ⟨false, { st with trace := st.trace ++ [Event.getPacket port] }, [], ?_, ?_,
          fun _ _ => rfl, fun e he => absurd he (List.not_mem_nil e), ?_, ?_⟩
        · simp [transmitHelper, run_bind, getState, hd, run_ite, getPacket, emit, modifyState, hb,
            run_pure, hq]
        · simp [hb, hq]
        · simp [hb, hq]
        · simp [hb, hq]
      | cons packet rest =>
        by_cases hm : packet.SRI_mode = 1
        · obtain ⟨fin, evs, hrun, hshape, hothers, hev⟩ :=
            transmitLoop_run send port packet (List.range st.num_tuners)
              { st with
                usrp_device_ptr := some hw,
                tx_queue := Function.update st.tx_queue port rest,
                trace := st.trace ++ [Event.getPacket port] }
              (by simp)
          simp only at hrun hshape hothers
          have hf : ∀ j, Transmitting { st with
              usrp_device_ptr := some hw,
              tx_queue := Function.update st.tx_queue port rest,
              trace := st.trace ++ [Event.getPacket port] } j ↔ Transmitting st j :=
            fun j => transmitting_congr rfl rfl j
          have htr : fin.trace = st.trace ++ [Event.getPacket port] ++ evs := by rw [hshape]
          refine ⟨true, { fin with trace := fin.trace ++ [Event.deletePacket port packet] },
            evs ++ [Event.deletePacket port packet], ?_, ?_, ?_, ?_, ?_, ?_⟩
          · simp [transmitHelper, run_bind, getState, hd, run_ite, getPacket, emit, modifyState,
              hb, run_pure, hq, hm, hrun]
          · simp only [htr]
            rw [hshape]
            simp [hb, hq, hd]
          · intro j hj
            exact hothers j (fun h => hj ((hf j).mp h))
          · intro e he
            rcases List.mem_append.mp he with he | he
            · rcases hev e he with ⟨j, hj, h⟩ | h
              · exact Or.inl ⟨j, _, (hf j).mp hj, h⟩
              · exact Or.inr (Or.inl h)
            · exact Or.inr (Or.inr ⟨_, List.mem_singleton.mp he⟩)
          · simp [hb, hq, hm]
          · intro p hp hpm
            simp [hb, hq] at hp
            rw [← hp] at hpm
            exact absurd hm hpm
        · refine ⟨false, { st with
            tx_queue := Function.update st.tx_queue port rest,
            trace := st.trace ++ [Event.getPacket port, Event.deletePacket port packet] },
            [Event.deletePacket port packet], ?_, ?_,
            fun _ _ => rfl, ?_, ?_, ?_⟩
          · simp [transmitHelper, run_bind, getState, hd, run_ite, getPacket, emit, modifyState,
              hb, run_pure, hq, hm]
          · simp [hb, hq]
          · intro e he
            exact Or.inr (Or.inr ⟨_, List.mem_singleton.mp he⟩)
          · simp [hb, hq, hm]
          · simp [hb, hq]

theorem available_congr {s s' : State} {port : TxPort}
    (h1 : s'.tx_blocked = s.tx_blocked) (h2 : s'.tx_queue port = s.tx_queue port) :
    available s' port = available s port ∧ afterPull s' port = afterPull s port ∧
    (ComplexAvailable s' port ↔ ComplexAvailable s port) := by
  unfold ComplexAvailable available afterPull
  rw [h1, h2]
  exact ⟨rfl, rfl, Iff.rfl⟩

/-- The run of a transmit cycle that is not interrupted, with a device. -/
theorem serviceFunctionTransmit_run (send : Nat → Nat → Nat) (st : State)
    (hdev : st.usrp_device_ptr ≠ none) (hint : st.transmit_interrupt_requested = false) :
    ∃ (r : ServiceResult) (fin : State) (evs : List Event),
      serviceFunctionTransmit send st = (Except.ok r, fin) ∧
      fin = { st with
        tx_rfinfo_pkt := fin.tx_rfinfo_pkt, usrp_tuners := fin.usrp_tuners,
        tx_queue := fin.tx_queue, trace := st.trace ++ evs } ∧
      (∀ j, ¬ Transmitting st j → fin.usrp_tuners j = st.usrp_tuners j) ∧
      (∀ j p n, Event.send j p n ∈ evs → Transmitting st j) ∧
      (∀ j n, Event.recv j n ∉ evs) ∧
      (r = ServiceResult.NORMAL ↔
        ComplexAvailable st TxPort.dataShortTX_in ∨ ComplexAvailable st TxPort.dataFloatTX_in) ∧
      Event.getPacket TxPort.dataShortTX_in ∈ evs ∧
      (Event.getPacket TxPort.dataFloatTX_in ∈ evs ↔
        ¬ ComplexAvailable st TxPort.dataShortTX_in) ∧
      fin.tx_queue TxPort.dataShortTX_in = afterPull st TxPort.dataShortTX_in ∧
      (ComplexAvailable st TxPort.dataShortTX_in →
        fin.tx_queue TxPort.dataFloatTX_in = st.tx_queue TxPort.dataFloatTX_in) ∧
      (¬ ComplexAvailable st TxPort.dataShortTX_in →
        fin.tx_queue TxPort.dataFloatTX_in = afterPull st TxPort.dataFloatTX_in) := by
  obtain ⟨b1, fin1, evs1, hrun1, hshape1, hoth1, hev1, hb1, _⟩ :=
    transmitHelper_run send TxPort.dataShortTX_in st hdev
  have hne : TxPort.dataFloatTX_in ≠ TxPort.dataShortTX_in := by decide
  have hq1s : fin1.tx_queue TxPort.dataShortTX_in = afterPull st TxPort.dataShortTX_in := by
    rw [hshape1]; simp
  have hq1f : fin1.tx_queue TxPort.dataFloatTX_in = st.tx_queue TxPort.dataFloatTX_in := by
    rw [hshape1]; simp [Function.update_noteq hne]
  have htr1 : fin1.trace = st.trace ++ Event.getPacket TxPort.dataShortTX_in :: evs1 := by
    rw [hshape1]
  have hnog1 : ∀ p, Event.getPacket p ∉ evs1 := by
    intro p hp
    rcases hev1 _ hp with ⟨_, _, _, h⟩ | ⟨_, h⟩ | ⟨_, h⟩ <;> cases h
  have hnor1 : ∀ j n, Event.recv j n ∉ evs1 := by
    intro j n hp
    rcases hev1 _ hp with ⟨_, _, _, h⟩ | ⟨_, h⟩ | ⟨_, h⟩ <;> cases h
  have hsend1 : ∀ j p n, Event.send j p n ∈ evs1 → Transmitting st j := by
    intro j p n hp
    rcases hev1 _ hp with ⟨j2, n2, hj, h⟩ | ⟨_, h⟩ | ⟨_, h⟩
    · cases h; exact hj
    · cases h
    · cases h
  cases b1 with
  | true =>
    have hc : ComplexAvailable st TxPort.dataShortTX_in := hb1.mp rfl
    refine ⟨ServiceResult.NORMAL, fin1, Event.getPacket TxPort.dataShortTX_in :: evs1,
      ?_, ?_, hoth1, ?_, ?_, ?_, ?_, ?_, hq1s, fun _ => hq1f, fun h => absurd hc h⟩
    · simp [serviceFunctionTransmit, run_bind, getState, run_ite, hint, hrun1, run_pure]
    · rw [hshape1]
    · intro j p n hp
      rcases List.mem_cons.mp hp with h | h
      · cases h
      · exact hsend1 j p n h
    · intro j n hp
      rcases List.mem_cons.mp hp with h | h
      · cases h
      · exact hnor1 j n h
    · exact ⟨fun _ => Or.inl hc, fun _ => rfl⟩
    · exact List.mem_cons_self _ _
    · constructor
      · intro hp
        rcases List.mem_cons.mp hp with h | h
        · cases h
        · exact absurd h (hnog1 _)
      · intro h; exact absurd hc h
  | false =>
    have hc : ¬ ComplexAvailable st TxPort.dataShortTX_in := fun h => by
      have := hb1.mpr h
      cases this
    have hd1 : fin1.usrp_device_ptr = st.usrp_device_ptr := by rw [hshape1]
    have hf1 : fin1.frontend_tuner_status = st.frontend_tuner_status := by rw [hshape1]
    have hc1 : fin1.control_allocation_id = st.control_allocation_id := by rw [hshape1]
    have hbl1 : fin1.tx_blocked = st.tx_blocked := by rw [hshape1]
    obtain ⟨hav, haft, hca⟩ := @available_congr st fin1 TxPort.dataFloatTX_in hbl1 hq1f
    obtain ⟨b2, fin2, evs2, hrun2, hshape2, hoth2, hev2, hb2, _⟩ :=
      transmitHelper_run send TxPort.dataFloatTX_in fin1 (by rw [hd1]; exact hdev)
    refine ⟨if b2 then ServiceResult.NORMAL else ServiceResult.NOOP, fin2,
      Event.getPacket TxPort.dataShortTX_in :: evs1 ++
        Event.getPacket TxPort.dataFloatTX_in :: evs2, ?_, ?_, ?_, ?_, ?_, ?_, ?_, ?_, ?_, ?_, ?_⟩
    · simp only [serviceFunctionTransmit, run_bind, getState, run_ite, hint, hrun1, run_pure,
        Bool.false_eq_true, if_false, hrun2]
      cases b2 <;> rfl
    · rw [hshape2, hshape1]
      simp
    · intro j hj
      rw [hoth2 j (fun h => hj ((transmitting_congr hf1 hc1 j).mp h))]
      exact hoth1 j hj
    · intro j p n hp
      rcases List.mem_append.mp hp with h | h
      · rcases List.mem_cons.mp h with h | h
        · cases h
        · exact hsend1 j p n h
      · rcases List.mem_cons.mp h with h | h
        · cases h
        · rcases hev2 _ h with ⟨j2, n2, hj, h⟩ | ⟨_, h⟩ | ⟨_, h⟩
          · cases h; exact (transmitting_congr hf1 hc1 j).mp hj
          · cases h
          · cases h
    · intro j n hp
      rcases List.mem_append.mp hp with h | h
      · rcases List.mem_cons.mp h with h | h
        · cases h
        · exact hnor1 j n h
      · rcases List.mem_cons.mp h with h | h
        · cases h
        · rcases hev2 _ h with ⟨_, _, _, h⟩ | ⟨_, h⟩ | ⟨_, h⟩ <;> cases h
    · rw [← hca]
      cases b2 with
      | true => exact ⟨fun _ => Or.inr (hb2.mp rfl), fun _ => rfl⟩
      | false =>
        refine ⟨fun h => by simp at h, fun h => ?_⟩
        rcases h with h | h
        · exact absurd h hc
        · have := hb2.mpr h
          cases this
    · simp
    · exact ⟨fun _ => hc, fun _ => by simp⟩
    · rw [hshape2]
      simp [Function.update_noteq hne.symm, hq1s]
    · intro h; exact absurd h hc
    · intro _
      rw [hshape2]
      simp [haft]

theorem transfersFor_nil (id : Nat) : TransfersFor id [] :=
  ⟨fun _ _ h => absurd h (List.not_mem_nil _), fun _ _ _ h => absurd h (List.not_mem_nil _)⟩

theorem transfersFor_append {id : Nat} {a b : List Event} (ha : TransfersFor id a)
    (hb : TransfersFor id b) : TransfersFor id (a ++ b) := by
  refine ⟨fun j n h => ?_, fun j p n h => ?_⟩
  · rcases List.mem_append.mp h with h | h
    · exact ha.1 j n h
    · exact hb.1 j n h
  · rcases List.mem_append.mp h with h | h
    · exact ha.2 j p n h
    · exact hb.2 j p n h

theorem touches_refl (id : Nat) (s : State) : Touches id s s :=
  ⟨rfl, rfl, fun _ _ => rfl, [], by simp, transfersFor_nil id⟩

theorem touches_trans (id : Nat) (a b c : State) (h1 : Touches id a b) (h2 : Touches id b c) :
    Touches id a c := by
  obtain ⟨a1, a2, a3, e1, a4, a5⟩ := h1
  obtain ⟨b1, b2, b3, e2, b4, b5⟩ := h2
  refine ⟨b1.trans a1, b2.trans a2, fun j hj => (b3 j hj).trans (a3 j hj), e1 ++ e2, ?_,
    transfersFor_append a5 b5⟩
  rw [b4, a4, List.append_assoc]

theorem touches_frame (id : Nat) {f : State → State}
    (h1 : ∀ s, (f s).frontend_tuner_status = s.frontend_tuner_status)
    (h2 : ∀ s, (f s).control_allocation_id = s.control_allocation_id)
    (h3 : ∀ s, (f s).usrp_tuners = s.usrp_tuners) (h4 : ∀ s, (f s).trace = s.trace) :
    Relates (Touches id) (modifyState f) :=
  relates_modify (fun s => ⟨h1 s, h2 s, fun j _ => by rw [h3 s], [], by simp [h4 s],
    transfersFor_nil id⟩)

theorem touches_emit (id : Nat) (e : Event) (h : TransfersFor id [e]) :
    Relates (Touches id) (emit e) :=
  relates_modify (fun _ => ⟨rfl, rfl, fun _ _ => rfl, [e], rfl, h⟩)

theorem touches_setTuner (id : Nat) (f : usrp_tuner_struct → usrp_tuner_struct) :
    Relates (Touches id) (setTuner id f) :=
  relates_modify (fun s => ⟨rfl, rfl, fun j hj => by simp [Function.update_noteq hj], [],
    by simp, transfersFor_nil id⟩)

theorem touches_getStreamId (id : Nat) : Relates (Touches id) (getStreamId id) := by
  unfold getStreamId
  repeat' first
    | exact relates_pure (touches_refl id) _
    | exact relates_getState (touches_refl id)
    | exact touches_setTuner id _
    | exact touches_frame id (fun _ => rfl) (fun _ => rfl) (fun _ => rfl) (fun _ => rfl)
    | apply relates_bind (touches_trans id)
    | apply relates_ite
    | intro _

theorem touches_usrpReceive (id : Nat) (timeout : ℚ) (recv : Nat → RecvResult) :
    Relates (Touches id) (usrpReceive id timeout recv) := by
  unfold usrpReceive
  repeat' first
    | exact relates_pure (touches_refl id) _
    | exact relates_getState (touches_refl id)
    | exact relates_throw (touches_refl id) _
    | exact relates_device (touches_refl id)
    | exact touches_setTuner id _
    | exact touches_emit id _ (by constructor <;> (intros; simp_all))
    | apply relates_bind (touches_trans id)
    | apply relates_ite
    | split
    | intro _

theorem touches_pushBuffer (id : Nat) : Relates (Touches id) (pushBuffer id) := by
  unfold pushBuffer
  repeat' first
    | exact relates_pure (touches_refl id) _
    | exact relates_getState (touches_refl id)
    | exact touches_getStreamId id
    | exact touches_setTuner id _
    | exact touches_emit id _ (by constructor <;> (intros; simp_all))
    | apply relates_bind (touches_trans id)
    | apply relates_ite
    | intro _

theorem serviced_congr {s s' : State}
    (h1 : s'.frontend_tuner_status = s.frontend_tuner_status)
    (h2 : s'.control_allocation_id = s.control_allocation_id) (j : Nat) :
    Serviced s' j ↔ Serviced s j := by
  unfold Serviced getControlAllocationId
  rw [h1, h2]

theorem servicesOnly_refl (S : State → Nat → Prop) (s : State) : ServicesOnly S s s :=
  ⟨rfl, rfl, fun _ _ => rfl, [], by simp, fun _ _ h => absurd h (List.not_mem_nil _),
    fun _ _ _ h => absurd h (List.not_mem_nil _)⟩

theorem servicesOnly_trans {S : State → Nat → Prop}
    (hS : ∀ s s' : State, s'.frontend_tuner_status = s.frontend_tuner_status →
      s'.control_allocation_id = s.control_allocation_id → ∀ j, S s' j ↔ S s j)
    (a b c : State) (h1 : ServicesOnly S a b) (h2 : ServicesOnly S b c) :
    ServicesOnly S a c := by
  obtain ⟨a1, a2, a3, e1, a4, a5, a6⟩ := h1
  obtain ⟨b1, b2, b3, e2, b4, b5, b6⟩ := h2
  have hc := hS a b a1 a2
  refine ⟨b1.trans a1, b2.trans a2, fun j hj => ?_, e1 ++ e2, ?_, fun j n h => ?_,
    fun j p n h => ?_⟩
  · rw [b3 j (fun h => hj ((hc j).mp h))]
    exact a3 j hj
  · rw [b4, a4, List.append_assoc]
  · rcases List.mem_append.mp h with h | h
    · exact a5 j n h
    · exact (hc j).mp (b5 j n h)
  · rcases List.mem_append.mp h with h | h
    · exact a6 j p n h
    · exact (hc j).mp (b6 j p n h)

theorem servicesOnly_of_touches {S : State → Nat → Prop} {id : Nat} {s s' : State}
    (hs : S s id) (h : Touches id s s') : ServicesOnly S s s' := by
  obtain ⟨a1, a2, a3, evs, a4, a5, a6⟩ := h
  refine ⟨a1, a2, fun j hj => a3 j (fun hji => hj (hji ▸ hs)), evs, a4, fun j n h => ?_,
    fun j p n h => ?_⟩
  · rw [a5 j n h]; exact hs
  · rw [a6 j p n h]; exact hs

/-- An iteration of the receive loop for a tuner that is not serviced does nothing. -/
theorem receiveTuner_skip (recv : Nat → Nat → RecvResult) (id : Nat) (st : State)
    (hs : ¬ Serviced st id) : receiveTuner recv id st = (Except.ok false, st) := by
  unfold receiveTuner
  simp only [run_bind, getState, run_ite, run_pure]
  unfold Serviced at hs
  split_ifs with a b c
  · rfl
  · rfl
  · rfl
  · exfalso
    apply hs
    exact ⟨by simpa using a, b, by simpa using c⟩

theorem servicesOnly_receiveTuner (recv : Nat → Nat → RecvResult) (id : Nat) :
    Relates (ServicesOnly Serviced) (receiveTuner recv id) := by
  intro st
  by_cases hs : Serviced st id
  · refine servicesOnly_of_touches hs ?_
    have h : Relates (Touches id) (receiveTuner recv id) := by
      unfold receiveTuner
      repeat' first
        | exact relates_pure (touches_refl id) _
        | exact relates_getState (touches_refl id)
        | exact touches_usrpReceive id _ _
        | exact touches_pushBuffer id
        | apply relates_bind (touches_trans id)
        | apply relates_ite
        | intro _
    exact h st
  · rw [receiveTuner_skip recv id st hs]
    exact servicesOnly_refl _ st

theorem servicesOnly_receiveLoop (recv : Nat → Nat → RecvResult) (ids : List Nat) :
    ∀ rx_data, Relates (ServicesOnly Serviced) (receiveLoop recv ids rx_data) := by
  induction ids with
  | nil => intro rx_data; exact relates_pure (servicesOnly_refl _) _
  | cons id rest ih =>
    intro rx_data
    exact relates_bind (servicesOnly_trans (fun _ _ h1 h2 j => serviced_congr h1 h2 j))
      (servicesOnly_receiveTuner recv id) (fun _ => ih _)

theorem servicesOnly_serviceFunctionReceive (recv : Nat → Nat → RecvResult) :
    Relates (ServicesOnly Serviced) (serviceFunctionReceive recv) := by
  unfold serviceFunctionReceive
  repeat' first
    | exact relates_pure (servicesOnly_refl _) _
    | exact relates_getState (servicesOnly_refl _)
    | exact servicesOnly_receiveLoop recv _ _
    | exact relates_modify (fun s => servicesOnly_refl Serviced
        { s with receive_interrupt_requested := false })
    | apply relates_bind (servicesOnly_trans (fun _ _ h1 h2 j => serviced_congr h1 h2 j))
    | apply relates_ite
    | intro _

theorem servicesOnly_serviceFunctionTransmit (send : Nat → Nat → Nat) :
    Relates (ServicesOnly Transmitting) (serviceFunctionTransmit send) := by
  intro st
  cases hint : st.transmit_interrupt_requested with
  | true =>
    simp only [serviceFunctionTransmit, run_bind, getState, run_ite, hint, if_true, modifyState,
      run_pure]
    exact servicesOnly_refl Transmitting st
  | false =>
    by_cases hdev : st.usrp_device_ptr = none
    · have hh : ∀ port, transmitHelper send port st = (Except.ok false, st) := by
        intro port
        simp [transmitHelper, run_bind, getState, run_ite, hdev, run_pure]
      simp only [serviceFunctionTransmit, run_bind, getState, run_ite, hint, hh, run_pure,
        Bool.false_eq_true, if_false]
      exact servicesOnly_refl Transmitting st
    · obtain ⟨r, fin, evs, hrun, hshape, hoth, hsend, hnor, _⟩ :=
        serviceFunctionTransmit_run send st hdev hint
      rw [hrun]
      exact ⟨by rw [hshape], by rw [hshape], hoth, evs, by rw [hshape],
        fun j n h => absurd h (hnor j n), hsend⟩

/-- A receive cycle over tuners of which none is serviced leaves the trace alone. -/
theorem receiveLoop_idle (recv : Nat → Nat → RecvResult) (st : State)
    (hs : ∀ j, ¬ Serviced st j) (ids : List Nat) :
    ∀ rx_data, receiveLoop recv ids rx_data st = (Except.ok rx_data, st) := by
  induction ids with
  | nil => intro rx_data; rfl
  | cons id rest ih =>
    intro rx_data
    show (receiveTuner recv id >>= fun got => receiveLoop recv rest (rx_data || got)) st = _
    rw [bind_ok (receiveTuner_skip recv id st (hs id)), ih]
    simp

theorem stT_facts (shortQ floatQ : List Packet) :
    (stT shortQ floatQ).usrp_device_ptr ≠ none ∧
    (stT shortQ floatQ).transmit_interrupt_requested = false ∧
    (stT shortQ floatQ).tx_blocked = (fun _ => false) ∧
    (stT shortQ floatQ).tx_queue TxPort.dataShortTX_in = shortQ ∧
    (stT shortQ floatQ).tx_queue TxPort.dataFloatTX_in = floatQ ∧
    (stT shortQ floatQ).trace = [] := by
  refine ⟨?_, rfl, rfl, rfl, rfl, rfl⟩
  simp [stT, stA]

/-- C15, non-complex transmit packets are dropped. When `transmitHelper` pulls a packet
whose SRI mode is not 1 (the device is present, the port is not blocked and the
packet is the oldest one waiting), it returns false and leaves the state as it was
except for the queue, which lost the packet, and the trace, which gained the pull
and the release of the packet: there is no hardware send and no change of any
tuner. -/
theorem real_packet_dropped (send : Nat → Nat → Nat) (port : TxPort) (st : State)
    (packet : Packet) (rest : List Packet) (hdev : st.usrp_device_ptr ≠ none)
    (hb : st.tx_blocked port = false) (hq : st.tx_queue port = packet :: rest)
    (hmode : packet.SRI_mode ≠ 1) :
    transmitHelper send port st =
      (Except.ok false, { st with
        tx_queue := Function.update st.tx_queue port rest,
        trace := st.trace ++ [Event.getPacket port, Event.deletePacket port packet] }) := by
  obtain ⟨hw, hd⟩ := Option.ne_none_iff_exists'.mp hdev
  simp [transmitHelper, run_bind, getState, hd, run_ite, getPacket, emit, modifyState, hb,
    run_pure, hq, hmode]

/-- Witness for C15: a real packet waits in the 16-bit port of the example device. -/
theorem real_packet_dropped_witness :
    transmitHelper sendA TxPort.dataShortTX_in (stT [packetA 0] []) =
      (Except.ok false, { stT [packetA 0] [] with
        tx_queue := Function.update (stT [packetA 0] []).tx_queue TxPort.dataShortTX_in [],
        trace := (stT [packetA 0] []).trace ++
          [Event.getPacket TxPort.dataShortTX_in,
            Event.deletePacket TxPort.dataShortTX_in (packetA 0)] }) :=
  real_packet_dropped sendA TxPort.dataShortTX_in (stT [packetA 0] []) (packetA 0) []
    (stT_facts _ _).1 rfl rfl (by simp [packetA])

theorem complexAvailable_stT (mode : Int) (restS floatQ : List Packet) :
    (ComplexAvailable (stT (packetA mode :: restS) floatQ) TxPort.dataShortTX_in ↔ mode = 1) ∧
    available (stT (packetA mode :: restS) floatQ) TxPort.dataShortTX_in = some (packetA mode) ∧
    ¬ ComplexAvailable (stT (packetA mode :: restS) []) TxPort.dataFloatTX_in := by
  unfold ComplexAvailable available
  simp [stT, stA, packetA]

/-- C16 as stated fails on the example device. With a complex packet waiting in each
port the cycle reports NORMAL, but it does not pull from the float port, whose packet
is still waiting afterwards. With a real packet waiting in the 16-bit port and
nothing in the float port the cycle reports NOOP although a packet was available. -/
theorem transmit_cycle_counterexample :
    (∃ fin : State,
      serviceFunctionTransmit sendA (stT [packetA 1] [packetA 1]) =
        (Except.ok ServiceResult.NORMAL, fin) ∧
      fin.tx_queue TxPort.dataFloatTX_in = [packetA 1] ∧
      Event.getPacket TxPort.dataFloatTX_in ∉ fin.trace) ∧
    (∃ fin : State,
      serviceFunctionTransmit sendA (stT [packetA 0] []) = (Except.ok ServiceResult.NOOP, fin) ∧
      available (stT [packetA 0] []) TxPort.dataShortTX_in = some (packetA 0)) := by
  constructor
  · obtain ⟨h1, h2, _, _, h5, h6⟩ := stT_facts [packetA 1] [packetA 1]
    obtain ⟨r, fin, evs, hrun, hshape, _, _, _, hr, _, hfl, _, hq, _⟩ :=
      serviceFunctionTransmit_run sendA (stT [packetA 1] [packetA 1]) h1 h2
    have hc : ComplexAvailable (stT [packetA 1] [packetA 1]) TxPort.dataShortTX_in :=
      (complexAvailable_stT 1 [] [packetA 1]).1.mpr rfl
    have hrn : r = ServiceResult.NORMAL := hr.mpr (Or.inl hc)
    subst hrn
    refine ⟨fin, hrun, (hq hc).trans h5, ?_⟩
    have htr : fin.trace = (stT [packetA 1] [packetA 1]).trace ++ evs := by rw [hshape]
    rw [htr, h6, List.nil_append]
    exact fun h => (hfl.mp h) hc
  · obtain ⟨h1, h2, _⟩ := stT_facts [packetA 0] []
    obtain ⟨r, fin, evs, hrun, _, _, _, _, hr, _⟩ :=
      serviceFunctionTransmit_run sendA (stT [packetA 0] []) h1 h2
    obtain ⟨c1, c2, c3⟩ := complexAvailable_stT 0 [] []
    have hrn : r = ServiceResult.NOOP := by
      cases r with
      | NOOP => rfl
      | NORMAL =>
        rcases hr.mp rfl with h | h
        · exact absurd (c1.mp h) (by decide)
        · exact absurd h c3
    subst hrn
    exact ⟨fin, hrun, c2⟩

/-- C16, amended. A transmit cycle that is not interrupted, with a device, ends
normally. It pulls from the 16-bit port (the queue loses its oldest packet unless the
port is blocked). It pulls from the float port exactly when the 16-bit port did not
yield a complex packet; otherwise the float queue is left as it was. It reports NOOP
exactly when neither port yielded a complex packet, and NORMAL otherwise. -/
theorem transmit_cycle_pulls (send : Nat → Nat → Nat) (st : State)
    (hdev : st.usrp_device_ptr ≠ none) (hint : st.transmit_interrupt_requested = false) :
    ∃ (r : ServiceResult) (fin : State) (evs : List Event),
      serviceFunctionTransmit send st = (Except.ok r, fin) ∧
      fin.trace = st.trace ++ evs ∧
      Event.getPacket TxPort.dataShortTX_in ∈ evs ∧
      fin.tx_queue TxPort.dataShortTX_in = afterPull st TxPort.dataShortTX_in ∧
      (Event.getPacket TxPort.dataFloatTX_in ∈ evs ↔
        ¬ ComplexAvailable st TxPort.dataShortTX_in) ∧
      (ComplexAvailable st TxPort.dataShortTX_in →
        fin.tx_queue TxPort.dataFloatTX_in = st.tx_queue TxPort.dataFloatTX_in) ∧
      (¬ ComplexAvailable st TxPort.dataShortTX_in →
        fin.tx_queue TxPort.dataFloatTX_in = afterPull st TxPort.dataFloatTX_in) ∧
      (r = ServiceResult.NOOP ↔
        ¬ ComplexAvailable st TxPort.dataShortTX_in ∧
        ¬ ComplexAvailable st TxPort.dataFloatTX_in) := by
  obtain ⟨r, fin, evs, hrun, hshape, _, _, _, hr, hs, hfl, hqs, hq1, hq2⟩ :=
    serviceFunctionTransmit_run send st hdev hint
  refine ⟨r, fin, evs, hrun, by rw [hshape], hs, hqs, hfl, hq1, hq2, ?_⟩
  constructor
  · intro h
    subst h
    refine ⟨fun hc => ?_, fun hc => ?_⟩
    · have := hr.mpr (Or.inl hc); cases this
    · have := hr.mpr (Or.inr hc); cases this
  · intro h
    cases r with
    | NOOP => rfl
    | NORMAL =>
      rcases hr.mp rfl with hc | hc
      · exact absurd hc h.1
      · exact absurd hc h.2

/-- Witness for C16: a complex packet waits in each port of the example device. -/
theorem transmit_cycle_pulls_witness :
    ∃ (r : ServiceResult) (fin : State),
      serviceFunctionTransmit sendA (stT [packetA 1] [packetA 1]) = (Except.ok r, fin) ∧
      fin.tx_queue TxPort.dataShortTX_in =
        afterPull (stT [packetA 1] [packetA 1]) TxPort.dataShortTX_in :=
  match transmit_cycle_pulls sendA (stT [packetA 1] [packetA 1]) (stT_facts _ _).1
    (stT_facts _ _).2.1 with
  | ⟨r, fin, _, h1, _, _, h4, _⟩ => ⟨r, fin, h1, h4⟩

/-- C17, only active tuners are serviced. A receive cycle leaves the status table and
the allocation table as they are, leaves the runtime entry of every tuner that is
not an allocated, enabled receive tuner as it is, and makes hardware receive calls
for allocated, enabled receive tuners only; the loop iteration of any other tuner
does nothing at all, and a cycle without such a tuner leaves the trace alone. A
transmit cycle does the same with allocated, enabled transmit tuners and the
hardware send. -/
theorem only_active_tuners_serviced (st : State) (recv : Nat → Nat → RecvResult)
    (send : Nat → Nat → Nat) :
    ServicesOnly Serviced st (serviceFunctionReceive recv st).2 ∧
    (∀ id, ¬ Serviced st id → receiveTuner recv id st = (Except.ok false, st)) ∧
    ((∀ id, ¬ Serviced st id) → (serviceFunctionReceive recv st).2.trace = st.trace) ∧
    ServicesOnly Transmitting st (serviceFunctionTransmit send st).2 ∧
    (∀ id port packet, ¬ Transmitting st id →
      transmitTuner send port packet id st = (Except.ok (), st)) := by
  refine ⟨servicesOnly_serviceFunctionReceive recv st, fun id hs => receiveTuner_skip recv id st hs,
    fun hs => ?_, servicesOnly_serviceFunctionTransmit send st, fun id port packet hs => ?_⟩
  · unfold serviceFunctionReceive
    simp only [run_bind, getState, run_ite, modifyState, run_pure,
      receiveLoop_idle recv st hs]
    split_ifs <;> rfl
  · unfold transmitTuner
    simp only [run_bind, getState, run_ite, run_pure]
    unfold Transmitting at hs
    split_ifs with a b c
    · rfl
    · rfl
    · rfl
    · exfalso
      apply hs
      exact ⟨by simpa using a, b, by simpa using c⟩
/-! ## C18, C19 and C20: start and stop -/

/-- C18, start is idempotent. `start()` ends normally and leaves both service loops
running; it creates exactly the loops that did not exist. A second `start()` right
after it changes nothing at all: no loop is created and the state is the state after
the first. With both loops running `start()` does no more than set the started
flag. -/
theorem start_idempotent (st : State) :
    (start st).1 = Except.ok () ∧
    (start st).2.receive_service_thread = true ∧
    (start st).2.transmit_service_thread = true ∧
    (start st).2.trace = st.trace ++ threadsCreated st ∧
    start (start st).2 = (Except.ok (), (start st).2) ∧
    (st.receive_service_thread = true → st.transmit_service_thread = true →
      start st = (Except.ok (), { st with started := true })) := by
  cases hr : st.receive_service_thread <;> cases ht : st.transmit_service_thread <;>
    cases hs : st.started <;>
    simp [start, run_bind, getState, run_ite, modifyState, emit, run_pure, hr, ht, hs,
      threadsCreated]
  cases st
  simp_all

theorem usrpDisable_tx (st : State) (id chan : Nat)
    (hty : (st.frontend_tuner_status id).tuner_type = TunerType.TX) :
    usrpDisable id chan st = (Except.ok true, { st with
      frontend_tuner_status := Function.update st.frontend_tuner_status id
        { st.frontend_tuner_status id with enabled := false } }) := by
  simp [usrpDisable, run_bind, getState, setStatus, modifyState, run_ite, hty, run_pure]

theorem status_off_eq (s : frontend_tuner_status_struct) (h : s.enabled = false) :
    { s with enabled := false } = s := by
  cases s
  simp_all

/-- Whatever way `usrpDisable` ends, it has cleared the enabled flag of its tuner and
left the rest of the status table, the number of tuners and the service threads. -/
theorem usrpDisable_status (st : State) (id chan : Nat) :
    (usrpDisable id chan st).2.frontend_tuner_status =
      Function.update st.frontend_tuner_status id
        { st.frontend_tuner_status id with enabled := false } ∧
    (usrpDisable id chan st).2.num_tuners = st.num_tuners ∧
    (usrpDisable id chan st).2.receive_service_thread = st.receive_service_thread ∧
    (usrpDisable id chan st).2.transmit_service_thread = st.transmit_service_thread ∧
    (usrpDisable id chan st).2.started = st.started := by
  by_cases hty : (st.frontend_tuner_status id).tuner_type = TunerType.TX
  · rw [usrpDisable_tx st id chan hty]
    exact ⟨rfl, rfl, rfl, rfl, rfl⟩
  · cases hd : st.usrp_device_ptr with
    | none =>
      simp [usrpDisable, run_bind, getState, setStatus, modifyState, run_ite, hty, run_pure,
        hw_issue_stream_cmd, device, hd]
    | some hw =>
      obtain ⟨fin, evs, hrun, hshape, _⟩ := usrpDisable_run st id chan hw hd hty
      rw [hrun]
      refine ⟨?_, ?_, ?_, ?_, ?_⟩ <;> rw [hshape]

/-- Whatever way `deviceDisable` ends, it has cleared the enabled flag of its tuner
and left the rest of the status table, the number of tuners and the service
threads. -/
theorem deviceDisable_status (st : State) (id : Nat) :
    (deviceDisable id st).2.frontend_tuner_status =
      Function.update st.frontend_tuner_status id
        { st.frontend_tuner_status id with enabled := false } ∧
    (deviceDisable id st).2.num_tuners = st.num_tuners ∧
    (deviceDisable id st).2.receive_service_thread = st.receive_service_thread ∧
    (deviceDisable id st).2.transmit_service_thread = st.transmit_service_thread ∧
    (deviceDisable id st).2.started = st.started := by
  obtain ⟨pre, ri, ti, hi, _, _⟩ := interrupt_shape st id
  have h := usrpDisable_status
    { st with
      receive_interrupt_requested := ri, transmit_interrupt_requested := ti,
      trace := st.trace ++ pre } id (st.device_channels id).chan_num
  simp only at h
  simp only [deviceDisable, run_bind, getState, hi]
  rcases hu : usrpDisable id (st.device_channels id).chan_num
    { st with
      receive_interrupt_requested := ri, transmit_interrupt_requested := ti,
      trace := st.trace ++ pre } with ⟨r, fin⟩
  rw [hu] at h
  cases r <;> exact h

/-- What the loop of `stop()` leaves, however it ends: the service threads and the
number of tuners as they were, no tuner enabled that was disabled, and, when it ends
normally, every tuner it visited disabled. -/
theorem disableLoop_status (ids : List Nat) : ∀ st : State,
    (disableLoop ids st).2.num_tuners = st.num_tuners ∧
    (disableLoop ids st).2.receive_service_thread = st.receive_service_thread ∧
    (disableLoop ids st).2.transmit_service_thread = st.transmit_service_thread ∧
    (disableLoop ids st).2.started = st.started ∧
    (∀ j, (st.frontend_tuner_status j).enabled = false →
      ((disableLoop ids st).2.frontend_tuner_status j).enabled = false) ∧
    ((disableLoop ids st).1 = Except.ok () →
      ∀ j ∈ ids, ((disableLoop ids st).2.frontend_tuner_status j).enabled = false) := by
  induction ids with
  | nil =>
    intro st
    exact ⟨rfl, rfl, rfl, rfl, fun _ h => h, fun _ j hj => absurd hj (List.not_mem_nil j)⟩
  | cons id rest ih =>
    intro st
    obtain ⟨d1, d2, d3, d4, d5⟩ := deviceDisable_status st id
    have hoff : ∀ j, (st.frontend_tuner_status j).enabled = false →
        (((deviceDisable id st).2).frontend_tuner_status j).enabled = false := by
      intro j hj
      rw [d1]
      by_cases hji : j = id
      · subst hji; simp
      · simp [Function.update_noteq hji, hj]
    have hid : (((deviceDisable id st).2).frontend_tuner_status id).enabled = false := by
      rw [d1]; simp
    have hstep : disableLoop (id :: rest) st =
        (deviceDisable id >>= fun _ => disableLoop rest) st := rfl
    rw [hstep, run_bind]
    rcases hrun : deviceDisable id st with ⟨r, fin1⟩
    rw [hrun] at d1 d2 d3 d4 d5 hoff hid
    simp only at d1 d2 d3 d4 d5 hoff hid
    cases r with
    | error e =>
      refine ⟨d2, d3, d4, d5, hoff, fun h => ?_⟩
      cases h
    | ok u =>
      obtain ⟨i1, i2, i3, i4, i5, i6⟩ := ih fin1
      refine ⟨i1.trans d2, i2.trans d3, i3.trans d4, i4.trans d5,
        fun j hj => i5 j (hoff j hj), fun h j hj => ?_⟩
      rcases List.mem_cons.mp hj with hj | hj
      · rw [hj]; exact i5 id hid
      · exact i6 h j hj

/-- With a device `deviceDisable` ends normally and leaves the device. -/
theorem deviceDisable_ok (st : State) (id : Nat) (hdev : st.usrp_device_ptr ≠ none) :
    (deviceDisable id st).1 = Except.ok () ∧
    (deviceDisable id st).2.usrp_device_ptr = st.usrp_device_ptr := by
  obtain ⟨hw, hd⟩ := Option.ne_none_iff_exists'.mp hdev
  obtain ⟨pre, ri, ti, hi, _, _⟩ := interrupt_shape st id
  simp only [deviceDisable, run_bind, getState, hi]
  by_cases hty : (st.frontend_tuner_status id).tuner_type = TunerType.TX
  · rw [usrpDisable_tx { st with
      receive_interrupt_requested := ri, transmit_interrupt_requested := ti,
      trace := st.trace ++ pre } id _ hty]
    exact ⟨rfl, rfl⟩
  · obtain ⟨fin, evs, hrun, hshape, _⟩ := usrpDisable_run
      { st with
        receive_interrupt_requested := ri, transmit_interrupt_requested := ti,
        trace := st.trace ++ pre } id (st.device_channels id).chan_num hw hd hty
    rw [hrun]
    refine ⟨rfl, ?_⟩
    show fin.usrp_device_ptr = _
    rw [hshape]

/-- With a device the loop of `stop()` ends normally. -/
theorem disableLoop_ok (ids : List Nat) : ∀ st : State, st.usrp_device_ptr ≠ none →
    (disableLoop ids st).1 = Except.ok () := by
  induction ids with
  | nil => intro st _; rfl
  | cons id rest ih =>
    intro st hdev
    obtain ⟨h1, h2⟩ := deviceDisable_ok st id hdev
    have hstep : disableLoop (id :: rest) st =
        (deviceDisable id >>= fun _ => disableLoop rest) st := rfl
    rw [hstep, run_bind]
    rcases hrun : deviceDisable id st with ⟨r, fin1⟩
    rw [hrun] at h1 h2
    simp only at h1 h2
    subst h1
    exact ih fin1 (by rw [h2]; exact hdev)

/-- `deviceDisable` on a disabled tuner of a stopped engine: a stop command and zeroed
timestamps unless it is a transmit tuner, and nothing else. -/
theorem deviceDisable_idle (st : State) (id : Nat) (hdev : st.usrp_device_ptr ≠ none)
    (hr : st.receive_service_thread = false) (ht : st.transmit_service_thread = false)
    (hoff : (st.frontend_tuner_status id).enabled = false) :
    ∃ fin : State,
      deviceDisable id st = (Except.ok (), fin) ∧
      fin = { st with usrp_tuners := fin.usrp_tuners, trace := st.trace ++ stopCommands st [id] } ∧
      (∀ j, j ≠ id → fin.usrp_tuners j = st.usrp_tuners j) ∧
      fin.usrp_tuners id =
        if (st.frontend_tuner_status id).tuner_type ≠ TunerType.TX
        then zeroTimes (st.usrp_tuners id) else st.usrp_tuners id := by
  obtain ⟨hw, hd⟩ := Option.ne_none_iff_exists'.mp hdev
  obtain ⟨pre, ri, ti, hi, _, hq⟩ := interrupt_shape st id
  obtain ⟨q1, q2, q3⟩ := hq hr ht
  subst q1 q2 q3
  have hsame : Function.update st.frontend_tuner_status id
      { st.frontend_tuner_status id with enabled := false } = st.frontend_tuner_status := by
    rw [status_off_eq _ hoff]
    exact Function.update_eq_self id st.frontend_tuner_status
  simp only [deviceDisable, run_bind, getState, hi, List.append_nil]
  by_cases hty : (st.frontend_tuner_status id).tuner_type = TunerType.TX
  · rw [usrpDisable_tx { st with trace := st.trace } id _ hty]
    refine ⟨_, rfl, ?_, fun _ _ => rfl, ?_⟩
    · simp only [hsame]
      simp [stopCommands, hty]
    · simp [hty]
  · obtain ⟨fin, evs, hrun, hshape, hoth, _, hq2⟩ := usrpDisable_run
      { st with trace := st.trace } id (st.device_channels id).chan_num hw hd hty
    obtain ⟨e1, e2, e3⟩ := hq2 hoff
    simp only at hrun hshape hoth e2 e3
    rw [hrun]
    refine ⟨fin, rfl, ?_, hoth, ?_⟩
    · rw [hshape]
      simp only [hsame]
      simp [stopCommands, hty, e1, e2, hd]
    · simp [hty, e3, zeroTimes]

theorem stopCommands_congr {s s' : State}
    (h1 : s'.frontend_tuner_status = s.frontend_tuner_status)
    (h2 : s'.device_channels = s.device_channels) (ids : List Nat) :
    stopCommands s' ids = stopCommands s ids := by
  unfold stopCommands
  rw [h1, h2]

theorem stopCommands_cons (st : State) (id : Nat) (rest : List Nat) :
    stopCommands st (id :: rest) = stopCommands st [id] ++ stopCommands st rest := by
  unfold stopCommands
  rw [← List.map_append, ← List.filter_append]
  rfl

/-- The loop of `stop()` over disabled tuners of a stopped engine, with a device: the
stop commands, zeroed timestamps for the tuners that are not transmit tuners, and
nothing else. -/
theorem disableLoop_idle (ids : List Nat) : ∀ st : State, st.usrp_device_ptr ≠ none →
    st.receive_service_thread = false → st.transmit_service_thread = false →
    (∀ j ∈ ids, (st.frontend_tuner_status j).enabled = false) →
    ∃ fin : State,
      disableLoop ids st = (Except.ok (), fin) ∧
      fin = { st with usrp_tuners := fin.usrp_tuners, trace := st.trace ++ stopCommands st ids } ∧
      ∀ j, fin.usrp_tuners j =
        if j ∈ ids ∧ (st.frontend_tuner_status j).tuner_type ≠ TunerType.TX
        then zeroTimes (st.usrp_tuners j) else st.usrp_tuners j := by
  induction ids with
  | nil =>
    intro st _ _ _ _
    exact ⟨st, rfl, by simp [stopCommands], fun j => by simp⟩
  | cons id rest ih =>
    intro st hdev hr ht hoff
    obtain ⟨fin1, hrun1, hshape1, hoth1, hid1⟩ :=
      deviceDisable_idle st id hdev hr ht (hoff id (List.mem_cons_self _ _))
    have hd1 : fin1.usrp_device_ptr = st.usrp_device_ptr := by rw [hshape1]
    have hr1 : fin1.receive_service_thread = st.receive_service_thread := by rw [hshape1]
    have ht1 : fin1.transmit_service_thread = st.transmit_service_thread := by rw [hshape1]
    have hf1 : fin1.frontend_tuner_status = st.frontend_tuner_status := by rw [hshape1]
    have hc1 : fin1.device_channels = st.device_channels := by rw [hshape1]
    have htr1 : fin1.trace = st.trace ++ stopCommands st [id] := by rw [hshape1]
    obtain ⟨fin, hrun2, hshape2, htun2⟩ := ih fin1 (by rw [hd1]; exact hdev)
      (by rw [hr1]; exact hr) (by rw [ht1]; exact ht)
      (fun j hj => by rw [hf1]; exact hoff j (List.mem_cons_of_mem _ hj))
    refine ⟨fin, ?_, ?_, ?_⟩
    · show (deviceDisable id >>= fun _ => disableLoop rest) st = _
      rw [bind_ok hrun1, hrun2]
    · rw [hshape2, htr1, stopCommands_congr hf1 hc1, stopCommands_cons st id rest, hshape1]
      simp
    · intro j
      rw [htun2 j, hf1]
      by_cases hji : j = id
      · subst hji
        rw [hid1]
        by_cases hty : (st.frontend_tuner_status j).tuner_type = TunerType.TX
        · simp [hty]
        · simp [hty, zeroTimes]
      · rw [hoth1 j hji]
        simp [hji]

/-- C19 as stated fails on the example device: no service loop runs and both tuners
are disabled, yet `stop()` sends the hardware a stop command for the receive tuner. -/
theorem stop_when_stopped_counterexample :
    (stA false 0).receive_service_thread = false ∧
    (stA false 0).transmit_service_thread = false ∧
    (∀ j, ((stA false 0).frontend_tuner_status j).enabled = false) ∧
    (stA false 0).trace = [] ∧
    Event.issue_stream_cmd StreamMode.STOP_CONTINUOUS 0 ∈
      (stop (fun _ => true) (stA false 0)).2.trace := by
  have hoff : ∀ j, ((stA false 0).frontend_tuner_status j).enabled = false := by
    intro j
    simp only [stA]
    split_ifs <;> rfl
  refine ⟨rfl, rfl, hoff, rfl, ?_⟩
  obtain ⟨fin, hrun, hshape, _⟩ := disableLoop_idle (List.range (stA false 0).num_tuners)
    (stA false 0) (by simp [stA]) rfl rfl (fun j _ => hoff j)
  have htr : fin.trace = (stA false 0).trace ++
      stopCommands (stA false 0) (List.range (stA false 0).num_tuners) := by rw [hshape]
  have hstop : (stop (fun _ => true) (stA false 0)).2.trace = fin.trace := by
    have h1 : (stA false 0).receive_service_thread = false := rfl
    have h2 : (stA false 0).transmit_service_thread = false := rfl
    have h3 : fin.started = false := by rw [hshape]; rfl
    simp [stop, run_bind, getState, run_ite, h1, h2, hrun, h3, run_pure]
  rw [hstop, htr]
  have hn : (stA false 0).num_tuners = 2 := rfl
  rw [hn]
  simp [stopCommands, List.range_succ, stA, statusA, chA, channelOf]
theorem state_started_eq (s : State) (h : s.started = false) :
    { s with started := false } = s := by
  cases s
  simp_all

/-- When every service thread that exists ends in time, `stop()` is the loop over the
tuners in the released state, followed by the clearing of the started flag. -/
theorem stop_run (release : ServiceThread → Bool) (st : State)
    (h1 : st.receive_service_thread = true → release ServiceThread.receive = true)
    (h2 : st.transmit_service_thread = true → release ServiceThread.transmit = true) :
    stop release st =
      match disableLoop (List.range st.num_tuners) (released st) with
      | (Except.ok _, fin) => (Except.ok (), { fin with started := false })
      | (Except.error e, fin) => (Except.error e, fin) := by
  have hrel : st.receive_service_thread = false → st.transmit_service_thread = false →
      released st = st := by
    intro hr ht
    cases st
    simp_all [released]
  cases hr : st.receive_service_thread <;> cases ht : st.transmit_service_thread
  · rw [hrel hr ht]
    simp only [stop, run_bind, getState, run_ite, modifyState, emit, run_pure,
      throwExc, hr, ht, Bool.false_eq_true, if_false, or_self, List.append_nil]
    split
    · rename_i a fin heq
      rw [heq]
      cases hs : fin.started with
      | true => simp
      | false => simp [state_started_eq fin hs]
    · rename_i e fin heq
      rw [heq]
  · have h2' := h2 ht
    simp only [stop, released, run_bind, getState, run_ite, modifyState, emit, run_pure,
      throwExc, hr, ht, h2', Bool.false_eq_true, if_false, if_true, Bool.not_true, false_or,
      or_false, or_true, List.append_nil, List.nil_append, Function.update_idem]
    split
    · rename_i a fin heq
      rw [heq]
      cases hs : fin.started with
      | true => simp
      | false => simp [state_started_eq fin hs]
    · rename_i e fin heq
      rw [heq]
  · have h1' := h1 hr
    simp only [stop, released, run_bind, getState, run_ite, modifyState, emit, run_pure,
      throwExc, hr, ht, h1', Bool.false_eq_true, if_false, if_true, Bool.not_true, false_or,
      or_false, or_true, List.append_nil, List.nil_append, Function.update_idem]
    split
    · rename_i a fin heq
      rw [heq]
      cases hs : fin.started with
      | true => simp
      | false => simp [state_started_eq fin hs]
    · rename_i e fin heq
      rw [heq]
  · have h1' := h1 hr
    have h2' := h2 ht
    simp only [stop, released, run_bind, getState, run_ite, modifyState, emit, run_pure,
      throwExc, hr, ht, h1', h2', Bool.false_eq_true, if_false, if_true, Bool.not_true, false_or,
      or_false, or_true, List.append_nil, List.nil_append, Function.update_idem]
    split
    · rename_i a fin heq
      rw [heq]
      cases hs : fin.started with
      | true => simp
      | false => simp [state_started_eq fin hs]
    · rename_i e fin heq
      rw [heq]

/-- C19, amended. `stop()` on a stopped engine (no service loop, every tuner disabled)
with a device ends normally, pushes nothing downstream and leaves the loops, the
status table with its enabled flags, the buffers and the ports as they were. It is
not a no-op: it sends the hardware one stop command for every tuner that is not a
transmit tuner, zeroes the three timestamps of these tuners, and clears the started
flag. -/
theorem stop_when_stopped (release : ServiceThread → Bool) (st : State)
    (hdev : st.usrp_device_ptr ≠ none)
    (hr : st.receive_service_thread = false) (ht : st.transmit_service_thread = false)
    (hoff : ∀ j, j < st.num_tuners → (st.frontend_tuner_status j).enabled = false) :
    ∃ fin : State,
      stop release st = (Except.ok (), fin) ∧
      fin = { st with
        usrp_tuners := fin.usrp_tuners,
        started := false,
        trace := st.trace ++ stopCommands st (List.range st.num_tuners) } ∧
      ∀ j, fin.usrp_tuners j =
        if j < st.num_tuners ∧ (st.frontend_tuner_status j).tuner_type ≠ TunerType.TX
        then zeroTimes (st.usrp_tuners j) else st.usrp_tuners j := by
  have hrel : released st = st := by
    cases st
    simp_all [released]
  obtain ⟨fin, hrun, hshape, htun⟩ := disableLoop_idle (List.range st.num_tuners) st hdev hr ht
    (fun j hj => hoff j (List.mem_range.mp hj))
  refine ⟨{ fin with started := false }, ?_, ?_, ?_⟩
  · rw [stop_run release st (fun h => by rw [hr] at h; cases h)
      (fun h => by rw [ht] at h; cases h), hrel, hrun]
  · have h1 : ({ fin with started := false } : State).usrp_tuners = fin.usrp_tuners := rfl
    rw [h1, hshape]
  · intro j
    show fin.usrp_tuners j = _
    rw [htun j]
    simp [List.mem_range]

/-- Witness for C19: the example device, stopped and with both tuners disabled. -/
theorem stop_when_stopped_witness :
    ∃ fin : State,
      stop (fun _ => true) (stA false 0) = (Except.ok (), fin) ∧
      fin.trace = (stA false 0).trace ++
        stopCommands (stA false 0) (List.range (stA false 0).num_tuners) :=
  match stop_when_stopped (fun _ => true) (stA false 0) (by simp [stA]) rfl rfl
    (fun j _ => by simp only [stA]; split_ifs <;> rfl) with
  | ⟨fin, h1, h2, _⟩ => ⟨fin, h1, by rw [h2]⟩

/-- C20, stop joins the loops. If the receive loop or the transmit loop exists and does
not end within the grace period, `stop()` ends with the `StopError` that reports a
thread that did not die. If `stop()` ends normally, every loop that existed ended in
time, both loops are gone and every tuner is disabled. With a device, and every
existing loop ending in time, `stop()` does end normally. -/
theorem stop_joins_loops (release : ServiceThread → Bool) (st : State) :
    ((st.receive_service_thread = true ∧ release ServiceThread.receive = false) ∨
      (st.transmit_service_thread = true ∧ release ServiceThread.transmit = false) →
      (stop release st).1 = Except.error stopError) ∧
    ((stop release st).1 = Except.ok () →
      (st.receive_service_thread = true → release ServiceThread.receive = true) ∧
      (st.transmit_service_thread = true → release ServiceThread.transmit = true) ∧
      (stop release st).2.receive_service_thread = false ∧
      (stop release st).2.transmit_service_thread = false ∧
      ∀ j, j < st.num_tuners →
        ((stop release st).2.frontend_tuner_status j).enabled = false) ∧
    (st.usrp_device_ptr ≠ none →
      (st.receive_service_thread = true → release ServiceThread.receive = true) →
      (st.transmit_service_thread = true → release ServiceThread.transmit = true) →
      (stop release st).1 = Except.ok ()) := by
  have hfail : (st.receive_service_thread = true ∧ release ServiceThread.receive = false) ∨
      (st.transmit_service_thread = true ∧ release ServiceThread.transmit = false) →
      (stop release st).1 = Except.error stopError := by
    intro h
    cases hr : st.receive_service_thread <;> cases ht : st.transmit_service_thread <;>
      cases h1 : release ServiceThread.receive <;>
      cases h2 : release ServiceThread.transmit <;>
      simp [hr, ht, h1, h2] at h <;>
      simp [stop, run_bind, getState, run_ite, modifyState, emit, run_pure, throwExc, hr, ht,
        h1, h2]
  refine ⟨hfail, ?_, ?_⟩
  · intro hok
    have h1 : st.receive_service_thread = true → release ServiceThread.receive = true := by
      intro h
      by_contra hc
      have hc2 : release ServiceThread.receive = false := by simpa using hc
      rw [hfail (Or.inl ⟨h, hc2⟩)] at hok
      cases hok
    have h2 : st.transmit_service_thread = true → release ServiceThread.transmit = true := by
      intro h
      by_contra hc
      have hc2 : release ServiceThread.transmit = false := by simpa using hc
      rw [hfail (Or.inr ⟨h, hc2⟩)] at hok
      cases hok
    refine ⟨h1, h2, ?_⟩
    obtain ⟨d1, d2, d3, _, _, d6⟩ :=
      disableLoop_status (List.range st.num_tuners) (released st)
    rw [stop_run release st h1 h2] at hok ⊢
    rcases hl : disableLoop (List.range st.num_tuners) (released st) with ⟨r, fin⟩
    rw [hl] at hok d1 d2 d3 d6
    cases r with
    | error e => cases hok
    | ok u =>
      simp only at d2 d3 d6 ⊢
      exact ⟨d2, d3, fun j hj => d6 trivial j (List.mem_range.mpr hj)⟩
  · intro hdev h1 h2
    have hok := disableLoop_ok (List.range st.num_tuners) (released st) hdev
    rw [stop_run release st h1 h2]
    rcases hl : disableLoop (List.range st.num_tuners) (released st) with ⟨r, fin⟩
    rw [hl] at hok
    simp only at hok
    subst hok
    rfl

/-! ## C21: operations that are not supported -/

/-- C21: for every state, every allocation id (the functions never look at it) and
every argument, `setTunerAgcEnable`, `getTunerAgcEnable`, `setTunerGain` and
`setTunerReferenceSource` end with the NotSupported exception and leave the state,
the trace of hardware calls included, exactly as it was. -/
theorem unsupported_operations_fail (st : State) (allocation_id : String) (enable : Bool)
    (gain : ℚ) (source : Int) :
    setTunerAgcEnable allocation_id enable st = (Except.error notSupported, st) ∧
    getTunerAgcEnable allocation_id st = (Except.error notSupported, st) ∧
    setTunerGain allocation_id gain st = (Except.error notSupported, st) ∧
    setTunerReferenceSource allocation_id source st = (Except.error notSupported, st) ∧
    notSupported.cls = ExceptionClass.NotSupportedException :=
  ⟨rfl, rfl, rfl, rfl, rfl⟩

/-! ## Rounding -/

theorem cround_of_nonneg {x : ℚ} (h0 : 0 ≤ x) : cround x = ⌊x + 1 / 2⌋ := by
  unfold cround
  rw [if_pos h0]

theorem cround_eq {x : ℚ} {n : Int} (h0 : 0 ≤ x) (h1 : (n : ℚ) ≤ x + 1 / 2)
    (h2 : x + 1 / 2 < n + 1) : cround x = n := by
  rw [cround_of_nonneg h0]
  exact Int.floor_eq_iff.mpr ⟨h1, h2⟩

theorem cround_mono {x y : ℚ} (h0 : 0 ≤ x) (h : x ≤ y) : cround x ≤ cround y := by
  rw [cround_of_nonneg h0, cround_of_nonneg (le_trans h0 h)]
  exact Int.floor_mono (by linarith)

theorem roundToSize_cast {x : ℚ} (h0 : 0 ≤ x) (h2 : x + 1 / 2 < (SIZE_MOD : ℚ)) :
    ((roundToSize x : Nat) : Int) = cround x := by
  have hfl : 0 ≤ ⌊x + 1 / 2⌋ := Int.floor_nonneg.mpr (by linarith)
  have hlt : ⌊x + 1 / 2⌋ < (SIZE_MOD : Int) := by
    rw [Int.floor_lt]
    exact_mod_cast h2
  have hnat : ⌊x + 1 / 2⌋.toNat < SIZE_MOD := by omega
  unfold roundToSize toSizeT
  rw [cround_of_nonneg h0, Nat.mod_eq_of_lt hnat]
  exact Int.toNat_of_nonneg hfl

theorem roundToSize_ge_one {x : ℚ} (h1 : 1 ≤ x) (h2 : x + 1 / 2 < (SIZE_MOD : ℚ)) :
    1 ≤ roundToSize x := by
  have h0 : (0 : ℚ) ≤ x := by linarith
  have hc := roundToSize_cast h0 h2
  rw [cround_of_nonneg h0] at hc
  have hf : (1 : Int) ≤ ⌊x + 1 / 2⌋ := Int.le_floor.mpr (by push_cast; linarith)
  omega

theorem candidateRate_zero (ch : usrp_channel_struct) (rg : usrp_range_struct)
    (hclock : 0 < ch.clock_max) :
    candidateRate ch rg 0 = rg.sample_rate.clip Dbl.posInf := by
  simp [candidateRate, ddiv, hclock]

theorem quotient_natCast (x : ℚ) (d : Nat) : quotient x (d : Int) = ddiv x d := by
  unfold quotient ddiv
  by_cases h : d = 0
  · subst h
    simp
  · simp [h]

/-! ## C28: the optimizers stay within the channel's range -/

/-- C28: for every channel with `0 < rate_min <= rate_max <= clock_max` whose rate clip
maps every value into `[rate_min, rate_max]`, and every request `0 < r <= rate_max`
(with `clock_max / r` small enough to be converted to `size_t`, and enough fuel for
the loop), `optimizeRate` returns a value within `[rate_min, rate_max]`, whether it is
a clipped rate or, on the degradation path, `r` itself; and for every bandwidth clip
that maps every value into `[bandwidth_min, bandwidth_max]` and every request
`0 <= b <= bandwidth_max`, `optimizeBandwidth` returns a value within
`[bandwidth_min, bandwidth_max]`. -/
theorem optimizers_within_range (ch : usrp_channel_struct) (rg : usrp_range_struct)
    (r b : ℚ) (fuel : Nat)
    (hmin : 0 < ch.rate_min) (hminmax : ch.rate_min ≤ ch.rate_max)
    (hmaxclock : ch.rate_max ≤ ch.clock_max)
    (hclip : ∀ v, ch.rate_min ≤ rg.sample_rate.clip v ∧ rg.sample_rate.clip v ≤ ch.rate_max)
    (hr : 0 < r) (hrmax : r ≤ ch.rate_max)
    (hconv : ch.clock_max / r + 1 / 2 < (SIZE_MOD : ℚ))
    (hfuel : roundToSize (ch.clock_max / r) ≤ fuel)
    (hclipb : ∀ v, ch.bandwidth_min ≤ rg.bandwidth.clip v ∧
      rg.bandwidth.clip v ≤ ch.bandwidth_max)
    (hb : 0 ≤ b) (hbmax : b ≤ ch.bandwidth_max) :
    (∃ v, optimizeRate fuel ch rg r = some v ∧ ch.rate_min ≤ v ∧ v ≤ ch.rate_max) ∧
    ch.bandwidth_min ≤ optimizeBandwidth ch rg b ∧
    optimizeBandwidth ch rg b ≤ ch.bandwidth_max := by
  have hrm : 0 < ch.rate_max := lt_of_lt_of_le hmin hminmax
  have hck : 0 < ch.clock_max := lt_of_lt_of_le hrm hmaxclock
  have hx1 : 1 ≤ ch.clock_max / ch.rate_max := (one_le_div hrm).mpr hmaxclock
  have hx01 : ch.clock_max / ch.rate_max ≤ ch.clock_max / r :=
    div_le_div_of_nonneg_left (le_of_lt hck) hr hrmax
  have hdmin : 1 ≤ roundToSize (ch.clock_max / ch.rate_max) :=
    roundToSize_ge_one hx1 (by linarith)
  have hd0 : 1 ≤ roundToSize (ch.clock_max / r) :=
    roundToSize_ge_one (le_trans hx1 hx01) hconv
  constructor
  · have hguard : ¬ compareHz r 0 ≤ 0 :=
      fun h => absurd ((compareHz_nonpos_iff _ _).mp h) (not_le.mpr hr)
    have hlt := roundToSize_lt (ch.clock_max / r)
    have hdecr : decr (roundToSize (ch.clock_max / r)) = roundToSize (ch.clock_max / r) - 1 :=
      decr_pos hd0 hlt
    by_cases hc : r ≤ candidateRate ch rg (roundToSize (ch.clock_max / r))
    · have hc2 : 0 ≤ compareHz
          (rg.sample_rate.clip (ddiv ch.clock_max (roundToSize (ch.clock_max / r)))) r :=
        (compareHz_nonneg_iff _ _).mpr hc
      refine ⟨rg.sample_rate.clip (ddiv ch.clock_max (roundToSize (ch.clock_max / r))), ?_,
        hclip _⟩
      simp only [optimizeRate, if_neg hguard, if_pos hc2]
    · have hc2 : ¬ 0 ≤ compareHz
          (rg.sample_rate.clip (ddiv ch.clock_max (roundToSize (ch.clock_max / r)))) r :=
        fun h => hc ((compareHz_nonneg_iff _ _).mp h)
      have hstep : optimizeRate fuel ch rg r =
          rateSearch ch rg r (roundToSize (ch.clock_max / ch.rate_max)) fuel
            (roundToSize (ch.clock_max / r) - 1) := by
        simp only [optimizeRate, if_neg hguard, if_neg hc2, hdecr]
      obtain ⟨s1, s2⟩ := rateSearch_visits ch rg r _ hdmin
        (roundToSize (ch.clock_max / r) - 1) fuel (by omega) (by omega)
      by_cases hex : ∃ d, roundToSize (ch.clock_max / ch.rate_max) ≤ d ∧
          d ≤ roundToSize (ch.clock_max / r) - 1 ∧ r ≤ candidateRate ch rg d
      · obtain ⟨d, _, _, _, g4⟩ := s1 hex
        exact ⟨candidateRate ch rg d, by rw [hstep, g4], hclip _⟩
      · refine ⟨r, by rw [hstep, s2 hex], ?_, hrmax⟩
        have hlow := (hclip (ddiv ch.clock_max (roundToSize (ch.clock_max / r)))).1
        have hlt2 : candidateRate ch rg (roundToSize (ch.clock_max / r)) < r := not_le.mp hc
        unfold candidateRate at hlt2
        linarith
  · unfold optimizeBandwidth
    simp only [compareHz_nonpos_iff, compareHz_nonneg_iff]
    split_ifs with h1 h2
    · exact hclipb _
    · exact hclipb _
    · have hlow := (hclipb (Dbl.fin b)).1
      exact ⟨by linarith [not_le.mp h2], hbmax⟩

theorem intervalRange_clip_mem {lo hi : ℚ} (h : lo ≤ hi) (v : Dbl) :
    lo ≤ (intervalRange lo hi).clip v ∧ (intervalRange lo hi).clip v ≤ hi := by
  cases v with
  | fin q =>
    simp only [intervalRange]
    split_ifs with h1 h2
    · exact ⟨le_refl _, h⟩
    · exact ⟨not_lt.mp h1, h2⟩
    · exact ⟨h, le_refl _⟩
  | posInf => exact ⟨h, le_refl _⟩
  | negInf => exact ⟨le_refl _, h⟩
  | nan => exact ⟨h, le_refl _⟩

theorem clip_rgA_rate (v : Dbl) :
    chA.rate_min ≤ rgA.sample_rate.clip v ∧ rgA.sample_rate.clip v ≤ chA.rate_max :=
  intervalRange_clip_mem (show (1 : ℚ) ≤ 39 by norm_num) v

theorem clip_rgA_bandwidth (v : Dbl) :
    chA.bandwidth_min ≤ rgA.bandwidth.clip v ∧ rgA.bandwidth.clip v ≤ chA.bandwidth_max :=
  intervalRange_clip_mem (show (1 : ℚ) ≤ 39 by norm_num) v

/-- Witness for C28: the example channel (clock 100, rates and bandwidths 1 to 39),
rate request 30 and bandwidth request 1/2. -/
theorem optimizers_within_range_witness :
    (∃ v, optimizeRate 3 chA rgA 30 = some v ∧ chA.rate_min ≤ v ∧ v ≤ chA.rate_max) ∧
    chA.bandwidth_min ≤ optimizeBandwidth chA rgA (1 / 2) ∧
    optimizeBandwidth chA rgA (1 / 2) ≤ chA.bandwidth_max :=
  optimizers_within_range chA rgA 30 (1 / 2) 3
    (by norm_num [chA, rgA, channelOf, exampleRanges, intervalRange])
    (by norm_num [chA, rgA, channelOf, exampleRanges, intervalRange])
    (by norm_num [chA, rgA, channelOf, exampleRanges, intervalRange])
    clip_rgA_rate
    (by norm_num) (by norm_num [chA, rgA, channelOf, exampleRanges, intervalRange])
    (by norm_num [chA, channelOf, SIZE_MOD])
    (by rw [chA_d0_30])
    clip_rgA_bandwidth
    (by norm_num) (by norm_num [chA, rgA, channelOf, exampleRanges, intervalRange])

/-! ## C23: the rate optimizer against the reference search -/

theorem natCast_pred {dec : Nat} (h : 1 ≤ dec) : ((dec - 1 : Nat) : Int) = (dec : Int) - 1 := by
  omega

/-- The loop of `optimizeRate`, entered at `dec` with `n` factors left down to
`min_dec`, returns what the reference search returns over those factors, provided
the counter cannot pass below zero unnoticed: the bound is positive or factor 0
qualifies. -/
theorem rateSearch_reference (ch : usrp_channel_struct) (rg : usrp_range_struct) (r : ℚ)
    (min_dec : Nat) (hsat : 1 ≤ min_dec ∨ r ≤ candidateRate ch rg 0) :
    ∀ (n dec fuel : Nat), dec < SIZE_MOD → dec + 1 = min_dec + n → dec + 1 ≤ fuel →
      rateSearch ch rg r min_dec fuel dec =
        some (firstQualifying ch rg r (countDown (dec : Int) n)) := by
  intro n
  induction n with
  | zero =>
    intro dec fuel _ hn hf
    obtain ⟨f, rfl⟩ : ∃ f, fuel = f + 1 := ⟨fuel - 1, by omega⟩
    have hno : ¬ min_dec ≤ dec := by omega
    simp only [rateSearch, if_neg hno, countDown, firstQualifying]
  | succ n ih =>
    intro dec fuel hlt hn hf
    obtain ⟨f, rfl⟩ : ∃ f, fuel = f + 1 := ⟨fuel - 1, by omega⟩
    have hm : min_dec ≤ dec := by omega
    by_cases hc : r ≤ candidateRate ch rg dec
    · have hc2 : 0 ≤ compareHz (rg.sample_rate.clip (ddiv ch.clock_max dec)) r :=
        (compareHz_nonneg_iff _ _).mpr hc
      have hq : r ≤ rg.sample_rate.clip (ddiv ch.clock_max dec) := hc
      simp only [rateSearch, if_pos hm, if_pos hc2, countDown, firstQualifying,
        quotient_natCast, if_pos hq]
    · have hc2 : ¬ 0 ≤ compareHz (rg.sample_rate.clip (ddiv ch.clock_max dec)) r :=
        fun h => hc ((compareHz_nonneg_iff _ _).mp h)
      have hq : ¬ r ≤ rg.sample_rate.clip (ddiv ch.clock_max dec) := hc
      have hpos : 1 ≤ dec := by
        rcases Nat.eq_zero_or_pos dec with h0 | h0
        · subst h0
          rcases hsat with h | h
          · omega
          · exact absurd h hc
        · exact h0
      have hdec : decr dec = dec - 1 := decr_pos hpos hlt
      have hstep : rateSearch ch rg r min_dec (f + 1) dec =
          rateSearch ch rg r min_dec f (dec - 1) := by
        simp only [rateSearch, if_pos hm, if_neg hc2, hdec]
      rw [hstep, ih (dec - 1) f (by omega) (by omega) (by omega)]
      simp only [countDown, firstQualifying, quotient_natCast, if_neg hq, natCast_pred hpos]

/-- C23: `optimizeRate` equals the reference search on every request its callers
admit: for every channel with `clock_max > 0` and `rate_max > 0` whose rate clip takes
the value above every range, `+infinity`, to no less than `rate_max` (UHD clips it to
the stop of the range, which `updateDeviceInfo` stores as `rate_max`), and for every
request `r <= rate_max`, the bound `deviceSetTuning` and `setTunerOutputSampleRate`
check before they call it (with `clock_max / r` small enough to be converted to
`size_t`, and enough fuel for the loop), `optimizeRate` returns what the reference
search over the integers returns: the clipped minimum rate for `r <= 0`, and for
`r > 0` the clipped rate of the first `d` in the order `d0, d0 - 1, …, dmin` whose
clipped rate is `>= r`, or `r` itself when no `d` in that range qualifies. -/
theorem optimizeRate_eq_reference (ch : usrp_channel_struct) (rg : usrp_range_struct)
    (r : ℚ) (fuel : Nat)
    (hclock : 0 < ch.clock_max) (hmax : 0 < ch.rate_max) (hle : r ≤ ch.rate_max)
    (hclip : ch.rate_max ≤ rg.sample_rate.clip Dbl.posInf)
    (hconv : 0 < r → ch.clock_max / r + 1 / 2 < (SIZE_MOD : ℚ))
    (hfuel : 0 < r → roundToSize (ch.clock_max / r) ≤ fuel) :
    optimizeRate fuel ch rg r = some (referenceRate ch rg r) := by
  by_cases hr : r ≤ 0
  · have hg : compareHz r 0 ≤ 0 := (compareHz_nonpos_iff _ _).mpr hr
    simp only [optimizeRate, if_pos hg, referenceRate, if_pos hr]
  · have hr0 : 0 < r := not_le.mp hr
    have hg : ¬ compareHz r 0 ≤ 0 := fun h => hr ((compareHz_nonpos_iff _ _).mp h)
    have hx0 : 0 ≤ ch.clock_max / r := le_of_lt (div_pos hclock hr0)
    have hx1 : 0 ≤ ch.clock_max / ch.rate_max := le_of_lt (div_pos hclock hmax)
    have hx01 : ch.clock_max / ch.rate_max ≤ ch.clock_max / r :=
      div_le_div_of_nonneg_left (le_of_lt hclock) hr0 hle
    have hcast0 := roundToSize_cast hx0 (hconv hr0)
    have hcast1 := roundToSize_cast hx1 (lt_of_le_of_lt (by linarith) (hconv hr0))
    have hmono : roundToSize (ch.clock_max / ch.rate_max) ≤ roundToSize (ch.clock_max / r) := by
      have := cround_mono hx1 hx01
      omega
    have hzero : r ≤ candidateRate ch rg 0 := by
      rw [candidateRate_zero ch rg hclock]
      exact le_trans hle hclip
    have hlt := roundToSize_lt (ch.clock_max / r)
    have hlist : decimations (cround (ch.clock_max / r)) (cround (ch.clock_max / ch.rate_max)) =
        countDown ((roundToSize (ch.clock_max / r) : Nat) : Int)
          (roundToSize (ch.clock_max / r) - roundToSize (ch.clock_max / ch.rate_max) + 1) := by
      unfold decimations
      rw [← hcast0, ← hcast1]
      congr 1
      omega
    simp only [referenceRate, if_neg hr, hlist, countDown, firstQualifying, quotient_natCast]
    by_cases hc : r ≤ candidateRate ch rg (roundToSize (ch.clock_max / r))
    · have hc2 : 0 ≤ compareHz
          (rg.sample_rate.clip (ddiv ch.clock_max (roundToSize (ch.clock_max / r)))) r :=
        (compareHz_nonneg_iff _ _).mpr hc
      have hc3 : r ≤ rg.sample_rate.clip (ddiv ch.clock_max (roundToSize (ch.clock_max / r))) :=
        hc
      simp only [optimizeRate, if_neg hg, if_pos hc2, if_pos hc3]
    · have hc2 : ¬ 0 ≤ compareHz
          (rg.sample_rate.clip (ddiv ch.clock_max (roundToSize (ch.clock_max / r)))) r :=
        fun h => hc ((compareHz_nonneg_iff _ _).mp h)
      have hc3 : ¬ r ≤
          rg.sample_rate.clip (ddiv ch.clock_max (roundToSize (ch.clock_max / r))) := hc
      have hpos : 1 ≤ roundToSize (ch.clock_max / r) := by
        rcases Nat.eq_zero_or_pos (roundToSize (ch.clock_max / r)) with h0 | h0
        · rw [h0] at hc
          exact absurd hzero hc
        · exact h0
      have hdecr : decr (roundToSize (ch.clock_max / r)) = roundToSize (ch.clock_max / r) - 1 :=
        decr_pos hpos hlt
      simp only [optimizeRate, if_neg hg, if_neg hc2, if_neg hc3, hdecr]
      rw [rateSearch_reference ch rg r _ (Or.inr hzero)
        (roundToSize (ch.clock_max / r) - roundToSize (ch.clock_max / ch.rate_max))
        (roundToSize (ch.clock_max / r) - 1) fuel (by omega) (by omega)
        (by have := hfuel hr0; omega), natCast_pred hpos]

/-- Witness for C23: the example channel (clock 100, rates 1 to 39), request 30. -/
theorem optimizeRate_eq_reference_witness :
    optimizeRate 3 chA rgA 30 = some (referenceRate chA rgA 30) :=
  optimizeRate_eq_reference chA rgA 30 3
    (by norm_num [chA, channelOf])
    (by norm_num [chA, rgA, channelOf, exampleRanges, intervalRange])
    (by norm_num [chA, rgA, channelOf, exampleRanges, intervalRange])
    (by norm_num [chA, rgA, channelOf, exampleRanges, intervalRange])
    (fun _ => by norm_num [chA, channelOf, SIZE_MOD])
    (fun _ => by rw [chA_d0_30])

/-! ## C29: the search ends before the counter wraps -/

/-- The traced loop returns what the loop returns, whatever the arguments. -/
theorem rateSearchTraced_fst (ch : usrp_channel_struct) (rg : usrp_range_struct) (r : ℚ)
    (min_dec : Nat) :
    ∀ (fuel dec : Nat),
      (rateSearchTraced ch rg r min_dec fuel dec).map Prod.fst =
        rateSearch ch rg r min_dec fuel dec := by
  intro fuel
  induction fuel with
  | zero => intro dec; rfl
  | succ f ih =>
    intro dec
    by_cases hm : min_dec ≤ dec
    · by_cases hc : 0 ≤ compareHz (rg.sample_rate.clip (ddiv ch.clock_max dec)) r
      · simp only [rateSearchTraced, rateSearch, if_pos hm, if_pos hc, Option.map_some']
      · simp only [rateSearchTraced, rateSearch, if_pos hm, if_neg hc, Option.map_map]
        rw [← ih (decr dec)]
        rfl
    · simp only [rateSearchTraced, rateSearch, if_neg hm, Option.map_some']

/-- The traced function returns what `optimizeRate` returns, whatever the arguments. -/
theorem optimizeRateTraced_fst (fuel : Nat) (ch : usrp_channel_struct)
    (rg : usrp_range_struct) (r : ℚ) :
    (optimizeRateTraced fuel ch rg r).map Prod.fst = optimizeRate fuel ch rg r := by
  by_cases hg : compareHz r 0 ≤ 0
  · simp only [optimizeRateTraced, optimizeRate, if_pos hg, Option.map_some']
  · by_cases hc : 0 ≤ compareHz
        (rg.sample_rate.clip (ddiv ch.clock_max (roundToSize (ch.clock_max / r)))) r
    · simp only [optimizeRateTraced, optimizeRate, if_neg hg, if_pos hc, Option.map_some']
    · simp only [optimizeRateTraced, optimizeRate, if_neg hg, if_neg hc, Option.map_map]
      rw [← rateSearchTraced_fst]
      rfl

/-- The loop of `optimizeRate`, entered at `dec` with fuel for `dec + 1` rounds,
returns, and the values of the counter it evaluates a candidate for are `dec`,
`dec - 1`, … without a step below zero, provided the bound is positive or factor 0
qualifies. -/
theorem rateSearch_descends (ch : usrp_channel_struct) (rg : usrp_range_struct) (r : ℚ)
    (min_dec : Nat) (hsat : 1 ≤ min_dec ∨ r ≤ candidateRate ch rg 0) :
    ∀ (dec fuel : Nat), dec < SIZE_MOD → dec + 1 ≤ fuel →
      ∃ v ds, rateSearchTraced ch rg r min_dec fuel dec = some (v, ds) ∧
        ds.length ≤ dec + 1 ∧ ∀ i d, ds[i]? = some d → d + i = dec := by
  intro dec
  induction dec with
  | zero =>
    intro fuel _ hf
    obtain ⟨f, rfl⟩ : ∃ f, fuel = f + 1 := ⟨fuel - 1, by omega⟩
    by_cases hm : min_dec ≤ 0
    · have hc : r ≤ candidateRate ch rg 0 := by
        rcases hsat with h | h
        · omega
        · exact h
      have hc2 : 0 ≤ compareHz (rg.sample_rate.clip (ddiv ch.clock_max 0)) r :=
        (compareHz_nonneg_iff _ _).mpr hc
      refine ⟨rg.sample_rate.clip (ddiv ch.clock_max 0), [0], ?_, by simp, ?_⟩
      · simp only [rateSearchTraced, if_pos hm, if_pos hc2]
      · intro i d h
        cases i with
        | zero => simp at h; omega
        | succ j => simp at h
    · refine ⟨r, [], ?_, by simp, ?_⟩
      · simp only [rateSearchTraced, if_neg hm]
      · intro i d h
        simp at h
  | succ n ih =>
    intro fuel hlt hf
    obtain ⟨f, rfl⟩ : ∃ f, fuel = f + 1 := ⟨fuel - 1, by omega⟩
    have hdec : decr (n + 1) = n := by
      rw [decr_pos (by omega) hlt]; rfl
    by_cases hm : min_dec ≤ n + 1
    · by_cases hc : r ≤ candidateRate ch rg (n + 1)
      · have hc2 : 0 ≤ compareHz (rg.sample_rate.clip (ddiv ch.clock_max (n + 1))) r :=
          (compareHz_nonneg_iff _ _).mpr hc
        refine ⟨rg.sample_rate.clip (ddiv ch.clock_max (n + 1)), [n + 1], ?_, by simp, ?_⟩
        · simp only [rateSearchTraced, if_pos hm, if_pos hc2]
        · intro i d h
          cases i with
          | zero => simp at h; omega
          | succ j => simp at h
      · have hc2 : ¬ 0 ≤ compareHz (rg.sample_rate.clip (ddiv ch.clock_max (n + 1))) r :=
          fun h => hc ((compareHz_nonneg_iff _ _).mp h)
        obtain ⟨v, ds, g1, g3, g4⟩ := ih f (by omega) (by omega)
        refine ⟨v, (n + 1) :: ds, ?_, by simp; omega, ?_⟩
        · simp only [rateSearchTraced, if_pos hm, if_neg hc2, hdec, g1, Option.map_some']
        · intro i d h
          cases i with
          | zero => simp at h; omega
          | succ j =>
            simp only [List.getElem?_cons_succ] at h
            have := g4 j d h
            omega
    · refine ⟨r, [], ?_, by simp, ?_⟩
      · simp only [rateSearchTraced, if_neg hm]
      · intro i d h
        simp at h

/-- The loop of `optimizeRate`, entered at `dec`, consults the rate clip only at the
quotients of the factors `0, …, dec`: two clips that agree there give the same result,
provided the bound is positive or factor 0 qualifies. -/
theorem rateSearch_clip_local (ch : usrp_channel_struct) (rg rg2 : usrp_range_struct) (r : ℚ)
    (min_dec : Nat) (hsat : 1 ≤ min_dec ∨ r ≤ candidateRate ch rg 0) :
    ∀ (dec fuel : Nat), dec < SIZE_MOD → dec + 1 ≤ fuel →
      (∀ d, d ≤ dec → candidateRate ch rg2 d = candidateRate ch rg d) →
      rateSearch ch rg2 r min_dec fuel dec = rateSearch ch rg r min_dec fuel dec := by
  intro dec
  induction dec with
  | zero =>
    intro fuel _ hf hag
    obtain ⟨f, rfl⟩ : ∃ f, fuel = f + 1 := ⟨fuel - 1, by omega⟩
    have h0 : rg2.sample_rate.clip (ddiv ch.clock_max 0) =
        rg.sample_rate.clip (ddiv ch.clock_max 0) := hag 0 (le_refl _)
    by_cases hm : min_dec ≤ 0
    · have hc : r ≤ candidateRate ch rg 0 := by
        rcases hsat with h | h
        · omega
        · exact h
      have hc2 : 0 ≤ compareHz (rg.sample_rate.clip (ddiv ch.clock_max 0)) r :=
        (compareHz_nonneg_iff _ _).mpr hc
      simp only [rateSearch, if_pos hm, h0, if_pos hc2]
    · simp only [rateSearch, if_neg hm]
  | succ n ih =>
    intro fuel hlt hf hag
    obtain ⟨f, rfl⟩ : ∃ f, fuel = f + 1 := ⟨fuel - 1, by omega⟩
    have hdec : decr (n + 1) = n := by
      rw [decr_pos (by omega) hlt]; rfl
    have h0 : rg2.sample_rate.clip (ddiv ch.clock_max (n + 1)) =
        rg.sample_rate.clip (ddiv ch.clock_max (n + 1)) := hag (n + 1) (le_refl _)
    have hrec := ih f (by omega) (by omega) (fun d hd => hag d (by omega))
    by_cases hm : min_dec ≤ n + 1
    · by_cases hc2 : 0 ≤ compareHz (rg.sample_rate.clip (ddiv ch.clock_max (n + 1))) r
      · simp only [rateSearch, if_pos hm, h0, if_pos hc2]
      · simp only [rateSearch, if_pos hm, h0, if_neg hc2, hdec, hrec]
    · simp only [rateSearch, if_neg hm]

/-- C29: for every channel with `clock_max > 0` and `rate_max > 0` whose rate clip
takes the value above every range, `+infinity`, to no less than `rate_max` (UHD clips
it to the stop of the range, which `updateDeviceInfo` stores as `rate_max`), and for
every request `0 < r <= rate_max` with `clock_max / r` small enough to be converted to
`size_t`: the starting factor `d0` is `round(clock_max / r)`; `optimizeRate` returns
with fuel for `d0` rounds of its loop; the values of the counter for which it
evaluates a candidate are `d0, d0 - 1, …`, each one less than the one before, at most
`round(clock_max / r) + 1` of them, so the counter never steps below zero, also when
`d0` or the lower bound `round(clock_max / rate_max)` is 0; and the result is the same
for every other rate clip that agrees with this one on the quotients of the factors
`0, …, d0`: no quotient of a wrapped counter is ever consulted. -/
theorem optimizeRate_terminates (ch : usrp_channel_struct) (rg : usrp_range_struct) (r : ℚ)
    (hclock : 0 < ch.clock_max) (hmax : 0 < ch.rate_max) (hr : 0 < r) (hle : r ≤ ch.rate_max)
    (hclip : ch.rate_max ≤ rg.sample_rate.clip Dbl.posInf)
    (hconv : ch.clock_max / r + 1 / 2 < (SIZE_MOD : ℚ)) :
    ((roundToSize (ch.clock_max / r) : Nat) : Int) = cround (ch.clock_max / r) ∧
    ∃ v ds, optimizeRate (roundToSize (ch.clock_max / r)) ch rg r = some v ∧
      optimizeRateTraced (roundToSize (ch.clock_max / r)) ch rg r = some (v, ds) ∧
      (ds.length : Int) ≤ cround (ch.clock_max / r) + 1 ∧
      (∀ i d, ds[i]? = some d → d + i = roundToSize (ch.clock_max / r)) ∧
      ∀ rg2 : usrp_range_struct,
        (∀ d, d ≤ roundToSize (ch.clock_max / r) →
          candidateRate ch rg2 d = candidateRate ch rg d) →
        optimizeRate (roundToSize (ch.clock_max / r)) ch rg2 r = some v := by
  have _hm := hmax
  have hcast := roundToSize_cast (le_of_lt (div_pos hclock hr)) hconv
  refine ⟨hcast, ?_⟩
  rw [← hcast]
  have hg : ¬ compareHz r 0 ≤ 0 :=
    fun h => absurd ((compareHz_nonpos_iff _ _).mp h) (not_le.mpr hr)
  have hzero : r ≤ candidateRate ch rg 0 := by
    rw [candidateRate_zero ch rg hclock]
    exact le_trans hle hclip
  have hlt := roundToSize_lt (ch.clock_max / r)
  by_cases hc : r ≤ candidateRate ch rg (roundToSize (ch.clock_max / r))
  · have hc2 : 0 ≤ compareHz
        (rg.sample_rate.clip (ddiv ch.clock_max (roundToSize (ch.clock_max / r)))) r :=
      (compareHz_nonneg_iff _ _).mpr hc
    refine ⟨rg.sample_rate.clip (ddiv ch.clock_max (roundToSize (ch.clock_max / r))),
      [roundToSize (ch.clock_max / r)], ?_, ?_, by simp, ?_, ?_⟩
    · simp only [optimizeRate, if_neg hg, if_pos hc2]
    · simp only [optimizeRateTraced, if_neg hg, if_pos hc2]
    · intro i d h
      cases i with
      | zero => simp at h; omega
      | succ j => simp at h
    · intro rg2 hag
      have h0 : rg2.sample_rate.clip (ddiv ch.clock_max (roundToSize (ch.clock_max / r))) =
          rg.sample_rate.clip (ddiv ch.clock_max (roundToSize (ch.clock_max / r))) :=
        hag _ (le_refl _)
      simp only [optimizeRate, if_neg hg, h0, if_pos hc2]
  · have hc2 : ¬ 0 ≤ compareHz
        (rg.sample_rate.clip (ddiv ch.clock_max (roundToSize (ch.clock_max / r)))) r :=
      fun h => hc ((compareHz_nonneg_iff _ _).mp h)
    have hpos : 1 ≤ roundToSize (ch.clock_max / r) := by
      rcases Nat.eq_zero_or_pos (roundToSize (ch.clock_max / r)) with h0 | h0
      · rw [h0] at hc
        exact absurd hzero hc
      · exact h0
    have hdecr : decr (roundToSize (ch.clock_max / r)) = roundToSize (ch.clock_max / r) - 1 :=
      decr_pos hpos hlt
    obtain ⟨v, ds, g1, g3, g4⟩ := rateSearch_descends ch rg r
      (roundToSize (ch.clock_max / ch.rate_max)) (Or.inr hzero)
      (roundToSize (ch.clock_max / r) - 1) (roundToSize (ch.clock_max / r))
      (by omega) (by omega)
    have g0 : rateSearch ch rg r (roundToSize (ch.clock_max / ch.rate_max))
        (roundToSize (ch.clock_max / r)) (roundToSize (ch.clock_max / r) - 1) = some v := by
      rw [← rateSearchTraced_fst, g1]
      rfl
    refine ⟨v, roundToSize (ch.clock_max / r) :: ds, ?_, ?_, ?_, ?_, ?_⟩
    · simp only [optimizeRate, if_neg hg, if_neg hc2, hdecr, g0]
    · simp only [optimizeRateTraced, if_neg hg, if_neg hc2, hdecr, g1, Option.map_some']
    · simp only [List.length_cons]
      push_cast
      omega
    · intro i d h
      cases i with
      | zero => simp at h; omega
      | succ j =>
        simp only [List.getElem?_cons_succ] at h
        have := g4 j d h
        omega
    · intro rg2 hag
      have h0 : rg2.sample_rate.clip (ddiv ch.clock_max (roundToSize (ch.clock_max / r))) =
          rg.sample_rate.clip (ddiv ch.clock_max (roundToSize (ch.clock_max / r))) :=
        hag _ (le_refl _)
      simp only [optimizeRate, if_neg hg, h0, if_neg hc2, hdecr]
      rw [rateSearch_clip_local ch rg rg2 r _ (Or.inr hzero)
        (roundToSize (ch.clock_max / r) - 1) (roundToSize (ch.clock_max / r))
        (by omega) (by omega) (fun d hd => hag d (by omega)), g0]

/-- Witness for C29: a channel with clock 1 and rates 1 to 4, request 3, for which both
`round(1 / 3)` and the lower bound `round(1 / 4)` are 0. -/
theorem optimizeRate_terminates_witness :
    roundToSize (chW.clock_max / 3) = 0 ∧ roundToSize (chW.clock_max / chW.rate_max) = 0 ∧
    (((roundToSize (chW.clock_max / 3) : Nat) : Int) = cround (chW.clock_max / 3) ∧
    ∃ v ds, optimizeRate (roundToSize (chW.clock_max / 3)) chW rgW 3 = some v ∧
      optimizeRateTraced (roundToSize (chW.clock_max / 3)) chW rgW 3 = some (v, ds) ∧
      (ds.length : Int) ≤ cround (chW.clock_max / 3) + 1 ∧
      (∀ i d, ds[i]? = some d → d + i = roundToSize (chW.clock_max / 3)) ∧
      ∀ rg2 : usrp_range_struct,
        (∀ d, d ≤ roundToSize (chW.clock_max / 3) →
          candidateRate chW rg2 d = candidateRate chW rgW d) →
        optimizeRate (roundToSize (chW.clock_max / 3)) chW rg2 3 = some v) :=
  ⟨by apply roundToSize_eq <;> norm_num [chW, channelOf, SIZE_MOD],
   by apply roundToSize_eq <;>
        norm_num [chW, rgW, channelOf, exampleRanges, intervalRange, SIZE_MOD],
   optimizeRate_terminates chW rgW 3
    (by norm_num [chW, channelOf])
    (by norm_num [chW, rgW, channelOf, exampleRanges, intervalRange])
    (by norm_num)
    (by norm_num [chW, rgW, channelOf, exampleRanges, intervalRange])
    (by norm_num [chW, rgW, channelOf, exampleRanges, intervalRange])
    (by norm_num [chW, channelOf, SIZE_MOD])⟩

/-! ## Exact run of a transfer -/

/-- What one transfer does, given a device and a valid write position: it asks for
`requested` samples, writes and counts what comes back whatever the error code,
stamps the three times when the transfer is free of errors and its samples are the
first in the buffer, and returns true after an overflow and after an error-free
transfer with samples. -/
theorem usrpReceive_run (st : State) (id : Nat) (timeout : ℚ) (recv : Nat → RecvResult)
    (hw : Hardware) (hdev : st.usrp_device_ptr = some hw)
    (hpos : (st.usrp_tuners id).buffer_size < (st.usrp_tuners id).output_buffer.length)
    (r : RecvResult) (hr : r = recv (requested st id timeout))
    (fin : usrp_tuner_struct → State)
    (hfin : fin = fun t => { st with
      trace := st.trace ++ [Event.recv id (requested st id timeout)]
      usrp_tuners := Function.update st.usrp_tuners id t }) :
    (r.error_code = rx_error_code.ERROR_CODE_NONE → r.num_samps = 0 →
      usrpReceive id timeout recv st =
        (Except.ok false, fin (withSamples (st.usrp_tuners id) r))) ∧
    (r.error_code = rx_error_code.ERROR_CODE_NONE → r.num_samps ≠ 0 →
      sizeMul r.num_samps 2 = (withSamples (st.usrp_tuners id) r).buffer_size →
      usrpReceive id timeout recv st =
        (Except.ok true, fin (withStamp (withSamples (st.usrp_tuners id) r) r))) ∧
    (r.error_code = rx_error_code.ERROR_CODE_NONE → r.num_samps ≠ 0 →
      sizeMul r.num_samps 2 ≠ (withSamples (st.usrp_tuners id) r).buffer_size →
      usrpReceive id timeout recv st =
        (Except.ok true, fin (withSamples (st.usrp_tuners id) r))) ∧
    (r.error_code = rx_error_code.ERROR_CODE_TIMEOUT →
      usrpReceive id timeout recv st =
        (Except.ok false, fin (withSamples (st.usrp_tuners id) r))) ∧
    (r.error_code = rx_error_code.ERROR_CODE_OVERFLOW →
      usrpReceive id timeout recv st =
        (Except.ok true, fin (withSamples (st.usrp_tuners id) r))) ∧
    (∀ c, r.error_code = rx_error_code.ERROR_CODE_OTHER c →
      usrpReceive id timeout recv st =
        (Except.ok false, fin (withSamples (st.usrp_tuners id) r))) := by
  subst hfin
  have hno : ¬ (st.usrp_tuners id).output_buffer.length ≤ (st.usrp_tuners id).buffer_size :=
    not_le.mpr hpos
  have hrun : usrpReceive id timeout recv st =
      (match r.error_code with
        | rx_error_code.ERROR_CODE_NONE =>
          if r.num_samps = 0 then
            (Except.ok false, { st with
              trace := st.trace ++ [Event.recv id (requested st id timeout)]
              usrp_tuners := Function.update st.usrp_tuners id (withSamples (st.usrp_tuners id) r) })
          else if sizeMul r.num_samps 2 = (withSamples (st.usrp_tuners id) r).buffer_size then
            (Except.ok true, { st with
              trace := st.trace ++ [Event.recv id (requested st id timeout)]
              usrp_tuners := Function.update st.usrp_tuners id
                (withStamp (withSamples (st.usrp_tuners id) r) r) })
          else
            (Except.ok true, { st with
              trace := st.trace ++ [Event.recv id (requested st id timeout)]
              usrp_tuners := Function.update st.usrp_tuners id (withSamples (st.usrp_tuners id) r) })
        | rx_error_code.ERROR_CODE_TIMEOUT =>
          (Except.ok false, { st with
            trace := st.trace ++ [Event.recv id (requested st id timeout)]
            usrp_tuners := Function.update st.usrp_tuners id (withSamples (st.usrp_tuners id) r) })
        | rx_error_code.ERROR_CODE_OVERFLOW =>
          (Except.ok true, { st with
            trace := st.trace ++ [Event.recv id (requested st id timeout)]
            usrp_tuners := Function.update st.usrp_tuners id (withSamples (st.usrp_tuners id) r) })
        | rx_error_code.ERROR_CODE_OTHER _ =>
          (Except.ok false, { st with
            trace := st.trace ++ [Event.recv id (requested st id timeout)]
            usrp_tuners := Function.update st.usrp_tuners id
              (withSamples (st.usrp_tuners id) r) })) := by
    subst hr
    unfold usrpReceive
    simp only [run_bind, getState, device, hdev, run_ite, if_neg hno, emit, modifyState, setTuner,
      requested, withSamples, withStamp, captureTime]
    generalize recv (min (truncToSize (timeout * (st.frontend_tuner_status id).sample_rate))
      (sizeSub (st.usrp_tuners id).buffer_capacity (st.usrp_tuners id).buffer_size / 2)) = r
    rcases r with ⟨n, samples, code, rs, fs⟩
    cases code <;>
      simp only [run_bind, run_ite, run_pure, getState, modifyState, setTuner,
        Function.update_same, Function.update_idem]
  refine ⟨?_, ?_, ?_, ?_, ?_, ?_⟩
  · intro h1 h2
    rw [hrun, h1]
    simp only [if_pos h2]
  · intro h1 h2 h3
    rw [hrun, h1]
    simp only [if_neg h2, if_pos h3]
  · intro h1 h2 h3
    rw [hrun, h1]
    simp only [if_neg h2, if_neg h3]
  · intro h1
    rw [hrun, h1]
  · intro h1
    rw [hrun, h1]
  · intro c h1
    rw [hrun, h1]

theorem fill_counted {size n : Nat} (hfit : size + 2 * n < SIZE_MOD) :
    sizeAdd size (sizeMul n 2) = size + 2 * n ∧
    (sizeMul n 2 = sizeAdd size (sizeMul n 2) ↔ size = 0) := by
  have hm : sizeMul n 2 = 2 * n := by
    unfold sizeMul
    rw [Nat.mul_comm]
    exact Nat.mod_eq_of_lt (by omega)
  have ha : sizeAdd size (sizeMul n 2) = size + 2 * n := by
    unfold sizeAdd
    rw [hm]
    exact Nat.mod_eq_of_lt hfit
  refine ⟨ha, ?_⟩
  rw [ha, hm]
  omega

/-- The runtime entry and the result of a transfer whose samples fit the `size_t`
range: stamped exactly when the transfer is free of errors and brings the first
samples of the buffer. -/
theorem usrpReceive_entry (st : State) (id : Nat) (timeout : ℚ) (recv : Nat → RecvResult)
    (hw : Hardware) (hdev : st.usrp_device_ptr = some hw)
    (hpos : (st.usrp_tuners id).buffer_size < (st.usrp_tuners id).output_buffer.length)
    (r : RecvResult) (hr : r = recv (requested st id timeout))
    (hfit : (st.usrp_tuners id).buffer_size + 2 * r.num_samps < SIZE_MOD) :
    (usrpReceive id timeout recv st).2.trace =
      st.trace ++ [Event.recv id (requested st id timeout)] ∧
    (∃ got, (usrpReceive id timeout recv st).1 = Except.ok got) ∧
    (Stamps r (st.usrp_tuners id).buffer_size →
      (usrpReceive id timeout recv st).2.usrp_tuners id =
        withStamp (withSamples (st.usrp_tuners id) r) r) ∧
    (¬ Stamps r (st.usrp_tuners id).buffer_size →
      (usrpReceive id timeout recv st).2.usrp_tuners id = withSamples (st.usrp_tuners id) r) := by
  obtain ⟨_, hguard⟩ := fill_counted hfit
  have hguard2 : sizeMul r.num_samps 2 = (withSamples (st.usrp_tuners id) r).buffer_size ↔
      (st.usrp_tuners id).buffer_size = 0 := hguard
  obtain ⟨c1, c2, c3, c4, c5, c6⟩ := usrpReceive_run st id timeout recv hw hdev hpos r hr _ rfl
  unfold Stamps
  rcases hcode : r.error_code with _ | _ | _ | c
  · by_cases hn : r.num_samps = 0
    · rw [c1 hcode hn]
      exact ⟨rfl, ⟨_, rfl⟩, fun h => absurd hn h.2.1, fun _ => by simp⟩
    · by_cases hz : (st.usrp_tuners id).buffer_size = 0
      · rw [c2 hcode hn (hguard2.mpr hz)]
        exact ⟨rfl, ⟨_, rfl⟩, fun _ => by simp, fun h => absurd ⟨rfl, hn, hz⟩ h⟩
      · rw [c3 hcode hn (fun h => hz (hguard2.mp h))]
        exact ⟨rfl, ⟨_, rfl⟩, fun h => absurd h.2.2 hz, fun _ => by simp⟩
  · rw [c4 hcode]
    exact ⟨rfl, ⟨_, rfl⟩, (fun h => nomatch h.1), fun _ => by simp⟩
  · rw [c5 hcode]
    exact ⟨rfl, ⟨_, rfl⟩, (fun h => nomatch h.1), fun _ => by simp⟩
  · rw [c6 c hcode]
    exact ⟨rfl, ⟨_, rfl⟩, (fun h => nomatch h.1), fun _ => by simp⟩

/-! ## C25: stream times -/

/-- C25 (amended): in `usrpReceive` (device present, write position inside the buffer,
fill length within the `size_t` range) the three times change only in a transfer
that is free of errors, brings samples and finds the buffer empty. Such a transfer
sets the buffer time and the stream-end time `time_down` to the capture time, and
sets the stream-start time `time_up` to it only while `time_up` is unset (whole
seconds `<= 0`), leaving a set `time_up` as it is. Every other transfer, the
error-free transfer that appends samples to a partly filled buffer included, leaves
`time_up`, `time_down` and the buffer time unchanged. -/
theorem stream_times_after_transfer (st : State) (id : Nat) (timeout : ℚ)
    (recv : Nat → RecvResult) (hw : Hardware) (hdev : st.usrp_device_ptr = some hw)
    (hpos : (st.usrp_tuners id).buffer_size < (st.usrp_tuners id).output_buffer.length)
    (r : RecvResult) (hr : r = recv (requested st id timeout))
    (hfit : (st.usrp_tuners id).buffer_size + 2 * r.num_samps < SIZE_MOD)
    (t : usrp_tuner_struct) (ht : t = (usrpReceive id timeout recv st).2.usrp_tuners id) :
    (Stamps r (st.usrp_tuners id).buffer_size →
      t.output_buffer_time = captureTime r ∧ t.time_down = captureTime r ∧
      ((st.usrp_tuners id).time_up.twsec ≤ 0 → t.time_up = captureTime r) ∧
      (0 < (st.usrp_tuners id).time_up.twsec → t.time_up = (st.usrp_tuners id).time_up)) ∧
    (¬ Stamps r (st.usrp_tuners id).buffer_size →
      t.output_buffer_time = (st.usrp_tuners id).output_buffer_time ∧
      t.time_up = (st.usrp_tuners id).time_up ∧
      t.time_down = (st.usrp_tuners id).time_down) := by
  obtain ⟨_, _, e1, e2⟩ := usrpReceive_entry st id timeout recv hw hdev hpos r hr hfit
  subst ht
  constructor
  · intro hs
    rw [e1 hs]
    refine ⟨rfl, rfl, ?_, ?_⟩
    · intro h
      simp only [withStamp, withSamples, if_pos h]
    · intro h
      simp only [withStamp, withSamples, if_neg (not_le.mpr h)]
  · intro hs
    rw [e2 hs]
    exact ⟨rfl, rfl, rfl⟩

/-! ## Classification of transfers -/

/-- What a transfer of the receive cycle does on a serviced tuner (device present,
write position inside the buffer, fill length within the `size_t` range): it raises
the fill length by twice the sample count the hardware reports with it and adds the
hardware call to the trace and nothing else. It returns false after a timeout, after
any other error code and after an error-free transfer of no samples, and then the
iteration ends in the state the transfer left: nothing is pushed. It returns true
after an overflow and after an error-free transfer of samples; when the fill length
is then below the capacity the iteration ends in the state the transfer left as well,
without a flush. -/
theorem transfer_classification (st : State) (recv : Nat → Nat → RecvResult) (id : Nat)
    (hw : Hardware) (hdev : st.usrp_device_ptr = some hw)
    (hpos : (st.usrp_tuners id).buffer_size < (st.usrp_tuners id).output_buffer.length)
    (hs : Serviced st id)
    (r : RecvResult) (hr : r = recv id (requested st id st.receive_timeout))
    (hfit : (st.usrp_tuners id).buffer_size + 2 * r.num_samps < SIZE_MOD)
    (out : Except Error Bool × State)
    (hout : out = usrpReceive id st.receive_timeout (recv id) st) :
    (out.2.usrp_tuners id).buffer_size = (st.usrp_tuners id).buffer_size + 2 * r.num_samps ∧
    out.2.trace = st.trace ++ [Event.recv id (requested st id st.receive_timeout)] ∧
    (r.error_code = rx_error_code.ERROR_CODE_TIMEOUT → out.1 = Except.ok false) ∧
    (∀ c, r.error_code = rx_error_code.ERROR_CODE_OTHER c → out.1 = Except.ok false) ∧
    (r.error_code = rx_error_code.ERROR_CODE_NONE → r.num_samps = 0 →
      out.1 = Except.ok false) ∧
    (r.error_code = rx_error_code.ERROR_CODE_OVERFLOW → out.1 = Except.ok true) ∧
    (r.error_code = rx_error_code.ERROR_CODE_NONE → r.num_samps ≠ 0 →
      out.1 = Except.ok true) ∧
    (out.1 = Except.ok false → receiveTuner recv id st = (Except.ok false, out.2)) ∧
    ((out.2.usrp_tuners id).buffer_size < (out.2.usrp_tuners id).buffer_capacity →
      (receiveTuner recv id st).2 = out.2) := by
  obtain ⟨htrace, ⟨got, hgot⟩, e1, e2⟩ :=
    usrpReceive_entry st id st.receive_timeout (recv id) hw hdev hpos r hr hfit
  obtain ⟨c1, c2, c3, c4, c5, c6⟩ :=
    usrpReceive_run st id st.receive_timeout (recv id) hw hdev hpos r hr _ rfl
  obtain ⟨hcount, _⟩ := @fill_counted (st.usrp_tuners id).buffer_size r.num_samps hfit
  have hrun := receiveTuner_run st recv id hs
  subst hout
  refine ⟨?_, htrace, ?_, ?_, ?_, ?_, ?_, ?_, ?_⟩
  · by_cases hst : Stamps r (st.usrp_tuners id).buffer_size
    · rw [e1 hst]; exact hcount
    · rw [e2 hst]; exact hcount
  · intro h; rw [c4 h]
  · intro c h; rw [c6 c h]
  · intro h hn; rw [c1 h hn]
  · intro h; rw [c5 h]
  · intro h hn
    by_cases hg : sizeMul r.num_samps 2 = (withSamples (st.usrp_tuners id) r).buffer_size
    · rw [c2 h hn hg]
    · rw [c3 h hn hg]
  · intro hfalse
    rw [hrun]
    rcases hu : usrpReceive id st.receive_timeout (recv id) st with ⟨res, mid⟩
    rw [hu] at hfalse
    simp only at hfalse
    subst hfalse
    simp
  · intro hlt
    rw [hrun]
    rcases hu : usrpReceive id st.receive_timeout (recv id) st with ⟨res, mid⟩
    rw [hu] at hlt hgot
    simp only at hlt hgot
    subst hgot
    cases got with
    | false => simp
    | true => simp [hlt]

/-! ## Transfers on the example device -/

theorem truncToSize_two : truncToSize (1 * 2) = 2 := by
  norm_num [truncToSize, truncToLong, toSizeT, SIZE_MOD]
  rfl

theorem requested_stA (enabled : Bool) (fill : Nat) (h : fill ≤ 4) :
    requested (stA enabled fill) 0 (stA enabled fill).receive_timeout =
      min 2 ((4 - fill) / 2) := by
  have hs : sizeSub 4 fill = 4 - fill := sizeSub_eq h (by norm_num [SIZE_MOD])
  simp only [requested, stA, statusA, tunerA, if_true, truncToSize_two, hs]

theorem requested_stA_empty (enabled : Bool) : requested (stA enabled 0) 0 1 = 2 :=
  requested_stA enabled 0 (by decide)

theorem requested_stA_half (enabled : Bool) : requested (stA enabled 2) 0 1 = 1 :=
  requested_stA enabled 2 (by decide)

/-- Witness for C25: the example device with an empty buffer and a stream-start time
that is set; an error-free transfer of two samples captured at time 9 sets the
stream-end time to 9 and keeps the stream-start time 3. -/
theorem stream_times_after_transfer_witness :
    ((usrpReceive 0 1 recvA (stA true 0)).2.usrp_tuners 0).time_down = ⟨9, 0⟩ ∧
    ((usrpReceive 0 1 recvA (stA true 0)).2.usrp_tuners 0).time_up = ⟨3, 0⟩ :=
  have hst : Stamps (recvA (requested (stA true 0) 0 1)) ((stA true 0).usrp_tuners 0).buffer_size :=
    ⟨rfl, by rw [requested_stA_empty]; exact (by decide : (2 : Nat) ≠ 0), rfl⟩
  have h := stream_times_after_transfer (stA true 0) 0 1 recvA hwA rfl (by decide)
    (recvA (requested (stA true 0) 0 1)) rfl
    (by rw [requested_stA_empty]; norm_num [recvA, stA, tunerA, SIZE_MOD])
    ((usrpReceive 0 1 recvA (stA true 0)).2.usrp_tuners 0) rfl
  ⟨(h.1 hst).2.1, (h.1 hst).2.2.2 (by norm_num [stA, tunerA])⟩

/-- Counterexample to C25 as stated: the example device with two shorts in its buffer
of four and the stream-end time 5. An error-free transfer of one sample captured at
time 9 is appended, the buffer is full afterwards, the transfer returns true, and the
stream-end time is still 5. -/
theorem time_down_kept_on_append_counterexample :
    (recvA (requested (stA true 2) 0 1)).num_samps = 1 ∧
    captureTime (recvA (requested (stA true 2) 0 1)) = ⟨9, 0⟩ ∧
    (usrpReceive 0 1 recvA (stA true 2)).1 = Except.ok true ∧
    ((usrpReceive 0 1 recvA (stA true 2)).2.usrp_tuners 0).buffer_size = 4 ∧
    ((usrpReceive 0 1 recvA (stA true 2)).2.usrp_tuners 0).time_down = ⟨5, 0⟩ := by
  have hk := requested_stA_half true
  have hn : (recvA (requested (stA true 2) 0 1)).num_samps = 1 := by rw [hk]; rfl
  have hfit : ((stA true 2).usrp_tuners 0).buffer_size +
      2 * (recvA (requested (stA true 2) 0 1)).num_samps < SIZE_MOD := by
    rw [hn]; norm_num [stA, tunerA, SIZE_MOD]
  have hno : ¬ Stamps (recvA (requested (stA true 2) 0 1))
      ((stA true 2).usrp_tuners 0).buffer_size := fun h => absurd h.2.2 (by decide)
  obtain ⟨_, _, _, e2⟩ := usrpReceive_entry (stA true 2) 0 1 recvA hwA rfl (by decide)
    (recvA (requested (stA true 2) 0 1)) rfl hfit
  obtain ⟨hcount, hguard⟩ := fill_counted hfit
  obtain ⟨_, _, c3, _, _, _⟩ := usrpReceive_run (stA true 2) 0 1 recvA hwA rfl (by decide)
    (recvA (requested (stA true 2) 0 1)) rfl _ rfl
  refine ⟨hn, rfl, ?_, ?_, ?_⟩
  · rw [c3 rfl (by rw [hn]; decide) (fun h => absurd (hguard.mp h) (by decide))]
  · rw [e2 hno]
    show sizeAdd _ _ = 4
    rw [hcount, hn]
    rfl
  · rw [e2 hno]
    rfl

/-! ## C26: an overflow that comes with samples -/

/-- C26 fails on the example device: tuner 0 is serviced and its buffer of four shorts
is empty. The transfer asks for two samples and the hardware reports an overflow
together with one sample. The transfer returns true, as the claim says, but the
sample is counted: the fill length is 2 afterwards, not unchanged, although the
overflow case of the source means to throw the data of such a transfer away. -/
theorem overflow_counts_samples :
    Serviced (stA true 0) 0 ∧
    BoundedRecv (recvUpTo rx_error_code.ERROR_CODE_OVERFLOW 1 8) ∧
    requested (stA true 0) 0 1 = 2 ∧
    (recvUpTo rx_error_code.ERROR_CODE_OVERFLOW 1 8 (requested (stA true 0) 0 1)).error_code =
      rx_error_code.ERROR_CODE_OVERFLOW ∧
    (recvUpTo rx_error_code.ERROR_CODE_OVERFLOW 1 8 (requested (stA true 0) 0 1)).num_samps = 1 ∧
    ((stA true 0).usrp_tuners 0).buffer_size = 0 ∧
    (usrpReceive 0 1 (recvUpTo rx_error_code.ERROR_CODE_OVERFLOW 1 8) (stA true 0)).1 =
      Except.ok true ∧
    ((usrpReceive 0 1 (recvUpTo rx_error_code.ERROR_CODE_OVERFLOW 1 8)
      (stA true 0)).2.usrp_tuners 0).buffer_size = 2 := by
  have hk := requested_stA_empty true
  have hn : (recvUpTo rx_error_code.ERROR_CODE_OVERFLOW 1 8
      (requested (stA true 0) 0 1)).num_samps = 1 := by rw [hk]; rfl
  have hfit : ((stA true 0).usrp_tuners 0).buffer_size +
      2 * (recvUpTo rx_error_code.ERROR_CODE_OVERFLOW 1 8
        (requested (stA true 0) 0 1)).num_samps < SIZE_MOD := by
    rw [hn]; norm_num [stA, tunerA, SIZE_MOD]
  obtain ⟨hcount, _⟩ := fill_counted hfit
  obtain ⟨_, _, _, _, c5, _⟩ := usrpReceive_run (stA true 0) 0 1
    (recvUpTo rx_error_code.ERROR_CODE_OVERFLOW 1 8) hwA rfl (by decide)
    (recvUpTo rx_error_code.ERROR_CODE_OVERFLOW 1 8 (requested (stA true 0) 0 1)) rfl _ rfl
  refine ⟨serviced_stA 0, fun n => Nat.min_le_left n 1, hk, rfl, hn, rfl, ?_, ?_⟩
  · rw [c5 rfl]
  · rw [c5 rfl]
    show sizeAdd _ _ = 2
    rw [hcount, hn]
    rfl

/-! ## A receive cycle of the example device -/

/-- A receive cycle of a device with two tuners of which only tuner 0 is a receive
tuner: it is the iteration for tuner 0. -/
theorem serviceFunctionReceive_one (recv : Nat → Nat → RecvResult) (st : State) (hw : Hardware)
    (hint : st.receive_interrupt_requested = false) (hdev : st.usrp_device_ptr = some hw)
    (hn : st.num_tuners = 2)
    (h1 : (st.frontend_tuner_status 1).tuner_type ≠ TunerType.RX_DIGITIZER) :
    (∀ got s1, receiveTuner recv 0 st = (Except.ok got, s1) →
      serviceFunctionReceive recv st =
        (Except.ok (if got then ServiceResult.NORMAL else ServiceResult.NOOP), s1)) ∧
    (∀ e s1, receiveTuner recv 0 st = (Except.error e, s1) →
      serviceFunctionReceive recv st = (Except.error e, s1)) := by
  have hrange : List.range 2 = [0, 1] := rfl
  have hloop : serviceFunctionReceive recv st =
      (receiveLoop recv [0, 1] false >>= fun rx_data =>
        if rx_data then pure ServiceResult.NORMAL else pure ServiceResult.NOOP) st := by
    unfold serviceFunctionReceive
    simp only [run_bind, getState, run_ite, hint, hdev, hn, hrange]
    simp
  have hstep : receiveLoop recv [0, 1] false =
      (receiveTuner recv 0 >>= fun got => receiveLoop recv [1] (false || got)) := rfl
  have hstep1 : ∀ b, receiveLoop recv [1] b =
      (receiveTuner recv 1 >>= fun got => receiveLoop recv [] (b || got)) := fun _ => rfl
  constructor
  · intro got s1 h0
    have hkeep : s1.frontend_tuner_status = st.frontend_tuner_status := by
      have := (servicesOnly_receiveTuner recv 0 st).1
      rw [h0] at this
      exact this
    have hskip : receiveTuner recv 1 s1 = (Except.ok false, s1) :=
      receiveTuner_skip recv 1 s1 (fun hs => h1 (by rw [← hkeep]; exact hs.1))
    rw [hloop, hstep, run_bind, bind_ok h0, hstep1, bind_ok hskip]
    cases got <;> rfl
  · intro e s1 h0
    rw [hloop, hstep, run_bind, bind_error h0]

theorem usrpReceive_out_of_range (st : State) (id : Nat) (timeout : ℚ) (recv : Nat → RecvResult)
    (hw : Hardware) (hdev : st.usrp_device_ptr = some hw)
    (hfull : (st.usrp_tuners id).output_buffer.length ≤ (st.usrp_tuners id).buffer_size) :
    usrpReceive id timeout recv st =
      (Except.error ⟨ExceptionClass.out_of_range, Reason.vector_at⟩, st) := by
  unfold usrpReceive
  simp only [run_bind, getState, device, hdev, run_ite, if_pos hfull, throwExc]

theorem receiveTuner_of_false (st : State) (recv : Nat → Nat → RecvResult) (id : Nat)
    (hs : Serviced st id) (s1 : State)
    (h : usrpReceive id st.receive_timeout (recv id) st = (Except.ok false, s1)) :
    receiveTuner recv id st = (Except.ok false, s1) := by
  rw [receiveTuner_run st recv id hs, h]
  simp

theorem receiveTuner_of_error (st : State) (recv : Nat → Nat → RecvResult) (id : Nat)
    (hs : Serviced st id) (e : Error) (s1 : State)
    (h : usrpReceive id st.receive_timeout (recv id) st = (Except.error e, s1)) :
    receiveTuner recv id st = (Except.error e, s1) := by
  rw [receiveTuner_run st recv id hs, h]

theorem receiveTuner_of_full (st : State) (recv : Nat → Nat → RecvResult) (id : Nat)
    (hs : Serviced st id) (s1 s2 : State)
    (h : usrpReceive id st.receive_timeout (recv id) st = (Except.ok true, s1))
    (hfull : ¬ (s1.usrp_tuners id).buffer_size < (s1.usrp_tuners id).buffer_capacity)
    (hp : pushBuffer id s1 = (Except.ok (), s2)) :
    receiveTuner recv id st = (Except.ok true, s2) := by
  rw [receiveTuner_run st recv id hs, h]
  simp [hfull, hp]

/-- The example device after a transfer for tuner 0 that asked for `k` samples and
left the runtime entry `t`. -/
theorem stA_after (k : Nat) (t : usrp_tuner_struct) (recv : Nat → Nat → RecvResult) :
    ({ stA true 0 with
        trace := (stA true 0).trace ++ [Event.recv 0 k]
        usrp_tuners := Function.update (stA true 0).usrp_tuners 0 t } : State).trace =
      [Event.recv 0 k] ∧
    Serviced ({ stA true 0 with
        trace := (stA true 0).trace ++ [Event.recv 0 k]
        usrp_tuners := Function.update (stA true 0).usrp_tuners 0 t } : State) 0 ∧
    (serviceFunctionReceive recv ({ stA true 0 with
        trace := (stA true 0).trace ++ [Event.recv 0 k]
        usrp_tuners := Function.update (stA true 0).usrp_tuners 0 t } : State) =
      match receiveTuner recv 0 ({ stA true 0 with
        trace := (stA true 0).trace ++ [Event.recv 0 k]
        usrp_tuners := Function.update (stA true 0).usrp_tuners 0 t } : State) with
      | (Except.ok got, s1) =>
        (Except.ok (if got then ServiceResult.NORMAL else ServiceResult.NOOP), s1)
      | (Except.error e, s1) => (Except.error e, s1)) := by
  refine ⟨rfl, serviced_stA 0, ?_⟩
  obtain ⟨a, b⟩ := serviceFunctionReceive_one recv ({ stA true 0 with
        trace := (stA true 0).trace ++ [Event.recv 0 k]
        usrp_tuners := Function.update (stA true 0).usrp_tuners 0 t } : State) hwA rfl rfl rfl
        (by simp [stA, statusA])
  rcases h : receiveTuner recv 0 ({ stA true 0 with
        trace := (stA true 0).trace ++ [Event.recv 0 k]
        usrp_tuners := Function.update (stA true 0).usrp_tuners 0 t } : State) with ⟨res, s1⟩
  cases res with
  | ok got => exact a got s1 h
  | error e => exact b e s1 h

/-! ## C27: the write position -/

/-- C27 fails on the example device: tuner 0 is serviced, its buffer of four shorts
is empty, and the hardware never hands back more than it was asked for. In the first
cycle the transfer asks for two samples and the hardware reports a timeout together
with two samples: the fill length becomes 4, the capacity, the transfer returns
false and the cycle pushes nothing. In the second cycle `usrpReceive` is called with
the fill length equal to the capacity, and `output_buffer.at(buffer_size)` throws
`std::out_of_range`. -/
theorem write_position_out_of_range :
    BufferInv (stA true 0) ∧ Serviced (stA true 0) 0 ∧
    BoundedRecv (recvUpTo rx_error_code.ERROR_CODE_TIMEOUT 2 8) ∧
    BoundedRecv recvA ∧
    (serviceFunctionReceive (fun _ => recvUpTo rx_error_code.ERROR_CODE_TIMEOUT 2 8)
      (stA true 0)).1 = Except.ok ServiceResult.NOOP ∧
    (serviceFunctionReceive (fun _ => recvUpTo rx_error_code.ERROR_CODE_TIMEOUT 2 8)
      (stA true 0)).2.trace = [Event.recv 0 2] ∧
    (((serviceFunctionReceive (fun _ => recvUpTo rx_error_code.ERROR_CODE_TIMEOUT 2 8)
      (stA true 0)).2.usrp_tuners 0).buffer_size = 4 ∧
     ((serviceFunctionReceive (fun _ => recvUpTo rx_error_code.ERROR_CODE_TIMEOUT 2 8)
      (stA true 0)).2.usrp_tuners 0).buffer_capacity = 4) ∧
    (serviceFunctionReceive (fun _ => recvA)
      (serviceFunctionReceive (fun _ => recvUpTo rx_error_code.ERROR_CODE_TIMEOUT 2 8)
        (stA true 0)).2).1 =
      Except.error ⟨ExceptionClass.out_of_range, Reason.vector_at⟩ := by
  have hk : requested (stA true 0) 0 (stA true 0).receive_timeout = 2 :=
    requested_stA true 0 (by decide)
  obtain ⟨_, _, _, c4, _, _⟩ := usrpReceive_run (stA true 0) 0 (stA true 0).receive_timeout
    (recvUpTo rx_error_code.ERROR_CODE_TIMEOUT 2 8) hwA rfl (by decide)
    (recvUpTo rx_error_code.ERROR_CODE_TIMEOUT 2 8
      (requested (stA true 0) 0 (stA true 0).receive_timeout)) rfl _ rfl
  have h1 := c4 rfl
  rw [hk] at h1
  have hT := receiveTuner_of_false (stA true 0)
    (fun _ => recvUpTo rx_error_code.ERROR_CODE_TIMEOUT 2 8) 0 (serviced_stA 0) _ h1
  have hS := (serviceFunctionReceive_one (fun _ => recvUpTo rx_error_code.ERROR_CODE_TIMEOUT 2 8)
    (stA true 0) hwA rfl rfl rfl (by simp [stA, statusA])).1 _ _ hT
  obtain ⟨_, hs2, hcycle⟩ := stA_after 2
    (withSamples ((stA true 0).usrp_tuners 0) (recvUpTo rx_error_code.ERROR_CODE_TIMEOUT 2 8 2))
    (fun _ => recvA)
  have h2 := usrpReceive_out_of_range _ 0 (stA true 0).receive_timeout recvA hwA
    (rfl : ({ stA true 0 with
        trace := (stA true 0).trace ++ [Event.recv 0 2]
        usrp_tuners := Function.update (stA true 0).usrp_tuners 0
          (withSamples ((stA true 0).usrp_tuners 0)
            (recvUpTo rx_error_code.ERROR_CODE_TIMEOUT 2 8 2)) } : State).usrp_device_ptr =
        some hwA)
    (by decide)
  have hT2 := receiveTuner_of_error _ (fun _ => recvA) 0 hs2 _ _ h2
  refine ⟨bufferInv_stA true 0 (by decide), serviced_stA 0, fun n => Nat.min_le_left n 2,
    boundedRecv_recvA, ?_, ?_, ⟨?_, ?_⟩, ?_⟩
  · rw [hS]; rfl
  · rw [hS]; rfl
  · rw [hS]; decide
  · rw [hS]; rfl
  · rw [hS]
    simp only [Bool.false_eq_true, if_false]
    rw [hcycle, hT2]

/-! ## C24: the time of a full buffer -/

/-- The flush of a buffer whose stream id is set and whose metadata is up to date: one
data packet with the buffer, the buffer time and the stream id, and the fill length
back at 0. -/
theorem pushBuffer_quiet (st : State) (id : Nat) (hid : id < st.num_tuners)
    (hsid : (st.usrp_tuners id).stream_id ≠ "")
    (hu : (st.usrp_tuners id).update_sri = false) :
    pushBuffer id st =
      (Except.ok (), { st with
        trace := st.trace ++ [Event.pushPacket (st.usrp_tuners id).output_buffer
          (st.usrp_tuners id).output_buffer_time false (st.usrp_tuners id).stream_id]
        usrp_tuners := Function.update st.usrp_tuners id
          { (st.usrp_tuners id) with buffer_size := 0 } }) := by
  have hno : ¬ st.num_tuners ≤ id := not_le.mpr hid
  unfold pushBuffer getStreamId
  simp [run_bind, getState, run_ite, run_pure, hno, hsid, hu, emit, modifyState, setTuner]

/-- C24 fails on the example device: tuner 0 is serviced, its buffer of four shorts is
empty, and its buffer time, left from the buffer before, is 5. In the first cycle
the hardware reports a timeout together with one sample captured at time 8: the
sample is written and counted, the transfer returns false, nothing is stamped or
pushed. In the second cycle an error-free transfer captured at time 9 appends the
second sample; the buffer is full and the cycle pushes it with the time 5, which is
neither the capture time of the transfer that wrote its first sample nor a time
stamped during this fill. -/
theorem full_buffer_with_stale_time :
    Serviced (stA true 0) 0 ∧
    ((stA true 0).usrp_tuners 0).buffer_size = 0 ∧
    captureTime (recvUpTo rx_error_code.ERROR_CODE_TIMEOUT 1 8 2) = ⟨8, 0⟩ ∧
    captureTime (recvUpTo rx_error_code.ERROR_CODE_NONE 1 9 1) = ⟨9, 0⟩ ∧
    (serviceFunctionReceive (fun _ => recvUpTo rx_error_code.ERROR_CODE_TIMEOUT 1 8)
      (stA true 0)).2.trace = [Event.recv 0 2] ∧
    (serviceFunctionReceive (fun _ => recvUpTo rx_error_code.ERROR_CODE_NONE 1 9)
      (serviceFunctionReceive (fun _ => recvUpTo rx_error_code.ERROR_CODE_TIMEOUT 1 8)
        (stA true 0)).2).2.trace =
      [Event.recv 0 2, Event.recv 0 1,
        Event.pushPacket [7, 7, 7, 7] ⟨5, 0⟩ false "stream0"] := by
  have hk : requested (stA true 0) 0 (stA true 0).receive_timeout = 2 :=
    requested_stA true 0 (by decide)
  obtain ⟨_, _, _, c4, _, _⟩ := usrpReceive_run (stA true 0) 0 (stA true 0).receive_timeout
    (recvUpTo rx_error_code.ERROR_CODE_TIMEOUT 1 8) hwA rfl (by decide)
    (recvUpTo rx_error_code.ERROR_CODE_TIMEOUT 1 8
      (requested (stA true 0) 0 (stA true 0).receive_timeout)) rfl _ rfl
  have h1 := c4 rfl
  rw [hk] at h1
  have hT := receiveTuner_of_false (stA true 0)
    (fun _ => recvUpTo rx_error_code.ERROR_CODE_TIMEOUT 1 8) 0 (serviced_stA 0) _ h1
  have hS := (serviceFunctionReceive_one (fun _ => recvUpTo rx_error_code.ERROR_CODE_TIMEOUT 1 8)
    (stA true 0) hwA rfl rfl rfl (by simp [stA, statusA])).1 _ _ hT
  obtain ⟨_, hs2, hcycle⟩ := stA_after 2
    (withSamples ((stA true 0).usrp_tuners 0) (recvUpTo rx_error_code.ERROR_CODE_TIMEOUT 1 8 2))
    (fun _ => recvUpTo rx_error_code.ERROR_CODE_NONE 1 9)
  generalize hs1 : ({ stA true 0 with
      trace := (stA true 0).trace ++ [Event.recv 0 2]
      usrp_tuners := Function.update (stA true 0).usrp_tuners 0
        (withSamples ((stA true 0).usrp_tuners 0)
          (recvUpTo rx_error_code.ERROR_CODE_TIMEOUT 1 8 2)) } : State) = s1 at hS hs2 hcycle
  have hk2 : requested s1 0 s1.receive_timeout = 1 := by
    subst hs1
    have hform : requested ({ stA true 0 with
        trace := (stA true 0).trace ++ [Event.recv 0 2]
        usrp_tuners := Function.update (stA true 0).usrp_tuners 0
          (withSamples ((stA true 0).usrp_tuners 0)
            (recvUpTo rx_error_code.ERROR_CODE_TIMEOUT 1 8 2)) } : State) 0 1 =
        min (truncToSize (1 * 2)) (sizeSub 4 2 / 2) := rfl
    have hs : sizeSub 4 2 = 2 := sizeSub_eq (by decide) (by norm_num [SIZE_MOD])
    exact hform.trans (by rw [truncToSize_two, hs]; rfl)
  have hdev1 : s1.usrp_device_ptr = some hwA := by subst hs1; rfl
  have hpos1 : (s1.usrp_tuners 0).buffer_size < (s1.usrp_tuners 0).output_buffer.length := by
    subst hs1; decide
  obtain ⟨_, _, c3, _, _, _⟩ := usrpReceive_run s1 0 s1.receive_timeout
    (recvUpTo rx_error_code.ERROR_CODE_NONE 1 9) hwA hdev1 hpos1
    (recvUpTo rx_error_code.ERROR_CODE_NONE 1 9 (requested s1 0 s1.receive_timeout)) rfl _ rfl
  have h2 := c3 rfl (by rw [hk2]; decide) (by rw [hk2]; subst hs1; decide)
  rw [hk2] at h2
  have hp := pushBuffer_quiet ({ s1 with
      trace := s1.trace ++ [Event.recv 0 1]
      usrp_tuners := Function.update s1.usrp_tuners 0
        (withSamples (s1.usrp_tuners 0) (recvUpTo rx_error_code.ERROR_CODE_NONE 1 9 1)) } : State)
    0 (by subst hs1; decide) (by subst hs1; decide) (by subst hs1; rfl)
  have hT2 := receiveTuner_of_full s1 (fun _ => recvUpTo rx_error_code.ERROR_CODE_NONE 1 9) 0
    hs2 _ _ h2 (by subst hs1; decide) hp
  refine ⟨serviced_stA 0, rfl, rfl, rfl, ?_, ?_⟩
  · rw [hS]; subst hs1; rfl
  · rw [hS]
    simp only [Bool.false_eq_true, if_false]
    rw [hcycle, hT2]
    subst hs1
    rfl

/-! ## C30: the bandwidth `deviceSetTuning` applies -/

/-- The hardware calls of `deviceSetTuning` on a transmit tuner, for a request that
passes the three checks: the bandwidth handed to `set_tx_bandwidth` is
`request.bandwidth`. -/
theorem deviceSetTuning_tx_run (fuel : Nat) (request : frontend_tuner_allocation_struct)
    (id : Nat) (st : State) (hw : Hardware) (opt_sr : ℚ)
    (hdev : st.usrp_device_ptr = some hw)
    (hty : (st.frontend_tuner_status id).tuner_type = TunerType.TX)
    (hthread : st.transmit_service_thread = false)
    (hf : ¬ (compareHz request.center_frequency (st.device_channels id).freq_min < 0 ∨
      compareHz request.center_frequency (st.device_channels id).freq_max > 0))
    (hb : ¬ (compareHz request.bandwidth 0 < 0 ∨
      compareHz request.bandwidth (st.device_channels id).bandwidth_max > 0))
    (hs : ¬ (compareHz request.sample_rate 0 < 0 ∨
      compareHz request.sample_rate (st.device_channels id).rate_max > 0))
    (hopt : optimizeRate fuel (st.device_channels id) (st.usrp_ranges id) request.sample_rate =
      some opt_sr) :
    (deviceSetTuning fuel request id st).1 = Except.ok true ∧
    (deviceSetTuning fuel request id st).2.trace = st.trace ++
      [Event.set_tx_freq request.center_frequency (st.device_channels id).chan_num,
        Event.set_tx_bandwidth request.bandwidth (st.device_channels id).chan_num,
        Event.set_tx_rate opt_sr (st.device_channels id).chan_num,
        Event.get_tx_freq (st.device_channels id).chan_num,
        Event.get_tx_bandwidth (st.device_channels id).chan_num,
        Event.get_tx_rate (st.device_channels id).chan_num,
        Event.query_device_info] := by
  unfold deviceSetTuning
  simp only [run_bind, getState, run_ite, if_neg hf, if_neg hb, if_neg hs, hopt, hty]
  simp [interrupt, hty, hthread, run_bind, run_pure, run_ite, getState, hw_set_tx_freq,
    hw_set_tx_bandwidth, hw_set_tx_rate, hw_get_tx_freq, hw_get_tx_bandwidth, hw_get_tx_rate,
    device, hdev, emit, modifyState, setDevice, setStatus, updateDeviceInfo]

/-- The hardware calls of `deviceSetTuning` on a receive tuner with a stream id, for a
request that passes the three checks: the bandwidth handed to `set_rx_bandwidth` is
`optimizeBandwidth(request.bandwidth)`. -/
theorem deviceSetTuning_rx_run (fuel : Nat) (request : frontend_tuner_allocation_struct)
    (id : Nat) (st : State) (hw : Hardware) (opt_sr : ℚ)
    (hdev : st.usrp_device_ptr = some hw)
    (hty : (st.frontend_tuner_status id).tuner_type = TunerType.RX_DIGITIZER)
    (hthread : st.receive_service_thread = false)
    (hid : id < st.num_tuners) (hsid : (st.usrp_tuners id).stream_id ≠ "")
    (hf : ¬ (compareHz request.center_frequency (st.device_channels id).freq_min < 0 ∨
      compareHz request.center_frequency (st.device_channels id).freq_max > 0))
    (hb : ¬ (compareHz request.bandwidth 0 < 0 ∨
      compareHz request.bandwidth (st.device_channels id).bandwidth_max > 0))
    (hs : ¬ (compareHz request.sample_rate 0 < 0 ∨
      compareHz request.sample_rate (st.device_channels id).rate_max > 0))
    (hopt : optimizeRate fuel (st.device_channels id) (st.usrp_ranges id) request.sample_rate =
      some opt_sr) :
    (deviceSetTuning fuel request id st).1 = Except.ok true ∧
    (deviceSetTuning fuel request id st).2.trace = st.trace ++
      [Event.set_rx_freq request.center_frequency (st.device_channels id).chan_num,
        Event.set_rx_bandwidth
          (optimizeBandwidth (st.device_channels id) (st.usrp_ranges id) request.bandwidth)
          (st.device_channels id).chan_num,
        Event.set_rx_rate opt_sr (st.device_channels id).chan_num,
        Event.get_rx_freq (st.device_channels id).chan_num,
        Event.get_rx_bandwidth (st.device_channels id).chan_num,
        Event.get_rx_rate (st.device_channels id).chan_num,
        Event.matchAllocationIdToStreamId request.allocation_id (st.usrp_tuners id).stream_id
          "dataShort_out",
        Event.query_device_info] := by
  have hno : ¬ st.num_tuners ≤ id := not_le.mpr hid
  unfold deviceSetTuning
  simp only [run_bind, getState, run_ite, if_neg hf, if_neg hb, if_neg hs, hopt, hty]
  simp [interrupt, hty, hthread, run_bind, run_pure, run_ite, getState, hw_set_rx_freq,
    hw_set_rx_bandwidth, hw_set_rx_rate, hw_get_rx_freq, hw_get_rx_bandwidth, hw_get_rx_rate,
    device, hdev, emit, modifyState, setDevice, setStatus, setTuner, updateDeviceInfo,
    getStreamId, matchAllocationIdToStreamId, hno, hsid]

/-- The hardware calls of `setTunerBandwidth` on a transmit tuner, for the controlling
allocation id and a bandwidth that passes the check: the bandwidth handed to
`set_tx_bandwidth` is `optimizeBandwidth(bw)`. -/
theorem setTunerBandwidth_tx_run (allocation_id : String) (bw : ℚ) (st : State) (hw : Hardware)
    (idx : Nat) (hmap : getTunerMapping st allocation_id = (idx : Int))
    (hctl : getControlAllocationId st idx = allocation_id)
    (hdev : st.usrp_device_ptr = some hw)
    (hty : (st.frontend_tuner_status idx).tuner_type = TunerType.TX)
    (hthread : st.transmit_service_thread = false)
    (hb : ¬ (compareHz bw 0 < 0 ∨ compareHz bw (st.device_channels idx).bandwidth_max > 0)) :
    (setTunerBandwidth allocation_id bw st).1 = Except.ok () ∧
    (setTunerBandwidth allocation_id bw st).2.trace = st.trace ++
      [Event.set_tx_bandwidth
          (optimizeBandwidth (st.device_channels idx) (st.usrp_ranges idx) bw)
          (st.device_channels idx).chan_num,
        Event.get_tx_bandwidth (st.device_channels idx).chan_num,
        Event.query_device_info] := by
  have hneg : ¬ ((idx : Int) < 0) := int_ofNat_not_neg idx
  have hctl2 : ¬ allocation_id ≠ getControlAllocationId st idx := fun h => h hctl.symm
  unfold setTunerBandwidth
  simp only [run_bind, getState, run_ite, hmap, if_neg hneg, Int.toNat_ofNat, if_neg hctl2,
    if_neg hb, hty]
  simp [interrupt, hty, hthread, run_bind, run_pure, run_ite, getState,
    hw_set_tx_bandwidth, hw_get_tx_bandwidth,
    device, hdev, emit, modifyState, setDevice, setStatus, updateDeviceInfo]

theorem stT_channel (shortQ floatQ : List Packet) (i : Nat) :
    (stT shortQ floatQ).usrp_ranges i = rgA ∧
    ((stT shortQ floatQ).device_channels i).chan_num = 0 ∧
    ((stT shortQ floatQ).device_channels i).clock_max = 100 ∧
    ((stT shortQ floatQ).device_channels i).freq_min = 70 ∧
    ((stT shortQ floatQ).device_channels i).freq_max = 6000 ∧
    ((stT shortQ floatQ).device_channels i).bandwidth_min = 1 ∧
    ((stT shortQ floatQ).device_channels i).bandwidth_max = 39 ∧
    ((stT shortQ floatQ).device_channels i).rate_min = 1 ∧
    ((stT shortQ floatQ).device_channels i).rate_max = 39 := by
  by_cases h : i = 0 <;>
    simp [stT, stA, chA, rgA, channelOf, exampleRanges, intervalRange, h]

theorem optimizeRate_stT (shortQ floatQ : List Packet) (i fuel : Nat) :
    optimizeRate fuel ((stT shortQ floatQ).device_channels i) ((stT shortQ floatQ).usrp_ranges i)
      25 = some 25 := by
  obtain ⟨h1, _, h3, _, _, _, _, _, _⟩ := stT_channel shortQ floatQ i
  have hd : roundToSize (((stT shortQ floatQ).device_channels i).clock_max / 25) = 4 := by
    rw [h3]
    apply roundToSize_eq <;> norm_num [SIZE_MOD]
  have hg : ¬ compareHz (25 : ℚ) 0 ≤ 0 := by
    rw [compareHz_nonpos_iff]; norm_num
  have hv : ((stT shortQ floatQ).usrp_ranges i).sample_rate.clip
      (ddiv ((stT shortQ floatQ).device_channels i).clock_max 4) = 25 := by
    rw [h1, h3]
    norm_num [rgA, exampleRanges, intervalRange, ddiv]
  have hc2 : 0 ≤ compareHz (25 : ℚ) 25 := by
    rw [compareHz_nonneg_iff]
  simp only [optimizeRate, if_neg hg, hd, hv, if_pos hc2]

theorem optimizeBandwidth_stT (shortQ floatQ : List Packet) (i : Nat) :
    optimizeBandwidth ((stT shortQ floatQ).device_channels i)
      ((stT shortQ floatQ).usrp_ranges i) (1 / 2) = 1 := by
  obtain ⟨h1, _, _, _, _, h6, _, _, _⟩ := stT_channel shortQ floatQ i
  unfold optimizeBandwidth
  rw [h1]
  norm_num [compareHz, rgA, exampleRanges, intervalRange]

theorem requestA_valid (shortQ floatQ : List Packet) (i : Nat) :
    ¬ (compareHz (requestA (1 / 2)).center_frequency
          ((stT shortQ floatQ).device_channels i).freq_min < 0 ∨
        compareHz (requestA (1 / 2)).center_frequency
          ((stT shortQ floatQ).device_channels i).freq_max > 0) ∧
    ¬ (compareHz (requestA (1 / 2)).bandwidth 0 < 0 ∨
        compareHz (requestA (1 / 2)).bandwidth
          ((stT shortQ floatQ).device_channels i).bandwidth_max > 0) ∧
    ¬ (compareHz (requestA (1 / 2)).sample_rate 0 < 0 ∨
        compareHz (requestA (1 / 2)).sample_rate
          ((stT shortQ floatQ).device_channels i).rate_max > 0) := by
  obtain ⟨_, _, _, h4, h5, _, h7, _, h9⟩ := stT_channel shortQ floatQ i
  rw [h4, h5, h7, h9]
  norm_num [compareHz, requestA]

/-- C30 fails on the example device, whose channels have the bandwidth range 1 to 39:
the request for frequency 2400, bandwidth 1/2 and rate 25 passes the checks of
`deviceSetTuning`, and `optimizeBandwidth(1/2)` is 1. On the receive tuner 0
`deviceSetTuning` hands 1 to the hardware, and on the transmit tuner 1
`setTunerBandwidth` hands 1 to the hardware for the same bandwidth, but
`deviceSetTuning` on the transmit tuner 1 hands the hardware the requested 1/2. -/
theorem deviceSetTuning_tx_bandwidth_not_optimized :
    optimizeBandwidth ((stT [] []).device_channels 1) ((stT [] []).usrp_ranges 1) (1 / 2) = 1 ∧
    (deviceSetTuning 4 (requestA (1 / 2)) 1 (stT [] [])).1 = Except.ok true ∧
    (deviceSetTuning 4 (requestA (1 / 2)) 1 (stT [] [])).2.trace =
      [Event.set_tx_freq 2400 0, Event.set_tx_bandwidth (1 / 2) 0, Event.set_tx_rate 25 0,
        Event.get_tx_freq 0, Event.get_tx_bandwidth 0, Event.get_tx_rate 0,
        Event.query_device_info] ∧
    (setTunerBandwidth "alloc1" (1 / 2) (stT [] [])).2.trace =
      [Event.set_tx_bandwidth 1 0, Event.get_tx_bandwidth 0, Event.query_device_info] ∧
    (deviceSetTuning 4 (requestA (1 / 2)) 0 (stT [] [])).2.trace =
      [Event.set_rx_freq 2400 0, Event.set_rx_bandwidth 1 0, Event.set_rx_rate 25 0,
        Event.get_rx_freq 0, Event.get_rx_bandwidth 0, Event.get_rx_rate 0,
        Event.matchAllocationIdToStreamId "alloc1" "stream0" "dataShort_out",
        Event.query_device_info] := by
  obtain ⟨v1, v2, v3⟩ := requestA_valid [] [] 1
  obtain ⟨w1, w2, w3⟩ := requestA_valid [] [] 0
  obtain ⟨t1, t2⟩ := deviceSetTuning_tx_run 4 (requestA (1 / 2)) 1 (stT [] []) hwA 25 rfl
    (by simp [stT, statusA]) rfl v1 v2 v3 (optimizeRate_stT [] [] 1 4)
  obtain ⟨r1, r2⟩ := deviceSetTuning_rx_run 4 (requestA (1 / 2)) 0 (stT [] []) hwA 25 rfl
    (by simp [stT, statusA]) rfl (by decide) (by decide) w1 w2 w3 (optimizeRate_stT [] [] 0 4)
  obtain ⟨b1, b2⟩ := setTunerBandwidth_tx_run "alloc1" (1 / 2) (stT [] []) hwA 1
    (by decide) (by decide) rfl (by simp [stT, statusA]) rfl v2
  have hch1 := (stT_channel [] [] 1).2.1
  have hch0 := (stT_channel [] [] 0).2.1
  have hbw : (requestA (1 / 2)).bandwidth = 1 / 2 := rfl
  rw [hbw] at r2
  refine ⟨optimizeBandwidth_stT [] [] 1, t1, ?_, ?_, ?_⟩
  · rw [t2, hch1]; rfl
  · rw [b2, hch1, optimizeBandwidth_stT [] [] 1]; rfl
  · rw [r2, hch0, optimizeBandwidth_stT [] [] 0]; rfl

/-! ## C22: lock ordering -/

theorem locking_run_bind {α β : Type} (m : Locking α) (f : α → Locking β) (st : State) :
    (m >>= f) st =
      match (m st).1 with
      | (Except.ok a, st1) => ((f a st1).1, (m st).2 ++ (f a st1).2)
      | (Except.error e, st1) => ((Except.error e, st1), (m st).2) := rfl

theorem erase_pure {α : Type} (a : α) : erase (pure a : Locking α) = (pure a : Call α) := rfl

theorem erase_unlocked {α : Type} (m : Call α) : erase (unlocked m) = m := rfl

theorem erase_withLock {α : Type} (l : Lock) (m : Locking α) :
    erase (withLock l m) = erase m := rfl

theorem erase_bind {α β : Type} (m : Locking α) (f : α → Locking β) :
    erase (m >>= f) = (erase m >>= fun a => erase (f a)) := by
  funext st
  show ((m >>= f) st).1 = (erase m >>= fun a => erase (f a)) st
  rw [locking_run_bind, run_bind]
  show _ = match (m st).1 with
    | (Except.ok a, st1) => (f a st1).1
    | (Except.error e, st1) => (Except.error e, st1)
  rcases (m st).1 with ⟨_ | _, _⟩ <;> rfl

theorem erase_ite {α : Type} (c : Prop) [Decidable c] (a b : Locking α) :
    erase (if c then a else b) = if c then erase a else erase b := by
  split <;> rfl

theorem call_bind_assoc {α β γ : Type} (m : Call α) (f : α → Call β) (g : β → Call γ) :
    (m >>= f) >>= g = m >>= fun a => f a >>= g := by
  funext st
  simp only [run_bind]
  rcases m st with ⟨_ | _, _⟩ <;> rfl

theorem call_pure_bind {α β : Type} (a : α) (f : α → Call β) :
    (pure a : Call α) >>= f = f a := rfl

theorem heldAfter_append (bad : Lock → List Lock → Bool) :
    ∀ (a b : List LockEvent) (held : List Lock),
      heldAfter bad held (a ++ b) = (heldAfter bad held a).bind (fun h => heldAfter bad h b) := by
  intro a
  induction a with
  | nil => intro b held; rfl
  | cons e rest ih =>
    intro b held
    cases e with
    | acquire l =>
      simp only [List.cons_append, heldAfter]
      split
      · rfl
      · exact ih b _
    | release l =>
      simp only [List.cons_append, heldAfter]
      exact ih b _

section locks
variable {bad : Lock → List Lock → Bool} {C : List Lock → Prop}

theorem locks_pure {α : Type} (a : α) : Locks bad C (pure a : Locking α) :=
  fun _ _ _ => rfl

theorem locks_unlocked {α : Type} (m : Call α) : Locks bad C (unlocked m) :=
  fun _ _ _ => rfl

theorem locks_bind {α β : Type} {m : Locking α} {f : α → Locking β}
    (hm : Locks bad C m) (hf : ∀ a, Locks bad C (f a)) : Locks bad C (m >>= f) := by
  intro st held hC
  have h1 := hm st held hC
  rw [locking_run_bind]
  rcases hr : (m st).1 with ⟨e | a, st1⟩
  · exact h1
  · show heldAfter bad held ((m st).2 ++ (f a st1).2) = some held
    rw [heldAfter_append, h1]
    exact hf a st1 held hC

theorem locks_ite {α : Type} {c : Prop} [Decidable c] {a b : Locking α}
    (ha : Locks bad C a) (hb : Locks bad C b) : Locks bad C (if c then a else b) := by
  split
  · exact ha
  · exact hb

theorem locks_mono {α : Type} {C2 : List Lock → Prop} {m : Locking α}
    (h : ∀ held, C held → C2 held) (hm : Locks bad C2 m) : Locks bad C m :=
  fun st held hC => hm st held (h held hC)

theorem locks_withLock {α : Type} {C2 : List Lock → Prop} {l : Lock} {body : Locking α}
    (hok : ∀ held, C held → bad l held = false)
    (hin : ∀ held, C held → C2 (l :: held))
    (hb : Locks bad C2 body) : Locks bad C (withLock l body) := by
  intro st held hC
  show heldAfter bad held (LockEvent.acquire l :: (body st).2 ++ [LockEvent.release l]) =
    some held
  have h2 : heldAfter bad (l :: held) ((body st).2 ++ [LockEvent.release l]) = some held := by
    rw [heldAfter_append, hb st (l :: held) (hin held hC)]
    simp [heldAfter]
  simp only [List.cons_append, heldAfter, hok held hC, Bool.false_eq_true, if_false]
  exact h2

end locks

/-! ### The ordering rule: `prop_lock` is not acquired under a tuner lock -/

theorem order_prop_section {α : Type} {body : Locking α}
    (hb : Locks propUnderTuner NoTunerHeld body) :
    Locks propUnderTuner NoTunerHeld (withLock Lock.prop_lock body) :=
  locks_withLock
    (fun held hC => by
      have h : held.any isTunerLock = false := hC
      simp [propUnderTuner, h])
    (fun held hC => by
      have h : held.any isTunerLock = false := hC
      show (Lock.prop_lock :: held).any isTunerLock = false
      simp [List.any_cons, isTunerLock, h])
    hb

theorem order_tuner_section {α : Type} {C : List Lock → Prop} {tuner_id : Nat}
    {body : Locking α} (hb : Locks propUnderTuner (fun _ => True) body) :
    Locks propUnderTuner C (withLock (Lock.tuner_lock tuner_id) body) :=
  locks_withLock (fun _ _ => by simp [propUnderTuner]) (fun _ _ => trivial) hb

theorem order_thread_section {α : Type} {l : Lock} {body : Locking α}
    (hl : l = Lock.receive_service_thread_lock ∨ l = Lock.transmit_service_thread_lock)
    (hb : Locks propUnderTuner (fun _ => True) body) :
    Locks propUnderTuner (fun _ => True) (withLock l body) :=
  locks_withLock
    (fun _ _ => by rcases hl with h | h <;> simp [propUnderTuner, h])
    (fun _ _ => trivial) hb

theorem order_interrupt {C : List Lock → Prop} (tuner_id : Nat) :
    Locks propUnderTuner C (interrupt_locks tuner_id) := by
  refine locks_mono (fun _ _ => trivial) ?_
  unfold interrupt_locks
  refine locks_bind (locks_unlocked _) (fun st => ?_)
  split
  · exact order_thread_section (Or.inl rfl) (locks_unlocked _)
  · exact order_thread_section (Or.inr rfl) (locks_unlocked _)
  · exact locks_pure _

theorem order_setTunerCenterFrequency (allocation_id : String) (freq : ℚ) :
    Locks propUnderTuner NoTunerHeld (setTunerCenterFrequency_locks allocation_id freq) := by
  unfold setTunerCenterFrequency_locks
  repeat' first
    | exact locks_pure _
    | exact locks_unlocked _
    | exact order_interrupt _
    | apply order_prop_section
    | apply order_tuner_section
    | apply locks_bind
    | apply locks_ite
    | split
    | intro _

theorem order_setTunerBandwidth (allocation_id : String) (bw : ℚ) :
    Locks propUnderTuner NoTunerHeld (setTunerBandwidth_locks allocation_id bw) := by
  unfold setTunerBandwidth_locks
  repeat' first
    | exact locks_pure _
    | exact locks_unlocked _
    | exact order_interrupt _
    | apply order_prop_section
    | apply order_tuner_section
    | apply locks_bind
    | apply locks_ite
    | split
    | intro _

theorem order_setTunerOutputSampleRate (fuel : Nat) (allocation_id : String) (sr : ℚ) :
    Locks propUnderTuner NoTunerHeld (setTunerOutputSampleRate_locks fuel allocation_id sr) := by
  unfold setTunerOutputSampleRate_locks
  repeat' first
    | exact locks_pure _
    | exact locks_unlocked _
    | exact order_interrupt _
    | apply order_prop_section
    | apply order_tuner_section
    | apply locks_bind
    | apply locks_ite
    | split
    | intro _

theorem order_setTunerEnable (allocation_id : String) (enable : Bool) :
    Locks propUnderTuner NoTunerHeld (setTunerEnable_locks allocation_id enable) := by
  unfold setTunerEnable_locks
  repeat' first
    | exact locks_pure _
    | exact locks_unlocked _
    | exact order_interrupt _
    | apply order_prop_section
    | apply order_tuner_section
    | apply locks_bind
    | apply locks_ite
    | split
    | intro _

theorem order_deviceEnable (tuner_id : Nat) :
    Locks propUnderTuner NoTunerHeld (deviceEnable_locks tuner_id) := by
  unfold deviceEnable_locks
  repeat' first
    | exact locks_pure _
    | exact locks_unlocked _
    | exact order_interrupt _
    | apply order_prop_section
    | apply order_tuner_section
    | apply locks_bind
    | apply locks_ite
    | split
    | intro _

theorem order_deviceDisable (tuner_id : Nat) :
    Locks propUnderTuner NoTunerHeld (deviceDisable_locks tuner_id) := by
  unfold deviceDisable_locks
  repeat' first
    | exact locks_pure _
    | exact locks_unlocked _
    | exact order_interrupt _
    | apply order_prop_section
    | apply order_tuner_section
    | apply locks_bind
    | apply locks_ite
    | split
    | intro _

theorem order_deviceSetTuning (fuel : Nat) (request : frontend_tuner_allocation_struct)
    (tuner_id : Nat) :
    Locks propUnderTuner NoTunerHeld (deviceSetTuning_locks fuel request tuner_id) := by
  unfold deviceSetTuning_locks
  repeat' first
    | exact locks_pure _
    | exact locks_unlocked _
    | exact order_interrupt _
    | apply order_prop_section
    | apply order_tuner_section
    | apply locks_bind
    | apply locks_ite
    | split
    | intro _

theorem order_receiveTuner (recv : Nat → Nat → RecvResult) (tuner_id : Nat) :
    Locks propUnderTuner NoTunerHeld (receiveTuner_locks recv tuner_id) := by
  unfold receiveTuner_locks
  repeat' first
    | exact locks_pure _
    | exact locks_unlocked _
    | apply order_tuner_section
    | apply locks_bind
    | apply locks_ite
    | intro _

theorem order_receiveLoop (recv : Nat → Nat → RecvResult) :
    ∀ (ids : List Nat) (rx_data : Bool),
      Locks propUnderTuner NoTunerHeld (receiveLoop_locks recv ids rx_data) := by
  intro ids
  induction ids with
  | nil => intro rx_data; exact locks_pure _
  | cons id rest ih =>
    intro rx_data
    exact locks_bind (order_receiveTuner recv id) (fun _ => ih _)

theorem order_serviceFunctionReceive (recv : Nat → Nat → RecvResult) :
    Locks propUnderTuner NoTunerHeld (serviceFunctionReceive_locks recv) := by
  unfold serviceFunctionReceive_locks
  repeat' first
    | exact locks_pure _
    | exact locks_unlocked _
    | exact order_receiveLoop recv _ _
    | apply locks_bind
    | apply locks_ite
    | intro _

theorem order_transmitTuner (send : Nat → Nat → Nat) (port : TxPort) (packet : Packet)
    (tuner_id : Nat) :
    Locks propUnderTuner NoTunerHeld (transmitTuner_locks send port packet tuner_id) := by
  unfold transmitTuner_locks
  repeat' first
    | exact locks_pure _
    | exact locks_unlocked _
    | apply order_tuner_section
    | apply locks_bind
    | apply locks_ite
    | intro _

theorem order_transmitLoop (send : Nat → Nat → Nat) (port : TxPort) (packet : Packet) :
    ∀ ids : List Nat,
      Locks propUnderTuner NoTunerHeld (transmitLoop_locks send port packet ids) := by
  intro ids
  induction ids with
  | nil => exact locks_pure _
  | cons id rest ih =>
    exact locks_bind (order_transmitTuner send port packet id) (fun _ => ih)

theorem order_transmitHelper (send : Nat → Nat → Nat) (port : TxPort) :
    Locks propUnderTuner NoTunerHeld (transmitHelper_locks send port) := by
  unfold transmitHelper_locks
  repeat' first
    | exact locks_pure _
    | exact locks_unlocked _
    | exact order_transmitLoop send port _ _
    | apply locks_bind
    | apply locks_ite
    | split
    | intro _

theorem order_serviceFunctionTransmit (send : Nat → Nat → Nat) :
    Locks propUnderTuner NoTunerHeld (serviceFunctionTransmit_locks send) := by
  unfold serviceFunctionTransmit_locks
  repeat' first
    | exact locks_pure _
    | exact locks_unlocked _
    | exact order_transmitHelper send _
    | apply locks_bind
    | apply locks_ite
    | intro _

theorem order_updateRfFlowIdLoop (tuner_type : TunerType) (rf_flow_id : String) :
    ∀ ids : List Nat,
      Locks propUnderTuner NoTunerHeld (updateRfFlowIdLoop tuner_type rf_flow_id ids) := by
  intro ids
  induction ids with
  | nil => exact locks_pure _
  | cons id rest ih =>
    unfold updateRfFlowIdLoop
    repeat' first
      | exact ih
      | exact locks_pure _
      | exact locks_unlocked _
      | exact order_interrupt _
      | apply order_tuner_section
      | apply locks_bind
      | apply locks_ite
      | intro _

theorem order_updateRfFlowId (tuner_type : TunerType) :
    Locks propUnderTuner NoTunerHeld (updateRfFlowId tuner_type) := by
  unfold updateRfFlowId
  refine locks_bind (locks_unlocked _) (fun st => ?_)
  split
  · exact order_updateRfFlowIdLoop _ _ _
  · exact order_updateRfFlowIdLoop _ _ _
  · exact locks_pure _

theorem order_set_rf_flow_id (port_name id : String) :
    Locks propUnderTuner NoTunerHeld (set_rf_flow_id port_name id) := by
  unfold set_rf_flow_id
  repeat' first
    | exact locks_pure _
    | exact locks_unlocked _
    | exact order_updateRfFlowId _
    | apply order_prop_section
    | apply locks_bind
    | apply locks_ite
    | intro _

theorem order_set_rfinfo_pkt (port_name : String) (pkt : RFInfoPkt) :
    Locks propUnderTuner NoTunerHeld (set_rfinfo_pkt port_name pkt) := by
  unfold set_rfinfo_pkt
  repeat' first
    | exact locks_pure _
    | exact locks_unlocked _
    | exact order_updateRfFlowId _
    | apply order_prop_section
    | apply locks_bind
    | apply locks_ite
    | intro _

theorem order_updateDeviceGainLoop :
    ∀ ids : List Nat, Locks propUnderTuner NoTunerHeld (updateDeviceGainLoop ids) := by
  intro ids
  induction ids with
  | nil => exact locks_pure _
  | cons id rest ih =>
    unfold updateDeviceGainLoop
    repeat' first
      | exact ih
      | exact locks_pure _
      | exact locks_unlocked _
      | exact order_interrupt _
      | apply order_tuner_section
      | apply locks_bind
      | apply locks_ite
      | intro _

theorem order_deviceGainChanged : Locks propUnderTuner NoTunerHeld deviceGainChanged := by
  unfold deviceGainChanged updateDeviceGain
  repeat' first
    | exact locks_pure _
    | exact locks_unlocked _
    | exact order_updateDeviceGainLoop _
    | apply order_prop_section
    | apply locks_bind
    | apply locks_ite
    | intro _

theorem order_updateDeviceReferenceSourceLoop (source_prop : Int) :
    ∀ ids : List Nat,
      Locks propUnderTuner NoTunerHeld (updateDeviceReferenceSourceLoop source_prop ids) := by
  intro ids
  induction ids with
  | nil => exact locks_pure _
  | cons id rest ih =>
    unfold updateDeviceReferenceSourceLoop
    repeat' first
      | exact ih
      | exact locks_pure _
      | exact locks_unlocked _
      | exact order_interrupt _
      | apply order_tuner_section
      | apply locks_bind
      | apply locks_ite
      | intro _

theorem order_deviceReferenceSourceChanged :
    Locks propUnderTuner NoTunerHeld deviceReferenceSourceChanged := by
  unfold deviceReferenceSourceChanged updateDeviceReferenceSource
  repeat' first
    | exact locks_pure _
    | exact locks_unlocked _
    | exact order_updateDeviceReferenceSourceLoop _ _
    | apply order_prop_section
    | apply locks_bind
    | apply locks_ite
    | intro _

theorem order_updateGroupIdLoop :
    ∀ ids : List Nat, Locks propUnderTuner NoTunerHeld (updateGroupIdLoop ids) := by
  intro ids
  induction ids with
  | nil => exact locks_pure _
  | cons id rest ih =>
    unfold updateGroupIdLoop
    repeat' first
      | exact ih
      | exact locks_pure _
      | exact locks_unlocked _
      | exact order_interrupt _
      | apply order_tuner_section
      | apply locks_bind
      | apply locks_ite
      | intro _

theorem order_deviceGroupIdChanged : Locks propUnderTuner NoTunerHeld deviceGroupIdChanged := by
  unfold deviceGroupIdChanged updateGroupId
  repeat' first
    | exact locks_pure _
    | exact locks_unlocked _
    | exact order_updateGroupIdLoop _
    | apply order_prop_section
    | apply locks_bind
    | apply locks_ite
    | intro _

/-! ### The channel number is copied under `prop_lock` before the tuner lock is taken -/

theorem early_prop_section {α : Type} {C : List Lock → Prop} {body : Locking α}
    (hb : Locks tunerUnderProp (fun _ => True) body) :
    Locks tunerUnderProp C (withLock Lock.prop_lock body) :=
  locks_withLock (fun _ _ => by simp [tunerUnderProp, isTunerLock]) (fun _ _ => trivial) hb

theorem early_tuner_section {α : Type} {tuner_id : Nat} {body : Locking α}
    (hb : Locks tunerUnderProp PropNotHeld body) :
    Locks tunerUnderProp PropNotHeld (withLock (Lock.tuner_lock tuner_id) body) :=
  locks_withLock
    (fun held hC => by
      have h : Lock.prop_lock ∉ held := hC
      simp [tunerUnderProp, h])
    (fun held hC => by
      have h : Lock.prop_lock ∉ held := hC
      show Lock.prop_lock ∉ Lock.tuner_lock tuner_id :: held
      simp [h])
    hb

theorem early_thread_section {α : Type} {l : Lock} {body : Locking α}
    (hl : l = Lock.receive_service_thread_lock ∨ l = Lock.transmit_service_thread_lock)
    (hb : Locks tunerUnderProp (fun _ => True) body) :
    Locks tunerUnderProp (fun _ => True) (withLock l body) :=
  locks_withLock
    (fun _ _ => by rcases hl with h | h <;> simp [tunerUnderProp, isTunerLock, h])
    (fun _ _ => trivial) hb

theorem early_interrupt {C : List Lock → Prop} (tuner_id : Nat) :
    Locks tunerUnderProp C (interrupt_locks tuner_id) := by
  refine locks_mono (fun _ _ => trivial) ?_
  unfold interrupt_locks
  refine locks_bind (locks_unlocked _) (fun st => ?_)
  split
  · exact early_thread_section (Or.inl rfl) (locks_unlocked _)
  · exact early_thread_section (Or.inr rfl) (locks_unlocked _)
  · exact locks_pure _

theorem early_setTunerCenterFrequency (allocation_id : String) (freq : ℚ) :
    Locks tunerUnderProp PropNotHeld (setTunerCenterFrequency_locks allocation_id freq) := by
  unfold setTunerCenterFrequency_locks
  repeat' first
    | exact locks_pure _
    | exact locks_unlocked _
    | exact early_interrupt _
    | apply early_prop_section
    | apply early_tuner_section
    | apply locks_bind
    | apply locks_ite
    | split
    | intro _

theorem early_setTunerBandwidth (allocation_id : String) (bw : ℚ) :
    Locks tunerUnderProp PropNotHeld (setTunerBandwidth_locks allocation_id bw) := by
  unfold setTunerBandwidth_locks
  repeat' first
    | exact locks_pure _
    | exact locks_unlocked _
    | exact early_interrupt _
    | apply early_prop_section
    | apply early_tuner_section
    | apply locks_bind
    | apply locks_ite
    | split
    | intro _

theorem early_setTunerOutputSampleRate (fuel : Nat) (allocation_id : String) (sr : ℚ) :
    Locks tunerUnderProp PropNotHeld (setTunerOutputSampleRate_locks fuel allocation_id sr) := by
  unfold setTunerOutputSampleRate_locks
  repeat' first
    | exact locks_pure _
    | exact locks_unlocked _
    | exact early_interrupt _
    | apply early_prop_section
    | apply early_tuner_section
    | apply locks_bind
    | apply locks_ite
    | split
    | intro _

theorem early_setTunerEnable (allocation_id : String) (enable : Bool) :
    Locks tunerUnderProp PropNotHeld (setTunerEnable_locks allocation_id enable) := by
  unfold setTunerEnable_locks
  repeat' first
    | exact locks_pure _
    | exact locks_unlocked _
    | exact early_interrupt _
    | apply early_prop_section
    | apply early_tuner_section
    | apply locks_bind
    | apply locks_ite
    | split
    | intro _

theorem early_deviceEnable (tuner_id : Nat) :
    Locks tunerUnderProp PropNotHeld (deviceEnable_locks tuner_id) := by
  unfold deviceEnable_locks
  repeat' first
    | exact locks_pure _
    | exact locks_unlocked _
    | exact early_interrupt _
    | apply early_prop_section
    | apply early_tuner_section
    | apply locks_bind
    | apply locks_ite
    | split
    | intro _

theorem early_deviceDisable (tuner_id : Nat) :
    Locks tunerUnderProp PropNotHeld (deviceDisable_locks tuner_id) := by
  unfold deviceDisable_locks
  repeat' first
    | exact locks_pure _
    | exact locks_unlocked _
    | exact early_interrupt _
    | apply early_prop_section
    | apply early_tuner_section
    | apply locks_bind
    | apply locks_ite
    | split
    | intro _

theorem early_deviceSetTuning (fuel : Nat) (request : frontend_tuner_allocation_struct)
    (tuner_id : Nat) :
    Locks tunerUnderProp PropNotHeld (deviceSetTuning_locks fuel request tuner_id) := by
  unfold deviceSetTuning_locks
  repeat' first
    | exact locks_pure _
    | exact locks_unlocked _
    | exact early_interrupt _
    | apply early_prop_section
    | apply early_tuner_section
    | apply locks_bind
    | apply locks_ite
    | split
    | intro _

theorem first_unlocked {α : Type} (c : Call α) : PropSectionFirst (unlocked c) :=
  fun _ => Or.inl rfl

theorem first_ite {α : Type} {c : Prop} [Decidable c] {a b : Locking α}
    (ha : PropSectionFirst a) (hb : PropSectionFirst b) :
    PropSectionFirst (if c then a else b) := by
  split
  · exact ha
  · exact hb

theorem first_bind_unlocked {α β : Type} (c : Call α) {f : α → Locking β}
    (hf : ∀ a, PropSectionFirst (f a)) : PropSectionFirst (unlocked c >>= f) := by
  intro st
  rw [locking_run_bind]
  rcases hr : (unlocked c st).1 with ⟨e | a, st1⟩
  · exact Or.inl rfl
  · have h := hf a st1
    show ([] ++ (f a st1).2 = [] ∨ ∃ rest, [] ++ (f a st1).2 = _)
    simpa using h

theorem first_bind_section {α β : Type} {body : Locking α} (hb : ∀ st, (body st).2 = [])
    (f : α → Locking β) : PropSectionFirst (withLock Lock.prop_lock body >>= f) := by
  intro st
  rw [locking_run_bind]
  have hlog : (withLock Lock.prop_lock body st).2 =
      [LockEvent.acquire Lock.prop_lock, LockEvent.release Lock.prop_lock] := by
    show LockEvent.acquire Lock.prop_lock :: (body st).2 ++ [LockEvent.release Lock.prop_lock] = _
    rw [hb st]
    rfl
  rcases hr : (withLock Lock.prop_lock body st).1 with ⟨e | a, st1⟩
  · exact Or.inr ⟨[], hlog⟩
  · refine Or.inr ⟨(f a st1).2, ?_⟩
    show (withLock Lock.prop_lock body st).2 ++ (f a st1).2 = _
    rw [hlog]
    rfl

theorem first_setTunerCenterFrequency (allocation_id : String) (freq : ℚ) :
    PropSectionFirst (setTunerCenterFrequency_locks allocation_id freq) := by
  unfold setTunerCenterFrequency_locks
  repeat' first
    | exact first_unlocked _
    | exact first_bind_section (fun _ => rfl) _
    | apply first_bind_unlocked
    | apply first_ite
    | intro _

theorem first_setTunerBandwidth (allocation_id : String) (bw : ℚ) :
    PropSectionFirst (setTunerBandwidth_locks allocation_id bw) := by
  unfold setTunerBandwidth_locks
  repeat' first
    | exact first_unlocked _
    | exact first_bind_section (fun _ => rfl) _
    | apply first_bind_unlocked
    | apply first_ite
    | intro _

theorem first_setTunerOutputSampleRate (fuel : Nat) (allocation_id : String) (sr : ℚ) :
    PropSectionFirst (setTunerOutputSampleRate_locks fuel allocation_id sr) := by
  unfold setTunerOutputSampleRate_locks
  repeat' first
    | exact first_unlocked _
    | exact first_bind_section (fun _ => rfl) _
    | apply first_bind_unlocked
    | apply first_ite
    | intro _

theorem first_setTunerEnable (allocation_id : String) (enable : Bool) :
    PropSectionFirst (setTunerEnable_locks allocation_id enable) := by
  unfold setTunerEnable_locks
  repeat' first
    | exact first_unlocked _
    | exact first_bind_section (fun _ => rfl) _
    | apply first_bind_unlocked
    | apply first_ite
    | intro _

theorem first_deviceEnable (tuner_id : Nat) : PropSectionFirst (deviceEnable_locks tuner_id) := by
  unfold deviceEnable_locks
  repeat' first
    | exact first_unlocked _
    | exact first_bind_section (fun _ => rfl) _
    | apply first_bind_unlocked
    | apply first_ite
    | intro _

theorem first_deviceDisable (tuner_id : Nat) :
    PropSectionFirst (deviceDisable_locks tuner_id) := by
  unfold deviceDisable_locks
  repeat' first
    | exact first_unlocked _
    | exact first_bind_section (fun _ => rfl) _
    | apply first_bind_unlocked
    | apply first_ite
    | intro _

theorem first_deviceSetTuning (fuel : Nat) (request : frontend_tuner_allocation_struct)
    (tuner_id : Nat) : PropSectionFirst (deviceSetTuning_locks fuel request tuner_id) := by
  unfold deviceSetTuning_locks
  repeat' first
    | exact first_unlocked _
    | exact first_bind_section (fun _ => rfl) _
    | apply first_bind_unlocked
    | apply first_ite
    | intro _

/-! ### Without the lock events the operations are those defined before -/

theorem erase_interrupt (tuner_id : Nat) : erase (interrupt_locks tuner_id) = interrupt tuner_id := by
  unfold interrupt_locks interrupt
  rw [erase_bind, erase_unlocked]
  congr 1
  funext st
  split <;> rfl

theorem call_ite_bind {α β : Type} (c : Prop) [Decidable c] (a b : Call α) (f : α → Call β) :
    (if c then a else b) >>= f = if c then a >>= f else b >>= f := by
  split <;> rfl

theorem erase_setTunerCenterFrequency (allocation_id : String) (freq : ℚ) :
    erase (setTunerCenterFrequency_locks allocation_id freq) =
      setTunerCenterFrequency allocation_id freq := by
  unfold setTunerCenterFrequency_locks setTunerCenterFrequency
  rw [erase_bind, erase_unlocked]
  congr 1
  funext st
  simp only [erase_ite, erase_unlocked]
  split
  · rfl
  split
  · rfl
  rw [erase_bind, erase_withLock, erase_unlocked]
  split
  · rfl
  · simp only [call_pure_bind]
    split
    · simp only [erase_bind, erase_withLock, erase_unlocked, erase_interrupt, call_bind_assoc,
        call_ite_bind, call_pure_bind]
    · simp only [erase_bind, erase_withLock, erase_unlocked, erase_interrupt, call_bind_assoc]
    · rfl

theorem erase_setTunerBandwidth (allocation_id : String) (bw : ℚ) :
    erase (setTunerBandwidth_locks allocation_id bw) = setTunerBandwidth allocation_id bw := by
  unfold setTunerBandwidth_locks setTunerBandwidth
  rw [erase_bind, erase_unlocked]
  congr 1
  funext st
  simp only [erase_ite, erase_unlocked]
  split
  · rfl
  split
  · rfl
  rw [erase_bind, erase_withLock, erase_unlocked]
  split
  · rfl
  · simp only [call_pure_bind]
    split
    · simp only [erase_bind, erase_withLock, erase_unlocked, erase_interrupt, call_bind_assoc]
    · simp only [erase_bind, erase_withLock, erase_unlocked, erase_interrupt, call_bind_assoc]
    · rfl

theorem erase_setTunerOutputSampleRate (fuel : Nat) (allocation_id : String) (sr : ℚ) :
    erase (setTunerOutputSampleRate_locks fuel allocation_id sr) =
      setTunerOutputSampleRate fuel allocation_id sr := by
  unfold setTunerOutputSampleRate_locks setTunerOutputSampleRate
  rw [erase_bind, erase_unlocked]
  congr 1
  funext st
  simp only [erase_ite, erase_unlocked]
  split
  · rfl
  split
  · rfl
  rw [erase_bind, erase_withLock, erase_unlocked]
  split
  · rfl
  · split
    · rfl
    · simp only [call_pure_bind]
      split
      · simp only [erase_bind, erase_withLock, erase_unlocked, erase_interrupt, call_bind_assoc]
      · simp only [erase_bind, erase_withLock, erase_unlocked, erase_interrupt, call_bind_assoc]
      · rfl

theorem erase_setTunerEnable (allocation_id : String) (enable : Bool) :
    erase (setTunerEnable_locks allocation_id enable) = setTunerEnable allocation_id enable := by
  unfold setTunerEnable_locks setTunerEnable
  rw [erase_bind, erase_unlocked]
  congr 1
  funext st
  simp only [erase_ite, erase_unlocked]
  split
  · rfl
  split
  · rfl
  simp only [erase_bind, erase_withLock, erase_unlocked, erase_interrupt, erase_pure,
    call_pure_bind]

theorem erase_deviceEnable (tuner_id : Nat) :
    erase (deviceEnable_locks tuner_id) = deviceEnable tuner_id := by
  unfold deviceEnable_locks deviceEnable
  simp only [erase_bind, erase_withLock, erase_unlocked, erase_interrupt, erase_pure,
    call_pure_bind]

theorem erase_deviceDisable (tuner_id : Nat) :
    erase (deviceDisable_locks tuner_id) = deviceDisable tuner_id := by
  unfold deviceDisable_locks deviceDisable
  simp only [erase_bind, erase_withLock, erase_unlocked, erase_interrupt, erase_pure,
    call_pure_bind]

theorem erase_deviceSetTuning (fuel : Nat) (request : frontend_tuner_allocation_struct)
    (tuner_id : Nat) :
    erase (deviceSetTuning_locks fuel request tuner_id) =
      deviceSetTuning fuel request tuner_id := by
  unfold deviceSetTuning_locks deviceSetTuning
  rw [erase_bind, erase_unlocked]
  congr 1
  funext st
  rw [erase_bind, erase_withLock, erase_unlocked]
  split
  · rfl
  split
  · rfl
  split
  · rfl
  split
  · rfl
  · simp only [call_pure_bind]
    split
    · simp only [erase_bind, erase_withLock, erase_unlocked, erase_interrupt, erase_pure,
        call_bind_assoc]
    · simp only [erase_bind, erase_withLock, erase_unlocked, erase_interrupt, erase_pure,
        call_bind_assoc]
    · rfl

theorem erase_receiveTuner (recv : Nat → Nat → RecvResult) (tuner_id : Nat) :
    erase (receiveTuner_locks recv tuner_id) = receiveTuner recv tuner_id := by
  unfold receiveTuner_locks receiveTuner
  rw [erase_bind, erase_unlocked]
  funext st
  simp only [run_bind, getState, erase_ite, erase_pure, erase_withLock, erase_unlocked, run_ite]
  by_cases h1 : (st.frontend_tuner_status tuner_id).tuner_type ≠ TunerType.RX_DIGITIZER
  · simp only [if_pos h1]
  · by_cases h2 : getControlAllocationId st tuner_id = ""
    · simp only [if_neg h1, if_pos h2]
    · simp only [if_neg h1, if_neg h2]

theorem erase_receiveLoop (recv : Nat → Nat → RecvResult) :
    ∀ (ids : List Nat) (rx_data : Bool),
      erase (receiveLoop_locks recv ids rx_data) = receiveLoop recv ids rx_data := by
  intro ids
  induction ids with
  | nil => intro rx_data; rfl
  | cons id rest ih =>
    intro rx_data
    unfold receiveLoop_locks receiveLoop
    rw [erase_bind, erase_receiveTuner]
    congr 1
    funext got
    exact ih _

theorem erase_serviceFunctionReceive (recv : Nat → Nat → RecvResult) :
    erase (serviceFunctionReceive_locks recv) = serviceFunctionReceive recv := by
  unfold serviceFunctionReceive_locks serviceFunctionReceive
  rw [erase_bind, erase_unlocked]
  congr 1
  funext st
  simp only [erase_ite, erase_unlocked, erase_pure, erase_bind, erase_receiveLoop]

theorem erase_transmitTuner (send : Nat → Nat → Nat) (port : TxPort) (packet : Packet)
    (tuner_id : Nat) :
    erase (transmitTuner_locks send port packet tuner_id) =
      transmitTuner send port packet tuner_id := by
  unfold transmitTuner_locks transmitTuner
  rw [erase_bind, erase_unlocked]
  funext st
  simp only [run_bind, getState, erase_ite, erase_pure, erase_withLock, erase_unlocked, run_ite]
  by_cases h1 : (st.frontend_tuner_status tuner_id).tuner_type ≠ TunerType.TX
  · simp only [if_pos h1]
  · by_cases h2 : getControlAllocationId st tuner_id = ""
    · simp only [if_neg h1, if_pos h2]
    · simp only [if_neg h1, if_neg h2]

theorem erase_transmitLoop (send : Nat → Nat → Nat) (port : TxPort) (packet : Packet) :
    ∀ ids : List Nat,
      erase (transmitLoop_locks send port packet ids) = transmitLoop send port packet ids := by
  intro ids
  induction ids with
  | nil => rfl
  | cons id rest ih =>
    unfold transmitLoop_locks transmitLoop
    rw [erase_bind, erase_transmitTuner]
    congr 1
    funext _
    exact ih

theorem erase_transmitHelper (send : Nat → Nat → Nat) (port : TxPort) :
    erase (transmitHelper_locks send port) = transmitHelper send port := by
  unfold transmitHelper_locks transmitHelper
  rw [erase_bind, erase_unlocked]
  congr 1
  funext st
  rw [erase_ite, erase_pure]
  split
  · rfl
  · rw [erase_bind, erase_unlocked]
    congr 1
    funext got
    split
    · rfl
    · simp only [erase_ite, erase_unlocked, erase_bind, erase_transmitLoop]

theorem erase_serviceFunctionTransmit (send : Nat → Nat → Nat) :
    erase (serviceFunctionTransmit_locks send) = serviceFunctionTransmit send := by
  unfold serviceFunctionTransmit_locks serviceFunctionTransmit
  rw [erase_bind, erase_unlocked]
  congr 1
  funext st
  simp only [erase_ite, erase_unlocked, erase_pure, erase_bind, erase_transmitHelper]

/-! ### C22 -/

theorem interrupt_locks_ok (tuner_id : Nat) (st : State) :
    (interrupt_locks tuner_id st).1.1 = Except.ok () := by
  unfold interrupt_locks
  rw [locking_run_bind]
  simp only [unlocked, getState]
  generalize (st.frontend_tuner_status tuner_id).tuner_type = ty
  cases ty
  · by_cases h : st.receive_service_thread = true
    · simp only [withLock, unlocked, h, if_true, run_bind, modifyState, emit]
    · simp only [withLock, unlocked, h, if_false]; rfl
  · by_cases h : st.transmit_service_thread = true
    · simp only [withLock, unlocked, h, if_true, run_bind, modifyState, emit]
    · simp only [withLock, unlocked, h, if_false]; rfl
  · rfl

theorem deviceEnable_locks_log (tuner_id : Nat) (st : State) :
    (deviceEnable_locks tuner_id st).2 =
      [LockEvent.acquire Lock.prop_lock, LockEvent.release Lock.prop_lock] ++
        (interrupt_locks tuner_id st).2 ++
        [LockEvent.acquire (Lock.tuner_lock tuner_id),
          LockEvent.release (Lock.tuner_lock tuner_id)] := by
  have h0 := interrupt_locks_ok tuner_id st
  rcases h1 : (interrupt_locks tuner_id st).1 with ⟨r, st1⟩
  rw [h1] at h0
  simp only at h0
  subst h0
  unfold deviceEnable_locks
  simp only [locking_run_bind, unlocked, getState, withLock, h1]
  simp
  rfl

theorem deviceDisable_locks_log (tuner_id : Nat) (st : State) :
    (deviceDisable_locks tuner_id st).2 =
      [LockEvent.acquire Lock.prop_lock, LockEvent.release Lock.prop_lock] ++
        (interrupt_locks tuner_id st).2 ++
        [LockEvent.acquire (Lock.tuner_lock tuner_id),
          LockEvent.release (Lock.tuner_lock tuner_id)] := by
  have h0 := interrupt_locks_ok tuner_id st
  rcases h1 : (interrupt_locks tuner_id st).1 with ⟨r, st1⟩
  rw [h1] at h0
  simp only at h0
  subst h0
  unfold deviceDisable_locks
  simp only [locking_run_bind, unlocked, getState, withLock, h1]
  simp
  rfl

theorem noTunerHeld_nil : NoTunerHeld [] := rfl

theorem propNotHeld_nil : PropNotHeld [] := List.not_mem_nil _

end USRP_UHD
